import Mathlib

/-!
# EPF_PersistenceManager: a shallow embedding

The persistence manager of `Scripts/Game/EPF_PersistenceManager.c` is embedded as pure
functions over an explicit `World`: the manager's fields, the heap of durable objects the
registry refers to, the history of identity-generator calls and the trace of calls made
to external collaborators (object `Save`, Root Entity Collection `Save`, store `RemoveAsync`).

A script function that can hit a null access returns `Option`: `none` is the script error.
-/

namespace EPF

/-! ## Script maps -/

/-- The engine's `map<string, V>`: an association list in iteration order. -/
structure ScriptMap (V : Type) where
  entries : List (String × V)
  deriving DecidableEq

namespace ScriptMap

variable {V : Type}

/-- The map created by `new map<string, V>()`. -/
def empty : ScriptMap V := ⟨[]⟩

/-- The engine's `map.Contains(key)`. -/
def Contains (m : ScriptMap V) (k : String) : Bool :=
  m.entries.any (fun e => e.1 == k)

/-- The engine's `map.Find(key, out val)` and `map.Get(key)`: the value filed under the key, `none` for absent (null). -/
def Find (m : ScriptMap V) (k : String) : Option V :=
  m.entries.lookup k

/-- The engine's `map.Remove(key)`. -/
def Remove (m : ScriptMap V) (k : String) : ScriptMap V :=
  ⟨m.entries.filter (fun e => e.1 != k)⟩

/-- The engine's `map.Set(key, value)`: overwrite the value of a present key, else add the entry. -/
def Set (m : ScriptMap V) (k : String) (v : V) : ScriptMap V :=
  if m.Contains k then
    ⟨m.entries.map (fun e => if e.1 == k then (k, v) else e)⟩
  else
    ⟨m.entries ++ [(k, v)]⟩

/-- The engine's `map.Clear()`. -/
def Clear (_m : ScriptMap V) : ScriptMap V := ⟨[]⟩

/-- Number of entries; `map.End()` is the iterator at this position. -/
def Count (m : ScriptMap V) : Nat := m.entries.length

/-- The keys in iteration order. -/
def keys (m : ScriptMap V) : List String := m.entries.map Prod.fst

end ScriptMap

/-! ## Enumerations and object data -/

/-- Lifecycle state of the manager (`enum EPF_EPersistenceManagerState`). -/
inductive EPF_EPersistenceManagerState where
  | PRE_INIT
  | POST_INIT
  | SETUP
  | ACTIVE
  | SHUTDOWN
  deriving DecidableEq

/-- Numeric value of the enum, used by the `<` and `>=` comparisons of the source. -/
def EPF_EPersistenceManagerState.toNat : EPF_EPersistenceManagerState → Nat
  | .PRE_INIT => 0
  | .POST_INIT => 1
  | .SETUP => 2
  | .ACTIVE => 3
  | .SHUTDOWN => 4

/-- Save policy of a durable object. The enum is declared outside the given sources; the manager
only distinguishes `INTERVAL_SHUTDOWN`, `SHUTDOWN` and everything else (`MANUAL` here). -/
inductive EPF_ESaveType where
  | MANUAL
  | INTERVAL_SHUTDOWN
  | SHUTDOWN
  deriving DecidableEq

/-- The flags the manager queries (`EPF_EPersistenceFlags`). -/
inductive EPF_EPersistenceFlags where
  | ROOT
  | BAKED
  | PAUSE_TRACKING
  | PERSISTENT_RECORD
  deriving DecidableEq

/-- A flag set: one bit per flag. -/
structure FlagSet where
  root : Bool
  baked : Bool
  pauseTracking : Bool
  persistentRecord : Bool
  deriving DecidableEq

/-- The helper `EPF_BitFlags.CheckFlags(flags, flag)`. -/
def EPF_BitFlags.CheckFlags (flags : FlagSet) : EPF_EPersistenceFlags → Bool
  | .ROOT => flags.root
  | .BAKED => flags.baked
  | .PAUSE_TRACKING => flags.pauseTracking
  | .PERSISTENT_RECORD => flags.persistentRecord

/-- Object references: the identity of a live script object. -/
abbrev Ref := Nat

/-- Per-prefab settings of a persistence component (`EPF_PersistenceComponentClass`). -/
structure EPF_PersistenceComponentClass where
  m_eSaveType : EPF_ESaveType
  m_tSaveDataType : String
  deriving DecidableEq

/-- The state of an entity-backed durable object that the manager reads or writes. -/
structure EPF_PersistenceComponent where
  /-- `GetOwner()`: the owning live instance, `none` for null. -/
  m_pOwner : Option Ref
  /-- `GetFlags()`. -/
  m_eFlags : FlagSet
  /-- The identifier the component has stored, empty when none was assigned yet. -/
  m_sId : String
  /-- `EPF_ComponentData<EPF_PersistenceComponentClass>.Get(component)`. -/
  settings : EPF_PersistenceComponentClass
  deriving DecidableEq

/-- The state of a free-standing durable object that the manager reads or writes. -/
structure EPF_PersistentScriptedState where
  /-- `Type()` of the object. -/
  type : String
  /-- `GetFlags()`. -/
  m_eFlags : FlagSet
  /-- The identifier the object has stored, empty when none was assigned yet. -/
  m_sId : String
  /-- Whether `EPF_PersistentScriptedStateProxy.Cast` succeeds on the object. -/
  isProxy : Bool
  /-- For a proxy, `Type()` of `m_pProxyTarget`, `none` when the target is null. -/
  m_pProxyTarget : Option String
  deriving DecidableEq

/-- The Root Entity Collection record (`EPF_PersistentRootEntityCollection`), by the fields the manager touches. -/
structure EPF_PersistentRootEntityCollection where
  m_sId : String
  m_aRemovedBackedRootEntities : List String
  m_aPossibleBackedRootEntities : List String
  m_mSelfSpawnDynamicEntities : List (String × List String)
  deriving DecidableEq

/-- The manager settings (`EPF_PersistenceManagerComponentClass`) read by the scheduler.
The interval is a script float, idealised as a rational. -/
structure EPF_PersistenceManagerComponentClass where
  m_bEnableAutosave : Bool
  m_fAutosaveInterval : Rat
  m_iAutosaveIterations : Int
  deriving DecidableEq

/-- A handle on the store adapter (`EDF_DbContext`). -/
structure EDF_DbContext where
  handle : Nat
  deriving DecidableEq

/-- An entity save-data record (`EPF_EntitySaveData`), by what the manager reads of it. -/
structure EPF_EntitySaveData where
  /-- `Type()` of the record. -/
  type : String
  /-- `GetId()`. -/
  m_sId : String
  /-- The blueprint reference `m_rPrefab`. -/
  m_rPrefab : String
  deriving DecidableEq

/-- A record returned by the store (`EDF_DbEntity`). -/
structure EDF_DbEntity where
  /-- `Type()` of the record. -/
  type : String
  /-- `EPF_EntitySaveData.Cast(findResult)`: `none` when the record is of another kind. -/
  saveData : Option EPF_EntitySaveData
  deriving DecidableEq

/-- Calls made to external collaborators, in order. -/
inductive Event where
  /-- `persistenceComponent.Save()` on the entity-backed object. -/
  | entitySave (ref : Ref)
  /-- `scriptedState.Save()` on the free-standing object. -/
  | scriptedStateSave (ref : Ref)
  /-- `m_pRootEntityCollection.Save(m_pDbContext)`. -/
  | rootEntityCollectionSave
  /-- `m_pDbContext.RemoveAsync(saveDataType, id)`. -/
  | dbRemoveAsync (saveDataType : String) (id : String)
  /-- `m_pOnStateChange.Invoke(this, state)`. -/
  | stateChange (state : EPF_EPersistenceManagerState)
  /-- `SCR_EntityHelper.DeleteEntityAndChildren(entity)`. -/
  | deleteEntityAndChildren (entity : Ref)
  /-- `m_pDbContext.FindAll(saveDataType, EDF_DbFind.Id().EqualsAnyOf(persistentIds))`. -/
  | findAll (saveDataType : String) (persistentIds : List String)
  /-- `GetGame().SpawnEntityPrefab(resource)` for the resource of the given blueprint. -/
  | spawnEntityPrefab (prefab : String)
  /-- `persistenceComponent.Load(saveData, isRoot)`; `isRoot` is `none` for the call
  `Load(saveData)` that leaves the parameter to its default. -/
  | entityLoad (ref : Ref) (saveData : EPF_EntitySaveData) (isRoot : Option Bool)
  /-- The static `Reset()`: the resets of the slot-prefab info, the storage change detection and
  the identity generator, and the clearing of the proxy table and of the singleton reference. -/
  | reset
  deriving DecidableEq

/-! ## The manager -/

/-- The fields of `class EPF_PersistenceManager`. Map iterators are positions in the map's entry list. -/
structure EPF_PersistenceManager where
  m_pSettings : Option EPF_PersistenceManagerComponentClass
  m_eState : EPF_EPersistenceManagerState
  m_pOnStateChange : Bool
  m_pDbContext : Option EDF_DbContext
  m_aPendingEntityRegistrations : List (Option Ref)
  m_aPendingScriptedStateRegistrations : List (Option Ref)
  m_pRootEntityCollection : Option EPF_PersistentRootEntityCollection
  m_mRootAutoSave : ScriptMap Ref
  m_mRootAutoSaveCleanup : ScriptMap String
  m_mRootShutdown : ScriptMap Ref
  m_mRootShutdownCleanup : ScriptMap String
  m_mUncategorizedEntities : ScriptMap Ref
  m_mScriptedStateAutoSave : ScriptMap Ref
  m_mScriptedStateShutdown : ScriptMap Ref
  m_mScriptedStateUncategorized : ScriptMap Ref
  m_fAutoSaveAccumultor : Rat
  m_bAutoSaveActive : Bool
  m_iSaveOperation : Int
  m_iAutoSaveEntityIt : Nat
  m_iAutoSaveScriptedStateIt : Nat
  m_mBakedRoots : Option (ScriptMap Ref)

/-- The manager together with the objects it refers to and its observable effects. -/
structure World where
  mgr : EPF_PersistenceManager
  /-- The heap of entity-backed durable objects. -/
  components : Ref → EPF_PersistenceComponent
  /-- The heap of free-standing durable objects. -/
  scriptedStates : Ref → EPF_PersistentScriptedState
  /-- The arguments of the identity-generator calls made so far: `none` for `Generate()`,
  `some owner` for `Generate(owner)`. -/
  idHistory : List (Option Ref)
  /-- The calls made to external collaborators so far. -/
  trace : List Event

/-- The parts of the repository the manager calls that are outside the given sources, as parameters. -/
structure Env where
  /-- `EPF_PersistenceIdGenerator.Generate()` and `Generate(owner)`: the identifier returned
  after the given earlier calls for the given argument. -/
  Generate : List (Option Ref) → Option Ref → String
  /-- `EPF_PersistentRootEntityCollection.Add(component, id, state)`. -/
  collectionAdd : EPF_PersistentRootEntityCollection → EPF_PersistenceComponent → String →
    EPF_EPersistenceManagerState → EPF_PersistentRootEntityCollection
  /-- `EPF_PersistentRootEntityCollection.Remove(component, id, state)`. -/
  collectionRemove : EPF_PersistentRootEntityCollection → EPF_PersistenceComponent → String →
    EPF_EPersistenceManagerState → EPF_PersistentRootEntityCollection
  /-- The save policy of `EPF_PersistentScriptedStateSettings.Get(type)`. -/
  scriptedStateSaveType : String → EPF_ESaveType

/-- The engine, the store and the objects' load capability, as far as the lifecycle handlers
use them. An operation that runs code outside the manager (spawning, loading, deleting) gets the
world and returns the world it leaves. -/
structure Host where
  /-- `EDF_DbContext.Create(settings.m_pConnectionInfo)`: `none` when no adapter can be created. -/
  CreateDbContext : EPF_PersistenceManagerComponentClass → Option EDF_DbContext
  /-- `EPF_PersistenceIdGenerator.GetHiveId()`. -/
  GetHiveId : Nat
  /-- `EDF_DbEntityHelper<EPF_PersistentRootEntityCollection>.GetRepository(db).Find(id).GetEntity()`. -/
  FindRootEntityCollection : EDF_DbContext → String → Option EPF_PersistentRootEntityCollection
  /-- The records of `m_pDbContext.FindAll(type, EDF_DbFind.Id().EqualsAnyOf(ids)).GetEntities()`,
  `none` for a null result. -/
  FindAll : String → List String → Option (List EDF_DbEntity)
  /-- `Resource.Load(prefab).IsValid()`. -/
  resourceValid : String → Bool
  /-- `GetGame().SpawnEntityPrefab(resource)`: the instance spawned, `none` for null. -/
  SpawnEntityPrefab : World → String → Option Ref × World
  /-- `EPF_PersistenceComponent.Cast(entity.FindComponent(EPF_PersistenceComponent))`. -/
  FindComponent : World → Ref → Option Ref
  /-- `persistenceComponent.Load(saveData, isRoot)`: whether the load succeeded. -/
  Load : World → Ref → EPF_EntitySaveData → Option Bool → Bool × World
  /-- `SCR_EntityHelper.DeleteEntityAndChildren(entity)`. -/
  DeleteEntityAndChildren : World → Ref → World

/-- The constructor `EPF_PersistenceManager()`: empty lists and maps, every other field at its script default. -/
def EPF_PersistenceManager.new : EPF_PersistenceManager where
  m_pSettings := none
  m_eState := .PRE_INIT
  m_pOnStateChange := false
  m_pDbContext := none
  m_aPendingEntityRegistrations := []
  m_aPendingScriptedStateRegistrations := []
  m_pRootEntityCollection := none
  m_mRootAutoSave := ScriptMap.empty
  m_mRootAutoSaveCleanup := ScriptMap.empty
  m_mRootShutdown := ScriptMap.empty
  m_mRootShutdownCleanup := ScriptMap.empty
  m_mUncategorizedEntities := ScriptMap.empty
  m_mScriptedStateAutoSave := ScriptMap.empty
  m_mScriptedStateShutdown := ScriptMap.empty
  m_mScriptedStateUncategorized := ScriptMap.empty
  m_fAutoSaveAccumultor := 0
  m_bAutoSaveActive := false
  m_iSaveOperation := 0
  m_iAutoSaveEntityIt := 0
  m_iAutoSaveScriptedStateIt := 0
  m_mBakedRoots := some ScriptMap.empty

/-! ## Helpers of the script language -/

/-- Script `int` arithmetic: the value wrapped to 32 bits, two's complement. -/
def int32 (x : Int) : Int :=
  (x + 2147483648) % 4294967296 - 2147483648

/-- The string method `id.StartsWith(prefix)`. -/
def StartsWith (s p : String) : Bool :=
  p.toList.isPrefixOf s.toList

/-- Modelled from the spec: `EPF_PersistenceComponent.FlagAsBaked()` is outside the given sources;
it marks the object as `BAKED` (world-authored) and leaves the other flags alone. -/
def FlagAsBaked (w : World) (ref : Ref) : World :=
  let c := w.components ref
  let c1 : EPF_PersistenceComponent := { c with m_eFlags := { c.m_eFlags with baked := true } }
  { w with components := Function.update w.components ref c1 }

/-- One call of the identity generator with the given argument. -/
def generateId (env : Env) (w : World) (arg : Option Ref) : String × World :=
  (env.Generate w.idHistory arg, { w with idHistory := w.idHistory ++ [arg] })

namespace EPF_PersistenceManager

/-! ## Registry operations -/

/-- `SetState(state)`: store the state and notify the subscribers when the invoker exists. -/
def SetState (w : World) (state : EPF_EPersistenceManagerState) : World :=
  let w1 : World := { w with mgr := { w.mgr with m_eState := state } }
  if w1.mgr.m_pOnStateChange then { w1 with trace := w1.trace ++ [Event.stateChange state] } else w1

/-- `GetPersistentId(EPF_PersistenceComponent)`: baked minting from the owner before `SETUP`,
dynamic minting afterwards. -/
def GetPersistentId (env : Env) (w : World) (ref : Ref) : String × World :=
  if w.mgr.m_eState.toNat < EPF_EPersistenceManagerState.SETUP.toNat then
    generateId env w (w.components ref).m_pOwner
  else
    generateId env w none

/-- `GetPersistentId(EPF_PersistentScriptedState)`: always dynamic minting. -/
def GetPersistentIdScriptedState (env : Env) (w : World) (_ref : Ref) : String × World :=
  generateId env w none

/-- `UpdateRootEntityCollection(component, id, isRootEntity)`. -/
def UpdateRootEntityCollection (env : Env) (w : World) (ref : Ref) (id : String)
    (isRootEntity : Bool) : Option World :=
  if w.mgr.m_eState.toNat < EPF_EPersistenceManagerState.ACTIVE.toNat then
    match w.mgr.m_mBakedRoots with
    | some baked =>
      if EPF_BitFlags.CheckFlags (w.components ref).m_eFlags .BAKED then
        if isRootEntity then
          some { w with mgr := { w.mgr with m_mBakedRoots := some (baked.Set id ref) } }
        else
          some { w with mgr := { w.mgr with m_mBakedRoots := some (baked.Remove id) } }
      else
        some w
    | none => some w
  else
    match w.mgr.m_pRootEntityCollection with
    | none => none
    | some c =>
      let c1 :=
        if isRootEntity then env.collectionAdd c (w.components ref) id w.mgr.m_eState
        else env.collectionRemove c (w.components ref) id w.mgr.m_eState
      some { w with mgr := { w.mgr with m_pRootEntityCollection := some c1 } }

/-- The `switch` of `UpdateRootStatus`: the bucket and cleanup-set changes. -/
def categorize (m : EPF_PersistenceManager) (c : EPF_PersistenceComponent) (ref : Ref) (id : String)
    (settings : EPF_PersistenceComponentClass) (isRootEntity : Bool) : EPF_PersistenceManager :=
  match settings.m_eSaveType with
  | .INTERVAL_SHUTDOWN =>
    if isRootEntity then
      { m with
        m_mUncategorizedEntities := m.m_mUncategorizedEntities.Remove id
        m_mRootAutoSaveCleanup := m.m_mRootAutoSaveCleanup.Remove id
        m_mRootAutoSave := m.m_mRootAutoSave.Set id ref }
    else
      let m1 : EPF_PersistenceManager :=
        if m.m_mRootAutoSave.Contains id then
          let m2 : EPF_PersistenceManager := { m with m_mRootAutoSave := m.m_mRootAutoSave.Remove id }
          if EPF_BitFlags.CheckFlags c.m_eFlags .PERSISTENT_RECORD then
            { m2 with m_mRootAutoSaveCleanup := m2.m_mRootAutoSaveCleanup.Set id settings.m_tSaveDataType }
          else m2
        else m
      { m1 with m_mUncategorizedEntities := m1.m_mUncategorizedEntities.Set id ref }
  | .SHUTDOWN =>
    if isRootEntity then
      { m with
        m_mUncategorizedEntities := m.m_mUncategorizedEntities.Remove id
        m_mRootShutdownCleanup := m.m_mRootShutdownCleanup.Remove id
        m_mRootShutdown := m.m_mRootShutdown.Set id ref }
    else
      let m1 : EPF_PersistenceManager :=
        if m.m_mRootShutdown.Contains id then
          let m2 : EPF_PersistenceManager := { m with m_mRootShutdown := m.m_mRootShutdown.Remove id }
          if EPF_BitFlags.CheckFlags c.m_eFlags .PERSISTENT_RECORD then
            { m2 with m_mRootShutdownCleanup := m2.m_mRootShutdownCleanup.Set id settings.m_tSaveDataType }
          else m2
        else m
      { m1 with m_mUncategorizedEntities := m1.m_mUncategorizedEntities.Set id ref }
  | .MANUAL =>
    { m with m_mUncategorizedEntities := m.m_mUncategorizedEntities.Set id ref }

/-- `UpdateRootStatus(component, id, settings, isRootEntity)`. -/
def UpdateRootStatus (env : Env) (w : World) (ref : Ref) (id : String)
    (settings : EPF_PersistenceComponentClass) (isRootEntity : Bool) : Option World :=
  UpdateRootEntityCollection env
    { w with mgr := categorize w.mgr (w.components ref) ref id settings isRootEntity } ref id isRootEntity

/-- `Register(EPF_PersistenceComponent, id)`: the returned identifier and the new world. -/
def Register (env : Env) (w : World) (ref : Ref) (id : String) : Option (String × World) :=
  match (w.components ref).m_pOwner with
  | none => some ("", w)
  | some _ =>
    let r : String × World := if id = "" then GetPersistentId env w ref else (id, w)
    let w2 : World := if StartsWith r.1 "0000" then FlagAsBaked r.2 ref else r.2
    let settings := (w2.components ref).settings
    let isRoot := EPF_BitFlags.CheckFlags (w2.components ref).m_eFlags .ROOT
    (UpdateRootStatus env w2 ref r.1 settings isRoot).map fun w3 => (r.1, w3)

/-- The object whose type selects the settings in `Register(EPF_PersistentScriptedState)`:
the proxy target of a proxy that has one, else the object itself; only its `Type()` is used. -/
def scriptedStateTarget (s : EPF_PersistentScriptedState) : String :=
  match (if s.isProxy then s.m_pProxyTarget else none) with
  | some t => t
  | none => s.type

/-- The `if` chain of `Register(EPF_PersistentScriptedState)`: the bucket and cleanup-set changes. -/
def categorizeScriptedState (m : EPF_PersistenceManager) (saveType : EPF_ESaveType) (ref : Ref)
    (id : String) : EPF_PersistenceManager :=
  match saveType with
  | .INTERVAL_SHUTDOWN =>
    { m with
      m_mRootAutoSaveCleanup := m.m_mRootAutoSaveCleanup.Remove id
      m_mScriptedStateAutoSave := m.m_mScriptedStateAutoSave.Set id ref }
  | .SHUTDOWN =>
    { m with
      m_mRootShutdownCleanup := m.m_mRootShutdownCleanup.Remove id
      m_mScriptedStateShutdown := m.m_mScriptedStateShutdown.Set id ref }
  | .MANUAL =>
    { m with m_mScriptedStateUncategorized := m.m_mScriptedStateUncategorized.Set id ref }

/-- `Register(EPF_PersistentScriptedState, id)`: the returned identifier and the new world. -/
def RegisterScriptedState (env : Env) (w : World) (ref : Ref) (id : String) : String × World :=
  let r : String × World := if id = "" then GetPersistentIdScriptedState env w ref else (id, w)
  let target := scriptedStateTarget (r.2.scriptedStates ref)
  (r.1, { r.2 with mgr :=
    categorizeScriptedState r.2.mgr (env.scriptedStateSaveType target) ref r.1 })

end EPF_PersistenceManager

/-- Modelled from the spec: `EPF_PersistenceComponent.GetPersistentId()` is outside the given sources.
Following the comment in `FlushRegistrations` ("If they were already registerd, they will have
them, if not they are registered now"), an object that has an identifier returns it, and an
object without one registers itself with the manager and stores the identifier it is given. -/
def EPF_PersistenceComponent.GetPersistentId (env : Env) (w : World) (ref : Ref) :
    Option (String × World) :=
  if (w.components ref).m_sId ≠ "" then
    some ((w.components ref).m_sId, w)
  else
    (EPF_PersistenceManager.Register env w ref "").map fun r =>
      let c : EPF_PersistenceComponent := { (r.2.components ref) with m_sId := r.1 }
      (r.1, { r.2 with components := Function.update r.2.components ref c })

/-- Modelled from the spec: `EPF_PersistentScriptedState.GetPersistentId()` is outside the given
sources; as for the component, an object that has an identifier returns it, and an object
without one registers itself with the manager and stores the identifier it is given. -/
def EPF_PersistentScriptedState.GetPersistentId (env : Env) (w : World) (ref : Ref) :
    String × World :=
  if (w.scriptedStates ref).m_sId ≠ "" then
    ((w.scriptedStates ref).m_sId, w)
  else
    let r := EPF_PersistenceManager.RegisterScriptedState env w ref ""
    let s : EPF_PersistentScriptedState := { (r.2.scriptedStates ref) with m_sId := r.1 }
    (r.1, { r.2 with scriptedStates := Function.update r.2.scriptedStates ref s })

namespace EPF_PersistenceManager

/-- The first `foreach` of `FlushRegistrations`: ask every non-null pending component for its identifier. -/
def flushEntityRegistrations (env : Env) : World → List (Option Ref) → Option World
  | w, [] => some w
  | w, none :: rest => flushEntityRegistrations env w rest
  | w, some ref :: rest =>
    match EPF_PersistenceComponent.GetPersistentId env w ref with
    | none => none
    | some r => flushEntityRegistrations env r.2 rest

/-- The second `foreach` of `FlushRegistrations`: ask every non-null pending state for its identifier. -/
def flushScriptedStateRegistrations (env : Env) : World → List (Option Ref) → World
  | w, [] => w
  | w, none :: rest => flushScriptedStateRegistrations env w rest
  | w, some ref :: rest =>
    flushScriptedStateRegistrations env (EPF_PersistentScriptedState.GetPersistentId env w ref).2 rest

/-- `FlushRegistrations()`. -/
def FlushRegistrations (env : Env) (w : World) : Option World :=
  let r1 : Option World :=
    if w.mgr.m_eState.toNat ≥ EPF_EPersistenceManagerState.POST_INIT.toNat then
      (flushEntityRegistrations env w w.mgr.m_aPendingEntityRegistrations).map fun w1 =>
        { w1 with mgr := { w1.mgr with m_aPendingEntityRegistrations := [] } }
    else
      some w
  r1.map fun w1 =>
    let w2 := flushScriptedStateRegistrations env w1 w1.mgr.m_aPendingScriptedStateRegistrations
    { w2 with mgr := { w2.mgr with m_aPendingScriptedStateRegistrations := [] } }

/-- The bucket probe of the two find functions: first map, then second, then third. -/
def probe (a s u : ScriptMap Ref) (persistentId : String) : Option Ref :=
  match a.Find persistentId with
  | some r => some r
  | none =>
    match s.Find persistentId with
    | some r => some r
    | none => u.Find persistentId

/-- `FindPersistenceComponentById(persistentId)`: the component found (`none` for null) and the new world. -/
def FindPersistenceComponentById (env : Env) (w : World) (persistentId : String) :
    Option (Option Ref × World) :=
  (FlushRegistrations env w).map fun w1 =>
    (probe w1.mgr.m_mRootAutoSave w1.mgr.m_mRootShutdown w1.mgr.m_mUncategorizedEntities persistentId, w1)

/-- `FindScriptedStateByPersistentId(persistentId)`: the state found (`none` for null) and the new world. -/
def FindScriptedStateByPersistentId (env : Env) (w : World) (persistentId : String) :
    Option (Option Ref × World) :=
  (FlushRegistrations env w).map fun w1 =>
    (probe w1.mgr.m_mScriptedStateAutoSave w1.mgr.m_mScriptedStateShutdown
      w1.mgr.m_mScriptedStateUncategorized persistentId, w1)

/-- `Unregister(EPF_PersistenceComponent)`. -/
def Unregister (env : Env) (w : World) (ref : Ref) : Option World :=
  (EPF_PersistenceComponent.GetPersistentId env w ref).map fun r =>
    { r.2 with mgr := { r.2.mgr with
      m_mRootAutoSave := r.2.mgr.m_mRootAutoSave.Remove r.1
      m_mRootShutdown := r.2.mgr.m_mRootShutdown.Remove r.1
      m_mUncategorizedEntities := r.2.mgr.m_mUncategorizedEntities.Remove r.1 } }

/-- `Unregister(EPF_PersistentScriptedState)`. -/
def UnregisterScriptedState (env : Env) (w : World) (ref : Ref) : World :=
  let r := EPF_PersistentScriptedState.GetPersistentId env w ref
  { r.2 with mgr := { r.2.mgr with
    m_mScriptedStateAutoSave := r.2.mgr.m_mScriptedStateAutoSave.Remove r.1
    m_mScriptedStateShutdown := r.2.mgr.m_mScriptedStateShutdown.Remove r.1
    m_mScriptedStateUncategorized := r.2.mgr.m_mScriptedStateUncategorized.Remove r.1 } }

/-! ## Auto-save scheduler and shutdown save -/

/-- `AutoSave()`. `Begin()` of a map is the iterator at position 0. -/
def AutoSave (env : Env) (w : World) : Option World :=
  if w.mgr.m_bAutoSaveActive then
    some w
  else
    let w1 : World := { w with mgr := { w.mgr with
      m_bAutoSaveActive := true
      m_fAutoSaveAccumultor := 0
      m_iSaveOperation := 0 } }
    (FlushRegistrations env w1).map fun w2 =>
      { w2 with mgr := { w2.mgr with
        m_iAutoSaveEntityIt := 0
        m_iAutoSaveScriptedStateIt := 0 } }

/-- The throttle test made after every save:
`(m_eState == ACTIVE) && ((m_iSaveOperation + 1) % m_pSettings.m_iAutosaveIterations == 0)`.
The right operand is only evaluated in state `ACTIVE`; absent settings or a zero divisor are script errors. -/
def throttle (w : World) : Option Bool :=
  if w.mgr.m_eState = EPF_EPersistenceManagerState.ACTIVE then
    match w.mgr.m_pSettings with
    | none => none
    | some settings =>
      if settings.m_iAutosaveIterations = 0 then none
      else some (decide (Int.tmod (int32 (w.mgr.m_iSaveOperation + 1)) settings.m_iAutosaveIterations = 0))
  else
    some false

/-- The first `while` of `AutoSaveTick`, over the entries from the entity iterator to the end of
the autosave bucket. The flag of the result tells whether the function returned from inside the loop. -/
def autoSaveEntityWalk : World → List (String × Ref) → Option (Bool × World)
  | w, [] => some (false, w)
  | w, e :: rest =>
    let w1 : World := { w with mgr := { w.mgr with m_iAutoSaveEntityIt := w.mgr.m_iAutoSaveEntityIt + 1 } }
    if EPF_BitFlags.CheckFlags (w1.components e.2).m_eFlags .PAUSE_TRACKING then
      autoSaveEntityWalk w1 rest
    else
      let w2 : World := { w1 with
        trace := w1.trace ++ [Event.entitySave e.2]
        mgr := { w1.mgr with m_iSaveOperation := int32 (w1.mgr.m_iSaveOperation + 1) } }
      match throttle w2 with
      | none => none
      | some true => some (true, w2)
      | some false => autoSaveEntityWalk w2 rest

/-- The second `while` of `AutoSaveTick`, over the entries from the state iterator to the end of
the free-standing autosave bucket. -/
def autoSaveScriptedStateWalk : World → List (String × Ref) → Option (Bool × World)
  | w, [] => some (false, w)
  | w, e :: rest =>
    let w1 : World := { w with mgr := { w.mgr with
      m_iAutoSaveScriptedStateIt := w.mgr.m_iAutoSaveScriptedStateIt + 1 } }
    if EPF_BitFlags.CheckFlags (w1.scriptedStates e.2).m_eFlags .PAUSE_TRACKING then
      autoSaveScriptedStateWalk w1 rest
    else
      let w2 : World := { w1 with
        trace := w1.trace ++ [Event.scriptedStateSave e.2]
        mgr := { w1.mgr with m_iSaveOperation := int32 (w1.mgr.m_iSaveOperation + 1) } }
      match throttle w2 with
      | none => none
      | some true => some (true, w2)
      | some false => autoSaveScriptedStateWalk w2 rest

/-- The call `m_pRootEntityCollection.Save(m_pDbContext)`: a null access without a collection. -/
def saveRootEntityCollection (w : World) : Option World :=
  match w.mgr.m_pRootEntityCollection with
  | none => none
  | some _ => some { w with trace := w.trace ++ [Event.rootEntityCollectionSave] }

/-- The `foreach` over a cleanup set: one `m_pDbContext.RemoveAsync(type, id)` per entry, a null
access when there is an entry and no store adapter. -/
def removeCleanupRecords (w : World) (cleanup : ScriptMap String) : Option World :=
  match cleanup.entries with
  | [] => some w
  | e :: rest =>
    match w.mgr.m_pDbContext with
    | none => none
    | some _ =>
      some { w with trace := w.trace ++ (e :: rest).map (fun x => Event.dbRemoveAsync x.2 x.1) }

/-- The end of `AutoSaveTick`, reached when both loops ran to the end of their bucket. -/
def autoSaveComplete (w : World) : Option World :=
  (saveRootEntityCollection w).bind fun w1 =>
    (removeCleanupRecords w1 w1.mgr.m_mRootAutoSaveCleanup).map fun w2 =>
      { w2 with mgr := { w2.mgr with
        m_mRootAutoSaveCleanup := w2.mgr.m_mRootAutoSaveCleanup.Clear
        m_bAutoSaveActive := false } }

/-- `AutoSaveTick()`. An iterator beyond the end of its map never equals `End()` and has no
element, so reading it is a null access. -/
def AutoSaveTick (w : World) : Option World :=
  if !w.mgr.m_bAutoSaveActive then
    some w
  else if w.mgr.m_mRootAutoSave.Count < w.mgr.m_iAutoSaveEntityIt then
    none
  else
    match autoSaveEntityWalk w (w.mgr.m_mRootAutoSave.entries.drop w.mgr.m_iAutoSaveEntityIt) with
    | none => none
    | some (true, w1) => some w1
    | some (false, w1) =>
      if w1.mgr.m_mScriptedStateAutoSave.Count < w1.mgr.m_iAutoSaveScriptedStateIt then
        none
      else
        match autoSaveScriptedStateWalk w1
            (w1.mgr.m_mScriptedStateAutoSave.entries.drop w1.mgr.m_iAutoSaveScriptedStateIt) with
        | none => none
        | some (true, w2) => some w2
        | some (false, w2) => autoSaveComplete w2

/-- The objects of a bucket that are not flagged `PAUSE_TRACKING`, in bucket order. -/
def unpaused (flags : Ref → FlagSet) (bucket : ScriptMap Ref) : List Ref :=
  (bucket.entries.filter fun e => !EPF_BitFlags.CheckFlags (flags e.2) .PAUSE_TRACKING).map Prod.snd

/-- `ShutDownSave()`. -/
def ShutDownSave (env : Env) (w : World) : Option World :=
  (FlushRegistrations env w).bind fun w1 =>
    let entities := unpaused (fun r => (w1.components r).m_eFlags) w1.mgr.m_mRootShutdown
    let w2 : World := { w1 with trace := w1.trace ++ entities.map Event.entitySave }
    let states := unpaused (fun r => (w2.scriptedStates r).m_eFlags) w2.mgr.m_mScriptedStateShutdown
    let w3 : World := { w2 with trace := w2.trace ++ states.map Event.scriptedStateSave }
    (saveRootEntityCollection w3).bind fun w4 =>
      (removeCleanupRecords w4 w4.mgr.m_mRootShutdownCleanup).map fun w5 =>
        { w5 with mgr := { w5.mgr with
          m_mRootShutdownCleanup := w5.mgr.m_mRootShutdownCleanup.Clear } }

/-- `RemoveAsync(saveDataType, id)`. -/
def RemoveAsync (w : World) (saveDataType : String) (id : String) : Option World :=
  let w1 : World := { w with mgr := { w.mgr with
    m_mRootAutoSaveCleanup := w.mgr.m_mRootAutoSaveCleanup.Remove id
    m_mRootShutdownCleanup := w.mgr.m_mRootShutdownCleanup.Remove id } }
  match w1.mgr.m_pDbContext with
  | none => none
  | some _ => some { w1 with trace := w1.trace ++ [Event.dbRemoveAsync saveDataType id] }

/-! ## Spawning from save-data -/

/-- The call `SCR_EntityHelper.DeleteEntityAndChildren(entity)`, followed by what the host does
in it. -/
def deleteEntityAndChildren (host : Host) (w : World) (entity : Ref) : World :=
  host.DeleteEntityAndChildren
    { w with trace := w.trace ++ [Event.deleteEntityAndChildren entity] } entity

/-- `SpawnWorldEntity(saveData, isRoot)`: the instance returned (`none` for null) and the new
world. A null record and an empty identifier are both falsy. -/
def SpawnWorldEntity (host : Host) (w : World) (saveData : Option EPF_EntitySaveData)
    (isRoot : Bool) : Option Ref × World :=
  match saveData with
  | none => (none, w)
  | some data =>
    if data.m_sId = "" then (none, w)
    else if !host.resourceValid data.m_rPrefab then (none, w)
    else
      let w1 : World := { w with trace := w.trace ++ [Event.spawnEntityPrefab data.m_rPrefab] }
      match (host.SpawnEntityPrefab w1 data.m_rPrefab).1 with
      | none => (none, (host.SpawnEntityPrefab w1 data.m_rPrefab).2)
      | some entity =>
        let w2 := (host.SpawnEntityPrefab w1 data.m_rPrefab).2
        match host.FindComponent w2 entity with
        | none => (none, deleteEntityAndChildren host w2 entity)
        | some persistenceComponent =>
          let w3 : World :=
            { w2 with trace := w2.trace ++ [Event.entityLoad persistenceComponent data (some isRoot)] }
          if (host.Load w3 persistenceComponent data (some isRoot)).1 then
            (some entity, (host.Load w3 persistenceComponent data (some isRoot)).2)
          else
            (none, deleteEntityAndChildren host
              (host.Load w3 persistenceComponent data (some isRoot)).2 entity)

/-- `FindEntityByPersistentId(persistentId)`: the owner of the component found, `none` for null. -/
def FindEntityByPersistentId (env : Env) (w : World) (persistentId : String) :
    Option (Option Ref × World) :=
  (FindPersistenceComponentById env w persistentId).map fun r =>
    match r.1 with
    | some result => ((r.2.components result).m_pOwner, r.2)
    | none => (none, r.2)

/-! ## Lifecycle handlers -/

/-- The engine's `int.ToString(len)` on a non-negative value: the decimal digits, padded with
zeros on the left up to the length. -/
def intToString (n : Nat) (len : Nat) : String :=
  String.mk (List.replicate (len - (Nat.toDigits 10 n).length) '0' ++ Nat.toDigits 10 n)

/-- The identifier of the Root Entity Collection:
`string.Format("00EC%1-0000-0000-0000-000000000000", GetHiveId().ToString(4))`. -/
def rootEntityCollectionId (host : Host) : String :=
  "00EC" ++ intToString host.GetHiveId 4 ++ "-0000-0000-0000-000000000000"

/-- Modelled from the spec: the class `EPF_PersistentRootEntityCollection` is outside the given
sources; the record made by `new EPF_PersistentRootEntityCollection()` is "a new empty
collection": no identifier yet and nothing recorded in its lists. -/
def newRootEntityCollection : EPF_PersistentRootEntityCollection := ⟨"", [], [], []⟩

/-- `GetDbContext()`. -/
def GetDbContext (w : World) : Option EDF_DbContext := w.mgr.m_pDbContext

/-- `OnPostInit(gameMode, settings)`, for non-null settings. -/
def OnPostInit (host : Host) (w : World) (settings : EPF_PersistenceManagerComponentClass) :
    World :=
  let w1 : World := { w with mgr := { w.mgr with
    m_pSettings := some settings
    m_pDbContext := host.CreateDbContext settings } }
  match w1.mgr.m_pDbContext with
  | none => w1
  | some db =>
    let c : EPF_PersistentRootEntityCollection :=
      match host.FindRootEntityCollection db (rootEntityCollectionId host) with
      | some found => found
      | none => { newRootEntityCollection with m_sId := rootEntityCollectionId host }
    SetState { w1 with mgr := { w1.mgr with m_pRootEntityCollection := some c } } .POST_INIT

/-- `OnPostFrame(timeSlice)`. Reading the settings is a null access before `OnPostInit`. -/
def OnPostFrame (env : Env) (w : World) (timeSlice : Rat) : Option World :=
  match w.mgr.m_pSettings with
  | none => none
  | some settings =>
    if !settings.m_bEnableAutosave then some w
    else
      let w1 : World := { w with mgr := { w.mgr with
        m_fAutoSaveAccumultor := w.mgr.m_fAutoSaveAccumultor + timeSlice } }
      (if w1.mgr.m_fAutoSaveAccumultor ≥ settings.m_fAutosaveInterval then AutoSave env w1
        else some w1).bind AutoSaveTick

/-- The static `Reset()`. The manager instance itself is left as it is; what is reset lives
outside it. -/
def Reset (w : World) : World :=
  { w with trace := w.trace ++ [Event.reset] }

/-- `OnGameEnd()`. -/
def OnGameEnd (env : Env) (w : World) : Option World :=
  (((AutoSave env (SetState w .SHUTDOWN)).bind AutoSaveTick).bind (ShutDownSave env)).map Reset

/-- `GetOnStateChangeEvent()`: the invoker is created on first use. -/
def GetOnStateChangeEvent (w : World) : World :=
  { w with mgr := { w.mgr with m_pOnStateChange := true } }

/-- The given number of consecutive `AutoSaveTick()` calls. -/
def runTicks : Nat → World → Option World
  | 0, w => some w
  | n + 1, w => (AutoSaveTick w).bind (runTicks n)

/-! ## World load -/

/-- The engine's `array.RemoveItem(value)`: the first element equal to the value is removed and
the last element is moved into its place. -/
def RemoveItem : List String → String → List String
  | [], _ => []
  | y :: rest, x =>
    if y = x then
      match rest.getLast? with
      | none => []
      | some z => z :: rest.dropLast
    else y :: RemoveItem rest x

/-- The first `foreach` of `OnWorldPostProcess`, over the removed-baked-roots list as it is when
the loop starts (the loop body itself does not change that list): the local `staleIds` and the
world. Appending to the possibly-baked list is a null access without a Root Entity Collection. -/
def removeBakedLoop (env : Env) (host : Host) :
    World → List String → List String → Option (List String × World)
  | w, staleIds, [] => some (staleIds, w)
  | w, staleIds, persistentId :: rest =>
    match FindEntityByPersistentId env w persistentId with
    | none => none
    | some (none, w1) => removeBakedLoop env host w1 (staleIds ++ [persistentId]) rest
    | some (some entity, w1) =>
      match w1.mgr.m_pRootEntityCollection with
      | none => none
      | some c =>
        let c1 : EPF_PersistentRootEntityCollection :=
          { c with m_aPossibleBackedRootEntities := c.m_aPossibleBackedRootEntities ++ [persistentId] }
        let w2 : World := { w1 with mgr := { w1.mgr with m_pRootEntityCollection := some c1 } }
        removeBakedLoop env host (deleteEntityAndChildren host w2 entity) staleIds rest

/-- The `foreach` over the recorded self-spawning dynamic entities: the local map `bulkLoad`
gets a copy of every identifier list under its save-data type. -/
def bulkLoadDynamic (selfSpawn : List (String × List String)) : ScriptMap (List String) :=
  selfSpawn.foldl (fun bulkLoad e => bulkLoad.Set e.1 e.2) ScriptMap.empty

/-- The `foreach` over `m_mBakedRoots`: every identifier is appended to the possibly-baked list
and to the request list of the save-data type of its component, which is created when the type
has none yet. The pair is the possibly-baked list and the local map `bulkLoad`. -/
def bulkLoadBaked (w : World) :
    List String × ScriptMap (List String) → List (String × Ref) →
      List String × ScriptMap (List String)
  | acc, [] => acc
  | acc, e :: rest =>
    let saveDataType := (w.components e.2).settings.m_tSaveDataType
    let loadIds : List String :=
      match acc.2.Find saveDataType with
      | some ids => ids
      | none => []
    bulkLoadBaked w (acc.1 ++ [e.1], acc.2.Set saveDataType (loadIds ++ [e.1])) rest

/-- The body of the inner `foreach` over the find results. Reading `m_mBakedRoots` is a null
access once it was discarded. -/
def loadRecord (host : Host) (w : World) (findResult : EDF_DbEntity) : Option World :=
  match findResult.saveData with
  | none => some w
  | some saveData =>
    match w.mgr.m_mBakedRoots with
    | none => none
    | some bakedRoots =>
      match bakedRoots.Find saveData.m_sId with
      | some persistenceComponent =>
        let w1 : World :=
          { w with trace := w.trace ++ [Event.entityLoad persistenceComponent saveData none] }
        some (host.Load w1 persistenceComponent saveData none).2
      | none => some (SpawnWorldEntity host w (some saveData) true).2

/-- The inner `foreach` over the find results of one save-data type. -/
def loadRecords (host : Host) : World → List EDF_DbEntity → Option World
  | w, [] => some w
  | w, findResult :: rest => (loadRecord host w findResult).bind fun w1 => loadRecords host w1 rest

/-- The `foreach` over the local map `bulkLoad`: one `FindAll` per entry, a null access without a
store adapter; a null result list is skipped. -/
def bulkFind (host : Host) : World → List (String × List String) → Option World
  | w, [] => some w
  | w, e :: rest =>
    match w.mgr.m_pDbContext with
    | none => none
    | some _ =>
      let w1 : World := { w with trace := w.trace ++ [Event.findAll e.1 e.2] }
      match host.FindAll e.1 e.2 with
      | none => bulkFind host w1 rest
      | some findResults => (loadRecords host w1 findResults).bind fun w2 => bulkFind host w2 rest

/-- The part of `OnWorldPostProcess` between the two loops over the Root Entity Collection and
the bulk find: the stale identifiers are removed from the removed-baked-roots list and the
requests are collected. The result is the world and the entries of the local map `bulkLoad`. -/
def collectBulkLoad (w : World) (staleIds : List String) :
    Option (World × List (String × List String)) :=
  match w.mgr.m_pRootEntityCollection with
  | none => none
  | some c =>
    let c1 : EPF_PersistentRootEntityCollection :=
      { c with m_aRemovedBackedRootEntities := staleIds.foldl RemoveItem c.m_aRemovedBackedRootEntities }
    match w.mgr.m_mBakedRoots with
    | none => none
    | some bakedRoots =>
      let r := bulkLoadBaked w
        (c1.m_aPossibleBackedRootEntities, bulkLoadDynamic c1.m_mSelfSpawnDynamicEntities)
        bakedRoots.entries
      let c2 : EPF_PersistentRootEntityCollection := { c1 with m_aPossibleBackedRootEntities := r.1 }
      some ({ w with mgr := { w.mgr with m_pRootEntityCollection := some c2 } }, r.2.entries)

/-- `OnWorldPostProcess(world)`. -/
def OnWorldPostProcess (env : Env) (host : Host) (w : World) : Option World :=
  (FlushRegistrations env w).bind fun w0 =>
    let w1 := SetState w0 .SETUP
    match w1.mgr.m_pRootEntityCollection with
    | none => none
    | some c =>
      (removeBakedLoop env host w1 [] c.m_aRemovedBackedRootEntities).bind fun r =>
        (collectBulkLoad r.2 r.1).bind fun b =>
          (bulkFind host b.1 b.2).bind fun w4 =>
            (saveRootEntityCollection w4).map fun w5 =>
              SetState { w5 with mgr := { w5.mgr with m_mBakedRoots := none } } .ACTIVE

end EPF_PersistenceManager

/-! ## Predicates used in the statements -/

/-- Whether an optional pending object is null or already has an identifier. -/
def identified (m_sId : Ref → String) : Option Ref → Bool
  | none => true
  | some r => m_sId r != ""

/-- Every pending object already has an identifier, so that flushing the pending registrations
registers nothing new. -/
def pendingIdentified (w : World) : Bool :=
  w.mgr.m_aPendingEntityRegistrations.all (identified fun r => (w.components r).m_sId) &&
  w.mgr.m_aPendingScriptedStateRegistrations.all (identified fun r => (w.scriptedStates r).m_sId)

/-- What `FlushRegistrations` leaves when no pending object needs an identifier: the pending
lists cleared (the entity list only from `POST_INIT` on). -/
def clearPending (w : World) : World :=
  { w with mgr := { w.mgr with
    m_aPendingEntityRegistrations :=
      if w.mgr.m_eState.toNat ≥ EPF_EPersistenceManagerState.POST_INIT.toNat then []
      else w.mgr.m_aPendingEntityRegistrations
    m_aPendingScriptedStateRegistrations := [] } }

/-- No object other than `ref` is filed under `id` in the three buckets. -/
def heldOnlyBy (a s u : ScriptMap Ref) (id : String) (ref : Ref) : Bool :=
  [a.Find id, s.Find id, u.Find id].all fun o => o == none || o == some ref

/-- The Root Entity Collection is there whenever the manager would use it: before `ACTIVE` it is
not touched by a registration, from `ACTIVE` on it has to exist. -/
def collectionAvailable (w : World) : Bool :=
  decide (w.mgr.m_eState.toNat < EPF_EPersistenceManagerState.ACTIVE.toNat) ||
  w.mgr.m_pRootEntityCollection.isSome

/-- The identifier `Register` works with: the explicit one, or a newly minted one when it is empty. -/
def registerId (env : Env) (w : World) (ref : Ref) (id : String) : String :=
  (if id = "" then EPF_PersistenceManager.GetPersistentId env w ref else (id, w)).1

/-- The world in which `Register` classifies the object: the identifier is minted when none was
given and the baked flag is restored from the `0000` prefix; the manager itself is untouched. -/
def registerPrep (env : Env) (w : World) (ref : Ref) (id : String) : World :=
  let r := if id = "" then EPF_PersistenceManager.GetPersistentId env w ref else (id, w)
  if StartsWith r.1 "0000" then FlagAsBaked r.2 ref else r.2

/-- The manager after the bucket and cleanup-set changes of `Register` on an object with an owner. -/
def registerBuckets (env : Env) (w : World) (ref : Ref) (id : String) : EPF_PersistenceManager :=
  let w2 := registerPrep env w ref id
  EPF_PersistenceManager.categorize w2.mgr (w2.components ref) ref (registerId env w ref id)
    (w2.components ref).settings (EPF_BitFlags.CheckFlags (w2.components ref).m_eFlags .ROOT)

/-- The argument of the identity-generator call `Register` makes for an entity-backed object
without explicit identifier: the owner before `SETUP` (baked minting), nothing afterwards. -/
def mintArg (w : World) (ref : Ref) : Option Ref :=
  if w.mgr.m_eState.toNat < EPF_EPersistenceManagerState.SETUP.toNat then (w.components ref).m_pOwner
  else none

/-- The entity bucket in which `UpdateRootStatus` files an object of the given policy and root status. -/
def entityBucket (m : EPF_PersistenceManager) : EPF_ESaveType → Bool → ScriptMap Ref
  | .INTERVAL_SHUTDOWN, true => m.m_mRootAutoSave
  | .SHUTDOWN, true => m.m_mRootShutdown
  | _, _ => m.m_mUncategorizedEntities

/-- The free-standing-state bucket in which `Register` files an object of the given policy. -/
def scriptedStateBucket (m : EPF_PersistenceManager) : EPF_ESaveType → ScriptMap Ref
  | .INTERVAL_SHUTDOWN => m.m_mScriptedStateAutoSave
  | .SHUTDOWN => m.m_mScriptedStateShutdown
  | .MANUAL => m.m_mScriptedStateUncategorized

/-- The six buckets of the two managers hold the same entry, or none, under the key `k`. -/
def bucketsAgreeAt (m m1 : EPF_PersistenceManager) (k : String) : Prop :=
  m1.m_mRootAutoSave.Find k = m.m_mRootAutoSave.Find k ∧
  m1.m_mRootShutdown.Find k = m.m_mRootShutdown.Find k ∧
  m1.m_mUncategorizedEntities.Find k = m.m_mUncategorizedEntities.Find k ∧
  m1.m_mScriptedStateAutoSave.Find k = m.m_mScriptedStateAutoSave.Find k ∧
  m1.m_mScriptedStateShutdown.Find k = m.m_mScriptedStateShutdown.Find k ∧
  m1.m_mScriptedStateUncategorized.Find k = m.m_mScriptedStateUncategorized.Find k

/-! ## Sequences of registry calls -/

/-- The calls that change the registry, and the changes the objects make to themselves
between such calls (storing an identifier, changing a flag). -/
inductive RegistryOp where
  | register (ref : Ref) (id : String)
  | registerScriptedState (ref : Ref) (id : String)
  | updateRootStatus (ref : Ref) (id : String) (settings : EPF_PersistenceComponentClass)
      (isRootEntity : Bool)
  | unregister (ref : Ref)
  | unregisterScriptedState (ref : Ref)
  | setComponent (ref : Ref) (c : EPF_PersistenceComponent)
  | setScriptedState (ref : Ref) (s : EPF_PersistentScriptedState)

/-- The world after one call. -/
def RegistryOp.apply (env : Env) (w : World) : RegistryOp → Option World
  | .register ref id => (EPF_PersistenceManager.Register env w ref id).map Prod.snd
  | .registerScriptedState ref id => some (EPF_PersistenceManager.RegisterScriptedState env w ref id).2
  | .updateRootStatus ref id settings isRootEntity =>
    EPF_PersistenceManager.UpdateRootStatus env w ref id settings isRootEntity
  | .unregister ref => EPF_PersistenceManager.Unregister env w ref
  | .unregisterScriptedState ref => some (EPF_PersistenceManager.UnregisterScriptedState env w ref)
  | .setComponent ref c => some { w with components := Function.update w.components ref c }
  | .setScriptedState ref s => some { w with scriptedStates := Function.update w.scriptedStates ref s }

/-- The world after a sequence of calls. -/
def runOps (env : Env) : World → List RegistryOp → Option World
  | w, [] => some w
  | w, op :: ops => (op.apply env w).bind fun w1 => runOps env w1 ops

/-- The identifier and save policy under which a call files an entity-backed object, when it
files one: `Register` on an object with an owner, `UpdateRootStatus`, and `Unregister` on an
object that has no identifier yet (asking for it registers the object). -/
def RegistryOp.entityFiling (env : Env) (w : World) : RegistryOp → Option (String × EPF_ESaveType)
  | .register ref id =>
    if (w.components ref).m_pOwner.isSome then
      some (registerId env w ref id, (w.components ref).settings.m_eSaveType)
    else none
  | .updateRootStatus _ id settings _ => some (id, settings.m_eSaveType)
  | .unregister ref =>
    if (w.components ref).m_sId = "" && (w.components ref).m_pOwner.isSome then
      some (registerId env w ref "", (w.components ref).settings.m_eSaveType)
    else none
  | _ => none

/-- The identifier and save policy under which a call files a free-standing object, when it
files one. -/
def RegistryOp.scriptedStateFiling (env : Env) (w : World) :
    RegistryOp → Option (String × EPF_ESaveType)
  | .registerScriptedState ref id =>
    some ((EPF_PersistenceManager.RegisterScriptedState env w ref id).1,
      env.scriptedStateSaveType (EPF_PersistenceManager.scriptedStateTarget (w.scriptedStates ref)))
  | .unregisterScriptedState ref =>
    if (w.scriptedStates ref).m_sId = "" then
      some ((EPF_PersistenceManager.RegisterScriptedState env w ref "").1,
        env.scriptedStateSaveType (EPF_PersistenceManager.scriptedStateTarget (w.scriptedStates ref)))
    else none
  | _ => none

/-- Whether a filing agrees with the policy assigned to its identifier. -/
def filingAgrees (pol : String → EPF_ESaveType) : Option (String × EPF_ESaveType) → Bool
  | none => true
  | some f => pol f.1 == f.2

/-- Along the sequence of calls, every identifier is only ever filed under one save policy per
object kind: `pol` for entity-backed objects, `spol` for free-standing objects. This is what
unique identifiers give, the policy being fixed per object. -/
def consistentRun (env : Env) (pol spol : String → EPF_ESaveType) : World → List RegistryOp → Bool
  | _, [] => true
  | w, op :: ops =>
    filingAgrees pol (op.entityFiling env w) && filingAgrees spol (op.scriptedStateFiling env w) &&
      match op.apply env w with
      | none => true
      | some w1 => consistentRun env pol spol w1 ops

/-- Whether at most one of three flags is set. -/
def atMostOne (a b c : Bool) : Bool :=
  !(a && b) && !(a && c) && !(b && c)

/-- Whether the identifier is a key of at most one entity bucket and of at most one
free-standing-state bucket. -/
def exclusive (m : EPF_PersistenceManager) (id : String) : Bool :=
  atMostOne (m.m_mRootAutoSave.Contains id) (m.m_mRootShutdown.Contains id)
    (m.m_mUncategorizedEntities.Contains id) &&
  atMostOne (m.m_mScriptedStateAutoSave.Contains id) (m.m_mScriptedStateShutdown.Contains id)
    (m.m_mScriptedStateUncategorized.Contains id)

/-- The invariant behind the exclusivity: the autosave and shutdown buckets only hold
identifiers of their own policy, an identifier in one of them is not in the uncategorized
bucket, and every free-standing-state bucket only holds identifiers of its own policy. -/
def registryInv (pol spol : String → EPF_ESaveType) (m : EPF_PersistenceManager) : Prop :=
  ∀ id,
    (m.m_mRootAutoSave.Contains id = true →
      pol id = .INTERVAL_SHUTDOWN ∧ m.m_mUncategorizedEntities.Contains id = false) ∧
    (m.m_mRootShutdown.Contains id = true →
      pol id = .SHUTDOWN ∧ m.m_mUncategorizedEntities.Contains id = false) ∧
    (m.m_mScriptedStateAutoSave.Contains id = true → spol id = .INTERVAL_SHUTDOWN) ∧
    (m.m_mScriptedStateShutdown.Contains id = true → spol id = .SHUTDOWN) ∧
    (m.m_mScriptedStateUncategorized.Contains id = true → spol id = .MANUAL)

/-! ## Vocabulary for the autosave pass -/

/-- The operation counter after `n` further saves: `m_iSaveOperation++`, `n` times. -/
def savesCounted (n : Nat) (op : Int) : Int :=
  Nat.iterate (fun x => int32 (x + 1)) n op

/-- The `Save` calls on the objects of the given autosave-bucket entries that are not flagged
`PAUSE_TRACKING`, in the order of the entries. -/
def entitySaves (w : World) (l : List (String × Ref)) : List Event :=
  (l.filter fun e => !EPF_BitFlags.CheckFlags (w.components e.2).m_eFlags .PAUSE_TRACKING).map
    fun e => Event.entitySave e.2

/-- The `Save` calls on the free-standing objects of the given entries that are not flagged
`PAUSE_TRACKING`, in the order of the entries. -/
def scriptedStateSaves (w : World) (l : List (String × Ref)) : List Event :=
  (l.filter fun e => !EPF_BitFlags.CheckFlags (w.scriptedStates e.2).m_eFlags .PAUSE_TRACKING).map
    fun e => Event.scriptedStateSave e.2

/-- The world after the entity loop of a tick has gone over the given entries: the iterator
moved past them, the unpaused objects saved and counted. -/
def entityWalked (w : World) (l : List (String × Ref)) : World :=
  { w with
    trace := w.trace ++ entitySaves w l
    mgr := { w.mgr with
      m_iAutoSaveEntityIt := w.mgr.m_iAutoSaveEntityIt + l.length
      m_iSaveOperation := savesCounted (entitySaves w l).length w.mgr.m_iSaveOperation } }

/-- The world after the free-standing-state loop of a tick has gone over the given entries. -/
def scriptedStateWalked (w : World) (l : List (String × Ref)) : World :=
  { w with
    trace := w.trace ++ scriptedStateSaves w l
    mgr := { w.mgr with
      m_iAutoSaveScriptedStateIt := w.mgr.m_iAutoSaveScriptedStateIt + l.length
      m_iSaveOperation := savesCounted (scriptedStateSaves w l).length w.mgr.m_iSaveOperation } }

/-- The operands of the throttle test exist: outside `ACTIVE` the test does not read the
settings, in `ACTIVE` there are settings with a batch size other than zero. -/
def throttleDefined (w : World) : Bool :=
  w.mgr.m_eState != EPF_EPersistenceManagerState.ACTIVE ||
    match w.mgr.m_pSettings with
    | some settings => settings.m_iAutosaveIterations != 0
    | none => false

/-- The entries of the autosave entity bucket from the entity iterator on. -/
def entityEntriesDue (w : World) : List (String × Ref) :=
  w.mgr.m_mRootAutoSave.entries.drop w.mgr.m_iAutoSaveEntityIt

/-- The entries of the autosave free-standing-state bucket from the state iterator on. -/
def scriptedStateEntriesDue (w : World) : List (String × Ref) :=
  w.mgr.m_mScriptedStateAutoSave.entries.drop w.mgr.m_iAutoSaveScriptedStateIt

/-- The `Save` calls an active pass still has to make: the unpaused objects from the entity
iterator on, then the unpaused free-standing objects from the state iterator on. -/
def pendingSaves (w : World) : List Event :=
  entitySaves w (entityEntriesDue w) ++ scriptedStateSaves w (scriptedStateEntriesDue w)

/-- The world after a tick has gone over the first `k1` due entries of the entity bucket and
the first `k2` due entries of the free-standing-state bucket. -/
def tickWalked (w : World) (k1 k2 : Nat) : World :=
  scriptedStateWalked (entityWalked w ((entityEntriesDue w).take k1))
    ((scriptedStateEntriesDue w).take k2)

/-- The calls that end an autosave pass: the save of the Root Entity Collection and one store
remove per entry of the autosave cleanup set. -/
def completionCalls (w : World) : List Event :=
  Event.rootEntityCollectionSave ::
    w.mgr.m_mRootAutoSaveCleanup.entries.map fun x => Event.dbRemoveAsync x.2 x.1

/-- An active pass can run to its end without a script error: both iterators are within their
buckets, the operands of the throttle test exist, the Root Entity Collection exists, and the
store adapter exists when the autosave cleanup set has an entry. -/
def passReady (w : World) : Bool :=
  throttleDefined w &&
  decide (w.mgr.m_iAutoSaveEntityIt ≤ w.mgr.m_mRootAutoSave.Count) &&
  decide (w.mgr.m_iAutoSaveScriptedStateIt ≤ w.mgr.m_mScriptedStateAutoSave.Count) &&
  w.mgr.m_pRootEntityCollection.isSome &&
  (w.mgr.m_pDbContext.isSome || w.mgr.m_mRootAutoSaveCleanup.entries.isEmpty)

/-- The throttle test as it comes out after the given number of further saves. -/
def throttleAfter (w : World) (n : Nat) : Option Bool :=
  EPF_PersistenceManager.throttle
    { w with mgr := { w.mgr with m_iSaveOperation := savesCounted n w.mgr.m_iSaveOperation } }

/-- The `Save` calls of a tick that goes over the first `k1` due entries of the entity bucket
and the first `k2` due entries of the free-standing-state bucket. -/
def tickSaves (w : World) (k1 k2 : Nat) : List Event :=
  entitySaves w ((entityEntriesDue w).take k1) ++
    scriptedStateSaves w ((scriptedStateEntriesDue w).take k2)

/-- The world after the tick that completes the pass: every due entry gone over, the Root
Entity Collection saved, the autosave cleanup set drained and the active flag cleared. -/
def passCompleted (w : World) : World :=
  let w1 := tickWalked w (entityEntriesDue w).length (scriptedStateEntriesDue w).length
  { w1 with
    trace := w1.trace ++ completionCalls w
    mgr := { w1.mgr with
      m_mRootAutoSaveCleanup := ⟨[]⟩
      m_bAutoSaveActive := false } }

/-- The number of bucket entries an active pass still has to go over. -/
def entriesDue (w : World) : Nat :=
  (entityEntriesDue w).length + (scriptedStateEntriesDue w).length

/-! ## Vocabulary for the lifecycle -/

/-- The part of the world that registering, looking up and unregistering objects never changes:
the trace, the settings, the lifecycle state and its invoker, the store adapter, the scheduler
fields, and whether there is a Root Entity Collection and a baked-roots working set. -/
def control (w : World) :=
  (w.trace, w.mgr.m_pSettings, w.mgr.m_eState, w.mgr.m_pOnStateChange, w.mgr.m_pDbContext,
    w.mgr.m_pRootEntityCollection.isSome, w.mgr.m_mBakedRoots.isSome,
    w.mgr.m_fAutoSaveAccumultor, w.mgr.m_bAutoSaveActive, w.mgr.m_iSaveOperation,
    w.mgr.m_iAutoSaveEntityIt, w.mgr.m_iAutoSaveScriptedStateIt)

/-- The second world differs from the first by registrations only: the control part is the
same, and before `ACTIVE` the Root Entity Collection is the same as well. -/
def registrationFrame (w w1 : World) : Prop :=
  control w1 = control w ∧
    (w.mgr.m_eState.toNat < EPF_EPersistenceManagerState.ACTIVE.toNat →
      w1.mgr.m_pRootEntityCollection = w.mgr.m_pRootEntityCollection)

/-! ## Vocabulary for the host -/

/-- The world after the manager has made the given call to an external collaborator. -/
def withCall (w : World) (e : Event) : World :=
  { w with trace := w.trace ++ [e] }

/-- The second world differs from the first only in what code outside the manager may change
while the manager waits for it during world load: the control part and the Root Entity
Collection are the same. -/
def hostFrame (w w1 : World) : Prop :=
  control w1 = control w ∧ w1.mgr.m_pRootEntityCollection = w.mgr.m_pRootEntityCollection

/-- Spawning, loading and deleting keep to the host frame: whatever they do to the registry and
the objects, they make no call of the manager's own, and leave the lifecycle state, the store
adapter, the scheduler and the Root Entity Collection alone. -/
def Host.wellBehaved (host : Host) : Prop :=
  (∀ w prefab, hostFrame w (host.SpawnEntityPrefab w prefab).2) ∧
  (∀ w component saveData isRoot, hostFrame w (host.Load w component saveData isRoot).2) ∧
  (∀ w entity, hostFrame w (host.DeleteEntityAndChildren w entity))

/-- Spawning, loading and deleting leave the world as it is. -/
def Host.quiet (host : Host) : Prop :=
  (∀ w prefab, (host.SpawnEntityPrefab w prefab).2 = w) ∧
  (∀ w component saveData isRoot, (host.Load w component saveData isRoot).2 = w) ∧
  (∀ w entity, host.DeleteEntityAndChildren w entity = w)

/-! ## Lifecycle events -/

/-- The lifecycle events the game mode component hands to the manager. -/
inductive LifecycleEvent where
  /-- `OnPostInit(gameMode, settings)`. -/
  | postInit (settings : EPF_PersistenceManagerComponentClass)
  /-- `OnPostFrame(timeSlice)`. -/
  | postFrame (timeSlice : Rat)
  /-- `OnWorldPostProcess(world)`. -/
  | worldPostProcess
  /-- `OnGameEnd()`. -/
  | gameEnd

/-- The handler of one lifecycle event; `none` when it ends in a script error. -/
def LifecycleEvent.deliver (env : Env) (host : Host) (w : World) : LifecycleEvent → Option World
  | .postInit settings => some (EPF_PersistenceManager.OnPostInit host w settings)
  | .postFrame timeSlice => EPF_PersistenceManager.OnPostFrame env w timeSlice
  | .worldPostProcess => EPF_PersistenceManager.OnWorldPostProcess env host w
  | .gameEnd => EPF_PersistenceManager.OnGameEnd env w

/-- The handlers of a sequence of lifecycle events, one after the other. -/
def runEvents (env : Env) (host : Host) : World → List LifecycleEvent → Option World
  | w, [] => some w
  | w, e :: rest => (e.deliver env host w).bind fun w1 => runEvents env host w1 rest

/-- Whether the event comes at its place in the host's order: post-init while the manager is
in `PRE_INIT` or `POST_INIT`, world-ready while it is at most in `SETUP`. -/
def LifecycleEvent.inOrder (w : World) : LifecycleEvent → Bool
  | .postInit _ => decide (w.mgr.m_eState.toNat ≤ EPF_EPersistenceManagerState.POST_INIT.toNat)
  | .worldPostProcess => decide (w.mgr.m_eState.toNat ≤ EPF_EPersistenceManagerState.SETUP.toNat)
  | _ => true

/-- Whether every event of the sequence comes at its place in the host's order. -/
def orderedRun (env : Env) (host : Host) : World → List LifecycleEvent → Bool
  | _, [] => true
  | w, e :: rest =>
    e.inOrder w &&
      match e.deliver env host w with
      | none => true
      | some w1 => orderedRun env host w1 rest

/-- The states notified to the subscribers by the calls of a trace, in order. -/
def reportedStates : List Event → List EPF_EPersistenceManagerState
  | [] => []
  | Event.stateChange state :: rest => state :: reportedStates rest
  | _ :: rest => reportedStates rest

/-- The lifecycle part of the world: the states notified so far, the settings, the lifecycle
state and its invoker, the store adapter, and whether there is a Root Entity Collection and a
baked-roots working set. -/
def lifecycle (w : World) :=
  (reportedStates w.trace, w.mgr.m_pSettings, w.mgr.m_eState, w.mgr.m_pOnStateChange,
    w.mgr.m_pDbContext, w.mgr.m_pRootEntityCollection.isSome, w.mgr.m_mBakedRoots.isSome)

/-- The state a sequence of lifecycle states ends in when, starting from the given state, no
state is lower than the one before it; `none` when some state goes back. -/
def forwardPath : EPF_EPersistenceManagerState → List EPF_EPersistenceManagerState →
    Option EPF_EPersistenceManagerState
  | s, [] => some s
  | s, t :: rest => if s.toNat ≤ t.toNat then forwardPath t rest else none

/-- The manager goes from the first world to the second through the given lifecycle states,
one `SetState` each: the invoker is kept, no state is lower than the one before it, the last
one is the state of the second world, and when the invoker exists each of them was notified
to the subscribers, in this order. -/
def movesForward (w w1 : World) (states : List EPF_EPersistenceManagerState) : Prop :=
  w1.mgr.m_pOnStateChange = w.mgr.m_pOnStateChange ∧
  forwardPath w.mgr.m_eState states = some w1.mgr.m_eState ∧
  (w.mgr.m_pOnStateChange = true →
    reportedStates w1.trace = reportedStates w.trace ++ states)

/-! ## Vocabulary for world load -/

/-- The bulk requests among the calls of a trace, in order: the save-data type and the
identifiers of every `FindAll`. -/
def findAllRequests : List Event → List (String × List String)
  | [] => []
  | Event.findAll saveDataType persistentIds :: rest =>
    (saveDataType, persistentIds) :: findAllRequests rest
  | _ :: rest => findAllRequests rest

/-- The lookups of the first loop of world load, started in the given world over the given
identifiers: every identifier, in order, with the instance `FindEntityByPersistentId` finds for
it at its turn (`none` for null), the loop going on from the world its body leaves. -/
def bakedLookups (env : Env) (host : Host) : World → List String → List (String × Option Ref)
  | _, [] => []
  | w, persistentId :: rest =>
    match EPF_PersistenceManager.FindEntityByPersistentId env w persistentId,
      EPF_PersistenceManager.removeBakedLoop env host w [] [persistentId] with
    | some found, some r => (persistentId, found.1) :: bakedLookups env host r.2 rest
    | _, _ => []

/-- The identifiers of the lookups for which an instance was found, in order. -/
def foundIds (lookups : List (String × Option Ref)) : List String :=
  (lookups.filter fun p => p.2.isSome).map Prod.fst

/-- The identifiers of the lookups for which no instance was found, in order. -/
def staleIds (lookups : List (String × Option Ref)) : List String :=
  (lookups.filter fun p => p.2.isNone).map Prod.fst

/-- The second world comes from the first by calls to the collaborators among which the bulk
requests are the given ones, in this order, with the Root Entity Collection left as it is. -/
def loadFrame (w w1 : World) (requests : List (String × List String)) : Prop :=
  w1.mgr.m_pRootEntityCollection = w.mgr.m_pRootEntityCollection ∧
  ∃ calls, w1.trace = w.trace ++ calls ∧ findAllRequests calls = requests

/-- The identifiers of the baked-roots working set whose component has the given save-data
type, in the iteration order of the working set. -/
def bakedIdsOfType (w : World) (bakedRoots : ScriptMap Ref) (saveDataType : String) :
    List String :=
  (bakedRoots.entries.filter fun e =>
    (w.components e.2).settings.m_tSaveDataType = saveDataType).map Prod.fst

/-- The identifier list of the bulk request for a save-data type: the list recorded for the
type among the self-spawning dynamic entities, if there is one, followed by the given baked
identifiers; no request when there is neither. -/
def requestIds (recorded : Option (List String)) (baked : List String) : Option (List String) :=
  match recorded with
  | some ids => some (ids ++ baked)
  | none => if baked = [] then none else some baked

/-! ## Vocabulary for flushing -/

/-- The requests `GetPersistentId()` made to the given entity-backed objects, in order; `none`
when one of them ends in a script error. -/
def requestComponentIds (env : Env) : World → List Ref → Option World
  | w, [] => some w
  | w, ref :: rest =>
    (EPF_PersistenceComponent.GetPersistentId env w ref).bind fun r =>
      requestComponentIds env r.2 rest

/-- The requests `GetPersistentId()` made to the given free-standing objects, in order. -/
def requestScriptedStateIds (env : Env) : World → List Ref → World
  | w, [] => w
  | w, ref :: rest =>
    requestScriptedStateIds env (EPF_PersistentScriptedState.GetPersistentId env w ref).2 rest

/-- The non-null objects of a pending list, in order. -/
def nonNull (pending : List (Option Ref)) : List Ref :=
  pending.filterMap fun o => o

/-- What flushing is to do, read from the specification with the guard on the lifecycle
state: from `POST_INIT` on the identifier of every non-null object of the pending entity list
is requested and the list is emptied, before `POST_INIT` the list is left alone; in every
state the identifier of every non-null object of the pending free-standing-state list is
requested and that list is emptied. -/
def flushRegistrationsSpec (env : Env) (w : World) : Option World :=
  let entitiesDone : Option World :=
    if EPF_EPersistenceManagerState.POST_INIT.toNat ≤ w.mgr.m_eState.toNat then
      (requestComponentIds env w (nonNull w.mgr.m_aPendingEntityRegistrations)).map fun w1 =>
        { w1 with mgr := { w1.mgr with m_aPendingEntityRegistrations := [] } }
    else some w
  entitiesDone.map fun w1 =>
    let w2 := requestScriptedStateIds env w1 (nonNull w1.mgr.m_aPendingScriptedStateRegistrations)
    { w2 with mgr := { w2.mgr with m_aPendingScriptedStateRegistrations := [] } }

/-! ## Vocabulary for the root status -/

/-- The buckets and cleanup sets of the manager: the three entity buckets, the three
free-standing-state buckets and the two cleanup sets. -/
def registry (m : EPF_PersistenceManager) :=
  (m.m_mRootAutoSave, m.m_mRootShutdown, m.m_mUncategorizedEntities,
    m.m_mScriptedStateAutoSave, m.m_mScriptedStateShutdown, m.m_mScriptedStateUncategorized,
    m.m_mRootAutoSaveCleanup, m.m_mRootShutdownCleanup)

/-! ## Vocabulary for the identifiers a flush hands out -/

/-- The identifiers the first loop of `FlushRegistrations` hands out, in order: every non-null
pending entity-backed object that has no identifier yet is registered by its
`GetPersistentId()` and the identifier it is given is listed; an object that has an identifier
adds nothing. The list ends where the loop ends. -/
def flushEntityMints (env : Env) : World → List (Option Ref) → List String
  | _, [] => []
  | w, none :: rest => flushEntityMints env w rest
  | w, some ref :: rest =>
    match EPF_PersistenceComponent.GetPersistentId env w ref with
    | none => []
    | some r =>
      (if (w.components ref).m_sId = "" then [r.1] else []) ++ flushEntityMints env r.2 rest

/-- The identifiers the second loop of `FlushRegistrations` hands out, in order: every non-null
pending free-standing object that has no identifier yet is registered by its
`GetPersistentId()` and the identifier it is given is listed. -/
def flushScriptedStateMints (env : Env) : World → List (Option Ref) → List String
  | _, [] => []
  | w, none :: rest => flushScriptedStateMints env w rest
  | w, some ref :: rest =>
    (if (w.scriptedStates ref).m_sId = "" then
      [(EPF_PersistentScriptedState.GetPersistentId env w ref).1] else []) ++
      flushScriptedStateMints env (EPF_PersistentScriptedState.GetPersistentId env w ref).2 rest

/-- The identifiers a `FlushRegistrations()` made in the given world hands out to the pending
objects it registers: those of the entity loop (run from `POST_INIT` on), then those of the
free-standing-state loop. A world without pending objects, or whose pending objects all have
an identifier, gives the empty list. -/
def flushMints (env : Env) (w : World) : List String :=
  if w.mgr.m_eState.toNat ≥ EPF_EPersistenceManagerState.POST_INIT.toNat then
    flushEntityMints env w w.mgr.m_aPendingEntityRegistrations ++
      match EPF_PersistenceManager.flushEntityRegistrations env w
          w.mgr.m_aPendingEntityRegistrations with
      | none => []
      | some w1 =>
        flushScriptedStateMints env
          { w1 with mgr := { w1.mgr with m_aPendingEntityRegistrations := [] } }
          w1.mgr.m_aPendingScriptedStateRegistrations
  else
    flushScriptedStateMints env w w.mgr.m_aPendingScriptedStateRegistrations

/-! ## Vocabulary for the records of world load -/

/-- The store adapter, the Root Entity Collection and the baked-roots working set are all
there: what the bulk find of world load dereferences. -/
def loadReady (w : World) : Bool :=
  w.mgr.m_pDbContext.isSome && w.mgr.m_pRootEntityCollection.isSome &&
    w.mgr.m_mBakedRoots.isSome

/-- Spawning, loading and deleting do not take away the store adapter, the Root Entity
Collection or the baked-roots working set of a manager that has them. Whatever else they do,
to the registry, to the objects, to the contents of the collection and of the working set, and
to the lifecycle state, is left open. -/
def Host.keepsLoadReady (host : Host) : Prop :=
  (∀ w prefab, loadReady w = true → loadReady (host.SpawnEntityPrefab w prefab).2 = true) ∧
  (∀ w component saveData isRoot, loadReady w = true →
    loadReady (host.Load w component saveData isRoot).2 = true) ∧
  (∀ w entity, loadReady w = true → loadReady (host.DeleteEntityAndChildren w entity) = true)

/-- Read from the specification: what world load does with one record a bulk find returned.
A record of an unexpected type (one that is no entity save-data) is skipped. A record whose
identifier is a key of the baked-roots working set has `Load` called on the baked component
stored under it, with the record, and nothing is spawned for it. For any other record one
`SpawnWorldEntity(record, true)` is made. Whether the spawn or the load succeeds makes no
difference to what follows: processing goes on in the world they leave. -/
def loadRecordSpec (host : Host) (v : World) (findResult : EDF_DbEntity) : World :=
  match findResult.saveData with
  | none => v
  | some saveData =>
    match v.mgr.m_mBakedRoots.bind fun bakedRoots => bakedRoots.Find saveData.m_sId with
    | some persistenceComponent =>
      (host.Load (withCall v (Event.entityLoad persistenceComponent saveData none))
        persistenceComponent saveData none).2
    | none => (EPF_PersistenceManager.SpawnWorldEntity host v (some saveData) true).2

/-- The records a bulk find returns for a request, in order; a request the store gives no
result list for has none. -/
def foundRecords (host : Host) (request : String × List String) : List EDF_DbEntity :=
  match host.FindAll request.1 request.2 with
  | none => []
  | some findResults => findResults

/-- Read from the specification: the bulk pass of world load over the given requests. There
is one `FindAll` per request, in order, and every record it returns is processed, in order,
whatever happened to the records and the requests before it. -/
def bulkLoadSpec (host : Host) (v : World) (requests : List (String × List String)) : World :=
  requests.foldl (fun v1 request =>
    (foundRecords host request).foldl (loadRecordSpec host)
      (withCall v1 (Event.findAll request.1 request.2))) v

/-! ## Example inputs -/

namespace Example

/-- An identity generator that never repeats a dynamic identifier (the identifier grows with
the number of earlier calls) and mints the baked identifier from the owner alone, with the
`0000` prefix the manager tests for. The Root Entity Collection hooks keep the record as it is. -/
def env : Env where
  Generate := fun history arg =>
    match arg with
    | some owner => String.mk ('0' :: '0' :: '0' :: '0' :: List.replicate (owner + 1) 'b')
    | none => String.mk ('d' :: List.replicate history.length 'x')
  collectionAdd := fun c _ _ _ => c
  collectionRemove := fun c _ _ _ => c
  scriptedStateSaveType := fun t =>
    if t = "AutoState" then .INTERVAL_SHUTDOWN
    else if t = "ShutdownState" then .SHUTDOWN
    else .MANUAL

/-- No flag set. -/
def noFlags : FlagSet := ⟨false, false, false, false⟩

/-- The entity-backed objects of the examples: 0 has no owner; 1 is an autosave root holding
a standalone record; 2 is a shutdown-only root holding a standalone record; 3 has the manual
policy; 4 is a paused autosave root; 5 is an autosave non-root holding a standalone record;
6 is a shutdown-only non-root holding a standalone record; 7 is a paused shutdown-only root;
every other is an autosave root. -/
def components : Ref → EPF_PersistenceComponent
  | 0 => ⟨none, ⟨true, false, false, false⟩, "", ⟨.INTERVAL_SHUTDOWN, "CharacterSaveData"⟩⟩
  | 1 => ⟨some 11, ⟨true, false, false, true⟩, "", ⟨.INTERVAL_SHUTDOWN, "CharacterSaveData"⟩⟩
  | 2 => ⟨some 12, ⟨true, false, false, true⟩, "", ⟨.SHUTDOWN, "VehicleSaveData"⟩⟩
  | 3 => ⟨some 13, ⟨true, false, false, false⟩, "", ⟨.MANUAL, "ItemSaveData"⟩⟩
  | 4 => ⟨some 14, ⟨true, false, true, false⟩, "", ⟨.INTERVAL_SHUTDOWN, "CharacterSaveData"⟩⟩
  | 5 => ⟨some 15, ⟨false, false, false, true⟩, "", ⟨.INTERVAL_SHUTDOWN, "ItemSaveData"⟩⟩
  | 6 => ⟨some 16, ⟨false, false, false, true⟩, "", ⟨.SHUTDOWN, "ItemSaveData"⟩⟩
  | 7 => ⟨some 17, ⟨true, false, true, false⟩, "", ⟨.SHUTDOWN, "VehicleSaveData"⟩⟩
  | n + 8 => ⟨some (n + 18), ⟨true, false, false, false⟩, "", ⟨.INTERVAL_SHUTDOWN, "CharacterSaveData"⟩⟩

/-- The free-standing objects of the examples: 0 has the autosave policy, 1 the shutdown-only
policy, 2 is a paused shutdown-only state, every other has the manual policy. -/
def scriptedStates : Ref → EPF_PersistentScriptedState
  | 0 => ⟨"AutoState", noFlags, "", false, none⟩
  | 1 => ⟨"ShutdownState", noFlags, "", false, none⟩
  | 2 => ⟨"ShutdownState", ⟨false, false, true, false⟩, "", false, none⟩
  | _ + 3 => ⟨"ManualState", noFlags, "", false, none⟩

/-- A new manager (state `PRE_INIT`, empty registry) with the example objects. -/
def world : World where
  mgr := EPF_PersistenceManager.new
  components := components
  scriptedStates := scriptedStates
  idHistory := []
  trace := []

/-- An empty Root Entity Collection. -/
def collection : EPF_PersistentRootEntityCollection := ⟨"00EC0001-0000-0000-0000-000000000000", [], [], []⟩

/-- A manager in state `ACTIVE` with a store adapter, a Root Entity Collection, autosave settings
with batch size 3 and an empty registry. -/
def activeWorld : World where
  mgr := { EPF_PersistenceManager.new with
    m_pSettings := some ⟨true, 60, 3⟩
    m_eState := .ACTIVE
    m_pDbContext := some ⟨0⟩
    m_pRootEntityCollection := some collection
    m_mBakedRoots := none }
  components := components
  scriptedStates := scriptedStates
  idHistory := []
  trace := []

/-- The identifiers the registered example objects have stored. -/
def entityIds : Ref → String
  | 1 => "a1"
  | 2 => "s2"
  | 3 => "u3"
  | 4 => "a4"
  | 7 => "s7"
  | 9 => "a9"
  | _ => ""

/-- The identifiers the registered example states have stored. -/
def scriptedStateIds : Ref → String
  | 0 => "sa0"
  | 1 => "ss1"
  | 2 => "ss2"
  | 3 => "su3"
  | _ => ""

/-- The `ACTIVE` example manager with a populated registry: objects 1, 4 and 9 in the autosave
bucket, 2 and 7 in the shutdown bucket, 3 uncategorized; state 0 in the autosave bucket, states 1
and 2 in the shutdown bucket, state 3 uncategorized; one pending entry in each cleanup set. -/
def busyWorld : World where
  mgr := { activeWorld.mgr with
    m_mRootAutoSave := ⟨[("a1", 1), ("a4", 4), ("a9", 9)]⟩
    m_mRootAutoSaveCleanup := ⟨[("c5", "ItemSaveData")]⟩
    m_mRootShutdown := ⟨[("s2", 2), ("s7", 7)]⟩
    m_mRootShutdownCleanup := ⟨[("c6", "ItemSaveData")]⟩
    m_mUncategorizedEntities := ⟨[("u3", 3)]⟩
    m_mScriptedStateAutoSave := ⟨[("sa0", 0)]⟩
    m_mScriptedStateShutdown := ⟨[("ss1", 1), ("ss2", 2)]⟩
    m_mScriptedStateUncategorized := ⟨[("su3", 3)]⟩ }
  components := fun r => { (components r) with m_sId := entityIds r }
  scriptedStates := fun r => { (scriptedStates r) with m_sId := scriptedStateIds r }
  idHistory := []
  trace := []

/-- The populated example manager in the middle of an autosave pass: the first tick has saved
the objects 1 and 9, skipped the paused object 4 and was suspended by the throttle. -/
def passWorld : World :=
  { busyWorld with
    mgr := { busyWorld.mgr with
      m_bAutoSaveActive := true
      m_iSaveOperation := 2
      m_iAutoSaveEntityIt := 3 }
    trace := [Event.entitySave 1, Event.entitySave 9] }

/-- The populated example manager right after `AutoSave()` has started a pass: the active flag
set, the counter and both iterators at their start. -/
def startedWorld : World :=
  { busyWorld with mgr := { busyWorld.mgr with m_bAutoSaveActive := true } }

/-- The identifier the example generator mints for the baked object with owner 11. -/
def bakedId : String := "0000bbbbbbbbbbbb"

/-- The Root Entity Collection the example store holds: the baked root `bakedId` and the
identifiers "gone" and "lost" are recorded as removed, the dynamic entities "dyn1" and "lost"
as self-spawning vehicles. -/
def storedCollection : EPF_PersistentRootEntityCollection :=
  ⟨"00EC0001-0000-0000-0000-000000000000", [bakedId, "gone", "lost"], [],
    [("VehicleSaveData", ["dyn1", "lost"])]⟩

/-- The records of the example store: under the type "VehicleSaveData" a vehicle "dyn2" whose
blueprint is invalid, a vehicle "dyn1" with a valid blueprint and a vehicle "dyn3" whose load
fails; under "CharacterSaveData" a character with the baked identifier; under "Other" a record
that is no entity save-data. -/
def findAll (saveDataType : String) (_ids : List String) : Option (List EDF_DbEntity) :=
  if saveDataType = "VehicleSaveData" then
    some [⟨"VehicleSaveData", some ⟨"VehicleSaveData", "dyn2", ""⟩⟩,
      ⟨"VehicleSaveData", some ⟨"VehicleSaveData", "dyn1", "Car.et"⟩⟩,
      ⟨"VehicleSaveData", some ⟨"VehicleSaveData", "dyn3", "Wreck.et"⟩⟩]
  else if saveDataType = "CharacterSaveData" then
    some [⟨"CharacterSaveData", some ⟨"CharacterSaveData", bakedId, "Soldier.et"⟩⟩]
  else if saveDataType = "Other" then some [⟨"Other", none⟩]
  else none

/-- An example host with a store connection, hive 1 and the example store. Every blueprint
with a name is valid; spawning gives the instance 100 with the persistence component 20 (the
blueprint "Bare.et" the instance 101 without one, the blueprint "Ghost.et" none); the load of
the record "dyn3" fails. The operations leave the manager and the objects as they are. -/
def host : Host where
  CreateDbContext := fun _ => some ⟨0⟩
  GetHiveId := 1
  FindRootEntityCollection := fun _ id =>
    if id = "00EC0001-0000-0000-0000-000000000000" then some storedCollection else none
  FindAll := findAll
  resourceValid := fun prefab => prefab != ""
  SpawnEntityPrefab := fun w prefab =>
    (if prefab = "Ghost.et" then none else if prefab = "Bare.et" then some 101 else some 100, w)
  FindComponent := fun _ entity => if entity = 100 then some 20 else none
  Load := fun w _ saveData _ => (saveData.m_sId != "dyn3", w)
  DeleteEntityAndChildren := fun w _ => w

/-- The example host without a store connection. -/
def offlineHost : Host :=
  { host with CreateDbContext := fun _ => none }

/-- The example settings: autosave enabled, every 60 seconds, batch size 3. -/
def settings : EPF_PersistenceManagerComponentClass := ⟨true, 60, 3⟩

/-- A new manager somebody has subscribed to, with the object 1 waiting in the pending list. -/
def newWorld : World :=
  { world with mgr := { world.mgr with
    m_pOnStateChange := true
    m_aPendingEntityRegistrations := [some 1] } }

/-- The populated example manager with autosave disabled in the settings. -/
def manualWorld : World :=
  { busyWorld with mgr := { busyWorld.mgr with m_pSettings := some ⟨false, 60, 3⟩ } }

/-- The populated example manager with the object 5 and the free-standing state 4 waiting in
the pending lists, neither of them having an identifier yet. -/
def queuedWorld : World :=
  { busyWorld with mgr := { busyWorld.mgr with
    m_aPendingEntityRegistrations := [some 5]
    m_aPendingScriptedStateRegistrations := [some 4] } }

end Example

/-! ## Facts about script maps -/

namespace ScriptMap

variable {V : Type}

theorem contains_eq_isSome_find (m : ScriptMap V) (k : String) :
    m.Contains k = (m.Find k).isSome := by
  obtain ⟨l⟩ := m
  simp only [Contains, Find]
  induction l with
  | nil => rfl
  | cons e l ih =>
    obtain ⟨a, b⟩ := e
    by_cases h : k = a
    · subst h; simp [List.lookup]
    · have h1 : (k == a) = false := by simpa using h
      have h2 : (a == k) = false := by simpa using fun h3 : a = k => h h3.symm
      simp [List.lookup, h1, h2, ih]

theorem find_eq_none_of_not_contains (m : ScriptMap V) (k : String)
    (h : m.Contains k = false) : m.Find k = none := by
  rw [contains_eq_isSome_find] at h
  cases hf : m.Find k with
  | none => rfl
  | some v => rw [hf] at h; simp at h

theorem contains_of_find (m : ScriptMap V) (k : String) (v : V)
    (h : m.Find k = some v) : m.Contains k = true := by
  rw [contains_eq_isSome_find, h]; rfl

theorem lookup_cons_self (l : List (String × V)) (a : String) (b : V) :
    ((a, b) :: l).lookup a = some b := by
  simp [List.lookup_cons]

theorem lookup_cons_ne (l : List (String × V)) (a k : String) (b : V) (h : k ≠ a) :
    ((a, b) :: l).lookup k = l.lookup k := by
  have h1 : (k == a) = false := by simpa using h
  rw [List.lookup_cons, h1]

theorem find_remove_self (m : ScriptMap V) (k : String) : (m.Remove k).Find k = none := by
  obtain ⟨l⟩ := m
  simp only [Remove, Find]
  induction l with
  | nil => rfl
  | cons e l ih =>
    obtain ⟨a, b⟩ := e
    by_cases h : a = k
    · subst h
      have h1 : ((fun e : String × V => e.1 != a) (a, b)) = false := by simp
      rw [List.filter_cons_of_neg (by simp)]
      exact ih
    · rw [List.filter_cons_of_pos (by simpa using h)]
      rw [lookup_cons_ne _ _ _ _ (fun h3 : k = a => h h3.symm)]
      exact ih

theorem find_remove_ne (m : ScriptMap V) (k k' : String) (hne : k' ≠ k) :
    (m.Remove k).Find k' = m.Find k' := by
  obtain ⟨l⟩ := m
  simp only [Remove, Find]
  induction l with
  | nil => rfl
  | cons e l ih =>
    obtain ⟨a, b⟩ := e
    by_cases h : a = k
    · subst h
      rw [List.filter_cons_of_neg (by simp), lookup_cons_ne _ _ _ _ hne]
      exact ih
    · rw [List.filter_cons_of_pos (by simpa using h)]
      by_cases h2 : k' = a
      · subst h2; rw [lookup_cons_self, lookup_cons_self]
      · rw [lookup_cons_ne _ _ _ _ h2, lookup_cons_ne _ _ _ _ h2]
        exact ih

theorem contains_remove_self (m : ScriptMap V) (k : String) : (m.Remove k).Contains k = false := by
  rw [contains_eq_isSome_find, find_remove_self]; rfl

theorem contains_remove_ne (m : ScriptMap V) (k k' : String) (hne : k' ≠ k) :
    (m.Remove k).Contains k' = m.Contains k' := by
  rw [contains_eq_isSome_find, contains_eq_isSome_find, find_remove_ne m k k' hne]

theorem remove_of_not_contains (m : ScriptMap V) (k : String) (h : m.Contains k = false) :
    m.Remove k = m := by
  obtain ⟨l⟩ := m
  simp only [Remove, Contains] at *
  congr 1
  rw [List.filter_eq_self]
  intro e he
  simp only [List.any_eq_false] at h
  have := h e he
  simpa using this

theorem lookup_map_replace (l : List (String × V)) (k : String) (v : V)
    (h : (l.lookup k).isSome = true) :
    (l.map (fun e => if e.1 == k then (k, v) else e)).lookup k = some v := by
  induction l with
  | nil => simp at h
  | cons e l ih =>
    obtain ⟨a, b⟩ := e
    rw [List.map_cons]
    by_cases hk : a = k
    · subst hk
      have : (if ((a, b) : String × V).1 == a then (a, v) else (a, b)) = (a, v) := by simp
      rw [this, lookup_cons_self]
    · have : (if ((a, b) : String × V).1 == k then (k, v) else (a, b)) = (a, b) := by simp [hk]
      rw [this, lookup_cons_ne _ _ _ _ (fun h3 : k = a => hk h3.symm)]
      rw [lookup_cons_ne _ _ _ _ (fun h3 : k = a => hk h3.symm)] at h
      exact ih h

theorem lookup_map_replace_ne (l : List (String × V)) (k k' : String) (v : V) (hne : k' ≠ k) :
    (l.map (fun e => if e.1 == k then (k, v) else e)).lookup k' = l.lookup k' := by
  induction l with
  | nil => rfl
  | cons e l ih =>
    obtain ⟨a, b⟩ := e
    rw [List.map_cons]
    by_cases hk : a = k
    · subst hk
      have : (if ((a, b) : String × V).1 == a then (a, v) else (a, b)) = (a, v) := by simp
      rw [this, lookup_cons_ne _ _ _ _ hne, lookup_cons_ne _ _ _ _ hne]
      exact ih
    · have : (if ((a, b) : String × V).1 == k then (k, v) else (a, b)) = (a, b) := by simp [hk]
      rw [this]
      by_cases hk' : k' = a
      · subst hk'; rw [lookup_cons_self, lookup_cons_self]
      · rw [lookup_cons_ne _ _ _ _ hk', lookup_cons_ne _ _ _ _ hk']
        exact ih

theorem lookup_append_single (l : List (String × V)) (k k' : String) (v : V) :
    (l ++ [(k, v)]).lookup k' =
      match l.lookup k' with
      | some x => some x
      | none => if k' = k then some v else none := by
  induction l with
  | nil =>
    by_cases h : k' = k
    · subst h; simp [List.lookup_cons]
    · rw [List.nil_append, lookup_cons_ne _ _ _ _ h]
      simp [h]
  | cons e l ih =>
    obtain ⟨a, b⟩ := e
    rw [List.cons_append]
    by_cases hk' : k' = a
    · subst hk'; rw [lookup_cons_self, lookup_cons_self]
    · rw [lookup_cons_ne _ _ _ _ hk', lookup_cons_ne _ _ _ _ hk']
      exact ih

theorem find_set_self (m : ScriptMap V) (k : String) (v : V) : (m.Set k v).Find k = some v := by
  unfold Set
  by_cases h : m.Contains k = true
  · rw [if_pos h]
    rw [contains_eq_isSome_find] at h
    exact lookup_map_replace m.entries k v h
  · rw [if_neg h]
    have h' : m.Contains k = false := by simpa using h
    have hf := find_eq_none_of_not_contains m k h'
    simp only [Find] at hf ⊢
    rw [lookup_append_single, hf]; simp

theorem find_set_ne (m : ScriptMap V) (k k' : String) (v : V) (hne : k' ≠ k) :
    (m.Set k v).Find k' = m.Find k' := by
  unfold Set
  by_cases h : m.Contains k = true
  · rw [if_pos h]; exact lookup_map_replace_ne m.entries k k' v hne
  · rw [if_neg h]
    simp only [Find]
    rw [lookup_append_single]
    cases m.entries.lookup k' <;> simp [hne]

theorem contains_set_self (m : ScriptMap V) (k : String) (v : V) : (m.Set k v).Contains k = true := by
  rw [contains_eq_isSome_find, find_set_self]; rfl

theorem contains_set_ne (m : ScriptMap V) (k k' : String) (v : V) (hne : k' ≠ k) :
    (m.Set k v).Contains k' = m.Contains k' := by
  rw [contains_eq_isSome_find, contains_eq_isSome_find, find_set_ne m k k' v hne]

theorem contains_empty (k : String) : (ScriptMap.empty : ScriptMap V).Contains k = false := rfl

end ScriptMap

namespace EPF_PersistenceManager

/-! ## Facts about registration -/

theorem updateRootEntityCollection_shape (env : Env) (w : World) (ref : Ref) (id : String)
    (isRootEntity : Bool) (h : collectionAvailable w = true) :
    ∃ b c, UpdateRootEntityCollection env w ref id isRootEntity =
        some { w with mgr := { w.mgr with m_mBakedRoots := b, m_pRootEntityCollection := c } } ∧
      (c.isSome = w.mgr.m_pRootEntityCollection.isSome) := by
  unfold UpdateRootEntityCollection
  by_cases hs : w.mgr.m_eState.toNat < EPF_EPersistenceManagerState.ACTIVE.toNat
  · rw [if_pos hs]
    cases hb : w.mgr.m_mBakedRoots with
    | none => exact ⟨none, w.mgr.m_pRootEntityCollection, by simp [← hb], rfl⟩
    | some baked =>
      by_cases hf : EPF_BitFlags.CheckFlags (w.components ref).m_eFlags .BAKED = true
      · cases isRootEntity
        · exact ⟨some (baked.Remove id), w.mgr.m_pRootEntityCollection, by simp [hf], rfl⟩
        · exact ⟨some (baked.Set id ref), w.mgr.m_pRootEntityCollection, by simp [hf], rfl⟩
      · exact ⟨some baked, w.mgr.m_pRootEntityCollection, by simp [hf, ← hb], rfl⟩
  · rw [if_neg hs]
    have hc : w.mgr.m_pRootEntityCollection.isSome = true := by
      simpa [collectionAvailable, hs] using h
    cases hcol : w.mgr.m_pRootEntityCollection with
    | none => rw [hcol] at hc; simp at hc
    | some c => exact ⟨w.mgr.m_mBakedRoots, _, rfl, rfl⟩

/-! ## Facts about categorization -/

@[simp]
theorem categorize_m_pSettings (m : EPF_PersistenceManager) (c : EPF_PersistenceComponent) (ref : Ref)
    (id : String) (settings : EPF_PersistenceComponentClass) (isRootEntity : Bool) :
    (categorize m c ref id settings isRootEntity).m_pSettings = m.m_pSettings := by
  unfold categorize
  by_cases h1 : m.m_mRootAutoSave.Contains id = true <;>
  by_cases h2 : m.m_mRootShutdown.Contains id = true <;>
  by_cases h3 : EPF_BitFlags.CheckFlags c.m_eFlags .PERSISTENT_RECORD = true <;>
  cases settings.m_eSaveType <;> cases isRootEntity <;> simp [h1, h2, h3]

@[simp]
theorem categorize_m_eState (m : EPF_PersistenceManager) (c : EPF_PersistenceComponent) (ref : Ref)
    (id : String) (settings : EPF_PersistenceComponentClass) (isRootEntity : Bool) :
    (categorize m c ref id settings isRootEntity).m_eState = m.m_eState := by
  unfold categorize
  by_cases h1 : m.m_mRootAutoSave.Contains id = true <;>
  by_cases h2 : m.m_mRootShutdown.Contains id = true <;>
  by_cases h3 : EPF_BitFlags.CheckFlags c.m_eFlags .PERSISTENT_RECORD = true <;>
  cases settings.m_eSaveType <;> cases isRootEntity <;> simp [h1, h2, h3]

@[simp]
theorem categorize_m_pOnStateChange (m : EPF_PersistenceManager) (c : EPF_PersistenceComponent) (ref : Ref)
    (id : String) (settings : EPF_PersistenceComponentClass) (isRootEntity : Bool) :
    (categorize m c ref id settings isRootEntity).m_pOnStateChange = m.m_pOnStateChange := by
  unfold categorize
  by_cases h1 : m.m_mRootAutoSave.Contains id = true <;>
  by_cases h2 : m.m_mRootShutdown.Contains id = true <;>
  by_cases h3 : EPF_BitFlags.CheckFlags c.m_eFlags .PERSISTENT_RECORD = true <;>
  cases settings.m_eSaveType <;> cases isRootEntity <;> simp [h1, h2, h3]

@[simp]
theorem categorize_m_pDbContext (m : EPF_PersistenceManager) (c : EPF_PersistenceComponent) (ref : Ref)
    (id : String) (settings : EPF_PersistenceComponentClass) (isRootEntity : Bool) :
    (categorize m c ref id settings isRootEntity).m_pDbContext = m.m_pDbContext := by
  unfold categorize
  by_cases h1 : m.m_mRootAutoSave.Contains id = true <;>
  by_cases h2 : m.m_mRootShutdown.Contains id = true <;>
  by_cases h3 : EPF_BitFlags.CheckFlags c.m_eFlags .PERSISTENT_RECORD = true <;>
  cases settings.m_eSaveType <;> cases isRootEntity <;> simp [h1, h2, h3]

@[simp]
theorem categorize_m_aPendingEntityRegistrations (m : EPF_PersistenceManager) (c : EPF_PersistenceComponent) (ref : Ref)
    (id : String) (settings : EPF_PersistenceComponentClass) (isRootEntity : Bool) :
    (categorize m c ref id settings isRootEntity).m_aPendingEntityRegistrations = m.m_aPendingEntityRegistrations := by
  unfold categorize
  by_cases h1 : m.m_mRootAutoSave.Contains id = true <;>
  by_cases h2 : m.m_mRootShutdown.Contains id = true <;>
  by_cases h3 : EPF_BitFlags.CheckFlags c.m_eFlags .PERSISTENT_RECORD = true <;>
  cases settings.m_eSaveType <;> cases isRootEntity <;> simp [h1, h2, h3]

@[simp]
theorem categorize_m_aPendingScriptedStateRegistrations (m : EPF_PersistenceManager) (c : EPF_PersistenceComponent) (ref : Ref)
    (id : String) (settings : EPF_PersistenceComponentClass) (isRootEntity : Bool) :
    (categorize m c ref id settings isRootEntity).m_aPendingScriptedStateRegistrations = m.m_aPendingScriptedStateRegistrations := by
  unfold categorize
  by_cases h1 : m.m_mRootAutoSave.Contains id = true <;>
  by_cases h2 : m.m_mRootShutdown.Contains id = true <;>
  by_cases h3 : EPF_BitFlags.CheckFlags c.m_eFlags .PERSISTENT_RECORD = true <;>
  cases settings.m_eSaveType <;> cases isRootEntity <;> simp [h1, h2, h3]

@[simp]
theorem categorize_m_pRootEntityCollection (m : EPF_PersistenceManager) (c : EPF_PersistenceComponent) (ref : Ref)
    (id : String) (settings : EPF_PersistenceComponentClass) (isRootEntity : Bool) :
    (categorize m c ref id settings isRootEntity).m_pRootEntityCollection = m.m_pRootEntityCollection := by
  unfold categorize
  by_cases h1 : m.m_mRootAutoSave.Contains id = true <;>
  by_cases h2 : m.m_mRootShutdown.Contains id = true <;>
  by_cases h3 : EPF_BitFlags.CheckFlags c.m_eFlags .PERSISTENT_RECORD = true <;>
  cases settings.m_eSaveType <;> cases isRootEntity <;> simp [h1, h2, h3]

@[simp]
theorem categorize_m_mScriptedStateAutoSave (m : EPF_PersistenceManager) (c : EPF_PersistenceComponent) (ref : Ref)
    (id : String) (settings : EPF_PersistenceComponentClass) (isRootEntity : Bool) :
    (categorize m c ref id settings isRootEntity).m_mScriptedStateAutoSave = m.m_mScriptedStateAutoSave := by
  unfold categorize
  by_cases h1 : m.m_mRootAutoSave.Contains id = true <;>
  by_cases h2 : m.m_mRootShutdown.Contains id = true <;>
  by_cases h3 : EPF_BitFlags.CheckFlags c.m_eFlags .PERSISTENT_RECORD = true <;>
  cases settings.m_eSaveType <;> cases isRootEntity <;> simp [h1, h2, h3]

@[simp]
theorem categorize_m_mScriptedStateShutdown (m : EPF_PersistenceManager) (c : EPF_PersistenceComponent) (ref : Ref)
    (id : String) (settings : EPF_PersistenceComponentClass) (isRootEntity : Bool) :
    (categorize m c ref id settings isRootEntity).m_mScriptedStateShutdown = m.m_mScriptedStateShutdown := by
  unfold categorize
  by_cases h1 : m.m_mRootAutoSave.Contains id = true <;>
  by_cases h2 : m.m_mRootShutdown.Contains id = true <;>
  by_cases h3 : EPF_BitFlags.CheckFlags c.m_eFlags .PERSISTENT_RECORD = true <;>
  cases settings.m_eSaveType <;> cases isRootEntity <;> simp [h1, h2, h3]

@[simp]
theorem categorize_m_mScriptedStateUncategorized (m : EPF_PersistenceManager) (c : EPF_PersistenceComponent) (ref : Ref)
    (id : String) (settings : EPF_PersistenceComponentClass) (isRootEntity : Bool) :
    (categorize m c ref id settings isRootEntity).m_mScriptedStateUncategorized = m.m_mScriptedStateUncategorized := by
  unfold categorize
  by_cases h1 : m.m_mRootAutoSave.Contains id = true <;>
  by_cases h2 : m.m_mRootShutdown.Contains id = true <;>
  by_cases h3 : EPF_BitFlags.CheckFlags c.m_eFlags .PERSISTENT_RECORD = true <;>
  cases settings.m_eSaveType <;> cases isRootEntity <;> simp [h1, h2, h3]

@[simp]
theorem categorize_m_fAutoSaveAccumultor (m : EPF_PersistenceManager) (c : EPF_PersistenceComponent) (ref : Ref)
    (id : String) (settings : EPF_PersistenceComponentClass) (isRootEntity : Bool) :
    (categorize m c ref id settings isRootEntity).m_fAutoSaveAccumultor = m.m_fAutoSaveAccumultor := by
  unfold categorize
  by_cases h1 : m.m_mRootAutoSave.Contains id = true <;>
  by_cases h2 : m.m_mRootShutdown.Contains id = true <;>
  by_cases h3 : EPF_BitFlags.CheckFlags c.m_eFlags .PERSISTENT_RECORD = true <;>
  cases settings.m_eSaveType <;> cases isRootEntity <;> simp [h1, h2, h3]

@[simp]
theorem categorize_m_bAutoSaveActive (m : EPF_PersistenceManager) (c : EPF_PersistenceComponent) (ref : Ref)
    (id : String) (settings : EPF_PersistenceComponentClass) (isRootEntity : Bool) :
    (categorize m c ref id settings isRootEntity).m_bAutoSaveActive = m.m_bAutoSaveActive := by
  unfold categorize
  by_cases h1 : m.m_mRootAutoSave.Contains id = true <;>
  by_cases h2 : m.m_mRootShutdown.Contains id = true <;>
  by_cases h3 : EPF_BitFlags.CheckFlags c.m_eFlags .PERSISTENT_RECORD = true <;>
  cases settings.m_eSaveType <;> cases isRootEntity <;> simp [h1, h2, h3]

@[simp]
theorem categorize_m_iSaveOperation (m : EPF_PersistenceManager) (c : EPF_PersistenceComponent) (ref : Ref)
    (id : String) (settings : EPF_PersistenceComponentClass) (isRootEntity : Bool) :
    (categorize m c ref id settings isRootEntity).m_iSaveOperation = m.m_iSaveOperation := by
  unfold categorize
  by_cases h1 : m.m_mRootAutoSave.Contains id = true <;>
  by_cases h2 : m.m_mRootShutdown.Contains id = true <;>
  by_cases h3 : EPF_BitFlags.CheckFlags c.m_eFlags .PERSISTENT_RECORD = true <;>
  cases settings.m_eSaveType <;> cases isRootEntity <;> simp [h1, h2, h3]

@[simp]
theorem categorize_m_iAutoSaveEntityIt (m : EPF_PersistenceManager) (c : EPF_PersistenceComponent) (ref : Ref)
    (id : String) (settings : EPF_PersistenceComponentClass) (isRootEntity : Bool) :
    (categorize m c ref id settings isRootEntity).m_iAutoSaveEntityIt = m.m_iAutoSaveEntityIt := by
  unfold categorize
  by_cases h1 : m.m_mRootAutoSave.Contains id = true <;>
  by_cases h2 : m.m_mRootShutdown.Contains id = true <;>
  by_cases h3 : EPF_BitFlags.CheckFlags c.m_eFlags .PERSISTENT_RECORD = true <;>
  cases settings.m_eSaveType <;> cases isRootEntity <;> simp [h1, h2, h3]

@[simp]
theorem categorize_m_iAutoSaveScriptedStateIt (m : EPF_PersistenceManager) (c : EPF_PersistenceComponent) (ref : Ref)
    (id : String) (settings : EPF_PersistenceComponentClass) (isRootEntity : Bool) :
    (categorize m c ref id settings isRootEntity).m_iAutoSaveScriptedStateIt = m.m_iAutoSaveScriptedStateIt := by
  unfold categorize
  by_cases h1 : m.m_mRootAutoSave.Contains id = true <;>
  by_cases h2 : m.m_mRootShutdown.Contains id = true <;>
  by_cases h3 : EPF_BitFlags.CheckFlags c.m_eFlags .PERSISTENT_RECORD = true <;>
  cases settings.m_eSaveType <;> cases isRootEntity <;> simp [h1, h2, h3]

@[simp]
theorem categorize_m_mBakedRoots (m : EPF_PersistenceManager) (c : EPF_PersistenceComponent) (ref : Ref)
    (id : String) (settings : EPF_PersistenceComponentClass) (isRootEntity : Bool) :
    (categorize m c ref id settings isRootEntity).m_mBakedRoots = m.m_mBakedRoots := by
  unfold categorize
  by_cases h1 : m.m_mRootAutoSave.Contains id = true <;>
  by_cases h2 : m.m_mRootShutdown.Contains id = true <;>
  by_cases h3 : EPF_BitFlags.CheckFlags c.m_eFlags .PERSISTENT_RECORD = true <;>
  cases settings.m_eSaveType <;> cases isRootEntity <;> simp [h1, h2, h3]

@[simp]
theorem categorizeScriptedState_m_pSettings (m : EPF_PersistenceManager) (saveType : EPF_ESaveType)
    (ref : Ref) (id : String) :
    (categorizeScriptedState m saveType ref id).m_pSettings = m.m_pSettings := by
  cases saveType <;> rfl

@[simp]
theorem categorizeScriptedState_m_eState (m : EPF_PersistenceManager) (saveType : EPF_ESaveType)
    (ref : Ref) (id : String) :
    (categorizeScriptedState m saveType ref id).m_eState = m.m_eState := by
  cases saveType <;> rfl

@[simp]
theorem categorizeScriptedState_m_pOnStateChange (m : EPF_PersistenceManager) (saveType : EPF_ESaveType)
    (ref : Ref) (id : String) :
    (categorizeScriptedState m saveType ref id).m_pOnStateChange = m.m_pOnStateChange := by
  cases saveType <;> rfl

@[simp]
theorem categorizeScriptedState_m_pDbContext (m : EPF_PersistenceManager) (saveType : EPF_ESaveType)
    (ref : Ref) (id : String) :
    (categorizeScriptedState m saveType ref id).m_pDbContext = m.m_pDbContext := by
  cases saveType <;> rfl

@[simp]
theorem categorizeScriptedState_m_aPendingEntityRegistrations (m : EPF_PersistenceManager) (saveType : EPF_ESaveType)
    (ref : Ref) (id : String) :
    (categorizeScriptedState m saveType ref id).m_aPendingEntityRegistrations = m.m_aPendingEntityRegistrations := by
  cases saveType <;> rfl

@[simp]
theorem categorizeScriptedState_m_aPendingScriptedStateRegistrations (m : EPF_PersistenceManager) (saveType : EPF_ESaveType)
    (ref : Ref) (id : String) :
    (categorizeScriptedState m saveType ref id).m_aPendingScriptedStateRegistrations = m.m_aPendingScriptedStateRegistrations := by
  cases saveType <;> rfl

@[simp]
theorem categorizeScriptedState_m_pRootEntityCollection (m : EPF_PersistenceManager) (saveType : EPF_ESaveType)
    (ref : Ref) (id : String) :
    (categorizeScriptedState m saveType ref id).m_pRootEntityCollection = m.m_pRootEntityCollection := by
  cases saveType <;> rfl

@[simp]
theorem categorizeScriptedState_m_mRootAutoSave (m : EPF_PersistenceManager) (saveType : EPF_ESaveType)
    (ref : Ref) (id : String) :
    (categorizeScriptedState m saveType ref id).m_mRootAutoSave = m.m_mRootAutoSave := by
  cases saveType <;> rfl

@[simp]
theorem categorizeScriptedState_m_mRootShutdown (m : EPF_PersistenceManager) (saveType : EPF_ESaveType)
    (ref : Ref) (id : String) :
    (categorizeScriptedState m saveType ref id).m_mRootShutdown = m.m_mRootShutdown := by
  cases saveType <;> rfl

@[simp]
theorem categorizeScriptedState_m_mUncategorizedEntities (m : EPF_PersistenceManager) (saveType : EPF_ESaveType)
    (ref : Ref) (id : String) :
    (categorizeScriptedState m saveType ref id).m_mUncategorizedEntities = m.m_mUncategorizedEntities := by
  cases saveType <;> rfl

@[simp]
theorem categorizeScriptedState_m_fAutoSaveAccumultor (m : EPF_PersistenceManager) (saveType : EPF_ESaveType)
    (ref : Ref) (id : String) :
    (categorizeScriptedState m saveType ref id).m_fAutoSaveAccumultor = m.m_fAutoSaveAccumultor := by
  cases saveType <;> rfl

@[simp]
theorem categorizeScriptedState_m_bAutoSaveActive (m : EPF_PersistenceManager) (saveType : EPF_ESaveType)
    (ref : Ref) (id : String) :
    (categorizeScriptedState m saveType ref id).m_bAutoSaveActive = m.m_bAutoSaveActive := by
  cases saveType <;> rfl

@[simp]
theorem categorizeScriptedState_m_iSaveOperation (m : EPF_PersistenceManager) (saveType : EPF_ESaveType)
    (ref : Ref) (id : String) :
    (categorizeScriptedState m saveType ref id).m_iSaveOperation = m.m_iSaveOperation := by
  cases saveType <;> rfl

@[simp]
theorem categorizeScriptedState_m_iAutoSaveEntityIt (m : EPF_PersistenceManager) (saveType : EPF_ESaveType)
    (ref : Ref) (id : String) :
    (categorizeScriptedState m saveType ref id).m_iAutoSaveEntityIt = m.m_iAutoSaveEntityIt := by
  cases saveType <;> rfl

@[simp]
theorem categorizeScriptedState_m_iAutoSaveScriptedStateIt (m : EPF_PersistenceManager) (saveType : EPF_ESaveType)
    (ref : Ref) (id : String) :
    (categorizeScriptedState m saveType ref id).m_iAutoSaveScriptedStateIt = m.m_iAutoSaveScriptedStateIt := by
  cases saveType <;> rfl

@[simp]
theorem categorizeScriptedState_m_mBakedRoots (m : EPF_PersistenceManager) (saveType : EPF_ESaveType)
    (ref : Ref) (id : String) :
    (categorizeScriptedState m saveType ref id).m_mBakedRoots = m.m_mBakedRoots := by
  cases saveType <;> rfl

theorem heldOnlyBy_iff (a s u : ScriptMap Ref) (id : String) (ref : Ref) :
    heldOnlyBy a s u id ref = true ↔
      (a.Find id = none ∨ a.Find id = some ref) ∧ (s.Find id = none ∨ s.Find id = some ref) ∧
      (u.Find id = none ∨ u.Find id = some ref) := by
  simp [heldOnlyBy]

theorem probe_eq_of_first (a s u : ScriptMap Ref) (id : String) (ref : Ref)
    (h : a.Find id = some ref) : probe a s u id = some ref := by
  simp [probe, h]

theorem probe_eq_of_second (a s u : ScriptMap Ref) (id : String) (ref : Ref)
    (ha : a.Find id = none ∨ a.Find id = some ref) (h : s.Find id = some ref) :
    probe a s u id = some ref := by
  rcases ha with ha | ha <;> simp [probe, ha, h]

theorem probe_eq_of_third (a s u : ScriptMap Ref) (id : String) (ref : Ref)
    (ha : a.Find id = none ∨ a.Find id = some ref) (hs : s.Find id = none ∨ s.Find id = some ref)
    (h : u.Find id = some ref) : probe a s u id = some ref := by
  rcases ha with ha | ha <;> rcases hs with hs | hs <;> simp [probe, ha, hs, h]

theorem probe_categorize (m : EPF_PersistenceManager) (c : EPF_PersistenceComponent) (ref : Ref)
    (id : String) (settings : EPF_PersistenceComponentClass) (isRootEntity : Bool)
    (h : heldOnlyBy m.m_mRootAutoSave m.m_mRootShutdown m.m_mUncategorizedEntities id ref = true) :
    probe (categorize m c ref id settings isRootEntity).m_mRootAutoSave
      (categorize m c ref id settings isRootEntity).m_mRootShutdown
      (categorize m c ref id settings isRootEntity).m_mUncategorizedEntities id = some ref := by
  rw [heldOnlyBy_iff] at h
  obtain ⟨ha, hs, hu⟩ := h
  unfold categorize
  by_cases h1 : m.m_mRootAutoSave.Contains id = true <;>
  by_cases h2 : m.m_mRootShutdown.Contains id = true <;>
  by_cases h3 : EPF_BitFlags.CheckFlags c.m_eFlags .PERSISTENT_RECORD = true <;>
  cases settings.m_eSaveType <;> cases isRootEntity <;> simp only [h1, h2, h3, if_true, if_false] <;>
  first
    | exact probe_eq_of_first _ _ _ _ _ (ScriptMap.find_set_self _ _ _)
    | exact probe_eq_of_second _ _ _ _ _ ha (ScriptMap.find_set_self _ _ _)
    | exact probe_eq_of_second _ _ _ _ _ (Or.inl (ScriptMap.find_remove_self _ _)) (ScriptMap.find_set_self _ _ _)
    | exact probe_eq_of_third _ _ _ _ _ ha hs (ScriptMap.find_set_self _ _ _)
    | exact probe_eq_of_third _ _ _ _ _ (Or.inl (ScriptMap.find_remove_self _ _)) hs (ScriptMap.find_set_self _ _ _)
    | exact probe_eq_of_third _ _ _ _ _ ha (Or.inl (ScriptMap.find_remove_self _ _)) (ScriptMap.find_set_self _ _ _)

/-! ## Facts about flushing -/

theorem flushEntityRegistrations_identified (env : Env) (w : World) (l : List (Option Ref))
    (h : l.all (identified fun r => (w.components r).m_sId) = true) :
    flushEntityRegistrations env w l = some w := by
  induction l with
  | nil => rfl
  | cons o l ih =>
    rw [List.all_cons, Bool.and_eq_true] at h
    cases o with
    | none => simpa [flushEntityRegistrations] using ih h.2
    | some r =>
      have h1 : (w.components r).m_sId ≠ "" := by simpa [identified] using h.1
      simp only [flushEntityRegistrations, EPF_PersistenceComponent.GetPersistentId, h1,
        ne_eq, not_false_eq_true, if_true]
      exact ih h.2

theorem flushScriptedStateRegistrations_identified (env : Env) (w : World) (l : List (Option Ref))
    (h : l.all (identified fun r => (w.scriptedStates r).m_sId) = true) :
    flushScriptedStateRegistrations env w l = w := by
  induction l with
  | nil => rfl
  | cons o l ih =>
    rw [List.all_cons, Bool.and_eq_true] at h
    cases o with
    | none => simpa [flushScriptedStateRegistrations] using ih h.2
    | some r =>
      have h1 : (w.scriptedStates r).m_sId ≠ "" := by simpa [identified] using h.1
      simp only [flushScriptedStateRegistrations, EPF_PersistentScriptedState.GetPersistentId, h1,
        ne_eq, not_false_eq_true, if_true]
      exact ih h.2

theorem flushRegistrations_identified (env : Env) (w : World) (h : pendingIdentified w = true) :
    FlushRegistrations env w = some (clearPending w) := by
  rw [pendingIdentified, Bool.and_eq_true] at h
  unfold FlushRegistrations clearPending
  by_cases hs : w.mgr.m_eState.toNat ≥ EPF_EPersistenceManagerState.POST_INIT.toNat
  · simp only [hs, if_true, flushEntityRegistrations_identified env w _ h.1, Option.map_some']
    rw [flushScriptedStateRegistrations_identified]
    exact h.2
  · simp only [hs, if_false, Option.map_some']
    rw [flushScriptedStateRegistrations_identified env w _ h.2]

/-! ## Facts about `Register` -/

theorem registerPrep_mgr (env : Env) (w : World) (ref : Ref) (id : String) :
    (registerPrep env w ref id).mgr = w.mgr := by
  unfold registerPrep GetPersistentId generateId FlagAsBaked
  by_cases h1 : id = "" <;>
  by_cases h2 : w.mgr.m_eState.toNat < EPF_EPersistenceManagerState.SETUP.toNat <;>
  simp only [h1, h2, if_true, if_false] <;> split <;> rfl

theorem registerPrep_scriptedStates (env : Env) (w : World) (ref : Ref) (id : String) :
    (registerPrep env w ref id).scriptedStates = w.scriptedStates := by
  unfold registerPrep GetPersistentId generateId FlagAsBaked
  by_cases h1 : id = "" <;>
  by_cases h2 : w.mgr.m_eState.toNat < EPF_EPersistenceManagerState.SETUP.toNat <;>
  simp only [h1, h2, if_true, if_false] <;> split <;> rfl

theorem registerPrep_trace (env : Env) (w : World) (ref : Ref) (id : String) :
    (registerPrep env w ref id).trace = w.trace := by
  unfold registerPrep GetPersistentId generateId FlagAsBaked
  by_cases h1 : id = "" <;>
  by_cases h2 : w.mgr.m_eState.toNat < EPF_EPersistenceManagerState.SETUP.toNat <;>
  simp only [h1, h2, if_true, if_false] <;> split <;> rfl

theorem registerPrep_m_sId (env : Env) (w : World) (ref : Ref) (id : String) (r : Ref) :
    ((registerPrep env w ref id).components r).m_sId = (w.components r).m_sId := by
  unfold registerPrep GetPersistentId generateId FlagAsBaked
  by_cases h1 : id = "" <;>
  by_cases h2 : w.mgr.m_eState.toNat < EPF_EPersistenceManagerState.SETUP.toNat <;>
  simp only [h1, h2, if_true, if_false] <;> split <;>
  first
    | rfl
    | (by_cases h3 : r = ref
       · subst h3; simp
       · simp [Function.update_noteq h3])

theorem registerPrep_settings (env : Env) (w : World) (ref : Ref) (id : String) (r : Ref) :
    ((registerPrep env w ref id).components r).settings = (w.components r).settings := by
  unfold registerPrep GetPersistentId generateId FlagAsBaked
  by_cases h1 : id = "" <;>
  by_cases h2 : w.mgr.m_eState.toNat < EPF_EPersistenceManagerState.SETUP.toNat <;>
  simp only [h1, h2, if_true, if_false] <;> split <;>
  first
    | rfl
    | (by_cases h3 : r = ref
       · subst h3; simp
       · simp [Function.update_noteq h3])

theorem registerId_explicit (env : Env) (w : World) (ref : Ref) (id : String) (h : id ≠ "") :
    registerId env w ref id = id := by
  simp [registerId, h]

/-- `Register` on an object with an owner: the identifier it returns and the world it leaves,
up to the baked-roots working set and the Root Entity Collection. -/
theorem register_shape (env : Env) (w : World) (ref : Ref) (id : String)
    (ho : (w.components ref).m_pOwner.isSome = true) (hc : collectionAvailable w = true) :
    ∃ b c, Register env w ref id = some (registerId env w ref id,
        { registerPrep env w ref id with mgr :=
          { registerBuckets env w ref id with m_mBakedRoots := b, m_pRootEntityCollection := c } }) ∧
      c.isSome = w.mgr.m_pRootEntityCollection.isSome := by
  have hm := registerPrep_mgr env w ref id
  have hc2 : collectionAvailable
      { registerPrep env w ref id with mgr := registerBuckets env w ref id } = true := by
    simpa [collectionAvailable, registerBuckets, hm] using hc
  obtain ⟨b, c, h1, h2⟩ := updateRootEntityCollection_shape env _ ref (registerId env w ref id)
    (EPF_BitFlags.CheckFlags ((registerPrep env w ref id).components ref).m_eFlags .ROOT) hc2
  refine ⟨b, c, ?_, by simpa [registerBuckets, hm] using h2⟩
  cases hown : (w.components ref).m_pOwner with
  | none => rw [hown] at ho; simp at ho
  | some o =>
    simp only [Register, hown, UpdateRootStatus]
    simp only [registerPrep, registerId, registerBuckets] at h1 ⊢
    rw [h1]
    simp

theorem registerScriptedState_explicit (env : Env) (w : World) (ref : Ref) (id : String)
    (hid : id ≠ "") :
    RegisterScriptedState env w ref id = (id,
      { w with
        mgr := categorizeScriptedState w.mgr
          (env.scriptedStateSaveType (scriptedStateTarget (w.scriptedStates ref))) ref id }) := by
  simp [RegisterScriptedState, hid]

theorem probe_categorizeScriptedState (m : EPF_PersistenceManager) (saveType : EPF_ESaveType)
    (ref : Ref) (id : String)
    (h : heldOnlyBy m.m_mScriptedStateAutoSave m.m_mScriptedStateShutdown
      m.m_mScriptedStateUncategorized id ref = true) :
    probe (categorizeScriptedState m saveType ref id).m_mScriptedStateAutoSave
      (categorizeScriptedState m saveType ref id).m_mScriptedStateShutdown
      (categorizeScriptedState m saveType ref id).m_mScriptedStateUncategorized id = some ref := by
  rw [heldOnlyBy_iff] at h
  obtain ⟨ha, hs, hu⟩ := h
  cases saveType
  · exact probe_eq_of_third _ _ _ _ _ ha hs (ScriptMap.find_set_self _ _ _)
  · exact probe_eq_of_first _ _ _ _ _ (ScriptMap.find_set_self _ _ _)
  · exact probe_eq_of_second _ _ _ _ _ ha (ScriptMap.find_set_self _ _ _)

/-! ## What a registration changes -/

theorem find_categorize_ne (m : EPF_PersistenceManager) (c : EPF_PersistenceComponent) (ref : Ref)
    (id : String) (settings : EPF_PersistenceComponentClass) (isRootEntity : Bool) (k : String)
    (hk : k ≠ id) :
    (categorize m c ref id settings isRootEntity).m_mRootAutoSave.Find k = m.m_mRootAutoSave.Find k ∧
    (categorize m c ref id settings isRootEntity).m_mRootShutdown.Find k = m.m_mRootShutdown.Find k ∧
    (categorize m c ref id settings isRootEntity).m_mUncategorizedEntities.Find k =
      m.m_mUncategorizedEntities.Find k ∧
    (categorize m c ref id settings isRootEntity).m_mRootAutoSaveCleanup.Find k =
      m.m_mRootAutoSaveCleanup.Find k ∧
    (categorize m c ref id settings isRootEntity).m_mRootShutdownCleanup.Find k =
      m.m_mRootShutdownCleanup.Find k := by
  unfold categorize
  by_cases h1 : m.m_mRootAutoSave.Contains id = true <;>
  by_cases h2 : m.m_mRootShutdown.Contains id = true <;>
  by_cases h3 : EPF_BitFlags.CheckFlags c.m_eFlags .PERSISTENT_RECORD = true <;>
  cases settings.m_eSaveType <;> cases isRootEntity <;>
  simp [h1, h2, h3, ScriptMap.find_set_ne _ _ _ _ hk, ScriptMap.find_remove_ne _ _ _ hk]

theorem entityBucket_categorize_self (m : EPF_PersistenceManager) (c : EPF_PersistenceComponent)
    (ref : Ref) (id : String) (settings : EPF_PersistenceComponentClass) (isRootEntity : Bool) :
    (entityBucket (categorize m c ref id settings isRootEntity) settings.m_eSaveType
      isRootEntity).Find id = some ref := by
  unfold categorize
  by_cases h1 : m.m_mRootAutoSave.Contains id = true <;>
  by_cases h2 : m.m_mRootShutdown.Contains id = true <;>
  by_cases h3 : EPF_BitFlags.CheckFlags c.m_eFlags .PERSISTENT_RECORD = true <;>
  cases settings.m_eSaveType <;> cases isRootEntity <;>
  simp [h1, h2, h3, entityBucket, ScriptMap.find_set_self]

theorem find_categorizeScriptedState_ne (m : EPF_PersistenceManager) (saveType : EPF_ESaveType)
    (ref : Ref) (id : String) (k : String) (hk : k ≠ id) :
    (categorizeScriptedState m saveType ref id).m_mScriptedStateAutoSave.Find k =
      m.m_mScriptedStateAutoSave.Find k ∧
    (categorizeScriptedState m saveType ref id).m_mScriptedStateShutdown.Find k =
      m.m_mScriptedStateShutdown.Find k ∧
    (categorizeScriptedState m saveType ref id).m_mScriptedStateUncategorized.Find k =
      m.m_mScriptedStateUncategorized.Find k ∧
    (categorizeScriptedState m saveType ref id).m_mRootAutoSaveCleanup.Find k =
      m.m_mRootAutoSaveCleanup.Find k ∧
    (categorizeScriptedState m saveType ref id).m_mRootShutdownCleanup.Find k =
      m.m_mRootShutdownCleanup.Find k := by
  cases saveType <;>
  simp [categorizeScriptedState, ScriptMap.find_set_ne _ _ _ _ hk, ScriptMap.find_remove_ne _ _ _ hk]

theorem scriptedStateBucket_categorize_self (m : EPF_PersistenceManager) (saveType : EPF_ESaveType)
    (ref : Ref) (id : String) :
    (scriptedStateBucket (categorizeScriptedState m saveType ref id) saveType).Find id = some ref := by
  cases saveType <;> simp [categorizeScriptedState, scriptedStateBucket, ScriptMap.find_set_self]

theorem registerPrep_owner (env : Env) (w : World) (ref : Ref) (id : String) (r : Ref) :
    ((registerPrep env w ref id).components r).m_pOwner = (w.components r).m_pOwner := by
  unfold registerPrep GetPersistentId generateId FlagAsBaked
  by_cases h1 : id = "" <;>
  by_cases h2 : w.mgr.m_eState.toNat < EPF_EPersistenceManagerState.SETUP.toNat <;>
  simp only [h1, h2, if_true, if_false] <;> split <;>
  first
    | rfl
    | (by_cases h3 : r = ref
       · subst h3; simp
       · simp [Function.update_noteq h3])

theorem registerPrep_flags (env : Env) (w : World) (ref : Ref) (id : String) (r : Ref)
    (f : EPF_EPersistenceFlags) (hf : f ≠ .BAKED) :
    EPF_BitFlags.CheckFlags ((registerPrep env w ref id).components r).m_eFlags f =
      EPF_BitFlags.CheckFlags (w.components r).m_eFlags f := by
  unfold registerPrep GetPersistentId generateId FlagAsBaked
  by_cases h1 : id = "" <;>
  by_cases h2 : w.mgr.m_eState.toNat < EPF_EPersistenceManagerState.SETUP.toNat <;>
  simp only [h1, h2, if_true, if_false] <;> split <;>
  first
    | rfl
    | (by_cases h3 : r = ref
       · subst h3; cases f <;> simp [EPF_BitFlags.CheckFlags] at hf ⊢
       · simp [Function.update_noteq h3])

theorem registerPrep_idHistory_mint (env : Env) (w : World) (ref : Ref) :
    (registerPrep env w ref "").idHistory = w.idHistory ++ [mintArg w ref] := by
  unfold registerPrep GetPersistentId generateId FlagAsBaked mintArg
  by_cases h2 : w.mgr.m_eState.toNat < EPF_EPersistenceManagerState.SETUP.toNat <;>
  simp only [h2, if_true, if_false] <;> split <;> rfl

theorem registerPrep_idHistory_explicit (env : Env) (w : World) (ref : Ref) (id : String)
    (hid : id ≠ "") : (registerPrep env w ref id).idHistory = w.idHistory := by
  unfold registerPrep FlagAsBaked
  simp only [hid, if_false]
  split <;> rfl

theorem registerId_mint (env : Env) (w : World) (ref : Ref) :
    registerId env w ref "" = env.Generate w.idHistory (mintArg w ref) := by
  unfold registerId GetPersistentId generateId mintArg
  by_cases h2 : w.mgr.m_eState.toNat < EPF_EPersistenceManagerState.SETUP.toNat <;>
  simp [h2]

theorem entityBucket_with (m : EPF_PersistenceManager) (b : Option (ScriptMap Ref))
    (c : Option EPF_PersistentRootEntityCollection) (p : EPF_ESaveType) (root : Bool) :
    entityBucket { m with m_mBakedRoots := b, m_pRootEntityCollection := c } p root =
      entityBucket m p root := by
  cases p <;> cases root <;> rfl

/-- What `Register` does for an entity-backed object that has an owner: it returns the
identifier it worked with, files the object under it in the bucket of its policy and root
status, and leaves every other key of the buckets and cleanup sets alone. -/
theorem register_spec (env : Env) (w : World) (ref : Ref) (id : String)
    (ho : (w.components ref).m_pOwner.isSome = true) (hc : collectionAvailable w = true) :
    ∃ w', Register env w ref id = some (registerId env w ref id, w') ∧
      w'.mgr.m_eState = w.mgr.m_eState ∧
      w'.mgr.m_pRootEntityCollection.isSome = w.mgr.m_pRootEntityCollection.isSome ∧
      w'.idHistory = (registerPrep env w ref id).idHistory ∧
      (∀ r, (w'.components r).m_pOwner = (w.components r).m_pOwner) ∧
      (∀ r, (w'.components r).settings = (w.components r).settings) ∧
      (∀ r f, f ≠ EPF_EPersistenceFlags.BAKED →
        EPF_BitFlags.CheckFlags (w'.components r).m_eFlags f =
          EPF_BitFlags.CheckFlags (w.components r).m_eFlags f) ∧
      (entityBucket w'.mgr (w.components ref).settings.m_eSaveType
        (EPF_BitFlags.CheckFlags (w.components ref).m_eFlags .ROOT)).Find
          (registerId env w ref id) = some ref ∧
      (∀ k, k ≠ registerId env w ref id →
        w'.mgr.m_mRootAutoSave.Find k = w.mgr.m_mRootAutoSave.Find k ∧
        w'.mgr.m_mRootShutdown.Find k = w.mgr.m_mRootShutdown.Find k ∧
        w'.mgr.m_mUncategorizedEntities.Find k = w.mgr.m_mUncategorizedEntities.Find k ∧
        w'.mgr.m_mRootAutoSaveCleanup.Find k = w.mgr.m_mRootAutoSaveCleanup.Find k ∧
        w'.mgr.m_mRootShutdownCleanup.Find k = w.mgr.m_mRootShutdownCleanup.Find k) := by
  obtain ⟨b, c, hreg, hcs⟩ := register_shape env w ref id ho hc
  have hm := registerPrep_mgr env w ref id
  refine ⟨_, hreg, ?_, hcs, rfl, ?_, ?_, ?_, ?_, ?_⟩
  · simp [registerBuckets, hm]
  · intro r; exact registerPrep_owner env w ref id r
  · intro r; exact registerPrep_settings env w ref id r
  · intro r f hf; exact registerPrep_flags env w ref id r f hf
  · have h := entityBucket_categorize_self (registerPrep env w ref id).mgr
      ((registerPrep env w ref id).components ref) ref (registerId env w ref id)
      ((registerPrep env w ref id).components ref).settings
      (EPF_BitFlags.CheckFlags ((registerPrep env w ref id).components ref).m_eFlags .ROOT)
    rw [registerPrep_settings, registerPrep_flags env w ref id ref .ROOT (by decide)] at h
    refine Eq.trans ?_ h
    refine congrArg (fun m => ScriptMap.Find m (registerId env w ref id)) ?_
    refine (entityBucket_with _ b c _ _).trans ?_
    unfold registerBuckets
    simp only [registerPrep_settings, registerPrep_flags env w ref id ref .ROOT (by decide)]
  · intro k hk
    have h := find_categorize_ne (registerPrep env w ref id).mgr
      ((registerPrep env w ref id).components ref) ref (registerId env w ref id)
      ((registerPrep env w ref id).components ref).settings
      (EPF_BitFlags.CheckFlags ((registerPrep env w ref id).components ref).m_eFlags .ROOT) k hk
    exact ⟨h.1.trans (by rw [hm]), h.2.1.trans (by rw [hm]), h.2.2.1.trans (by rw [hm]),
      h.2.2.2.1.trans (by rw [hm]), h.2.2.2.2.trans (by rw [hm])⟩

theorem entityBucket_find_congr (m m' : EPF_PersistenceManager) (p : EPF_ESaveType) (root : Bool)
    (k : String)
    (h : m'.m_mRootAutoSave.Find k = m.m_mRootAutoSave.Find k ∧
      m'.m_mRootShutdown.Find k = m.m_mRootShutdown.Find k ∧
      m'.m_mUncategorizedEntities.Find k = m.m_mUncategorizedEntities.Find k) :
    (entityBucket m' p root).Find k = (entityBucket m p root).Find k := by
  cases p <;> cases root <;> simp [entityBucket, h.1, h.2.1, h.2.2]

theorem scriptedStateBucket_find_congr (m m' : EPF_PersistenceManager) (p : EPF_ESaveType)
    (k : String)
    (h : m'.m_mScriptedStateAutoSave.Find k = m.m_mScriptedStateAutoSave.Find k ∧
      m'.m_mScriptedStateShutdown.Find k = m.m_mScriptedStateShutdown.Find k ∧
      m'.m_mScriptedStateUncategorized.Find k = m.m_mScriptedStateUncategorized.Find k) :
    (scriptedStateBucket m' p).Find k = (scriptedStateBucket m p).Find k := by
  cases p <;> simp [scriptedStateBucket, h.1, h.2.1, h.2.2]

theorem registerScriptedState_mint (env : Env) (w : World) (ref : Ref) :
    RegisterScriptedState env w ref "" = (env.Generate w.idHistory none,
      { w with
        idHistory := w.idHistory ++ [none]
        mgr := categorizeScriptedState w.mgr
          (env.scriptedStateSaveType (scriptedStateTarget (w.scriptedStates ref))) ref
          (env.Generate w.idHistory none) }) := by
  simp [RegisterScriptedState, GetPersistentIdScriptedState, generateId]

theorem registerScriptedState_mint_spec (env : Env) (w : World) (sref : Ref) :
    ∃ w', RegisterScriptedState env w sref "" = (env.Generate w.idHistory none, w') ∧
      w'.scriptedStates = w.scriptedStates ∧
      w'.idHistory = w.idHistory ++ [none] ∧
      (scriptedStateBucket w'.mgr
        (env.scriptedStateSaveType (scriptedStateTarget (w.scriptedStates sref)))).Find
          (env.Generate w.idHistory none) = some sref ∧
      (∀ k, k ≠ env.Generate w.idHistory none →
        w'.mgr.m_mScriptedStateAutoSave.Find k = w.mgr.m_mScriptedStateAutoSave.Find k ∧
        w'.mgr.m_mScriptedStateShutdown.Find k = w.mgr.m_mScriptedStateShutdown.Find k ∧
        w'.mgr.m_mScriptedStateUncategorized.Find k = w.mgr.m_mScriptedStateUncategorized.Find k) := by
  refine ⟨_, registerScriptedState_mint env w sref, rfl, rfl, ?_, ?_⟩
  · exact scriptedStateBucket_categorize_self _ _ _ _
  · intro k hk
    have h := find_categorizeScriptedState_ne w.mgr
      (env.scriptedStateSaveType (scriptedStateTarget (w.scriptedStates sref))) sref
      (env.Generate w.idHistory none) k hk
    exact ⟨h.1, h.2.1, h.2.2.1⟩

/-! ## Flushing leaves identifiers in use alone -/

theorem bucketsAgreeAt_refl (m : EPF_PersistenceManager) (k : String) : bucketsAgreeAt m m k :=
  ⟨rfl, rfl, rfl, rfl, rfl, rfl⟩

theorem bucketsAgreeAt_trans (m m1 m2 : EPF_PersistenceManager) (k : String)
    (h1 : bucketsAgreeAt m m1 k) (h2 : bucketsAgreeAt m1 m2 k) : bucketsAgreeAt m m2 k :=
  ⟨h2.1.trans h1.1, h2.2.1.trans h1.2.1, h2.2.2.1.trans h1.2.2.1, h2.2.2.2.1.trans h1.2.2.2.1,
    h2.2.2.2.2.1.trans h1.2.2.2.2.1, h2.2.2.2.2.2.trans h1.2.2.2.2.2⟩

theorem registerPrep_idHistory_ext (env : Env) (w : World) (ref : Ref) (id : String) :
    ∃ pre, (registerPrep env w ref id).idHistory = w.idHistory ++ pre := by
  by_cases h : id = ""
  · subst h; exact ⟨_, registerPrep_idHistory_mint env w ref⟩
  · exact ⟨[], by rw [registerPrep_idHistory_explicit env w ref id h, List.append_nil]⟩

/-- `Register` returns and leaves every key other than the identifier it files alone, in all
six buckets. -/
theorem register_keeps_other (env : Env) (w : World) (ref : Ref) (id k : String)
    (hc : collectionAvailable w = true) (hk : k ≠ registerId env w ref id) :
    ∃ r, Register env w ref id = some r ∧ bucketsAgreeAt w.mgr r.2.mgr k ∧
      collectionAvailable r.2 = true ∧ (∃ pre, r.2.idHistory = w.idHistory ++ pre) := by
  cases hown : (w.components ref).m_pOwner with
  | none =>
    exact ⟨("", w), by simp [Register, hown], bucketsAgreeAt_refl _ _, hc, [], by simp⟩
  | some o =>
    have ho : (w.components ref).m_pOwner.isSome = true := by rw [hown]; rfl
    obtain ⟨b, c, hreg, hcs⟩ := register_shape env w ref id ho hc
    have hm := registerPrep_mgr env w ref id
    refine ⟨_, hreg, ?_, ?_, registerPrep_idHistory_ext env w ref id⟩
    · have h := find_categorize_ne (registerPrep env w ref id).mgr
        ((registerPrep env w ref id).components ref) ref (registerId env w ref id)
        ((registerPrep env w ref id).components ref).settings
        (EPF_BitFlags.CheckFlags ((registerPrep env w ref id).components ref).m_eFlags .ROOT) k hk
      refine ⟨h.1.trans (by rw [hm]), h.2.1.trans (by rw [hm]), h.2.2.1.trans (by rw [hm]),
        ?_, ?_, ?_⟩
      · show (registerBuckets env w ref id).m_mScriptedStateAutoSave.Find k = _
        simp [registerBuckets, hm]
      · show (registerBuckets env w ref id).m_mScriptedStateShutdown.Find k = _
        simp [registerBuckets, hm]
      · show (registerBuckets env w ref id).m_mScriptedStateUncategorized.Find k = _
        simp [registerBuckets, hm]
    · simpa [collectionAvailable, registerBuckets, hm, hcs] using hc

theorem probe_congr (m m1 : EPF_PersistenceManager) (k : String) (h : bucketsAgreeAt m m1 k) :
    probe m1.m_mRootAutoSave m1.m_mRootShutdown m1.m_mUncategorizedEntities k =
      probe m.m_mRootAutoSave m.m_mRootShutdown m.m_mUncategorizedEntities k ∧
    probe m1.m_mScriptedStateAutoSave m1.m_mScriptedStateShutdown
        m1.m_mScriptedStateUncategorized k =
      probe m.m_mScriptedStateAutoSave m.m_mScriptedStateShutdown
        m.m_mScriptedStateUncategorized k := by
  obtain ⟨h1, h2, h3, h4, h5, h6⟩ := h
  simp [probe, h1, h2, h3, h4, h5, h6]

/-! ## Flushing leaves the identifiers it does not hand out alone -/

theorem component_getPersistentId_agree (env : Env) (w : World) (ref : Ref) (k : String)
    (hc : collectionAvailable w = true) :
    ∃ r, EPF_PersistenceComponent.GetPersistentId env w ref = some r ∧
      (((w.components ref).m_sId = "" → k ≠ r.1) → bucketsAgreeAt w.mgr r.2.mgr k) ∧
      collectionAvailable r.2 = true := by
  by_cases hid : (w.components ref).m_sId = ""
  · cases hown : (w.components ref).m_pOwner with
    | none =>
      have he : ∃ r1, EPF_PersistenceComponent.GetPersistentId env w ref = some r1 ∧
          r1.2.mgr = w.mgr := by
        simp [EPF_PersistenceComponent.GetPersistentId, hid, Register, hown]
      obtain ⟨r1, hr1, hm1⟩ := he
      refine ⟨r1, hr1, fun _ => ?_, ?_⟩
      · rw [hm1]; exact bucketsAgreeAt_refl _ _
      · unfold collectionAvailable at hc ⊢
        rw [hm1]; exact hc
    | some o =>
      have ho : (w.components ref).m_pOwner.isSome = true := by rw [hown]; rfl
      obtain ⟨b, c, hreg, hcs⟩ := register_shape env w ref "" ho hc
      have he : ∃ r1, EPF_PersistenceComponent.GetPersistentId env w ref = some r1 ∧
          r1.1 = registerId env w ref "" ∧
          r1.2.mgr = { registerBuckets env w ref "" with
            m_mBakedRoots := b, m_pRootEntityCollection := c } := by
        simp [EPF_PersistenceComponent.GetPersistentId, hid, hreg]
      obtain ⟨r1, hr1, h1, hm1⟩ := he
      refine ⟨r1, hr1, ?_, ?_⟩
      · intro hk
        have hk1 : k ≠ registerId env w ref "" := by rw [← h1]; exact hk hid
        obtain ⟨r, hr, ha, _, _⟩ := register_keeps_other env w ref "" k hc hk1
        rw [hreg] at hr
        have hr2 : r.2.mgr = r1.2.mgr := by
          rw [hm1, ← Option.some.inj hr]
        rw [← hr2]; exact ha
      · have hm := registerPrep_mgr env w ref ""
        unfold collectionAvailable
        rw [hm1]
        simpa [collectionAvailable, registerBuckets, hm, hcs] using hc
  · exact ⟨((w.components ref).m_sId, w),
      by simp [EPF_PersistenceComponent.GetPersistentId, hid],
      fun _ => bucketsAgreeAt_refl _ _, hc⟩

theorem flushEntityRegistrations_agree (env : Env) (k : String) (l : List (Option Ref)) :
    ∀ w, collectionAvailable w = true →
      ∃ w1, flushEntityRegistrations env w l = some w1 ∧
        (k ∉ flushEntityMints env w l → bucketsAgreeAt w.mgr w1.mgr k) ∧
        collectionAvailable w1 = true := by
  induction l with
  | nil => intro w hc; exact ⟨w, rfl, fun _ => bucketsAgreeAt_refl _ _, hc⟩
  | cons o l ih =>
    intro w hc
    cases o with
    | none => simpa [flushEntityRegistrations, flushEntityMints] using ih w hc
    | some ref =>
      obtain ⟨r, hr, ha, hcr⟩ := component_getPersistentId_agree env w ref k hc
      obtain ⟨w1, hw1, ha1, hc1⟩ := ih r.2 hcr
      refine ⟨w1, by simp [flushEntityRegistrations, hr, hw1], ?_, hc1⟩
      intro hk
      simp only [flushEntityMints, hr, List.mem_append, not_or] at hk
      refine bucketsAgreeAt_trans _ _ _ _ (ha ?_) (ha1 hk.2)
      intro hid h
      apply hk.1
      simp [hid, h]

theorem scriptedState_getPersistentId_agree (env : Env) (w : World) (ref : Ref) (k : String)
    (hc : collectionAvailable w = true) :
    (((w.scriptedStates ref).m_sId = "" →
        k ≠ (EPF_PersistentScriptedState.GetPersistentId env w ref).1) →
      bucketsAgreeAt w.mgr (EPF_PersistentScriptedState.GetPersistentId env w ref).2.mgr k) ∧
      collectionAvailable (EPF_PersistentScriptedState.GetPersistentId env w ref).2 = true := by
  by_cases hid : (w.scriptedStates ref).m_sId = ""
  · simp only [EPF_PersistentScriptedState.GetPersistentId, hid, ne_eq, not_true_eq_false,
      if_false, registerScriptedState_mint]
    refine ⟨?_, ?_⟩
    · intro hk
      have hk1 : k ≠ env.Generate w.idHistory none := hk trivial
      have h := find_categorizeScriptedState_ne w.mgr
        (env.scriptedStateSaveType (scriptedStateTarget (w.scriptedStates ref))) ref
        (env.Generate w.idHistory none) k hk1
      refine ⟨?_, ?_, ?_, h.1, h.2.1, h.2.2.1⟩
      · simp
      · simp
      · simp
    · simpa [collectionAvailable] using hc
  · simp only [EPF_PersistentScriptedState.GetPersistentId, hid, ne_eq, not_false_eq_true,
      if_true]
    exact ⟨fun _ => bucketsAgreeAt_refl _ _, hc⟩

theorem flushScriptedStateRegistrations_agree (env : Env) (k : String)
    (l : List (Option Ref)) :
    ∀ w, collectionAvailable w = true →
      (k ∉ flushScriptedStateMints env w l →
        bucketsAgreeAt w.mgr (flushScriptedStateRegistrations env w l).mgr k) ∧
        collectionAvailable (flushScriptedStateRegistrations env w l) = true := by
  induction l with
  | nil =>
    intro w hc
    exact ⟨fun _ => bucketsAgreeAt_refl _ _, hc⟩
  | cons o l ih =>
    intro w hc
    cases o with
    | none => simpa [flushScriptedStateRegistrations, flushScriptedStateMints] using ih w hc
    | some ref =>
      obtain ⟨ha, hcr⟩ := scriptedState_getPersistentId_agree env w ref k hc
      obtain ⟨ha1, hc1⟩ := ih _ hcr
      refine ⟨?_, hc1⟩
      intro hk
      simp only [flushScriptedStateMints, List.mem_append, not_or] at hk
      refine bucketsAgreeAt_trans _ _ _ _ (ha ?_) (ha1 hk.2)
      intro hid h
      apply hk.1
      simp [hid, h]

/-- `FlushRegistrations` returns, and an identifier it does not hand out to a pending object
is filed afterwards as it was before, in all six buckets. -/
theorem flushRegistrations_agree (env : Env) (w : World) (k : String)
    (hc : collectionAvailable w = true) (hk : k ∉ flushMints env w) :
    ∃ w1, FlushRegistrations env w = some w1 ∧ bucketsAgreeAt w.mgr w1.mgr k := by
  unfold FlushRegistrations
  unfold flushMints at hk
  by_cases hs : w.mgr.m_eState.toNat ≥ EPF_EPersistenceManagerState.POST_INIT.toNat
  · obtain ⟨w1, hw1, ha1, hc1⟩ :=
      flushEntityRegistrations_agree env k w.mgr.m_aPendingEntityRegistrations w hc
    have hc1' : collectionAvailable
        { w1 with mgr := { w1.mgr with m_aPendingEntityRegistrations := [] } } = true := by
      simpa [collectionAvailable] using hc1
    obtain ⟨ha2, _⟩ := flushScriptedStateRegistrations_agree env k
      w1.mgr.m_aPendingScriptedStateRegistrations
      { w1 with mgr := { w1.mgr with m_aPendingEntityRegistrations := [] } } hc1'
    simp only [hs, if_true, hw1, List.mem_append, not_or] at hk
    simp only [hs, if_true, hw1, Option.map_some']
    exact ⟨_, rfl, bucketsAgreeAt_trans _ _ _ _ (ha1 hk.1) (ha2 hk.2)⟩
  · obtain ⟨ha2, _⟩ := flushScriptedStateRegistrations_agree env k
      w.mgr.m_aPendingScriptedStateRegistrations w hc
    simp only [hs, if_false] at hk
    simp only [hs, if_false, Option.map_some']
    exact ⟨_, rfl, ha2 hk⟩

/-- A find for an identifier that its flush does not hand out to a pending object returns
what the buckets hold under it before the flush. -/
theorem find_of_not_minted (env : Env) (w : World) (k : String)
    (hc : collectionAvailable w = true) (hk : k ∉ flushMints env w) :
    (∃ w1, FindPersistenceComponentById env w k =
      some (probe w.mgr.m_mRootAutoSave w.mgr.m_mRootShutdown w.mgr.m_mUncategorizedEntities k,
        w1)) ∧
    (∃ w1, FindScriptedStateByPersistentId env w k =
      some (probe w.mgr.m_mScriptedStateAutoSave w.mgr.m_mScriptedStateShutdown
        w.mgr.m_mScriptedStateUncategorized k, w1)) := by
  obtain ⟨w1, hw1, ha⟩ := flushRegistrations_agree env w k hc hk
  obtain ⟨p1, p2⟩ := probe_congr w.mgr w1.mgr k ha
  constructor
  · exact ⟨w1, by simp [FindPersistenceComponentById, hw1, p1]⟩
  · exact ⟨w1, by simp [FindScriptedStateByPersistentId, hw1, p2]⟩

/-! ## C1 -/

/-- C1, as stated, fails in two ways. An entity-backed object without an owning live instance
(object 0) registered under the non-empty identifier "abc" gets the empty identifier back.
And when another object already holds the identifier in a bucket that is probed earlier
(object 1 in the autosave bucket), registering the shutdown-only root 2 under "abc" returns
"abc", but the find made directly afterwards returns object 1. -/
theorem C1_counterexample :
    (Register Example.env Example.world 0 "abc").map Prod.fst = some "" ∧
    ((Register Example.env Example.world 1 "abc").bind fun r1 =>
      (Register Example.env r1.2 2 "abc").bind fun r2 =>
        (FindPersistenceComponentById Example.env r2.2 "abc").map fun f => (r2.1, f.1))
      = some ("abc", some 1) := by
  decide

/-- C1 (amended): for every non-empty explicit identifier `id`: registering an entity-backed
object that has an owning live instance returns exactly `id`, and when no other entity-backed
object is registered under `id`, `FindPersistenceComponentById id` made directly afterwards
returns that object; registering a free-standing object returns exactly `id`, and when no
other free-standing object is registered under `id`, `FindScriptedStateByPersistentId id` made
directly afterwards returns that object. (The identity generator is collision-free: the flush
of the find does not hand out `id` to a pending object it registers; and the Root Entity
Collection exists once the manager is `ACTIVE`.) Identifiers with the baked prefix `0000` are
included. -/
theorem C1_register_explicit_then_find (env : Env) (w : World) (ref sref : Ref) (id : String)
    (hid : id ≠ "") :
    ((w.components ref).m_pOwner.isSome = true → collectionAvailable w = true →
      ∃ w1, Register env w ref id = some (id, w1) ∧
        (heldOnlyBy w.mgr.m_mRootAutoSave w.mgr.m_mRootShutdown
            w.mgr.m_mUncategorizedEntities id ref = true →
          id ∉ flushMints env w1 →
          ∃ w2, FindPersistenceComponentById env w1 id = some (some ref, w2))) ∧
    ((RegisterScriptedState env w sref id).1 = id ∧
      (heldOnlyBy w.mgr.m_mScriptedStateAutoSave w.mgr.m_mScriptedStateShutdown
          w.mgr.m_mScriptedStateUncategorized id sref = true →
        collectionAvailable w = true →
        id ∉ flushMints env (RegisterScriptedState env w sref id).2 →
        ∃ w2, FindScriptedStateByPersistentId env (RegisterScriptedState env w sref id).2 id =
          some (some sref, w2))) := by
  constructor
  · intro howner hcoll
    obtain ⟨b, c, hreg, hcs⟩ := register_shape env w ref id howner hcoll
    rw [registerId_explicit env w ref id hid] at hreg
    have hm := registerPrep_mgr env w ref id
    have hc1 : collectionAvailable
        { registerPrep env w ref id with mgr :=
          { registerBuckets env w ref id with m_mBakedRoots := b, m_pRootEntityCollection := c } }
        = true := by
      simpa [collectionAvailable, registerBuckets, hm, hcs] using hcoll
    refine ⟨_, hreg, fun hent hmint => ?_⟩
    obtain ⟨w2, hfind⟩ := (find_of_not_minted env _ id hc1 hmint).1
    have hprobe := probe_categorize (registerPrep env w ref id).mgr
      ((registerPrep env w ref id).components ref) ref id
      ((registerPrep env w ref id).components ref).settings
      (EPF_BitFlags.CheckFlags ((registerPrep env w ref id).components ref).m_eFlags .ROOT)
      (by rw [hm]; exact hent)
    have hpr : probe (registerBuckets env w ref id).m_mRootAutoSave
        (registerBuckets env w ref id).m_mRootShutdown
        (registerBuckets env w ref id).m_mUncategorizedEntities id = some ref := by
      simp only [registerBuckets, registerId_explicit env w ref id hid]
      exact hprobe
    exact ⟨w2, hfind.trans (congrArg (fun x => some (x, w2)) hpr)⟩
  · rw [registerScriptedState_explicit env w sref id hid]
    refine ⟨rfl, fun hst hcoll hmint => ?_⟩
    have hc1 : collectionAvailable
        { w with
          mgr := categorizeScriptedState w.mgr
            (env.scriptedStateSaveType (scriptedStateTarget (w.scriptedStates sref))) sref id }
        = true := by
      simpa [collectionAvailable] using hcoll
    obtain ⟨w2, hfind⟩ := (find_of_not_minted env _ id hc1 hmint).2
    exact ⟨w2, hfind.trans (congrArg (fun x => some (x, w2))
      (probe_categorizeScriptedState w.mgr _ sref id hst))⟩

/-- C1 at a concrete input: on the populated manager in state `ACTIVE`, with the object 5 and
the state 4 waiting in the pending lists, the root 8 and the free-standing state 5 are
registered under the baked-looking identifier "0000abc" and found again; the flush of each
find registers the two pending objects under identifiers of their own. -/
theorem C1_register_explicit_then_find_witness :
    (∃ w1 w2, Register Example.env Example.queuedWorld 8 "0000abc" = some ("0000abc", w1) ∧
      flushMints Example.env w1 = ["d", "dx"] ∧
      FindPersistenceComponentById Example.env w1 "0000abc" = some (some 8, w2)) ∧
    ((RegisterScriptedState Example.env Example.queuedWorld 5 "0000abc").1 = "0000abc" ∧
      ∃ w2, FindScriptedStateByPersistentId Example.env
        (RegisterScriptedState Example.env Example.queuedWorld 5 "0000abc").2 "0000abc" =
          some (some 5, w2)) := by
  have h := C1_register_explicit_then_find Example.env Example.queuedWorld 8 5 "0000abc"
    (by decide)
  obtain ⟨w1, hreg, hfind⟩ := h.1 (by decide) (by decide)
  have hm : flushMints Example.env w1 = ["d", "dx"] := by
    have e : (Register Example.env Example.queuedWorld 8 "0000abc").map
        (fun r => flushMints Example.env r.2) = some ["d", "dx"] := by decide
    rw [hreg] at e
    exact Option.some.inj e
  obtain ⟨w2, hw2⟩ := hfind (by decide) (by rw [hm]; decide)
  exact ⟨⟨w1, w2, hreg, hm, hw2⟩, h.2.1, h.2.2 (by decide) (by decide) (by decide)⟩

/-! ## C2 -/

/-- C2, as stated, fails. In state `ACTIVE`, with a generator that never repeats itself, the
autosave root 1 registered twice without explicit identifier gets "d" the first time and "dx"
the second time and is then filed under both; and the object 0, which has no owning live
instance, gets the empty identifier. -/
theorem C2_counterexample :
    ((Register Example.env Example.activeWorld 1 "").bind fun r1 =>
      (Register Example.env r1.2 1 "").map fun r2 =>
        (r1.1, r2.1, r2.2.mgr.m_mRootAutoSave.entries)) = some ("d", "dx", [("d", 1), ("dx", 1)]) ∧
    (Register Example.env Example.activeWorld 0 "").map Prod.fst = some "" := by
  decide

/-- C2 (amended): with an identity generator that never mints the empty identifier, `Register`
without explicit identifier on an entity-backed object that has an owning live instance, or on
a free-standing object, returns the non-empty identifier the generator mints; a second
`Register` without explicit identifier mints again and returns that second identifier, under
which the object is then filed; when the two identifiers differ the object stays filed under
the first one too, and no key other than these two is touched in the buckets of its kind. -/
theorem C2_register_without_identifier (env : Env) (w : World) (ref sref : Ref)
    (howner : (w.components ref).m_pOwner.isSome = true)
    (hcoll : collectionAvailable w = true)
    (hgen : ∀ history arg, env.Generate history arg ≠ "") :
    (∃ w1 w2,
      Register env w ref "" = some (env.Generate w.idHistory (mintArg w ref), w1) ∧
      Register env w1 ref "" =
        some (env.Generate (w.idHistory ++ [mintArg w ref]) (mintArg w ref), w2) ∧
      env.Generate w.idHistory (mintArg w ref) ≠ "" ∧
      env.Generate (w.idHistory ++ [mintArg w ref]) (mintArg w ref) ≠ "" ∧
      (entityBucket w2.mgr (w.components ref).settings.m_eSaveType
        (EPF_BitFlags.CheckFlags (w.components ref).m_eFlags .ROOT)).Find
          (env.Generate (w.idHistory ++ [mintArg w ref]) (mintArg w ref)) = some ref ∧
      (env.Generate w.idHistory (mintArg w ref) ≠
          env.Generate (w.idHistory ++ [mintArg w ref]) (mintArg w ref) →
        (entityBucket w2.mgr (w.components ref).settings.m_eSaveType
          (EPF_BitFlags.CheckFlags (w.components ref).m_eFlags .ROOT)).Find
            (env.Generate w.idHistory (mintArg w ref)) = some ref) ∧
      (∀ k, k ≠ env.Generate w.idHistory (mintArg w ref) →
        k ≠ env.Generate (w.idHistory ++ [mintArg w ref]) (mintArg w ref) →
        w2.mgr.m_mRootAutoSave.Find k = w.mgr.m_mRootAutoSave.Find k ∧
        w2.mgr.m_mRootShutdown.Find k = w.mgr.m_mRootShutdown.Find k ∧
        w2.mgr.m_mUncategorizedEntities.Find k = w.mgr.m_mUncategorizedEntities.Find k)) ∧
    (∃ w1 w2,
      RegisterScriptedState env w sref "" = (env.Generate w.idHistory none, w1) ∧
      RegisterScriptedState env w1 sref "" = (env.Generate (w.idHistory ++ [none]) none, w2) ∧
      env.Generate w.idHistory none ≠ "" ∧
      env.Generate (w.idHistory ++ [none]) none ≠ "" ∧
      (scriptedStateBucket w2.mgr
        (env.scriptedStateSaveType (scriptedStateTarget (w.scriptedStates sref)))).Find
          (env.Generate (w.idHistory ++ [none]) none) = some sref ∧
      (env.Generate w.idHistory none ≠ env.Generate (w.idHistory ++ [none]) none →
        (scriptedStateBucket w2.mgr
          (env.scriptedStateSaveType (scriptedStateTarget (w.scriptedStates sref)))).Find
            (env.Generate w.idHistory none) = some sref) ∧
      (∀ k, k ≠ env.Generate w.idHistory none → k ≠ env.Generate (w.idHistory ++ [none]) none →
        w2.mgr.m_mScriptedStateAutoSave.Find k = w.mgr.m_mScriptedStateAutoSave.Find k ∧
        w2.mgr.m_mScriptedStateShutdown.Find k = w.mgr.m_mScriptedStateShutdown.Find k ∧
        w2.mgr.m_mScriptedStateUncategorized.Find k = w.mgr.m_mScriptedStateUncategorized.Find k)) := by
  constructor
  · obtain ⟨w1, hr1, hs1, hc1, hh1, ho1, hset1, hfl1, hb1, hfr1⟩ :=
      register_spec env w ref "" howner hcoll
    have howner1 : (w1.components ref).m_pOwner.isSome = true := by rw [ho1]; exact howner
    have hcoll1 : collectionAvailable w1 = true := by
      simpa [collectionAvailable, hs1, hc1] using hcoll
    obtain ⟨w2, hr2, hs2, hc2, hh2, ho2, hset2, hfl2, hb2, hfr2⟩ :=
      register_spec env w1 ref "" howner1 hcoll1
    have hmint : mintArg w1 ref = mintArg w ref := by simp [mintArg, hs1, ho1]
    rw [registerId_mint] at hr1 hb1 hfr1
    rw [registerId_mint, hh1, registerPrep_idHistory_mint, hmint] at hr2 hb2 hfr2
    rw [hset1, hfl1 ref .ROOT (by decide)] at hb2
    refine ⟨w1, w2, hr1, hr2, hgen _ _, hgen _ _, hb2, ?_, ?_⟩
    · intro hne
      rw [entityBucket_find_congr w1.mgr w2.mgr _ _ _
        ⟨(hfr2 _ hne).1, (hfr2 _ hne).2.1, (hfr2 _ hne).2.2.1⟩]
      exact hb1
    · intro k hk1 hk2
      have a := hfr1 k hk1
      have b := hfr2 k hk2
      exact ⟨b.1.trans a.1, b.2.1.trans a.2.1, b.2.2.1.trans a.2.2.1⟩
  · obtain ⟨w1, hr1, hst1, hh1, hb1, hfr1⟩ := registerScriptedState_mint_spec env w sref
    obtain ⟨w2, hr2, hst2, hh2, hb2, hfr2⟩ := registerScriptedState_mint_spec env w1 sref
    rw [hh1] at hr2 hb2 hfr2
    rw [hst1] at hb2
    refine ⟨w1, w2, hr1, hr2, hgen _ _, hgen _ _, hb2, ?_, ?_⟩
    · intro hne
      rw [scriptedStateBucket_find_congr w1.mgr w2.mgr _ _ (hfr2 _ hne)]
      exact hb1
    · intro k hk1 hk2
      have a := hfr1 k hk1
      have b := hfr2 k hk2
      exact ⟨b.1.trans a.1, b.2.1.trans a.2.1, b.2.2.trans a.2.2⟩

/-- The example generator never mints the empty identifier. -/
theorem example_generate_ne_empty (history : List (Option Ref)) (arg : Option Ref) :
    Example.env.Generate history arg ≠ "" := by
  intro h
  have h2 := congrArg String.length h
  cases arg <;> simp [Example.env, String.length] at h2

/-- C2 at a concrete input: the autosave root 1 and the free-standing state 0 on the `ACTIVE`
example manager. -/
theorem C2_register_without_identifier_witness :
    ∃ w1 w2, Register Example.env Example.activeWorld 1 "" = some ("d", w1) ∧
      Register Example.env w1 1 "" = some ("dx", w2) ∧
      (entityBucket w2.mgr .INTERVAL_SHUTDOWN true).Find "d" = some 1 :=
  have h := (C2_register_without_identifier Example.env Example.activeWorld 1 0 (by decide)
    (by decide) example_generate_ne_empty).1
  match h with
  | ⟨w1, w2, h1, h2, _, _, _, h6, _⟩ => ⟨w1, w2, h1, h2, h6 (by decide)⟩

/-! ## C3 -/

/-- C3: with an identity generator that never mints the empty identifier, `Register` on an
entity-backed object returns the empty identifier exactly when the object has no owning live
instance; in that case the whole world is returned as it was: every bucket, both cleanup sets,
the baked-roots working set, the Root Entity Collection, and no identifier is generated. -/
theorem C3_register_without_owner (env : Env) (w : World) (ref : Ref) (id : String)
    (hgen : ∀ history arg, env.Generate history arg ≠ "") :
    ((w.components ref).m_pOwner = none → Register env w ref id = some ("", w)) ∧
    (∀ rid w', Register env w ref id = some (rid, w') →
      (rid = "" ↔ (w.components ref).m_pOwner = none)) := by
  constructor
  · intro h
    simp [Register, h]
  · intro rid w' hreg
    cases hown : (w.components ref).m_pOwner with
    | none =>
      simp only [Register, hown] at hreg
      simp only [Option.some.injEq, Prod.mk.injEq] at hreg
      simp [← hreg.1]
    | some o =>
      simp only [Register, hown, Option.map_eq_some'] at hreg
      obtain ⟨w3, _, h3⟩ := hreg
      have hrid : rid = registerId env w ref id := by
        simp only [Prod.mk.injEq] at h3
        rw [← h3.1]; rfl
      have hne : registerId env w ref id ≠ "" := by
        by_cases h : id = ""
        · subst h; rw [registerId_mint]; exact hgen _ _
        · rw [registerId_explicit env w ref id h]; exact h
      simp [hrid, hne]

/-- C3 at a concrete input: the object 0 has no owner and gets the empty identifier back while
the world stays as it was. -/
theorem C3_register_without_owner_witness :
    Register Example.env Example.world 0 "abc" = some ("", Example.world) :=
  (C3_register_without_owner Example.env Example.world 0 "abc" example_generate_ne_empty).1
    (by decide)

/-! ## C4 -/

theorem probe_eq_precedence (a s u : ScriptMap Ref) (id : String) :
    probe a s u id =
      if a.Contains id then a.Find id
      else if s.Contains id then s.Find id
      else if u.Contains id then u.Find id
      else none := by
  unfold probe
  rw [ScriptMap.contains_eq_isSome_find a, ScriptMap.contains_eq_isSome_find s,
    ScriptMap.contains_eq_isSome_find u]
  cases ha : a.Find id <;> cases hs : s.Find id <;> cases hu : u.Find id <;> simp

/-- C4: both find functions first flush the pending registrations and then return, from the
buckets as they are after the flush, the entry of the autosave bucket if the identifier is a key
there, otherwise the entry of the shutdown bucket if it is a key there, otherwise the entry of
the uncategorized bucket, and none when the identifier is a key of no bucket of that kind. -/
theorem C4_find_precedence (env : Env) (w : World) (id : String) :
    FindPersistenceComponentById env w id =
      (FlushRegistrations env w).map (fun w1 =>
        (if w1.mgr.m_mRootAutoSave.Contains id then w1.mgr.m_mRootAutoSave.Find id
         else if w1.mgr.m_mRootShutdown.Contains id then w1.mgr.m_mRootShutdown.Find id
         else if w1.mgr.m_mUncategorizedEntities.Contains id then
           w1.mgr.m_mUncategorizedEntities.Find id
         else none, w1)) ∧
    FindScriptedStateByPersistentId env w id =
      (FlushRegistrations env w).map (fun w1 =>
        (if w1.mgr.m_mScriptedStateAutoSave.Contains id then w1.mgr.m_mScriptedStateAutoSave.Find id
         else if w1.mgr.m_mScriptedStateShutdown.Contains id then
           w1.mgr.m_mScriptedStateShutdown.Find id
         else if w1.mgr.m_mScriptedStateUncategorized.Contains id then
           w1.mgr.m_mScriptedStateUncategorized.Find id
         else none, w1)) := by
  constructor
  · unfold FindPersistenceComponentById
    congr 1
    funext w1
    rw [probe_eq_precedence]
  · unfold FindScriptedStateByPersistentId
    congr 1
    funext w1
    rw [probe_eq_precedence]

/-! ## C5 -/

/-- C5: `Unregister` on an object that has an identifier removes that identifier from the three
buckets of the object's kind and changes nothing else: the entries under other identifiers, the
buckets of the other kind, both cleanup sets and the trace of store calls stay as they were
(no store remove is issued); when the identifier is in no bucket the world is unchanged; and
a find for the identifier made afterwards returns none. The removal and the frame hold in
every world and for every identity generator; for the find, the flush it starts with must not
hand out the identifier to a pending object it registers (the generator is collision-free),
and the Root Entity Collection must exist once the manager is `ACTIVE`. The entity-backed and
the free-standing object are independent of each other. -/
theorem C5_unregister_frame (env : Env) (w : World) (ref sref : Ref) :
    ((w.components ref).m_sId ≠ "" →
      ∃ w', Unregister env w ref = some w' ∧
      w' = { w with mgr := { w.mgr with
        m_mRootAutoSave := w.mgr.m_mRootAutoSave.Remove (w.components ref).m_sId
        m_mRootShutdown := w.mgr.m_mRootShutdown.Remove (w.components ref).m_sId
        m_mUncategorizedEntities :=
          w.mgr.m_mUncategorizedEntities.Remove (w.components ref).m_sId } } ∧
      (w'.mgr.m_mRootAutoSave.Contains (w.components ref).m_sId = false ∧
        w'.mgr.m_mRootShutdown.Contains (w.components ref).m_sId = false ∧
        w'.mgr.m_mUncategorizedEntities.Contains (w.components ref).m_sId = false) ∧
      (∀ k, k ≠ (w.components ref).m_sId →
        w'.mgr.m_mRootAutoSave.Find k = w.mgr.m_mRootAutoSave.Find k ∧
        w'.mgr.m_mRootShutdown.Find k = w.mgr.m_mRootShutdown.Find k ∧
        w'.mgr.m_mUncategorizedEntities.Find k = w.mgr.m_mUncategorizedEntities.Find k) ∧
      (w'.mgr.m_mScriptedStateAutoSave = w.mgr.m_mScriptedStateAutoSave ∧
        w'.mgr.m_mScriptedStateShutdown = w.mgr.m_mScriptedStateShutdown ∧
        w'.mgr.m_mScriptedStateUncategorized = w.mgr.m_mScriptedStateUncategorized ∧
        w'.mgr.m_mRootAutoSaveCleanup = w.mgr.m_mRootAutoSaveCleanup ∧
        w'.mgr.m_mRootShutdownCleanup = w.mgr.m_mRootShutdownCleanup ∧
        w'.trace = w.trace) ∧
      (w.mgr.m_mRootAutoSave.Contains (w.components ref).m_sId = false →
        w.mgr.m_mRootShutdown.Contains (w.components ref).m_sId = false →
        w.mgr.m_mUncategorizedEntities.Contains (w.components ref).m_sId = false → w' = w) ∧
      (collectionAvailable w = true → (w.components ref).m_sId ∉ flushMints env w' →
        ∃ w2, FindPersistenceComponentById env w' (w.components ref).m_sId =
          some (none, w2))) ∧
    ((w.scriptedStates sref).m_sId ≠ "" →
      ∃ w', UnregisterScriptedState env w sref = w' ∧
      w' = { w with mgr := { w.mgr with
        m_mScriptedStateAutoSave :=
          w.mgr.m_mScriptedStateAutoSave.Remove (w.scriptedStates sref).m_sId
        m_mScriptedStateShutdown :=
          w.mgr.m_mScriptedStateShutdown.Remove (w.scriptedStates sref).m_sId
        m_mScriptedStateUncategorized :=
          w.mgr.m_mScriptedStateUncategorized.Remove (w.scriptedStates sref).m_sId } } ∧
      (w'.mgr.m_mScriptedStateAutoSave.Contains (w.scriptedStates sref).m_sId = false ∧
        w'.mgr.m_mScriptedStateShutdown.Contains (w.scriptedStates sref).m_sId = false ∧
        w'.mgr.m_mScriptedStateUncategorized.Contains (w.scriptedStates sref).m_sId = false) ∧
      (∀ k, k ≠ (w.scriptedStates sref).m_sId →
        w'.mgr.m_mScriptedStateAutoSave.Find k = w.mgr.m_mScriptedStateAutoSave.Find k ∧
        w'.mgr.m_mScriptedStateShutdown.Find k = w.mgr.m_mScriptedStateShutdown.Find k ∧
        w'.mgr.m_mScriptedStateUncategorized.Find k =
          w.mgr.m_mScriptedStateUncategorized.Find k) ∧
      (w'.mgr.m_mRootAutoSave = w.mgr.m_mRootAutoSave ∧
        w'.mgr.m_mRootShutdown = w.mgr.m_mRootShutdown ∧
        w'.mgr.m_mUncategorizedEntities = w.mgr.m_mUncategorizedEntities ∧
        w'.mgr.m_mRootAutoSaveCleanup = w.mgr.m_mRootAutoSaveCleanup ∧
        w'.mgr.m_mRootShutdownCleanup = w.mgr.m_mRootShutdownCleanup ∧
        w'.trace = w.trace) ∧
      (w.mgr.m_mScriptedStateAutoSave.Contains (w.scriptedStates sref).m_sId = false →
        w.mgr.m_mScriptedStateShutdown.Contains (w.scriptedStates sref).m_sId = false →
        w.mgr.m_mScriptedStateUncategorized.Contains (w.scriptedStates sref).m_sId = false →
        w' = w) ∧
      (collectionAvailable w = true → (w.scriptedStates sref).m_sId ∉ flushMints env w' →
        ∃ w2, FindScriptedStateByPersistentId env w' (w.scriptedStates sref).m_sId =
          some (none, w2))) := by
  constructor
  · intro hid
    refine ⟨_, ?_, rfl, ?_, ?_, ?_, ?_, ?_⟩
    · simp [Unregister, EPF_PersistenceComponent.GetPersistentId, hid]
    · exact ⟨ScriptMap.contains_remove_self _ _, ScriptMap.contains_remove_self _ _,
        ScriptMap.contains_remove_self _ _⟩
    · intro k hk
      exact ⟨ScriptMap.find_remove_ne _ _ _ hk, ScriptMap.find_remove_ne _ _ _ hk,
        ScriptMap.find_remove_ne _ _ _ hk⟩
    · exact ⟨rfl, rfl, rfl, rfl, rfl, rfl⟩
    · intro h1 h2 h3
      simp only [ScriptMap.remove_of_not_contains _ _ h1, ScriptMap.remove_of_not_contains _ _ h2,
        ScriptMap.remove_of_not_contains _ _ h3]
    · intro hcoll hmint
      obtain ⟨w2, h2⟩ := (find_of_not_minted env
        { w with mgr := { w.mgr with
          m_mRootAutoSave := w.mgr.m_mRootAutoSave.Remove (w.components ref).m_sId
          m_mRootShutdown := w.mgr.m_mRootShutdown.Remove (w.components ref).m_sId
          m_mUncategorizedEntities :=
            w.mgr.m_mUncategorizedEntities.Remove (w.components ref).m_sId } }
        (w.components ref).m_sId (by simpa [collectionAvailable] using hcoll) hmint).1
      exact ⟨w2, h2.trans (by simp [probe, ScriptMap.find_remove_self])⟩
  · intro hsid
    refine ⟨_, ?_, rfl, ?_, ?_, ?_, ?_, ?_⟩
    · simp [UnregisterScriptedState, EPF_PersistentScriptedState.GetPersistentId, hsid]
    · exact ⟨ScriptMap.contains_remove_self _ _, ScriptMap.contains_remove_self _ _,
        ScriptMap.contains_remove_self _ _⟩
    · intro k hk
      exact ⟨ScriptMap.find_remove_ne _ _ _ hk, ScriptMap.find_remove_ne _ _ _ hk,
        ScriptMap.find_remove_ne _ _ _ hk⟩
    · exact ⟨rfl, rfl, rfl, rfl, rfl, rfl⟩
    · intro h1 h2 h3
      simp only [ScriptMap.remove_of_not_contains _ _ h1, ScriptMap.remove_of_not_contains _ _ h2,
        ScriptMap.remove_of_not_contains _ _ h3]
    · intro hcoll hmint
      obtain ⟨w2, h2⟩ := (find_of_not_minted env
        { w with mgr := { w.mgr with
          m_mScriptedStateAutoSave :=
            w.mgr.m_mScriptedStateAutoSave.Remove (w.scriptedStates sref).m_sId
          m_mScriptedStateShutdown :=
            w.mgr.m_mScriptedStateShutdown.Remove (w.scriptedStates sref).m_sId
          m_mScriptedStateUncategorized :=
            w.mgr.m_mScriptedStateUncategorized.Remove (w.scriptedStates sref).m_sId } }
        (w.scriptedStates sref).m_sId (by simpa [collectionAvailable] using hcoll) hmint).2
      exact ⟨w2, h2.trans (by simp [probe, ScriptMap.find_remove_self])⟩

/-- C5 at a concrete input: object 1 (identifier "a1") and state 0 (identifier "sa0") of the
populated example manager, with the object 5 and the state 4 waiting in the pending lists, are
unregistered; no store call is made, and the find made afterwards, whose flush registers the
two pending objects under "d" and "dx", returns none. -/
theorem C5_unregister_frame_witness :
    (∃ w' w2, Unregister Example.env Example.queuedWorld 1 = some w' ∧
      w'.mgr.m_mRootAutoSave.Contains "a1" = false ∧ w'.trace = [] ∧
      flushMints Example.env w' = ["d", "dx"] ∧
      FindPersistenceComponentById Example.env w' "a1" = some (none, w2)) ∧
    ((UnregisterScriptedState Example.env Example.queuedWorld
        0).mgr.m_mScriptedStateAutoSave.Contains "sa0" = false ∧
      ∃ w2, FindScriptedStateByPersistentId Example.env
        (UnregisterScriptedState Example.env Example.queuedWorld 0) "sa0" = some (none, w2)) := by
  have h := C5_unregister_frame Example.env Example.queuedWorld 1 0
  obtain ⟨w1, h1, _, h3, _, h5, _, h7⟩ := h.1 (by decide)
  obtain ⟨v1, g1, _, g3, _, _, _, g7⟩ := h.2 (by decide)
  have hm : flushMints Example.env w1 = ["d", "dx"] := by
    have e : (Unregister Example.env Example.queuedWorld 1).map
        (fun r => flushMints Example.env r) = some ["d", "dx"] := by decide
    rw [h1] at e
    exact Option.some.inj e
  obtain ⟨w2, hw2⟩ := h7 (by decide) (by rw [hm]; decide)
  subst g1
  exact ⟨⟨w1, w2, h1, h3.1, h5.2.2.2.2.2, hm, hw2⟩, g3.1, g7 (by decide) (by decide)⟩

/-! ## `UpdateRootStatus` -/

theorem updateRootStatus_shape (env : Env) (w : World) (ref : Ref) (id : String)
    (settings : EPF_PersistenceComponentClass) (isRootEntity : Bool)
    (hc : collectionAvailable w = true) :
    ∃ b c, UpdateRootStatus env w ref id settings isRootEntity = some
        { w with
          mgr := { categorize w.mgr (w.components ref) ref id settings isRootEntity with
            m_mBakedRoots := b, m_pRootEntityCollection := c } } ∧
      c.isSome = w.mgr.m_pRootEntityCollection.isSome := by
  have hc2 : collectionAvailable
      { w with mgr := categorize w.mgr (w.components ref) ref id settings isRootEntity } = true := by
    simpa [collectionAvailable] using hc
  obtain ⟨b, c, h1, h2⟩ := updateRootEntityCollection_shape env _ ref id isRootEntity hc2
  exact ⟨b, c, h1, by simpa using h2⟩

/-! ## The registry invariant -/

theorem contains_categorize_ne (m : EPF_PersistenceManager) (c : EPF_PersistenceComponent)
    (ref : Ref) (id : String) (settings : EPF_PersistenceComponentClass) (isRootEntity : Bool)
    (k : String) (hk : k ≠ id) :
    (categorize m c ref id settings isRootEntity).m_mRootAutoSave.Contains k =
      m.m_mRootAutoSave.Contains k ∧
    (categorize m c ref id settings isRootEntity).m_mRootShutdown.Contains k =
      m.m_mRootShutdown.Contains k ∧
    (categorize m c ref id settings isRootEntity).m_mUncategorizedEntities.Contains k =
      m.m_mUncategorizedEntities.Contains k := by
  have h := find_categorize_ne m c ref id settings isRootEntity k hk
  simp only [ScriptMap.contains_eq_isSome_find, h.1, h.2.1, h.2.2.1, and_self]

theorem categorize_contains_self (m : EPF_PersistenceManager) (c : EPF_PersistenceComponent)
    (ref : Ref) (id : String) (settings : EPF_PersistenceComponentClass) (isRootEntity : Bool) :
    (categorize m c ref id settings isRootEntity).m_mRootAutoSave.Contains id =
      (match settings.m_eSaveType, isRootEntity with
        | .INTERVAL_SHUTDOWN, true => true
        | .INTERVAL_SHUTDOWN, false => false
        | _, _ => m.m_mRootAutoSave.Contains id) ∧
    (categorize m c ref id settings isRootEntity).m_mRootShutdown.Contains id =
      (match settings.m_eSaveType, isRootEntity with
        | .SHUTDOWN, true => true
        | .SHUTDOWN, false => false
        | _, _ => m.m_mRootShutdown.Contains id) ∧
    (categorize m c ref id settings isRootEntity).m_mUncategorizedEntities.Contains id =
      (match settings.m_eSaveType, isRootEntity with
        | .INTERVAL_SHUTDOWN, true => false
        | .SHUTDOWN, true => false
        | _, _ => true) := by
  unfold categorize
  by_cases h1 : m.m_mRootAutoSave.Contains id = true <;>
  by_cases h2 : m.m_mRootShutdown.Contains id = true <;>
  by_cases h3 : EPF_BitFlags.CheckFlags c.m_eFlags .PERSISTENT_RECORD = true <;>
  cases settings.m_eSaveType <;> cases isRootEntity <;>
  simp [h1, h2, h3, ScriptMap.contains_set_self, ScriptMap.contains_remove_self]

theorem registryInv_congr (pol spol : String → EPF_ESaveType) (m m' : EPF_PersistenceManager)
    (h1 : m'.m_mRootAutoSave = m.m_mRootAutoSave) (h2 : m'.m_mRootShutdown = m.m_mRootShutdown)
    (h3 : m'.m_mUncategorizedEntities = m.m_mUncategorizedEntities)
    (h4 : m'.m_mScriptedStateAutoSave = m.m_mScriptedStateAutoSave)
    (h5 : m'.m_mScriptedStateShutdown = m.m_mScriptedStateShutdown)
    (h6 : m'.m_mScriptedStateUncategorized = m.m_mScriptedStateUncategorized)
    (h : registryInv pol spol m) : registryInv pol spol m' := by
  unfold registryInv at *
  rw [h1, h2, h3, h4, h5, h6]
  exact h

theorem registryInv_new (pol spol : String → EPF_ESaveType) :
    registryInv pol spol EPF_PersistenceManager.new := by
  intro id
  simp [EPF_PersistenceManager.new, ScriptMap.contains_empty]

theorem registryInv_categorize (pol spol : String → EPF_ESaveType) (m : EPF_PersistenceManager)
    (c : EPF_PersistenceComponent) (ref : Ref) (id : String)
    (settings : EPF_PersistenceComponentClass) (isRootEntity : Bool)
    (hpol : pol id = settings.m_eSaveType) (h : registryInv pol spol m) :
    registryInv pol spol (categorize m c ref id settings isRootEntity) := by
  intro k
  obtain ⟨i1, i2, i3, i4, i5⟩ := h k
  simp only [categorize_m_mScriptedStateAutoSave, categorize_m_mScriptedStateShutdown,
    categorize_m_mScriptedStateUncategorized]
  refine ⟨?_, ?_, i3, i4, i5⟩
  · by_cases hk : k = id
    · subst hk
      obtain ⟨c1, c2, c3⟩ := categorize_contains_self m c ref k settings isRootEntity
      rw [c1, c3]
      cases hs : settings.m_eSaveType <;> cases isRootEntity <;> rw [hs] at hpol <;>
        simp only [] <;> intro ha <;>
        first
          | exact ⟨hpol, rfl⟩
          | exact ⟨hpol, trivial⟩
          | exact absurd ha (by decide)
          | exact absurd ((i1 ha).1.symm.trans hpol) (by decide)
    · obtain ⟨c1, c2, c3⟩ := contains_categorize_ne m c ref id settings isRootEntity k hk
      rw [c1, c3]; exact i1
  · by_cases hk : k = id
    · subst hk
      obtain ⟨c1, c2, c3⟩ := categorize_contains_self m c ref k settings isRootEntity
      rw [c2, c3]
      cases hs : settings.m_eSaveType <;> cases isRootEntity <;> rw [hs] at hpol <;>
        simp only [] <;> intro ha <;>
        first
          | exact ⟨hpol, rfl⟩
          | exact ⟨hpol, trivial⟩
          | exact absurd ha (by decide)
          | exact absurd ((i2 ha).1.symm.trans hpol) (by decide)
    · obtain ⟨c1, c2, c3⟩ := contains_categorize_ne m c ref id settings isRootEntity k hk
      rw [c2, c3]; exact i2

theorem contains_categorizeScriptedState (m : EPF_PersistenceManager) (saveType : EPF_ESaveType)
    (ref : Ref) (id k : String) :
    ((categorizeScriptedState m saveType ref id).m_mScriptedStateAutoSave.Contains k = true →
      m.m_mScriptedStateAutoSave.Contains k = true ∨ (k = id ∧ saveType = .INTERVAL_SHUTDOWN)) ∧
    ((categorizeScriptedState m saveType ref id).m_mScriptedStateShutdown.Contains k = true →
      m.m_mScriptedStateShutdown.Contains k = true ∨ (k = id ∧ saveType = .SHUTDOWN)) ∧
    ((categorizeScriptedState m saveType ref id).m_mScriptedStateUncategorized.Contains k = true →
      m.m_mScriptedStateUncategorized.Contains k = true ∨ (k = id ∧ saveType = .MANUAL)) := by
  by_cases hk : k = id
  · subst hk
    cases saveType <;> simp [categorizeScriptedState]
  · cases saveType <;>
      simp [categorizeScriptedState, ScriptMap.contains_set_ne _ _ _ _ hk, hk]

theorem registryInv_categorizeScriptedState (pol spol : String → EPF_ESaveType)
    (m : EPF_PersistenceManager) (saveType : EPF_ESaveType) (ref : Ref) (id : String)
    (hpol : spol id = saveType) (h : registryInv pol spol m) :
    registryInv pol spol (categorizeScriptedState m saveType ref id) := by
  intro k
  obtain ⟨i1, i2, i3, i4, i5⟩ := h k
  obtain ⟨c1, c2, c3⟩ := contains_categorizeScriptedState m saveType ref id k
  simp only [categorizeScriptedState_m_mRootAutoSave, categorizeScriptedState_m_mRootShutdown,
    categorizeScriptedState_m_mUncategorizedEntities]
  refine ⟨i1, i2, ?_, ?_, ?_⟩
  · intro ha
    rcases c1 ha with h1 | ⟨h1, h2⟩
    · exact i3 h1
    · rw [h1, hpol, h2]
  · intro ha
    rcases c2 ha with h1 | ⟨h1, h2⟩
    · exact i4 h1
    · rw [h1, hpol, h2]
  · intro ha
    rcases c3 ha with h1 | ⟨h1, h2⟩
    · exact i5 h1
    · rw [h1, hpol, h2]

theorem contains_of_contains_remove (m : ScriptMap Ref) (id k : String)
    (h : (m.Remove id).Contains k = true) : m.Contains k = true := by
  by_cases hk : k = id
  · subst hk; rw [ScriptMap.contains_remove_self] at h; simp at h
  · rwa [ScriptMap.contains_remove_ne _ _ _ hk] at h

theorem not_contains_remove (m : ScriptMap Ref) (id k : String)
    (h : m.Contains k = false) : (m.Remove id).Contains k = false := by
  by_cases hk : k = id
  · subst hk; exact ScriptMap.contains_remove_self _ _
  · rwa [ScriptMap.contains_remove_ne _ _ _ hk]

theorem registryInv_unregister (pol spol : String → EPF_ESaveType) (m : EPF_PersistenceManager)
    (id : String) (h : registryInv pol spol m) :
    registryInv pol spol { m with
      m_mRootAutoSave := m.m_mRootAutoSave.Remove id
      m_mRootShutdown := m.m_mRootShutdown.Remove id
      m_mUncategorizedEntities := m.m_mUncategorizedEntities.Remove id } := by
  intro k
  obtain ⟨i1, i2, i3, i4, i5⟩ := h k
  refine ⟨?_, ?_, i3, i4, i5⟩
  · intro ha
    have := i1 (contains_of_contains_remove _ _ _ ha)
    exact ⟨this.1, not_contains_remove _ _ _ this.2⟩
  · intro ha
    have := i2 (contains_of_contains_remove _ _ _ ha)
    exact ⟨this.1, not_contains_remove _ _ _ this.2⟩

theorem registryInv_unregisterScriptedState (pol spol : String → EPF_ESaveType)
    (m : EPF_PersistenceManager) (id : String) (h : registryInv pol spol m) :
    registryInv pol spol { m with
      m_mScriptedStateAutoSave := m.m_mScriptedStateAutoSave.Remove id
      m_mScriptedStateShutdown := m.m_mScriptedStateShutdown.Remove id
      m_mScriptedStateUncategorized := m.m_mScriptedStateUncategorized.Remove id } := by
  intro k
  obtain ⟨i1, i2, i3, i4, i5⟩ := h k
  exact ⟨i1, i2, fun ha => i3 (contains_of_contains_remove _ _ _ ha),
    fun ha => i4 (contains_of_contains_remove _ _ _ ha),
    fun ha => i5 (contains_of_contains_remove _ _ _ ha)⟩

theorem exclusive_of_registryInv (pol spol : String → EPF_ESaveType) (m : EPF_PersistenceManager)
    (h : registryInv pol spol m) (id : String) : exclusive m id = true := by
  obtain ⟨i1, i2, i3, i4, i5⟩ := h id
  unfold exclusive atMostOne
  cases ha : m.m_mRootAutoSave.Contains id <;> cases hs : m.m_mRootShutdown.Contains id <;>
  cases hu : m.m_mUncategorizedEntities.Contains id <;>
  cases hsa : m.m_mScriptedStateAutoSave.Contains id <;>
  cases hss : m.m_mScriptedStateShutdown.Contains id <;>
  cases hsu : m.m_mScriptedStateUncategorized.Contains id <;>
  first
    | rfl
    | exact absurd ((i1 ha).2.symm.trans hu) (by decide)
    | exact absurd ((i2 hs).2.symm.trans hu) (by decide)
    | exact absurd ((i1 ha).1.symm.trans (i2 hs).1) (by decide)
    | exact absurd ((i3 hsa).symm.trans (i4 hss)) (by decide)
    | exact absurd ((i3 hsa).symm.trans (i5 hsu)) (by decide)
    | exact absurd ((i4 hss).symm.trans (i5 hsu)) (by decide)

theorem register_inv (env : Env) (pol spol : String → EPF_ESaveType) (w : World) (ref : Ref)
    (id : String) (hinv : registryInv pol spol w.mgr) (hc : collectionAvailable w = true)
    (hpol : (w.components ref).m_pOwner.isSome = true →
      pol (registerId env w ref id) = (w.components ref).settings.m_eSaveType) :
    ∃ r, Register env w ref id = some r ∧ registryInv pol spol r.2.mgr ∧
      collectionAvailable r.2 = true := by
  cases hown : (w.components ref).m_pOwner with
  | none => exact ⟨("", w), by simp [Register, hown], hinv, hc⟩
  | some o =>
    have ho : (w.components ref).m_pOwner.isSome = true := by rw [hown]; rfl
    obtain ⟨b, c, hreg, hcs⟩ := register_shape env w ref id ho hc
    have hm := registerPrep_mgr env w ref id
    refine ⟨_, hreg, ?_, ?_⟩
    · refine registryInv_congr pol spol (registerBuckets env w ref id) _ rfl rfl rfl rfl rfl rfl ?_
      unfold registerBuckets
      refine registryInv_categorize pol spol _ _ _ _ _ _ ?_ (by rw [hm]; exact hinv)
      rw [registerPrep_settings]
      exact hpol ho
    · simpa [collectionAvailable, registerBuckets, hm, hcs] using hc

theorem registerScriptedState_mgr (env : Env) (w : World) (ref : Ref) (id : String) :
    (RegisterScriptedState env w ref id).2.mgr = categorizeScriptedState w.mgr
      (env.scriptedStateSaveType (scriptedStateTarget (w.scriptedStates ref))) ref
      (RegisterScriptedState env w ref id).1 := by
  by_cases h : id = ""
  · subst h; rw [registerScriptedState_mint]
  · rw [registerScriptedState_explicit env w ref id h]

theorem registerScriptedState_inv (env : Env) (pol spol : String → EPF_ESaveType) (w : World)
    (ref : Ref) (id : String) (hinv : registryInv pol spol w.mgr)
    (hc : collectionAvailable w = true)
    (hpol : spol (RegisterScriptedState env w ref id).1 =
      env.scriptedStateSaveType (scriptedStateTarget (w.scriptedStates ref))) :
    registryInv pol spol (RegisterScriptedState env w ref id).2.mgr ∧
      collectionAvailable (RegisterScriptedState env w ref id).2 = true := by
  constructor
  · rw [registerScriptedState_mgr]
    exact registryInv_categorizeScriptedState pol spol _ _ _ _ hpol hinv
  · unfold collectionAvailable
    rw [registerScriptedState_mgr]
    simpa [collectionAvailable] using hc

theorem filingAgrees_some (pol : String → EPF_ESaveType) (f : String × EPF_ESaveType)
    (h : filingAgrees pol (some f) = true) : pol f.1 = f.2 := by
  simpa [filingAgrees] using h

/-- One registry call keeps the invariant, and returns, when its filing agrees with the policy
assignment. -/
theorem apply_inv (env : Env) (pol spol : String → EPF_ESaveType) (op : RegistryOp) (w : World)
    (hinv : registryInv pol spol w.mgr) (hc : collectionAvailable w = true)
    (h1 : filingAgrees pol (op.entityFiling env w) = true)
    (h2 : filingAgrees spol (op.scriptedStateFiling env w) = true) :
    ∃ w', op.apply env w = some w' ∧ registryInv pol spol w'.mgr ∧
      collectionAvailable w' = true := by
  cases op with
  | register ref id =>
    obtain ⟨r, hr, hi, hcr⟩ := register_inv env pol spol w ref id hinv hc (by
      intro ho
      simp only [RegistryOp.entityFiling, ho, if_true] at h1
      exact filingAgrees_some pol _ h1)
    exact ⟨r.2, by simp [RegistryOp.apply, hr], hi, hcr⟩
  | registerScriptedState ref id =>
    obtain ⟨hi, hcr⟩ := registerScriptedState_inv env pol spol w ref id hinv hc
      (filingAgrees_some spol _ h2)
    exact ⟨_, rfl, hi, hcr⟩
  | updateRootStatus ref id settings isRootEntity =>
    obtain ⟨b, c, hu, hcs⟩ := updateRootStatus_shape env w ref id settings isRootEntity hc
    refine ⟨_, hu, ?_, ?_⟩
    · refine registryInv_congr pol spol
        (categorize w.mgr (w.components ref) ref id settings isRootEntity) _
        rfl rfl rfl rfl rfl rfl ?_
      exact registryInv_categorize pol spol _ _ _ _ _ _ (filingAgrees_some pol _ h1) hinv
    · simpa [collectionAvailable, hcs] using hc
  | unregister ref =>
    by_cases hid : (w.components ref).m_sId = ""
    · obtain ⟨r, hr, hi, hcr⟩ := register_inv env pol spol w ref "" hinv hc (by
        intro ho
        simp only [RegistryOp.entityFiling, hid, ho, decide_True, Bool.and_self, if_true] at h1
        exact filingAgrees_some pol _ h1)
      have hu : ∃ w', Unregister env w ref = some w' ∧ w'.mgr = { r.2.mgr with
          m_mRootAutoSave := r.2.mgr.m_mRootAutoSave.Remove r.1
          m_mRootShutdown := r.2.mgr.m_mRootShutdown.Remove r.1
          m_mUncategorizedEntities := r.2.mgr.m_mUncategorizedEntities.Remove r.1 } := by
        simp [Unregister, EPF_PersistenceComponent.GetPersistentId, hid, hr]
      obtain ⟨w', hw', hm'⟩ := hu
      refine ⟨w', hw', ?_, ?_⟩
      · rw [hm']; exact registryInv_unregister pol spol r.2.mgr r.1 hi
      · unfold collectionAvailable at hcr ⊢
        rw [hm']; exact hcr
    · have hu : ∃ w', Unregister env w ref = some w' ∧ w'.mgr = { w.mgr with
          m_mRootAutoSave := w.mgr.m_mRootAutoSave.Remove (w.components ref).m_sId
          m_mRootShutdown := w.mgr.m_mRootShutdown.Remove (w.components ref).m_sId
          m_mUncategorizedEntities :=
            w.mgr.m_mUncategorizedEntities.Remove (w.components ref).m_sId } := by
        simp [Unregister, EPF_PersistenceComponent.GetPersistentId, hid]
      obtain ⟨w', hw', hm'⟩ := hu
      refine ⟨w', hw', ?_, ?_⟩
      · rw [hm']; exact registryInv_unregister pol spol w.mgr _ hinv
      · unfold collectionAvailable at hc ⊢
        rw [hm']; exact hc
  | unregisterScriptedState ref =>
    by_cases hid : (w.scriptedStates ref).m_sId = ""
    · obtain ⟨hi, hcr⟩ := registerScriptedState_inv env pol spol w ref "" hinv hc (by
        simp only [RegistryOp.scriptedStateFiling, hid, if_true] at h2
        exact filingAgrees_some spol _ h2)
      refine ⟨_, rfl, ?_, ?_⟩
      · simp only [UnregisterScriptedState, EPF_PersistentScriptedState.GetPersistentId, hid,
          ne_eq, not_true_eq_false, if_false]
        exact registryInv_unregisterScriptedState pol spol _ _ hi
      · simp only [UnregisterScriptedState, EPF_PersistentScriptedState.GetPersistentId, hid,
          ne_eq, not_true_eq_false, if_false]
        simpa [collectionAvailable] using hcr
    · refine ⟨_, rfl, ?_, ?_⟩
      · simp only [UnregisterScriptedState, EPF_PersistentScriptedState.GetPersistentId, hid,
          ne_eq, not_false_eq_true, if_true]
        exact registryInv_unregisterScriptedState pol spol _ _ hinv
      · simp only [UnregisterScriptedState, EPF_PersistentScriptedState.GetPersistentId, hid,
          ne_eq, not_false_eq_true, if_true]
        simpa [collectionAvailable] using hc
  | setComponent ref c => exact ⟨_, rfl, hinv, by simpa [collectionAvailable] using hc⟩
  | setScriptedState ref s => exact ⟨_, rfl, hinv, by simpa [collectionAvailable] using hc⟩

theorem runOps_inv (env : Env) (pol spol : String → EPF_ESaveType) (ops : List RegistryOp) :
    ∀ w, registryInv pol spol w.mgr → collectionAvailable w = true →
      consistentRun env pol spol w ops = true →
      ∃ w', runOps env w ops = some w' ∧ registryInv pol spol w'.mgr := by
  induction ops with
  | nil => intro w hinv _ _; exact ⟨w, rfl, hinv⟩
  | cons op ops ih =>
    intro w hinv hc hcons
    simp only [consistentRun, Bool.and_eq_true] at hcons
    obtain ⟨⟨h1, h2⟩, h3⟩ := hcons
    obtain ⟨w1, ha, hi, hc1⟩ := apply_inv env pol spol op w hinv hc h1 h2
    rw [ha] at h3
    obtain ⟨w', hr, hi'⟩ := ih w1 hi hc1 h3
    exact ⟨w', by simp [runOps, ha, hr], hi'⟩

/-! ## C6 -/

/-- C6, as stated, fails when one identifier is used for two objects of different policy.
On a new manager, registering the shutdown-only root 2 and then the autosave root 1 under
"x" leaves "x" a key of both the autosave and the shutdown entity bucket; registering the
autosave state 0 and then the shutdown-only state 1 under "y" leaves "y" a key of both
the autosave and the shutdown free-standing-state bucket. -/
theorem C6_counterexample :
    (runOps Example.env Example.world [.register 2 "x", .register 1 "x"]).map (fun w =>
      (w.mgr.m_mRootAutoSave.entries, w.mgr.m_mRootShutdown.entries, exclusive w.mgr "x")) =
      some ([("x", 1)], [("x", 2)], false) ∧
    (runOps Example.env Example.world
        [.registerScriptedState 0 "y", .registerScriptedState 1 "y"]).map (fun w =>
      (w.mgr.m_mScriptedStateAutoSave.entries, w.mgr.m_mScriptedStateShutdown.entries,
        exclusive w.mgr "y")) =
      some ([("y", 0)], [("y", 1)], false) := by
  decide

/-- C6 (amended): starting from the empty registry of a new manager, after every sequence of
`Register`, `UpdateRootStatus` and `Unregister` calls (with any changes the objects make to
themselves in between) in which each identifier is only ever filed under one save policy per
object kind, the sequence runs to its end and each identifier is a key of at most one of the
three entity buckets and of at most one of the three free-standing-state buckets. -/
theorem C6_bucket_exclusivity (env : Env) (pol spol : String → EPF_ESaveType) (w : World)
    (ops : List RegistryOp)
    (hnew : w.mgr = EPF_PersistenceManager.new)
    (hcons : consistentRun env pol spol w ops = true) :
    ∃ w', runOps env w ops = some w' ∧ ∀ id, exclusive w'.mgr id = true := by
  obtain ⟨w', hr, hi⟩ := runOps_inv env pol spol ops w
    (by rw [hnew]; exact registryInv_new pol spol)
    (by simp [collectionAvailable, hnew, EPF_PersistenceManager.new,
      EPF_EPersistenceManagerState.toNat])
    hcons
  exact ⟨w', hr, exclusive_of_registryInv pol spol w'.mgr hi⟩

/-- C6 at a concrete input: a root is registered, becomes a child, stores its identifier and
is unregistered, and a free-standing state is registered, each identifier under one policy. -/
theorem C6_bucket_exclusivity_witness :
    ∃ w', runOps Example.env Example.world
        [.register 1 "x", .registerScriptedState 1 "y",
          .updateRootStatus 1 "x" ⟨.INTERVAL_SHUTDOWN, "CharacterSaveData"⟩ false,
          .setComponent 1 ⟨some 11, ⟨false, false, false, true⟩, "x",
            ⟨.INTERVAL_SHUTDOWN, "CharacterSaveData"⟩⟩,
          .unregister 1] = some w' ∧
      ∀ id, exclusive w'.mgr id = true :=
  C6_bucket_exclusivity Example.env
    (fun id => if id = "x" then .INTERVAL_SHUTDOWN else .MANUAL)
    (fun id => if id = "y" then .SHUTDOWN else .MANUAL)
    Example.world _ rfl (by decide)

/-! ## C7 -/

theorem categorize_interval_nonroot (m : EPF_PersistenceManager) (c : EPF_PersistenceComponent)
    (ref : Ref) (id : String) (settings : EPF_PersistenceComponentClass)
    (h : settings.m_eSaveType = .INTERVAL_SHUTDOWN) :
    (categorize m c ref id settings false).m_mRootAutoSave =
      (if m.m_mRootAutoSave.Contains id then m.m_mRootAutoSave.Remove id else m.m_mRootAutoSave) ∧
    (categorize m c ref id settings false).m_mRootAutoSaveCleanup =
      (if m.m_mRootAutoSave.Contains id && EPF_BitFlags.CheckFlags c.m_eFlags .PERSISTENT_RECORD then
        m.m_mRootAutoSaveCleanup.Set id settings.m_tSaveDataType else m.m_mRootAutoSaveCleanup) ∧
    (categorize m c ref id settings false).m_mUncategorizedEntities =
      m.m_mUncategorizedEntities.Set id ref ∧
    (categorize m c ref id settings false).m_mRootShutdown = m.m_mRootShutdown ∧
    (categorize m c ref id settings false).m_mRootShutdownCleanup = m.m_mRootShutdownCleanup := by
  unfold categorize
  rw [h]
  by_cases h1 : m.m_mRootAutoSave.Contains id = true <;>
  by_cases h3 : EPF_BitFlags.CheckFlags c.m_eFlags .PERSISTENT_RECORD = true <;>
  simp [h1, h3]

theorem categorize_shutdown_nonroot (m : EPF_PersistenceManager) (c : EPF_PersistenceComponent)
    (ref : Ref) (id : String) (settings : EPF_PersistenceComponentClass)
    (h : settings.m_eSaveType = .SHUTDOWN) :
    (categorize m c ref id settings false).m_mRootShutdown =
      (if m.m_mRootShutdown.Contains id then m.m_mRootShutdown.Remove id else m.m_mRootShutdown) ∧
    (categorize m c ref id settings false).m_mRootShutdownCleanup =
      (if m.m_mRootShutdown.Contains id && EPF_BitFlags.CheckFlags c.m_eFlags .PERSISTENT_RECORD then
        m.m_mRootShutdownCleanup.Set id settings.m_tSaveDataType else m.m_mRootShutdownCleanup) ∧
    (categorize m c ref id settings false).m_mUncategorizedEntities =
      m.m_mUncategorizedEntities.Set id ref ∧
    (categorize m c ref id settings false).m_mRootAutoSave = m.m_mRootAutoSave ∧
    (categorize m c ref id settings false).m_mRootAutoSaveCleanup = m.m_mRootAutoSaveCleanup := by
  unfold categorize
  rw [h]
  by_cases h1 : m.m_mRootShutdown.Contains id = true <;>
  by_cases h3 : EPF_BitFlags.CheckFlags c.m_eFlags .PERSISTENT_RECORD = true <;>
  simp [h1, h3]

/-- C7, as stated, fails in its closing consequence. On a new manager the shutdown-only root 2,
holding a standalone record, is registered under "x" and stops being a root, which puts
"x" in the shutdown cleanup set; then the autosave root 1, holding a standalone record, is
registered under the same "x". `UpdateRootStatus` with the autosave policy and
`isRootEntity = false` now finds "x" in the autosave bucket and sets it in the autosave
cleanup set, and leaves the shutdown cleanup set as it is: "x" ends up in both cleanup sets. -/
theorem C7_counterexample :
    (runOps Example.env Example.world
        [.register 2 "x", .updateRootStatus 2 "x" ⟨.SHUTDOWN, "VehicleSaveData"⟩ false,
          .register 1 "x"]).bind (fun w3 =>
      (UpdateRootStatus Example.env w3 1 "x" ⟨.INTERVAL_SHUTDOWN, "CharacterSaveData"⟩ false).map
        (fun w4 => (w3.mgr.m_mRootAutoSave.Contains "x", w4.mgr.m_mRootAutoSaveCleanup.entries,
          w4.mgr.m_mRootShutdownCleanup.entries))) =
    some (true, [("x", "CharacterSaveData")], [("x", "VehicleSaveData")]) := by
  decide

/-- C7 (amended): `UpdateRootStatus` with `isRootEntity = false`. With the autosave policy, an
identifier that is in the autosave bucket is removed from it, and the pair of the identifier
and the save-data type is set in the autosave cleanup set exactly when the object carries
`PERSISTENT_RECORD`; an identifier that is not in the autosave bucket leaves bucket and cleanup
set as they were; in both cases the object lands in the uncategorized bucket and the shutdown
bucket and shutdown cleanup set are unchanged. The same holds for the shutdown-only policy with
the shutdown bucket and the shutdown cleanup set. So an identifier that was not in the cleanup
set of the other policy and leaves its bucket with a standalone record ends up in exactly one
cleanup set. -/
theorem C7_update_root_status_non_root (env : Env) (w : World) (ref : Ref) (id : String)
    (sa ss : EPF_PersistenceComponentClass)
    (hcoll : collectionAvailable w = true)
    (ha : sa.m_eSaveType = .INTERVAL_SHUTDOWN)
    (hs : ss.m_eSaveType = .SHUTDOWN) :
    (∃ w', UpdateRootStatus env w ref id sa false = some w' ∧
      (w.mgr.m_mRootAutoSave.Contains id = true →
        w'.mgr.m_mRootAutoSave = w.mgr.m_mRootAutoSave.Remove id ∧
        w'.mgr.m_mRootAutoSave.Contains id = false ∧
        w'.mgr.m_mRootAutoSaveCleanup =
          (if EPF_BitFlags.CheckFlags (w.components ref).m_eFlags .PERSISTENT_RECORD then
            w.mgr.m_mRootAutoSaveCleanup.Set id sa.m_tSaveDataType
          else w.mgr.m_mRootAutoSaveCleanup)) ∧
      (w.mgr.m_mRootAutoSave.Contains id = false →
        w'.mgr.m_mRootAutoSave = w.mgr.m_mRootAutoSave ∧
        w'.mgr.m_mRootAutoSaveCleanup = w.mgr.m_mRootAutoSaveCleanup) ∧
      w'.mgr.m_mUncategorizedEntities = w.mgr.m_mUncategorizedEntities.Set id ref ∧
      w'.mgr.m_mUncategorizedEntities.Find id = some ref ∧
      w'.mgr.m_mRootShutdown = w.mgr.m_mRootShutdown ∧
      w'.mgr.m_mRootShutdownCleanup = w.mgr.m_mRootShutdownCleanup ∧
      (w.mgr.m_mRootAutoSave.Contains id = true →
        EPF_BitFlags.CheckFlags (w.components ref).m_eFlags .PERSISTENT_RECORD = true →
        w.mgr.m_mRootShutdownCleanup.Contains id = false →
        w'.mgr.m_mRootAutoSaveCleanup.Find id = some sa.m_tSaveDataType ∧
        w'.mgr.m_mRootShutdownCleanup.Contains id = false)) ∧
    (∃ w', UpdateRootStatus env w ref id ss false = some w' ∧
      (w.mgr.m_mRootShutdown.Contains id = true →
        w'.mgr.m_mRootShutdown = w.mgr.m_mRootShutdown.Remove id ∧
        w'.mgr.m_mRootShutdown.Contains id = false ∧
        w'.mgr.m_mRootShutdownCleanup =
          (if EPF_BitFlags.CheckFlags (w.components ref).m_eFlags .PERSISTENT_RECORD then
            w.mgr.m_mRootShutdownCleanup.Set id ss.m_tSaveDataType
          else w.mgr.m_mRootShutdownCleanup)) ∧
      (w.mgr.m_mRootShutdown.Contains id = false →
        w'.mgr.m_mRootShutdown = w.mgr.m_mRootShutdown ∧
        w'.mgr.m_mRootShutdownCleanup = w.mgr.m_mRootShutdownCleanup) ∧
      w'.mgr.m_mUncategorizedEntities = w.mgr.m_mUncategorizedEntities.Set id ref ∧
      w'.mgr.m_mUncategorizedEntities.Find id = some ref ∧
      w'.mgr.m_mRootAutoSave = w.mgr.m_mRootAutoSave ∧
      w'.mgr.m_mRootAutoSaveCleanup = w.mgr.m_mRootAutoSaveCleanup ∧
      (w.mgr.m_mRootShutdown.Contains id = true →
        EPF_BitFlags.CheckFlags (w.components ref).m_eFlags .PERSISTENT_RECORD = true →
        w.mgr.m_mRootAutoSaveCleanup.Contains id = false →
        w'.mgr.m_mRootShutdownCleanup.Find id = some ss.m_tSaveDataType ∧
        w'.mgr.m_mRootAutoSaveCleanup.Contains id = false)) := by
  constructor
  · obtain ⟨b, c, hu, _⟩ := updateRootStatus_shape env w ref id sa false hcoll
    obtain ⟨c1, c2, c3, c4, c5⟩ := categorize_interval_nonroot w.mgr (w.components ref) ref id sa ha
    refine ⟨_, hu, ?_, ?_, c3, ?_, c4, c5, ?_⟩
    · intro h
      refine ⟨by simpa [h] using c1, ?_, by simpa [h] using c2⟩
      show (categorize w.mgr (w.components ref) ref id sa false).m_mRootAutoSave.Contains id = false
      rw [c1, if_pos h]; exact ScriptMap.contains_remove_self _ _
    · intro h
      exact ⟨by simpa [h] using c1, by simpa [h] using c2⟩
    · show (categorize w.mgr (w.components ref) ref id sa false).m_mUncategorizedEntities.Find id
        = some ref
      rw [c3]; exact ScriptMap.find_set_self _ _ _
    · intro h1 h2 h3
      constructor
      · show (categorize w.mgr (w.components ref) ref id sa false).m_mRootAutoSaveCleanup.Find id
          = some sa.m_tSaveDataType
        rw [c2]; simp [h1, h2, ScriptMap.find_set_self]
      · show (categorize w.mgr (w.components ref) ref id sa false).m_mRootShutdownCleanup.Contains
          id = false
        rw [c5]; exact h3
  · obtain ⟨b, c, hu, _⟩ := updateRootStatus_shape env w ref id ss false hcoll
    obtain ⟨c1, c2, c3, c4, c5⟩ := categorize_shutdown_nonroot w.mgr (w.components ref) ref id ss hs
    refine ⟨_, hu, ?_, ?_, c3, ?_, c4, c5, ?_⟩
    · intro h
      refine ⟨by simpa [h] using c1, ?_, by simpa [h] using c2⟩
      show (categorize w.mgr (w.components ref) ref id ss false).m_mRootShutdown.Contains id = false
      rw [c1, if_pos h]; exact ScriptMap.contains_remove_self _ _
    · intro h
      exact ⟨by simpa [h] using c1, by simpa [h] using c2⟩
    · show (categorize w.mgr (w.components ref) ref id ss false).m_mUncategorizedEntities.Find id
        = some ref
      rw [c3]; exact ScriptMap.find_set_self _ _ _
    · intro h1 h2 h3
      constructor
      · show (categorize w.mgr (w.components ref) ref id ss false).m_mRootShutdownCleanup.Find id
          = some ss.m_tSaveDataType
        rw [c2]; simp [h1, h2, ScriptMap.find_set_self]
      · show (categorize w.mgr (w.components ref) ref id ss false).m_mRootAutoSaveCleanup.Contains
          id = false
        rw [c5]; exact h3

/-- C7 at a concrete input: in the populated example manager the autosave root 1 ("a1",
holding a standalone record) stops being a root. -/
theorem C7_update_root_status_non_root_witness :
    ∃ w', UpdateRootStatus Example.env Example.busyWorld 1 "a1"
        ⟨.INTERVAL_SHUTDOWN, "CharacterSaveData"⟩ false = some w' ∧
      w'.mgr.m_mRootAutoSaveCleanup.Find "a1" = some "CharacterSaveData" ∧
      w'.mgr.m_mRootShutdownCleanup.Contains "a1" = false :=
  have h := (C7_update_root_status_non_root Example.env Example.busyWorld 1 "a1"
    ⟨.INTERVAL_SHUTDOWN, "CharacterSaveData"⟩ ⟨.SHUTDOWN, "VehicleSaveData"⟩
    (by decide) rfl rfl).1
  match h with
  | ⟨w1, h1, _, _, _, _, _, _, h8⟩ => ⟨w1, h1, h8 (by decide) (by decide) (by decide)⟩

/-! ## Facts about the scheduler walks -/

theorem autoSaveEntityWalk_shape (l : List (String × Ref)) :
    ∀ (w : World) (b : Bool) (w1 : World), autoSaveEntityWalk w l = some (b, w1) →
      ∃ saves i n, (∀ e ∈ saves, ∃ r, e = Event.entitySave r) ∧
        w1 = { w with
          trace := w.trace ++ saves
          mgr := { w.mgr with m_iAutoSaveEntityIt := i, m_iSaveOperation := n } } := by
  induction l with
  | nil =>
    intro w b w1 h
    simp only [autoSaveEntityWalk, Option.some.injEq, Prod.mk.injEq] at h
    exact ⟨[], w.mgr.m_iAutoSaveEntityIt, w.mgr.m_iSaveOperation, by simp, by simp [← h.2]⟩
  | cons e l ih =>
    intro w b w1 h
    unfold autoSaveEntityWalk at h
    simp only [] at h
    by_cases hp : EPF_BitFlags.CheckFlags (w.components e.2).m_eFlags .PAUSE_TRACKING = true
    · rw [if_pos hp] at h
      obtain ⟨saves, i, n, hs, hw⟩ := ih _ b w1 h
      exact ⟨saves, i, n, hs, by rw [hw]⟩
    · rw [if_neg hp] at h
      split at h
      · simp at h
      · simp only [Option.some.injEq, Prod.mk.injEq] at h
        refine ⟨[Event.entitySave e.2], w.mgr.m_iAutoSaveEntityIt + 1,
          int32 (w.mgr.m_iSaveOperation + 1), by simp, ?_⟩
        rw [← h.2]
      · obtain ⟨saves, i, n, hs, hw⟩ := ih _ b w1 h
        refine ⟨Event.entitySave e.2 :: saves, i, n, ?_, ?_⟩
        · intro x hx
          rcases List.mem_cons.1 hx with hx | hx
          · exact ⟨_, hx⟩
          · exact hs x hx
        · rw [hw]; simp

theorem autoSaveScriptedStateWalk_shape (l : List (String × Ref)) :
    ∀ (w : World) (b : Bool) (w1 : World), autoSaveScriptedStateWalk w l = some (b, w1) →
      ∃ saves i n, (∀ e ∈ saves, ∃ r, e = Event.scriptedStateSave r) ∧
        w1 = { w with
          trace := w.trace ++ saves
          mgr := { w.mgr with m_iAutoSaveScriptedStateIt := i, m_iSaveOperation := n } } := by
  induction l with
  | nil =>
    intro w b w1 h
    simp only [autoSaveScriptedStateWalk, Option.some.injEq, Prod.mk.injEq] at h
    exact ⟨[], w.mgr.m_iAutoSaveScriptedStateIt, w.mgr.m_iSaveOperation, by simp, by simp [← h.2]⟩
  | cons e l ih =>
    intro w b w1 h
    unfold autoSaveScriptedStateWalk at h
    simp only [] at h
    by_cases hp : EPF_BitFlags.CheckFlags (w.scriptedStates e.2).m_eFlags .PAUSE_TRACKING = true
    · rw [if_pos hp] at h
      obtain ⟨saves, i, n, hs, hw⟩ := ih _ b w1 h
      exact ⟨saves, i, n, hs, by rw [hw]⟩
    · rw [if_neg hp] at h
      split at h
      · simp at h
      · simp only [Option.some.injEq, Prod.mk.injEq] at h
        refine ⟨[Event.scriptedStateSave e.2], w.mgr.m_iAutoSaveScriptedStateIt + 1,
          int32 (w.mgr.m_iSaveOperation + 1), by simp, ?_⟩
        rw [← h.2]
      · obtain ⟨saves, i, n, hs, hw⟩ := ih _ b w1 h
        refine ⟨Event.scriptedStateSave e.2 :: saves, i, n, ?_, ?_⟩
        · intro x hx
          rcases List.mem_cons.1 hx with hx | hx
          · exact ⟨_, hx⟩
          · exact hs x hx
        · rw [hw]; simp

theorem removeCleanupRecords_some (w : World) (cleanup : ScriptMap String) (w1 : World)
    (h : removeCleanupRecords w cleanup = some w1) :
    w1 = { w with
      trace := w.trace ++ cleanup.entries.map (fun x => Event.dbRemoveAsync x.2 x.1) } := by
  unfold removeCleanupRecords at h
  split at h
  · rename_i heq
    simp only [Option.some.injEq] at h
    rw [← h, heq]; simp
  · rename_i e rest heq
    split at h
    · simp at h
    · simp only [Option.some.injEq] at h
      rw [← h, heq]

theorem autoSaveComplete_some (w w1 : World) (h : autoSaveComplete w = some w1) :
    w1 = { w with
      trace := w.trace ++ [Event.rootEntityCollectionSave] ++
        w.mgr.m_mRootAutoSaveCleanup.entries.map (fun x => Event.dbRemoveAsync x.2 x.1)
      mgr := { w.mgr with
        m_mRootAutoSaveCleanup := ⟨[]⟩
        m_bAutoSaveActive := false } } := by
  unfold autoSaveComplete saveRootEntityCollection at h
  cases hc : w.mgr.m_pRootEntityCollection with
  | none => simp [hc] at h
  | some c =>
    simp only [hc, Option.some_bind, Option.map_eq_some'] at h
    obtain ⟨w2, h2, h3⟩ := h
    have := removeCleanupRecords_some _ _ _ h2
    rw [← h3, this]
    rfl

/-! ## C8 -/

/-- The example pass state is the one the first tick of a pass leaves: `AutoSave()` and one
`AutoSaveTick()` on the populated example manager save the objects 1 and 9 and stop at the
throttle with the entity cursor at the end of its bucket. -/
theorem passWorld_reached :
    ((AutoSave Example.env Example.busyWorld).bind AutoSaveTick).map (fun w =>
      (w.trace, w.mgr.m_iAutoSaveEntityIt, w.mgr.m_iAutoSaveScriptedStateIt,
        w.mgr.m_iSaveOperation, w.mgr.m_bAutoSaveActive)) =
    some (Example.passWorld.trace, Example.passWorld.mgr.m_iAutoSaveEntityIt,
      Example.passWorld.mgr.m_iAutoSaveScriptedStateIt, Example.passWorld.mgr.m_iSaveOperation,
      Example.passWorld.mgr.m_bAutoSaveActive) := by
  decide

/-- C8, as stated, fails for the shutdown cleanup set. The tick that completes the pass of the
populated example manager saves the Root Entity Collection and issues the store remove for the
entry "c5" of the autosave cleanup set, which is then empty; the entry "c6" of the shutdown
cleanup set gets no store remove and is still in its set afterwards. The same happens from an
empty `ACTIVE` manager: the shutdown-only root 2, holding a standalone record, is registered
under "s2" and stops being a root, which puts "s2" in the shutdown cleanup set; the autosave
pass started next completes in its first tick, and "s2" is still in the shutdown cleanup set,
with no store remove issued. -/
theorem C8_counterexample :
    (AutoSaveTick Example.passWorld).map (fun w =>
      (w.trace, w.mgr.m_bAutoSaveActive, w.mgr.m_mRootAutoSaveCleanup.entries,
        w.mgr.m_mRootShutdownCleanup.entries)) =
    some ([Event.entitySave 1, Event.entitySave 9, Event.scriptedStateSave 0,
        Event.rootEntityCollectionSave, Event.dbRemoveAsync "ItemSaveData" "c5"],
      false, [], [("c6", "ItemSaveData")]) ∧
    (((runOps Example.env Example.activeWorld
        [.register 2 "s2", .updateRootStatus 2 "s2" ⟨.SHUTDOWN, "VehicleSaveData"⟩ false]).bind
      (AutoSave Example.env)).bind AutoSaveTick).map (fun w =>
      (w.trace, w.mgr.m_bAutoSaveActive, w.mgr.m_mRootShutdownCleanup.entries)) =
    some ([Event.rootEntityCollectionSave], false, [("s2", "VehicleSaveData")]) :=
  ⟨by decide, by decide⟩

/-- C8 (amended): when a tick completes an autosave pass (the pass was active and the tick
returns with the active flag cleared), the tick has made its remaining `Save` calls, then saved
the Root Entity Collection, then issued exactly one store remove, with the recorded type, for
every entry of the autosave cleanup set, in the set's order; afterwards the autosave cleanup
set is empty and the active flag is cleared. The shutdown cleanup set is left as it was and
no store remove is issued for its entries. -/
theorem C8_autosave_completion (w : World)
    (hactive : w.mgr.m_bAutoSaveActive = true)
    (hdone : (AutoSaveTick w).map (fun w' => w'.mgr.m_bAutoSaveActive) = some false) :
    ∃ w' saves, AutoSaveTick w = some w' ∧
      (∀ e ∈ saves, (∃ r, e = Event.entitySave r) ∨ (∃ r, e = Event.scriptedStateSave r)) ∧
      w'.trace = w.trace ++ saves ++ [Event.rootEntityCollectionSave] ++
        w.mgr.m_mRootAutoSaveCleanup.entries.map (fun x => Event.dbRemoveAsync x.2 x.1) ∧
      w'.mgr.m_mRootAutoSaveCleanup.entries = [] ∧
      w'.mgr.m_mRootShutdownCleanup = w.mgr.m_mRootShutdownCleanup ∧
      w'.mgr.m_bAutoSaveActive = false := by
  unfold AutoSaveTick at hdone ⊢
  simp only [hactive, Bool.not_true, Bool.false_eq_true, if_false] at hdone ⊢
  by_cases h1 : w.mgr.m_mRootAutoSave.Count < w.mgr.m_iAutoSaveEntityIt
  · rw [if_pos h1] at hdone; simp at hdone
  · rw [if_neg h1] at hdone ⊢
    cases he : autoSaveEntityWalk w
        (w.mgr.m_mRootAutoSave.entries.drop w.mgr.m_iAutoSaveEntityIt) with
    | none => rw [he] at hdone; simp at hdone
    | some r =>
      obtain ⟨b, w1⟩ := r
      obtain ⟨saves1, i1, n1, hs1, hw1⟩ := autoSaveEntityWalk_shape _ _ _ _ he
      rw [he] at hdone
      cases b with
      | true =>
        simp only [Option.map_some', Option.some.injEq] at hdone
        rw [hw1] at hdone
        simp [hactive] at hdone
      | false =>
        simp only [] at hdone ⊢
        by_cases h2 : w1.mgr.m_mScriptedStateAutoSave.Count < w1.mgr.m_iAutoSaveScriptedStateIt
        · rw [if_pos h2] at hdone; simp at hdone
        · rw [if_neg h2] at hdone ⊢
          cases hs : autoSaveScriptedStateWalk w1
              (w1.mgr.m_mScriptedStateAutoSave.entries.drop w1.mgr.m_iAutoSaveScriptedStateIt) with
          | none => rw [hs] at hdone; simp at hdone
          | some r2 =>
            obtain ⟨b2, w2⟩ := r2
            obtain ⟨saves2, i2, n2, hs2, hw2⟩ := autoSaveScriptedStateWalk_shape _ _ _ _ hs
            rw [hs] at hdone
            cases b2 with
            | true =>
              simp only [Option.map_some', Option.some.injEq] at hdone
              rw [hw2, hw1] at hdone
              simp [hactive] at hdone
            | false =>
              simp only [] at hdone ⊢
              cases hc : autoSaveComplete w2 with
              | none => rw [hc] at hdone; simp at hdone
              | some w3 =>
                have h3 := autoSaveComplete_some _ _ hc
                refine ⟨w3, saves1 ++ saves2, rfl, ?_, ?_, ?_, ?_, ?_⟩
                · intro e he'
                  rcases List.mem_append.1 he' with h | h
                  · exact Or.inl (hs1 e h)
                  · exact Or.inr (hs2 e h)
                · rw [h3, hw2, hw1]; simp
                · rw [h3]
                · rw [h3, hw2, hw1]
                · rw [h3]

/-- C8 at a concrete input: the completing tick of the pass of the populated example manager. -/
theorem C8_autosave_completion_witness :
    ∃ w' saves, AutoSaveTick Example.passWorld = some w' ∧
      w'.trace = Example.passWorld.trace ++ saves ++ [Event.rootEntityCollectionSave] ++
        [Event.dbRemoveAsync "ItemSaveData" "c5"] ∧
      w'.mgr.m_mRootAutoSaveCleanup.entries = [] :=
  have h := C8_autosave_completion Example.passWorld (by decide) (by decide)
  match h with
  | ⟨w1, saves, h1, _, h3, h4, _⟩ => ⟨w1, saves, h1, h3, h4⟩

/-! ## C9 -/

theorem removeCleanupRecords_total (w : World) (cleanup : ScriptMap String)
    (h : (w.mgr.m_pDbContext.isSome || cleanup.entries.isEmpty) = true) :
    removeCleanupRecords w cleanup = some
      { w with trace := w.trace ++ cleanup.entries.map (fun x => Event.dbRemoveAsync x.2 x.1) } := by
  unfold removeCleanupRecords
  cases hl : cleanup.entries with
  | nil => simp
  | cons e rest =>
    cases hd : w.mgr.m_pDbContext with
    | none => simp [hl, hd] at h
    | some d => simp

theorem shutDownSave_eq (env : Env) (w w1 : World) (c : EPF_PersistentRootEntityCollection)
    (hf : FlushRegistrations env w = some w1)
    (hc : w1.mgr.m_pRootEntityCollection = some c)
    (hdb : (w1.mgr.m_pDbContext.isSome || w1.mgr.m_mRootShutdownCleanup.entries.isEmpty) = true) :
    ShutDownSave env w = some
      { w1 with
        trace := w1.trace ++
          (unpaused (fun r => (w1.components r).m_eFlags) w1.mgr.m_mRootShutdown).map
            Event.entitySave ++
          (unpaused (fun r => (w1.scriptedStates r).m_eFlags) w1.mgr.m_mScriptedStateShutdown).map
            Event.scriptedStateSave ++
          [Event.rootEntityCollectionSave] ++
          w1.mgr.m_mRootShutdownCleanup.entries.map (fun x => Event.dbRemoveAsync x.2 x.1)
        mgr := { w1.mgr with m_mRootShutdownCleanup := ⟨[]⟩ } } := by
  unfold ShutDownSave
  rw [hf]
  simp only [Option.some_bind, saveRootEntityCollection, hc]
  rw [removeCleanupRecords_total _ _ (by simpa using hdb)]
  simp [ScriptMap.Clear, List.append_assoc, hc]

/-- C9, as stated, fails for the autosave cleanup set. `ShutDownSave` on the populated example
manager saves the unpaused objects of the two shutdown buckets and the Root Entity Collection
and issues the store remove for the entry "c6" of the shutdown cleanup set, which is then
empty; the entry "c5" of the autosave cleanup set, which a completed autosave pass would
drain, gets no store remove and is still in its set afterwards. The same happens from an
empty `ACTIVE` manager: the autosave root 1, holding a standalone record, is registered under
"a1" and stops being a root, which puts "a1" in the autosave cleanup set; `ShutDownSave`
leaves it there and issues no store remove. -/
theorem C9_counterexample :
    (ShutDownSave Example.env Example.busyWorld).map (fun w =>
      (w.trace, w.mgr.m_mRootAutoSaveCleanup.entries, w.mgr.m_mRootShutdownCleanup.entries)) =
    some ([Event.entitySave 2, Event.scriptedStateSave 1, Event.rootEntityCollectionSave,
        Event.dbRemoveAsync "ItemSaveData" "c6"],
      [("c5", "ItemSaveData")], []) ∧
    ((runOps Example.env Example.activeWorld
        [.register 1 "a1",
          .updateRootStatus 1 "a1" ⟨.INTERVAL_SHUTDOWN, "CharacterSaveData"⟩ false]).bind
      (ShutDownSave Example.env)).map (fun w =>
      (w.trace, w.mgr.m_mRootAutoSaveCleanup.entries)) =
    some ([Event.rootEntityCollectionSave], [("a1", "CharacterSaveData")]) :=
  ⟨by decide, by decide⟩

/-- C9 (amended): `ShutDownSave` flushes the pending registrations and then, on the registry as
it is after the flush, calls `Save` once for every entry of the shutdown-only entity bucket
whose object is not flagged `PAUSE_TRACKING`, in bucket order, then once for every such entry
of the shutdown-only free-standing-state bucket (and on no paused object and no entry of
another bucket), then saves the Root Entity Collection, then issues one store remove, with the
recorded type, for every entry of the shutdown cleanup set, which is empty afterwards. The
autosave cleanup set is left as it was and no store remove is issued for its entries. (The
Root Entity Collection exists, and so does the store adapter when there is an entry to remove.) -/
theorem C9_shutdown_save (env : Env) (w : World)
    (hready : (FlushRegistrations env w).map (fun w1 =>
      w1.mgr.m_pRootEntityCollection.isSome &&
        (w1.mgr.m_pDbContext.isSome || w1.mgr.m_mRootShutdownCleanup.entries.isEmpty)) = some true) :
    ∃ w1 w', FlushRegistrations env w = some w1 ∧ ShutDownSave env w = some w' ∧
      w'.trace = w1.trace ++
        (w1.mgr.m_mRootShutdown.entries.filter (fun e =>
          !EPF_BitFlags.CheckFlags (w1.components e.2).m_eFlags .PAUSE_TRACKING)).map
            (fun e => Event.entitySave e.2) ++
        (w1.mgr.m_mScriptedStateShutdown.entries.filter (fun e =>
          !EPF_BitFlags.CheckFlags (w1.scriptedStates e.2).m_eFlags .PAUSE_TRACKING)).map
            (fun e => Event.scriptedStateSave e.2) ++
        [Event.rootEntityCollectionSave] ++
        w1.mgr.m_mRootShutdownCleanup.entries.map (fun x => Event.dbRemoveAsync x.2 x.1) ∧
      w'.mgr.m_mRootShutdownCleanup.entries = [] ∧
      w'.mgr.m_mRootAutoSaveCleanup = w1.mgr.m_mRootAutoSaveCleanup ∧
      w'.mgr.m_mRootAutoSave = w1.mgr.m_mRootAutoSave ∧
      w'.mgr.m_mRootShutdown = w1.mgr.m_mRootShutdown ∧
      w'.mgr.m_mScriptedStateAutoSave = w1.mgr.m_mScriptedStateAutoSave ∧
      w'.mgr.m_mScriptedStateShutdown = w1.mgr.m_mScriptedStateShutdown := by
  cases hf : FlushRegistrations env w with
  | none => rw [hf] at hready; simp at hready
  | some w1 =>
    rw [hf] at hready
    simp only [Option.map_some', Option.some.injEq, Bool.and_eq_true] at hready
    obtain ⟨hcoll, hdb⟩ := hready
    cases hc : w1.mgr.m_pRootEntityCollection with
    | none => rw [hc] at hcoll; simp at hcoll
    | some c =>
      refine ⟨w1, _, rfl, shutDownSave_eq env w w1 c hf hc hdb, ?_, rfl, rfl, rfl, rfl, rfl, rfl⟩
      simp [unpaused, List.map_map, Function.comp_def]

/-- C9 at a concrete input: the shutdown save of the populated example manager. -/
theorem C9_shutdown_save_witness :
    ∃ w', ShutDownSave Example.env Example.busyWorld = some w' ∧
      w'.mgr.m_mRootShutdownCleanup.entries = [] ∧
      w'.mgr.m_mRootAutoSaveCleanup.entries = [("c5", "ItemSaveData")] :=
  have h := C9_shutdown_save Example.env Example.busyWorld (by decide)
  match h with
  | ⟨w1, w', h1, h2, _, h4, h5, _⟩ =>
    ⟨w', h2, h4, by
      have e : w1 = clearPending Example.busyWorld :=
        Option.some.inj (h1.symm.trans (flushRegistrations_identified _ _ (by decide)))
      rw [h5, e]; rfl⟩

/-! ## C10 -/

/-- C10: while an autosave pass is active, `AutoSave()` returns the world it was given: cursors,
save-operation counter, active flag, accumulator, pending lists, buckets and the trace of
`Save` and store calls are all unchanged. -/
theorem C10_autosave_while_active (env : Env) (w : World)
    (h : w.mgr.m_bAutoSaveActive = true) : AutoSave env w = some w := by
  simp [AutoSave, h]

/-- C10 at a concrete input: the populated example manager in the middle of a pass. -/
theorem C10_autosave_while_active_witness :
    AutoSave Example.env Example.passWorld = some Example.passWorld :=
  C10_autosave_while_active Example.env Example.passWorld (by decide)

/-! ## The walks of a tick -/

theorem savesCounted_succ (n : Nat) (op : Int) :
    savesCounted (n + 1) op = savesCounted n (int32 (op + 1)) := rfl

theorem savesCounted_add (n m : Nat) (op : Int) :
    savesCounted (n + m) op = savesCounted m (savesCounted n op) := by
  unfold savesCounted
  rw [Nat.add_comm, Function.iterate_add_apply]

theorem entityWalked_nil (w : World) : entityWalked w [] = w := by
  simp [entityWalked, entitySaves, savesCounted]

theorem entityWalked_cons_paused (w : World) (e : String × Ref) (l : List (String × Ref))
    (hp : EPF_BitFlags.CheckFlags (w.components e.2).m_eFlags .PAUSE_TRACKING = true) :
    entityWalked w (e :: l) =
      entityWalked
        { w with mgr := { w.mgr with m_iAutoSaveEntityIt := w.mgr.m_iAutoSaveEntityIt + 1 } } l := by
  simp [entityWalked, entitySaves, hp, Nat.add_assoc, Nat.add_comm 1]

theorem entityWalked_cons_unpaused (w : World) (e : String × Ref) (l : List (String × Ref))
    (hp : ¬EPF_BitFlags.CheckFlags (w.components e.2).m_eFlags .PAUSE_TRACKING = true) :
    entityWalked w (e :: l) =
      entityWalked
        { w with
          trace := w.trace ++ [Event.entitySave e.2]
          mgr := { w.mgr with
            m_iAutoSaveEntityIt := w.mgr.m_iAutoSaveEntityIt + 1
            m_iSaveOperation := int32 (w.mgr.m_iSaveOperation + 1) } } l := by
  simp [entityWalked, entitySaves, hp, Nat.add_assoc, Nat.add_comm 1, savesCounted_succ]

theorem throttle_defined (w : World) (h : throttleDefined w = true) :
    ∃ b, throttle w = some b ∧ (b = true → w.mgr.m_eState = .ACTIVE) := by
  unfold throttle
  by_cases hs : w.mgr.m_eState = .ACTIVE
  · rw [if_pos hs]
    cases hset : w.mgr.m_pSettings with
    | none => simp [throttleDefined, hs, hset] at h
    | some s =>
      have hb : s.m_iAutosaveIterations ≠ 0 := by simpa [throttleDefined, hs, hset] using h
      exact ⟨decide (Int.tmod (int32 (w.mgr.m_iSaveOperation + 1)) s.m_iAutosaveIterations = 0),
        by simp only [if_neg hb], fun _ => hs⟩
  · rw [if_neg hs]
    exact ⟨false, rfl, by simp⟩

theorem entitySaves_cons_paused (w : World) (e : String × Ref) (l : List (String × Ref))
    (hp : EPF_BitFlags.CheckFlags (w.components e.2).m_eFlags .PAUSE_TRACKING = true) :
    entitySaves w (e :: l) = entitySaves w l := by
  simp [entitySaves, hp]

theorem entitySaves_cons_unpaused (w : World) (e : String × Ref) (l : List (String × Ref))
    (hp : ¬EPF_BitFlags.CheckFlags (w.components e.2).m_eFlags .PAUSE_TRACKING = true) :
    entitySaves w (e :: l) = Event.entitySave e.2 :: entitySaves w l := by
  simp [entitySaves, hp]

/-- The entity loop of a tick returns: it goes over a prefix of the entries and stops there
because the throttle fired after a save (only in `ACTIVE`), or it goes over all of them. The
throttle did not fire after any earlier save. -/
theorem autoSaveEntityWalk_spec (l : List (String × Ref)) :
    ∀ w : World, throttleDefined w = true →
      ∃ b k, autoSaveEntityWalk w l = some (b, entityWalked w (l.take k)) ∧ k ≤ l.length ∧
        (b = false → k = l.length) ∧ (b = true → 0 < k ∧ w.mgr.m_eState = .ACTIVE) ∧
        (b = true → throttleAfter w (entitySaves w (l.take k)).length = some true ∧
          entitySaves w (l.take k) ≠ []) ∧
        (∀ i, 1 ≤ i → (i < (entitySaves w (l.take k)).length ∨
            (b = false ∧ i ≤ (entitySaves w (l.take k)).length)) →
          throttleAfter w i = some false) := by
  induction l with
  | nil =>
    intro w _
    refine ⟨false, 0, by simp [autoSaveEntityWalk, entityWalked_nil], by simp, by simp, by simp,
      by simp, ?_⟩
    intro i hi h
    simp [entitySaves] at h
    omega
  | cons e rest ih =>
    intro w hd
    unfold autoSaveEntityWalk
    simp only []
    by_cases hp : EPF_BitFlags.CheckFlags (w.components e.2).m_eFlags .PAUSE_TRACKING = true
    · rw [if_pos hp]
      obtain ⟨b, k, h1, h2, h3, h4, h5, h6⟩ := ih
        { w with mgr := { w.mgr with m_iAutoSaveEntityIt := w.mgr.m_iAutoSaveEntityIt + 1 } } hd
      refine ⟨b, k + 1, ?_, by simpa using h2, fun hb => by simp [h3 hb],
        fun hb => ⟨by omega, (h4 hb).2⟩, ?_, ?_⟩
      · rw [h1, List.take_succ_cons, entityWalked_cons_paused w e _ hp]
      · rw [List.take_succ_cons, entitySaves_cons_paused w e _ hp]
        exact h5
      · rw [List.take_succ_cons, entitySaves_cons_paused w e _ hp]
        exact h6
    · rw [if_neg hp]
      have hd2 : throttleDefined
          { w with
            trace := w.trace ++ [Event.entitySave e.2]
            mgr := { w.mgr with
              m_iAutoSaveEntityIt := w.mgr.m_iAutoSaveEntityIt + 1
              m_iSaveOperation := int32 (w.mgr.m_iSaveOperation + 1) } } = true := hd
      obtain ⟨t, ht, hts⟩ := throttle_defined _ hd2
      rw [ht]
      have ht1 : throttleAfter w 1 = some t := ht
      cases t with
      | true =>
        refine ⟨true, 1, ?_, by simp, by simp, fun _ => ⟨by omega, hts rfl⟩, ?_, ?_⟩
        · simp only [List.take_succ_cons, List.take_zero]
          rw [entityWalked_cons_unpaused w e _ hp, entityWalked_nil]
        · intro _
          simp only [List.take_succ_cons, List.take_zero, entitySaves_cons_unpaused w e _ hp]
          exact ⟨ht1, by simp⟩
        · intro i hi h
          simp only [List.take_succ_cons, List.take_zero, entitySaves_cons_unpaused w e _ hp] at h
          simp [entitySaves] at h
          omega
      | false =>
        obtain ⟨b, k, h1, h2, h3, h4, h5, h6⟩ := ih _ hd2
        refine ⟨b, k + 1, ?_, by simpa using h2, fun hb => by simp [h3 hb],
          fun hb => ⟨by omega, (h4 hb).2⟩, ?_, ?_⟩
        · simp only []
          rw [h1, List.take_succ_cons, entityWalked_cons_unpaused w e _ hp]
        · intro hb
          rw [List.take_succ_cons, entitySaves_cons_unpaused w e _ hp]
          exact ⟨(h5 hb).1, by simp⟩
        · intro i hi h
          rw [List.take_succ_cons, entitySaves_cons_unpaused w e _ hp] at h
          simp only [List.length_cons] at h
          by_cases hi1 : i = 1
          · subst hi1; exact ht1
          · obtain ⟨i1, rfl⟩ : ∃ i1, i = i1 + 1 := ⟨i - 1, by omega⟩
            exact h6 i1 (by omega) (by
              rcases h with h | h
              · left
                exact Nat.lt_of_succ_lt_succ h
              · right
                exact ⟨h.1, Nat.le_of_succ_le_succ h.2⟩)

theorem scriptedStateWalked_nil (w : World) : scriptedStateWalked w [] = w := by
  simp [scriptedStateWalked, scriptedStateSaves, savesCounted]

theorem scriptedStateWalked_cons_paused (w : World) (e : String × Ref) (l : List (String × Ref))
    (hp : EPF_BitFlags.CheckFlags (w.scriptedStates e.2).m_eFlags .PAUSE_TRACKING = true) :
    scriptedStateWalked w (e :: l) =
      scriptedStateWalked
        { w with mgr := { w.mgr with m_iAutoSaveScriptedStateIt := w.mgr.m_iAutoSaveScriptedStateIt + 1 } } l := by
  simp [scriptedStateWalked, scriptedStateSaves, hp, Nat.add_assoc, Nat.add_comm 1]

theorem scriptedStateWalked_cons_unpaused (w : World) (e : String × Ref) (l : List (String × Ref))
    (hp : ¬EPF_BitFlags.CheckFlags (w.scriptedStates e.2).m_eFlags .PAUSE_TRACKING = true) :
    scriptedStateWalked w (e :: l) =
      scriptedStateWalked
        { w with
          trace := w.trace ++ [Event.scriptedStateSave e.2]
          mgr := { w.mgr with
            m_iAutoSaveScriptedStateIt := w.mgr.m_iAutoSaveScriptedStateIt + 1
            m_iSaveOperation := int32 (w.mgr.m_iSaveOperation + 1) } } l := by
  simp [scriptedStateWalked, scriptedStateSaves, hp, Nat.add_assoc, Nat.add_comm 1, savesCounted_succ]

theorem scriptedStateSaves_cons_paused (w : World) (e : String × Ref) (l : List (String × Ref))
    (hp : EPF_BitFlags.CheckFlags (w.scriptedStates e.2).m_eFlags .PAUSE_TRACKING = true) :
    scriptedStateSaves w (e :: l) = scriptedStateSaves w l := by
  simp [scriptedStateSaves, hp]

theorem scriptedStateSaves_cons_unpaused (w : World) (e : String × Ref) (l : List (String × Ref))
    (hp : ¬EPF_BitFlags.CheckFlags (w.scriptedStates e.2).m_eFlags .PAUSE_TRACKING = true) :
    scriptedStateSaves w (e :: l) = Event.scriptedStateSave e.2 :: scriptedStateSaves w l := by
  simp [scriptedStateSaves, hp]

/-- The free-standing-state loop of a tick returns: it goes over a prefix of the entries and stops there
because the throttle fired after a save (only in `ACTIVE`), or it goes over all of them. The
throttle did not fire after any earlier save. -/
theorem autoSaveScriptedStateWalk_spec (l : List (String × Ref)) :
    ∀ w : World, throttleDefined w = true →
      ∃ b k, autoSaveScriptedStateWalk w l = some (b, scriptedStateWalked w (l.take k)) ∧ k ≤ l.length ∧
        (b = false → k = l.length) ∧ (b = true → 0 < k ∧ w.mgr.m_eState = .ACTIVE) ∧
        (b = true → throttleAfter w (scriptedStateSaves w (l.take k)).length = some true ∧
          scriptedStateSaves w (l.take k) ≠ []) ∧
        (∀ i, 1 ≤ i → (i < (scriptedStateSaves w (l.take k)).length ∨
            (b = false ∧ i ≤ (scriptedStateSaves w (l.take k)).length)) →
          throttleAfter w i = some false) := by
  induction l with
  | nil =>
    intro w _
    refine ⟨false, 0, by simp [autoSaveScriptedStateWalk, scriptedStateWalked_nil], by simp, by simp, by simp,
      by simp, ?_⟩
    intro i hi h
    simp [scriptedStateSaves] at h
    omega
  | cons e rest ih =>
    intro w hd
    unfold autoSaveScriptedStateWalk
    simp only []
    by_cases hp : EPF_BitFlags.CheckFlags (w.scriptedStates e.2).m_eFlags .PAUSE_TRACKING = true
    · rw [if_pos hp]
      obtain ⟨b, k, h1, h2, h3, h4, h5, h6⟩ := ih
        { w with mgr := { w.mgr with m_iAutoSaveScriptedStateIt := w.mgr.m_iAutoSaveScriptedStateIt + 1 } } hd
      refine ⟨b, k + 1, ?_, by simpa using h2, fun hb => by simp [h3 hb],
        fun hb => ⟨by omega, (h4 hb).2⟩, ?_, ?_⟩
      · rw [h1, List.take_succ_cons, scriptedStateWalked_cons_paused w e _ hp]
      · rw [List.take_succ_cons, scriptedStateSaves_cons_paused w e _ hp]
        exact h5
      · rw [List.take_succ_cons, scriptedStateSaves_cons_paused w e _ hp]
        exact h6
    · rw [if_neg hp]
      have hd2 : throttleDefined
          { w with
            trace := w.trace ++ [Event.scriptedStateSave e.2]
            mgr := { w.mgr with
              m_iAutoSaveScriptedStateIt := w.mgr.m_iAutoSaveScriptedStateIt + 1
              m_iSaveOperation := int32 (w.mgr.m_iSaveOperation + 1) } } = true := hd
      obtain ⟨t, ht, hts⟩ := throttle_defined _ hd2
      rw [ht]
      have ht1 : throttleAfter w 1 = some t := ht
      cases t with
      | true =>
        refine ⟨true, 1, ?_, by simp, by simp, fun _ => ⟨by omega, hts rfl⟩, ?_, ?_⟩
        · simp only [List.take_succ_cons, List.take_zero]
          rw [scriptedStateWalked_cons_unpaused w e _ hp, scriptedStateWalked_nil]
        · intro _
          simp only [List.take_succ_cons, List.take_zero, scriptedStateSaves_cons_unpaused w e _ hp]
          exact ⟨ht1, by simp⟩
        · intro i hi h
          simp only [List.take_succ_cons, List.take_zero, scriptedStateSaves_cons_unpaused w e _ hp] at h
          simp [scriptedStateSaves] at h
          omega
      | false =>
        obtain ⟨b, k, h1, h2, h3, h4, h5, h6⟩ := ih _ hd2
        refine ⟨b, k + 1, ?_, by simpa using h2, fun hb => by simp [h3 hb],
          fun hb => ⟨by omega, (h4 hb).2⟩, ?_, ?_⟩
        · simp only []
          rw [h1, List.take_succ_cons, scriptedStateWalked_cons_unpaused w e _ hp]
        · intro hb
          rw [List.take_succ_cons, scriptedStateSaves_cons_unpaused w e _ hp]
          exact ⟨(h5 hb).1, by simp⟩
        · intro i hi h
          rw [List.take_succ_cons, scriptedStateSaves_cons_unpaused w e _ hp] at h
          simp only [List.length_cons] at h
          by_cases hi1 : i = 1
          · subst hi1; exact ht1
          · obtain ⟨i1, rfl⟩ : ∃ i1, i = i1 + 1 := ⟨i - 1, by omega⟩
            exact h6 i1 (by omega) (by
              rcases h with h | h
              · left
                exact Nat.lt_of_succ_lt_succ h
              · right
                exact ⟨h.1, Nat.le_of_succ_le_succ h.2⟩)

/-! ## One tick of an autosave pass -/

theorem throttleAfter_entityWalked (w : World) (l : List (String × Ref)) (i : Nat) :
    throttleAfter (entityWalked w l) i = throttleAfter w ((entitySaves w l).length + i) := by
  simp only [throttleAfter, throttle, entityWalked, savesCounted_add]

/-- A tick of an active pass that is ready returns. Either it was suspended by the throttle,
which happens in `ACTIVE` only, after a save and at the first save after which the throttle
test holds, the free-standing states being touched only when the entity bucket is through; or
it went over every due entry, the throttle test never held, and the pass is completed. -/
theorem autoSaveTick_spec (w : World) (ha : w.mgr.m_bAutoSaveActive = true)
    (hr : passReady w = true) :
    (∃ k1 k2, AutoSaveTick w = some (tickWalked w k1 k2) ∧
      k1 ≤ (entityEntriesDue w).length ∧ k2 ≤ (scriptedStateEntriesDue w).length ∧
      0 < k1 + k2 ∧ (k2 = 0 ∨ k1 = (entityEntriesDue w).length) ∧
      w.mgr.m_eState = .ACTIVE ∧
      throttleAfter w (tickSaves w k1 k2).length = some true ∧ tickSaves w k1 k2 ≠ [] ∧
      (∀ i, 1 ≤ i → i < (tickSaves w k1 k2).length → throttleAfter w i = some false)) ∨
    (AutoSaveTick w = some (passCompleted w) ∧
      ∀ i, 1 ≤ i → i ≤ (pendingSaves w).length → throttleAfter w i = some false) := by
  simp only [passReady, Bool.and_eq_true, decide_eq_true_eq] at hr
  obtain ⟨⟨⟨⟨hd, hc1⟩, hc2⟩, hcol⟩, hdb⟩ := hr
  unfold AutoSaveTick
  simp only [ha, Bool.not_true, Bool.false_eq_true, if_false]
  rw [if_neg (by omega)]
  obtain ⟨b, k, h1, h2, h3, h4, h5, h6⟩ := autoSaveEntityWalk_spec (entityEntriesDue w) w hd
  have h1' := h1
  unfold entityEntriesDue at h1'
  rw [h1']
  cases b with
  | true =>
    left
    have hts : tickSaves w k 0 = entitySaves w (List.take k (entityEntriesDue w)) := by
      simp [tickSaves, scriptedStateSaves]
    refine ⟨k, 0, ?_, h2, by simp, by have := (h4 rfl).1; omega, Or.inl rfl, (h4 rfl).2, ?_, ?_, ?_⟩
    · simp only [tickWalked, List.take_zero, scriptedStateWalked_nil]
      rfl
    · rw [hts]; exact (h5 rfl).1
    · rw [hts]; exact (h5 rfl).2
    · intro i hi hlt
      rw [hts] at hlt
      exact h6 i hi (Or.inl hlt)
  | false =>
    have hk := h3 rfl
    simp only []
    have hc2' : ¬ (entityWalked w (List.take k (entityEntriesDue w))).mgr.m_mScriptedStateAutoSave.Count <
        (entityWalked w (List.take k (entityEntriesDue w))).mgr.m_iAutoSaveScriptedStateIt := by
      show ¬ w.mgr.m_mScriptedStateAutoSave.Count < w.mgr.m_iAutoSaveScriptedStateIt
      omega
    unfold entityEntriesDue at hc2'
    rw [if_neg hc2']
    obtain ⟨b2, k2, g1, g2, g3, g4, g5, g6⟩ := autoSaveScriptedStateWalk_spec
      (scriptedStateEntriesDue w) (entityWalked w (List.take k (entityEntriesDue w))) hd
    have g1' : autoSaveScriptedStateWalk
        (entityWalked w (List.take k (List.drop w.mgr.m_iAutoSaveEntityIt w.mgr.m_mRootAutoSave.entries)))
        (List.drop
          (entityWalked w (List.take k
            (List.drop w.mgr.m_iAutoSaveEntityIt w.mgr.m_mRootAutoSave.entries))).mgr.m_iAutoSaveScriptedStateIt
          (entityWalked w (List.take k
            (List.drop w.mgr.m_iAutoSaveEntityIt w.mgr.m_mRootAutoSave.entries))).mgr.m_mScriptedStateAutoSave.entries) =
        some (b2, tickWalked w k k2) := g1
    rw [g1']
    have hss : scriptedStateSaves (entityWalked w (List.take k (entityEntriesDue w)))
        (List.take k2 (scriptedStateEntriesDue w)) =
        scriptedStateSaves w (List.take k2 (scriptedStateEntriesDue w)) := rfl
    rw [hss] at g5 g6
    have hlen : (tickSaves w k k2).length =
        (entitySaves w (List.take k (entityEntriesDue w))).length +
          (scriptedStateSaves w (List.take k2 (scriptedStateEntriesDue w))).length := by
      simp [tickSaves]
    have hbefore : ∀ i, 1 ≤ i →
        (i < (tickSaves w k k2).length ∨ (b2 = false ∧ i ≤ (tickSaves w k k2).length)) →
        throttleAfter w i = some false := by
      intro i hi hlt
      rw [hlen] at hlt
      by_cases hie : i ≤ (entitySaves w (List.take k (entityEntriesDue w))).length
      · exact h6 i hi (Or.inr ⟨rfl, hie⟩)
      · obtain ⟨i1, rfl⟩ : ∃ i1, i =
            (entitySaves w (List.take k (entityEntriesDue w))).length + i1 :=
          ⟨i - (entitySaves w (List.take k (entityEntriesDue w))).length, by omega⟩
        rw [← throttleAfter_entityWalked]
        exact g6 i1 (by omega) (by
          rcases hlt with h | h
          · left; omega
          · right; exact ⟨h.1, by omega⟩)
    cases b2 with
    | true =>
      left
      refine ⟨k, k2, rfl, h2, g2, by have := (g4 rfl).1; omega, Or.inr hk, (g4 rfl).2, ?_, ?_,
        fun i hi hlt => hbefore i hi (Or.inl hlt)⟩
      · rw [hlen, ← throttleAfter_entityWalked]
        exact (g5 rfl).1
      · have := (g5 rfl).2
        simp only [tickSaves]
        intro hnil
        exact this (List.append_eq_nil.1 hnil).2
    | false =>
      right
      have hk2 := g3 rfl
      simp only []
      subst hk
      subst hk2
      have hP : tickSaves w (entityEntriesDue w).length (scriptedStateEntriesDue w).length =
          pendingSaves w := by
        simp [tickSaves, pendingSaves]
      refine ⟨?_, fun i hi hle => hbefore i hi (Or.inr ⟨rfl, by rw [hP]; exact hle⟩)⟩
      cases hcc : w.mgr.m_pRootEntityCollection with
      | none => rw [hcc] at hcol; simp at hcol
      | some c =>
        have hcc' : (tickWalked w (entityEntriesDue w).length
            (scriptedStateEntriesDue w).length).mgr.m_pRootEntityCollection = some c := hcc
        unfold autoSaveComplete saveRootEntityCollection
        rw [hcc']
        simp only [Option.some_bind]
        rw [removeCleanupRecords_total _ _ (by simpa using hdb)]
        simp only [Option.map_some', passCompleted, completionCalls, ScriptMap.Clear]
        congr 1
        simp [tickWalked, scriptedStateWalked, entityWalked, List.append_assoc]

/-! ## A pass as a sequence of ticks -/

theorem entitySaves_append (w : World) (a b : List (String × Ref)) :
    entitySaves w (a ++ b) = entitySaves w a ++ entitySaves w b := by
  simp [entitySaves]

theorem scriptedStateSaves_append (w : World) (a b : List (String × Ref)) :
    scriptedStateSaves w (a ++ b) = scriptedStateSaves w a ++ scriptedStateSaves w b := by
  simp [scriptedStateSaves]

theorem entitySaves_take_drop (w : World) (k : Nat) (l : List (String × Ref)) :
    entitySaves w (l.take k) ++ entitySaves w (l.drop k) = entitySaves w l := by
  rw [← entitySaves_append, List.take_append_drop]

theorem scriptedStateSaves_take_drop (w : World) (k : Nat) (l : List (String × Ref)) :
    scriptedStateSaves w (l.take k) ++ scriptedStateSaves w (l.drop k) = scriptedStateSaves w l := by
  rw [← scriptedStateSaves_append, List.take_append_drop]

theorem tickWalked_trace (w : World) (k1 k2 : Nat) :
    (tickWalked w k1 k2).trace = w.trace ++ entitySaves w ((entityEntriesDue w).take k1) ++
      scriptedStateSaves w ((scriptedStateEntriesDue w).take k2) := rfl

theorem tickWalked_entityEntriesDue (w : World) (k1 k2 : Nat)
    (h1 : k1 ≤ (entityEntriesDue w).length) :
    entityEntriesDue (tickWalked w k1 k2) = (entityEntriesDue w).drop k1 := by
  show List.drop (w.mgr.m_iAutoSaveEntityIt + ((entityEntriesDue w).take k1).length)
    w.mgr.m_mRootAutoSave.entries = _
  rw [List.length_take, Nat.min_eq_left h1]
  unfold entityEntriesDue
  rw [List.drop_drop, Nat.add_comm]

theorem tickWalked_scriptedStateEntriesDue (w : World) (k1 k2 : Nat)
    (h2 : k2 ≤ (scriptedStateEntriesDue w).length) :
    scriptedStateEntriesDue (tickWalked w k1 k2) = (scriptedStateEntriesDue w).drop k2 := by
  show List.drop (w.mgr.m_iAutoSaveScriptedStateIt + ((scriptedStateEntriesDue w).take k2).length)
    w.mgr.m_mScriptedStateAutoSave.entries = _
  rw [List.length_take, Nat.min_eq_left h2]
  unfold scriptedStateEntriesDue
  rw [List.drop_drop, Nat.add_comm]

theorem tickWalked_pendingSaves (w : World) (k1 k2 : Nat)
    (h1 : k1 ≤ (entityEntriesDue w).length) (h2 : k2 ≤ (scriptedStateEntriesDue w).length) :
    pendingSaves (tickWalked w k1 k2) =
      entitySaves w ((entityEntriesDue w).drop k1) ++
        scriptedStateSaves w ((scriptedStateEntriesDue w).drop k2) := by
  unfold pendingSaves
  rw [tickWalked_entityEntriesDue w k1 k2 h1, tickWalked_scriptedStateEntriesDue w k1 k2 h2]
  rfl

/-- What a suspended tick has saved and what is still due make up what was due before. -/
theorem tickWalked_split (w : World) (k1 k2 : Nat)
    (h1 : k1 ≤ (entityEntriesDue w).length) (h2 : k2 ≤ (scriptedStateEntriesDue w).length)
    (h : k2 = 0 ∨ k1 = (entityEntriesDue w).length) :
    pendingSaves w =
      (entitySaves w ((entityEntriesDue w).take k1) ++
        scriptedStateSaves w ((scriptedStateEntriesDue w).take k2)) ++
      pendingSaves (tickWalked w k1 k2) := by
  rw [tickWalked_pendingSaves w k1 k2 h1 h2]
  unfold pendingSaves
  rcases h with h | h
  · subst h
    simp [scriptedStateSaves, ← entitySaves_take_drop w k1 (entityEntriesDue w)]
  · subst h
    simp [entitySaves, ← scriptedStateSaves_take_drop w k2 (scriptedStateEntriesDue w)]

theorem tickWalked_passReady (w : World) (k1 k2 : Nat)
    (h1 : k1 ≤ (entityEntriesDue w).length) (h2 : k2 ≤ (scriptedStateEntriesDue w).length)
    (hr : passReady w = true) : passReady (tickWalked w k1 k2) = true := by
  simp only [passReady, Bool.and_eq_true, decide_eq_true_eq] at hr ⊢
  obtain ⟨⟨⟨⟨hd, hc1⟩, hc2⟩, hcol⟩, hdb⟩ := hr
  refine ⟨⟨⟨⟨hd, ?_⟩, ?_⟩, hcol⟩, hdb⟩
  · show w.mgr.m_iAutoSaveEntityIt + ((entityEntriesDue w).take k1).length ≤ w.mgr.m_mRootAutoSave.Count
    rw [List.length_take, Nat.min_eq_left h1]
    simp only [entityEntriesDue, List.length_drop, ScriptMap.Count] at h1 hc1 ⊢
    omega
  · show w.mgr.m_iAutoSaveScriptedStateIt + ((scriptedStateEntriesDue w).take k2).length ≤
      w.mgr.m_mScriptedStateAutoSave.Count
    rw [List.length_take, Nat.min_eq_left h2]
    simp only [scriptedStateEntriesDue, List.length_drop, ScriptMap.Count] at h2 hc2 ⊢
    omega

theorem tickWalked_entriesDue (w : World) (k1 k2 : Nat)
    (h1 : k1 ≤ (entityEntriesDue w).length) (h2 : k2 ≤ (scriptedStateEntriesDue w).length) :
    entriesDue (tickWalked w k1 k2) + (k1 + k2) = entriesDue w := by
  unfold entriesDue
  rw [tickWalked_entityEntriesDue w k1 k2 h1, tickWalked_scriptedStateEntriesDue w k1 k2 h2]
  simp only [List.length_drop]
  omega

theorem entityWalked_append (w : World) (a b : List (String × Ref)) :
    entityWalked (entityWalked w a) b = entityWalked w (a ++ b) := by
  have h : entitySaves (entityWalked w a) b = entitySaves w b := rfl
  unfold entityWalked at h ⊢
  simp only [h, entitySaves_append, List.length_append, savesCounted_add, List.append_assoc,
    Nat.add_assoc]

theorem scriptedStateWalked_append (w : World) (a b : List (String × Ref)) :
    scriptedStateWalked (scriptedStateWalked w a) b = scriptedStateWalked w (a ++ b) := by
  have h : scriptedStateSaves (scriptedStateWalked w a) b = scriptedStateSaves w b := rfl
  unfold scriptedStateWalked at h ⊢
  simp only [h, scriptedStateSaves_append, List.length_append, savesCounted_add, List.append_assoc,
    Nat.add_assoc]

/-- Completing the pass after a suspended tick leaves the world that completing it at once
would have left. -/
theorem passCompleted_tickWalked (w : World) (k1 k2 : Nat)
    (h1 : k1 ≤ (entityEntriesDue w).length) (h2 : k2 ≤ (scriptedStateEntriesDue w).length)
    (h : k2 = 0 ∨ k1 = (entityEntriesDue w).length) :
    passCompleted (tickWalked w k1 k2) = passCompleted w := by
  have he := tickWalked_entityEntriesDue w k1 k2 h1
  have hst := tickWalked_scriptedStateEntriesDue w k1 k2 h2
  have hw : tickWalked (tickWalked w k1 k2) (entityEntriesDue (tickWalked w k1 k2)).length
      (scriptedStateEntriesDue (tickWalked w k1 k2)).length =
      tickWalked w (entityEntriesDue w).length (scriptedStateEntriesDue w).length := by
    unfold tickWalked at he hst ⊢
    rw [he, hst]
    simp only [List.take_length]
    rcases h with h | h
    · subst h
      simp only [List.take_zero, List.drop_zero, scriptedStateWalked_nil, entityWalked_append,
        List.take_append_drop]
    · subst h
      simp only [List.take_length, List.drop_length, entityWalked_nil, scriptedStateWalked_append,
        List.take_append_drop]
  unfold passCompleted
  simp only [hw]
  rfl

/-- An active pass that is ready is completed by finitely many ticks, at most one more than
there are entries due, and further ticks change nothing. -/
theorem runTicks_completes (n : Nat) :
    ∀ w : World, w.mgr.m_bAutoSaveActive = true → passReady w = true → entriesDue w < n →
      ∀ j, n ≤ j → runTicks j w = some (passCompleted w) := by
  have hidle : ∀ (j : Nat) (w : World), w.mgr.m_bAutoSaveActive = false → runTicks j w = some w := by
    intro j
    induction j with
    | zero => intro w _; rfl
    | succ j ih =>
      intro w hw
      have : AutoSaveTick w = some w := by simp [AutoSaveTick, hw]
      simp only [runTicks, this, Option.some_bind]
      exact ih w hw
  induction n with
  | zero => intro w _ _ h; omega
  | succ n ih =>
    intro w ha hr hn j hj
    obtain ⟨j, rfl⟩ : ∃ j1, j = j1 + 1 := ⟨j - 1, by omega⟩
    simp only [runTicks]
    rcases autoSaveTick_spec w ha hr with ⟨k1, k2, ht, h1, h2, hpos, hor, _⟩ | ⟨ht, _⟩
    · rw [ht, Option.some_bind]
      have hd := tickWalked_entriesDue w k1 k2 h1 h2
      rw [ih (tickWalked w k1 k2) ha (tickWalked_passReady w k1 k2 h1 h2 hr) (by omega) j (by omega)]
      rw [passCompleted_tickWalked w k1 k2 h1 h2 hor]
    · rw [ht, Option.some_bind]
      exact hidle j _ rfl

/-! ## What registrations leave alone -/

theorem updateRootEntityCollection_control (env : Env) (w : World) (ref : Ref) (id : String)
    (isRootEntity : Bool) (w' : World)
    (h : UpdateRootEntityCollection env w ref id isRootEntity = some w') :
    control w' = control w ∧
      (w.mgr.m_eState.toNat < EPF_EPersistenceManagerState.ACTIVE.toNat →
        w'.mgr.m_pRootEntityCollection = w.mgr.m_pRootEntityCollection) := by
  unfold UpdateRootEntityCollection at h
  by_cases hs : w.mgr.m_eState.toNat < EPF_EPersistenceManagerState.ACTIVE.toNat
  · rw [if_pos hs] at h
    cases hb : w.mgr.m_mBakedRoots with
    | none =>
      rw [hb] at h
      simp only [Option.some.injEq] at h
      subst h
      exact ⟨rfl, fun _ => rfl⟩
    | some baked =>
      rw [hb] at h
      simp only [] at h
      by_cases hf : EPF_BitFlags.CheckFlags (w.components ref).m_eFlags .BAKED = true
      · rw [if_pos hf] at h
        cases isRootEntity <;>
        · simp only [Bool.false_eq_true, if_false, if_true, Option.some.injEq] at h
          subst h
          exact ⟨by simp [control, hb], fun _ => rfl⟩
      · rw [if_neg hf] at h
        simp only [Option.some.injEq] at h
        subst h
        exact ⟨rfl, fun _ => rfl⟩
  · rw [if_neg hs] at h
    cases hc : w.mgr.m_pRootEntityCollection with
    | none => rw [hc] at h; simp at h
    | some c =>
      rw [hc] at h
      simp only [Option.some.injEq] at h
      subst h
      exact ⟨by simp [control, hc], fun hlt => absurd hlt hs⟩

theorem categorize_control (w : World) (c : EPF_PersistenceComponent) (ref : Ref) (id : String)
    (settings : EPF_PersistenceComponentClass) (isRootEntity : Bool) :
    control { w with mgr := categorize w.mgr c ref id settings isRootEntity } = control w := by
  simp only [control, categorize_m_pSettings, categorize_m_eState, categorize_m_pOnStateChange,
    categorize_m_pDbContext, categorize_m_pRootEntityCollection, categorize_m_mBakedRoots,
    categorize_m_fAutoSaveAccumultor, categorize_m_bAutoSaveActive, categorize_m_iSaveOperation,
    categorize_m_iAutoSaveEntityIt, categorize_m_iAutoSaveScriptedStateIt]

theorem registerPrep_control (env : Env) (w : World) (ref : Ref) (id : String) :
    control (registerPrep env w ref id) = control w := by
  simp only [control, registerPrep_mgr, registerPrep_trace]

theorem control_state {w w1 : World} (h : control w1 = control w) :
    w1.mgr.m_eState = w.mgr.m_eState := by
  simp only [control, Prod.mk.injEq] at h
  exact h.2.2.1

theorem control_collectionAvailable {w w1 : World} (h : control w1 = control w) :
    collectionAvailable w1 = collectionAvailable w := by
  simp only [control, Prod.mk.injEq] at h
  simp only [collectionAvailable, h.2.2.1, h.2.2.2.2.2.1]

/-- `Register` leaves the control part of the world alone, and before `ACTIVE` also the Root
Entity Collection. -/
theorem register_control (env : Env) (w : World) (ref : Ref) (id : String) (r : String × World)
    (h : Register env w ref id = some r) :
    control r.2 = control w ∧
      (w.mgr.m_eState.toNat < EPF_EPersistenceManagerState.ACTIVE.toNat →
        r.2.mgr.m_pRootEntityCollection = w.mgr.m_pRootEntityCollection) := by
  cases hown : (w.components ref).m_pOwner with
  | none =>
    simp only [Register, hown, Option.some.injEq] at h
    subst h
    exact ⟨rfl, fun _ => rfl⟩
  | some o =>
    simp only [Register, hown, UpdateRootStatus, Option.map_eq_some'] at h
    obtain ⟨w3, h3, hr⟩ := h
    subst hr
    have hu := updateRootEntityCollection_control env _ _ _ _ _ h3
    have hp := registerPrep_control env w ref id
    have hm := registerPrep_mgr env w ref id
    simp only [registerPrep] at hp hm
    refine ⟨hu.1.trans ((categorize_control _ _ _ _ _ _).trans hp), fun hlt => ?_⟩
    have := hu.2 (by simpa [categorize_m_eState, hm] using hlt)
    rw [this]
    simp [categorize_m_pRootEntityCollection, hm]

theorem register_total (env : Env) (w : World) (ref : Ref) (id : String)
    (hc : collectionAvailable w = true) : ∃ r, Register env w ref id = some r := by
  cases hown : (w.components ref).m_pOwner with
  | none => exact ⟨("", w), by simp [Register, hown]⟩
  | some o =>
    obtain ⟨b, c, h, _⟩ := register_shape env w ref id (by rw [hown]; rfl) hc
    exact ⟨_, h⟩

theorem registrationFrame_refl (w : World) : registrationFrame w w := ⟨rfl, fun _ => rfl⟩

theorem registrationFrame_trans {w w1 w2 : World} (h1 : registrationFrame w w1)
    (h2 : registrationFrame w1 w2) : registrationFrame w w2 :=
  ⟨h2.1.trans h1.1, fun hlt =>
    (h2.2 (by rw [control_state h1.1]; exact hlt)).trans (h1.2 hlt)⟩

theorem component_getPersistentId_frame (env : Env) (w : World) (ref : Ref) (r : String × World)
    (h : EPF_PersistenceComponent.GetPersistentId env w ref = some r) :
    registrationFrame w r.2 := by
  unfold EPF_PersistenceComponent.GetPersistentId at h
  by_cases hid : (w.components ref).m_sId ≠ ""
  · rw [if_pos hid] at h
    simp only [Option.some.injEq] at h
    subst h
    exact registrationFrame_refl w
  · rw [if_neg hid] at h
    simp only [Option.map_eq_some'] at h
    obtain ⟨r1, h1, hr⟩ := h
    subst hr
    exact register_control env w ref "" r1 h1

theorem component_getPersistentId_total (env : Env) (w : World) (ref : Ref)
    (hc : collectionAvailable w = true) :
    ∃ r, EPF_PersistenceComponent.GetPersistentId env w ref = some r := by
  unfold EPF_PersistenceComponent.GetPersistentId
  by_cases hid : (w.components ref).m_sId ≠ ""
  · exact ⟨_, by rw [if_pos hid]⟩
  · obtain ⟨r, hr⟩ := register_total env w ref "" hc
    exact ⟨_, by rw [if_neg hid, hr]; rfl⟩

theorem flushEntityRegistrations_frame (env : Env) (l : List (Option Ref)) :
    ∀ w w1, flushEntityRegistrations env w l = some w1 → registrationFrame w w1 := by
  induction l with
  | nil =>
    intro w w1 h
    simp only [flushEntityRegistrations, Option.some.injEq] at h
    subst h
    exact registrationFrame_refl w
  | cons o l ih =>
    intro w w1 h
    cases o with
    | none => exact ih w w1 (by simpa [flushEntityRegistrations] using h)
    | some ref =>
      simp only [flushEntityRegistrations] at h
      cases hg : EPF_PersistenceComponent.GetPersistentId env w ref with
      | none => rw [hg] at h; simp at h
      | some r =>
        rw [hg] at h
        exact registrationFrame_trans (component_getPersistentId_frame env w ref r hg) (ih _ _ h)

theorem flushEntityRegistrations_total (env : Env) (l : List (Option Ref)) :
    ∀ w, collectionAvailable w = true → ∃ w1, flushEntityRegistrations env w l = some w1 := by
  induction l with
  | nil => intro w _; exact ⟨w, rfl⟩
  | cons o l ih =>
    intro w hc
    cases o with
    | none => simpa [flushEntityRegistrations] using ih w hc
    | some ref =>
      obtain ⟨r, hr⟩ := component_getPersistentId_total env w ref hc
      have hf := component_getPersistentId_frame env w ref r hr
      obtain ⟨w1, hw1⟩ := ih r.2 (by rw [control_collectionAvailable hf.1]; exact hc)
      exact ⟨w1, by simp [flushEntityRegistrations, hr, hw1]⟩

theorem categorizeScriptedState_control (w : World) (saveType : EPF_ESaveType) (ref : Ref)
    (id : String) :
    control { w with mgr := categorizeScriptedState w.mgr saveType ref id } = control w := by
  simp only [control, categorizeScriptedState_m_pSettings, categorizeScriptedState_m_eState,
    categorizeScriptedState_m_pOnStateChange, categorizeScriptedState_m_pDbContext,
    categorizeScriptedState_m_pRootEntityCollection, categorizeScriptedState_m_mBakedRoots,
    categorizeScriptedState_m_fAutoSaveAccumultor, categorizeScriptedState_m_bAutoSaveActive,
    categorizeScriptedState_m_iSaveOperation, categorizeScriptedState_m_iAutoSaveEntityIt,
    categorizeScriptedState_m_iAutoSaveScriptedStateIt]

theorem registerScriptedState_frame (env : Env) (w : World) (ref : Ref) (id : String) :
    registrationFrame w (RegisterScriptedState env w ref id).2 := by
  unfold RegisterScriptedState
  by_cases hid : id = ""
  · simp only [hid, if_true, GetPersistentIdScriptedState, generateId]
    exact ⟨categorizeScriptedState_control _ _ _ _,
      fun _ => categorizeScriptedState_m_pRootEntityCollection _ _ _ _⟩
  · simp only [hid, if_false]
    exact ⟨categorizeScriptedState_control _ _ _ _,
      fun _ => categorizeScriptedState_m_pRootEntityCollection _ _ _ _⟩

theorem scriptedState_getPersistentId_frame (env : Env) (w : World) (ref : Ref) :
    registrationFrame w (EPF_PersistentScriptedState.GetPersistentId env w ref).2 := by
  unfold EPF_PersistentScriptedState.GetPersistentId
  by_cases hid : (w.scriptedStates ref).m_sId ≠ ""
  · rw [if_pos hid]
    exact registrationFrame_refl w
  · rw [if_neg hid]
    exact registerScriptedState_frame env w ref ""

theorem flushScriptedStateRegistrations_frame (env : Env) (l : List (Option Ref)) :
    ∀ w, registrationFrame w (flushScriptedStateRegistrations env w l) := by
  induction l with
  | nil => intro w; exact registrationFrame_refl w
  | cons o l ih =>
    intro w
    cases o with
    | none => exact ih w
    | some ref =>
      exact registrationFrame_trans (scriptedState_getPersistentId_frame env w ref) (ih _)

/-- `FlushRegistrations`, when it returns, has left the control part of the world alone, and
before `ACTIVE` also the Root Entity Collection. -/
theorem flushRegistrations_frame (env : Env) (w w1 : World)
    (h : FlushRegistrations env w = some w1) : registrationFrame w w1 := by
  unfold FlushRegistrations at h
  simp only [Option.map_eq_some'] at h
  obtain ⟨w2, h2, hw⟩ := h
  subst hw
  have hA : registrationFrame w w2 := by
    by_cases hs : w.mgr.m_eState.toNat ≥ EPF_EPersistenceManagerState.POST_INIT.toNat
    · rw [if_pos hs] at h2
      simp only [Option.map_eq_some'] at h2
      obtain ⟨w3, h3, hw3⟩ := h2
      subst hw3
      exact registrationFrame_trans (flushEntityRegistrations_frame env _ w w3 h3)
        ⟨rfl, fun _ => rfl⟩
    · rw [if_neg hs] at h2
      simp only [Option.some.injEq] at h2
      subst h2
      exact registrationFrame_refl w
  exact registrationFrame_trans hA
    (registrationFrame_trans (flushScriptedStateRegistrations_frame env _ w2) ⟨rfl, fun _ => rfl⟩)

/-- `FlushRegistrations` returns when the Root Entity Collection is there whenever a
registration would use it. -/
theorem flushRegistrations_total (env : Env) (w : World) (hc : collectionAvailable w = true) :
    ∃ w1, FlushRegistrations env w = some w1 := by
  unfold FlushRegistrations
  by_cases hs : w.mgr.m_eState.toNat ≥ EPF_EPersistenceManagerState.POST_INIT.toNat
  · obtain ⟨w1, hw1⟩ := flushEntityRegistrations_total env w.mgr.m_aPendingEntityRegistrations w hc
    exact ⟨_, by rw [if_pos hs, hw1]; rfl⟩
  · exact ⟨_, by rw [if_neg hs]; rfl⟩

/-! ## The throttle test in numbers -/

theorem int32_of_lt (x : Int) (h0 : 0 ≤ x) (h : x < 2147483648) : int32 x = x := by
  unfold int32
  omega

theorem savesCounted_natCast (i : Nat) :
    ∀ op0 : Nat, op0 + i < 2147483648 → savesCounted i (op0 : Int) = ((op0 + i : Nat) : Int) := by
  induction i with
  | zero => intro op0 _; rfl
  | succ i ih =>
    intro op0 h
    rw [savesCounted_succ, int32_of_lt _ (by omega) (by omega)]
    have := ih (op0 + 1) (by omega)
    rw [Nat.cast_add, Nat.cast_one] at this
    rw [this]
    congr 1
    omega

/-- In `ACTIVE`, with batch size `b ≥ 1` and the counter at `op0`, the throttle test after `i`
further saves is `(op0 + i + 1) mod b == 0`, as long as the counter stays below `2^31`. -/
theorem throttleAfter_active (w : World) (settings : EPF_PersistenceManagerComponentClass)
    (b op0 i : Nat) (hstate : w.mgr.m_eState = .ACTIVE) (hset : w.mgr.m_pSettings = some settings)
    (hb : settings.m_iAutosaveIterations = (b : Int)) (hb1 : 1 ≤ b)
    (hop : w.mgr.m_iSaveOperation = (op0 : Int)) (hrange : op0 + i + 1 < 2147483648) :
    throttleAfter w i = some (decide ((op0 + i + 1) % b = 0)) := by
  have hb0 : ¬ ((b : Int) = 0) := by omega
  have h1 : int32 (((op0 + i : Nat) : Int) + 1) = ((op0 + i + 1 : Nat) : Int) := by
    rw [int32_of_lt _ (by omega) (by omega)]
    rfl
  have h2 : Int.tmod ((op0 + i + 1 : Nat) : Int) (b : Int) = (((op0 + i + 1) % b : Nat) : Int) :=
    (Int.ofNat_tmod _ _).symm
  unfold throttleAfter throttle
  simp only [hstate, hset, if_true]
  rw [if_neg (by rw [hb]; exact hb0), hop, savesCounted_natCast i op0 (by omega), h1, hb, h2,
    Option.some.injEq, decide_eq_decide]
  exact Int.natCast_eq_zero

theorem tickWalked_op (w : World) (k1 k2 : Nat) :
    (tickWalked w k1 k2).mgr.m_iSaveOperation =
      savesCounted (tickSaves w k1 k2).length w.mgr.m_iSaveOperation := by
  simp only [tickSaves, List.length_append, savesCounted_add]
  rfl

theorem tickWalked_trace_tickSaves (w : World) (k1 k2 : Nat) :
    (tickWalked w k1 k2).trace = w.trace ++ tickSaves w k1 k2 := by
  rw [tickWalked_trace, tickSaves, List.append_assoc]

theorem passCompleted_trace (w : World) :
    (passCompleted w).trace = w.trace ++ pendingSaves w ++ completionCalls w := by
  simp only [passCompleted, tickWalked_trace_tickSaves, tickSaves, List.take_length, pendingSaves]

/-- The first call of a tick of an active, ready pass is the save of the first object due;
the tick makes no call when nothing is due and there is nothing to complete with. -/
theorem autoSaveTick_first (w : World) (ha : w.mgr.m_bAutoSaveActive = true)
    (hr : passReady w = true) :
    ∃ w2 more, AutoSaveTick w = some w2 ∧
      w2.trace = w.trace ++ (pendingSaves w).take 1 ++ more := by
  rcases autoSaveTick_spec w ha hr with ⟨k1, k2, ht, h1, h2, _, hor, _, _, hne, _⟩ | ⟨ht, _⟩
  · have hs := tickWalked_split w k1 k2 h1 h2 hor
    refine ⟨_, (tickSaves w k1 k2).drop 1, ht, ?_⟩
    rw [tickWalked_trace_tickSaves, hs, List.append_assoc]
    congr 1
    change _ = List.take 1 (tickSaves w k1 k2 ++ _) ++ _
    cases hts : tickSaves w k1 k2 with
    | nil => exact absurd hts hne
    | cons x xs => simp
  · refine ⟨_, (pendingSaves w).drop 1 ++ completionCalls w, ht, ?_⟩
    rw [passCompleted_trace, List.append_assoc, List.append_assoc]
    congr 1
    rw [← List.append_assoc, List.take_append_drop]

/-! ## C11 -/

/-- C11: in state `ACTIVE` with batch size `b ≥ 1`, let an active pass have made `op0` saves
before a tick (the operation counter), and let the `j`-th save of the tick be the first one
whose number `N = op0 + j` in the pass satisfies `(N + 1) mod b = 0`. Then the tick returns
right after that save: it has made exactly the first `j` of the saves that were due, the
remaining due saves are still due with the next object first (the iterators were not moved
past it), the pass is still active and the counter is `N`; and the following tick begins with
the save of that next object, the first remaining object that is not flagged `PAUSE_TRACKING`.
(The pass is ready: iterators within their buckets, Root Entity Collection and store adapter
there for the end of the pass; the counter stays below `2^31`.) -/
theorem C11_throttle_suspends_tick (w : World) (settings : EPF_PersistenceManagerComponentClass)
    (b op0 j : Nat)
    (hactive : w.mgr.m_bAutoSaveActive = true) (hready : passReady w = true)
    (hstate : w.mgr.m_eState = .ACTIVE) (hset : w.mgr.m_pSettings = some settings)
    (hb : settings.m_iAutosaveIterations = (b : Int)) (hb1 : 1 ≤ b)
    (hop : w.mgr.m_iSaveOperation = (op0 : Int))
    (hj : 1 ≤ j) (hjle : j ≤ (pendingSaves w).length)
    (hrange : op0 + j + 1 < 2147483648)
    (hmod : (op0 + j + 1) % b = 0)
    (hfirst : ∀ i, 1 ≤ i → i < j → (op0 + i + 1) % b ≠ 0) :
    ∃ w1, AutoSaveTick w = some w1 ∧
      w1.trace = w.trace ++ (pendingSaves w).take j ∧
      pendingSaves w1 = (pendingSaves w).drop j ∧
      w1.mgr.m_bAutoSaveActive = true ∧
      w1.mgr.m_iSaveOperation = ((op0 + j : Nat) : Int) ∧
      ∃ w2 more, AutoSaveTick w1 = some w2 ∧
        w2.trace = w1.trace ++ ((pendingSaves w).drop j).take 1 ++ more := by
  have hat : ∀ i, i ≤ j → throttleAfter w i = some (decide ((op0 + i + 1) % b = 0)) :=
    fun i hi => throttleAfter_active w settings b op0 i hstate hset hb hb1 hop (by omega)
  have hfire : throttleAfter w j = some true := by rw [hat j (Nat.le_refl j)]; simp [hmod]
  rcases autoSaveTick_spec w hactive hready with
    ⟨k1, k2, ht, h1, h2, _, hor, _, hf, hne, hbefore⟩ | ⟨_, hnever⟩
  · have hlen : (tickSaves w k1 k2).length = j := by
      have hpos : 1 ≤ (tickSaves w k1 k2).length := by
        cases hts : tickSaves w k1 k2 with
        | nil => exact absurd hts hne
        | cons x xs => simp
      by_cases hlt : j < (tickSaves w k1 k2).length
      · have := hbefore j hj hlt
        rw [hfire] at this
        simp at this
      · by_cases hgt : (tickSaves w k1 k2).length < j
        · have h3 := hat _ (Nat.le_of_lt hgt)
          rw [hf] at h3
          have h4 : (op0 + (tickSaves w k1 k2).length + 1) % b = 0 := by simpa using h3.symm
          exact absurd h4 (hfirst _ hpos hgt)
        · omega
    have hs := tickWalked_split w k1 k2 h1 h2 hor
    have hs' : pendingSaves w = tickSaves w k1 k2 ++ pendingSaves (tickWalked w k1 k2) := hs
    have hready1 := tickWalked_passReady w k1 k2 h1 h2 hready
    have hactive1 : (tickWalked w k1 k2).mgr.m_bAutoSaveActive = true := hactive
    have hdrop : (pendingSaves w).drop j = pendingSaves (tickWalked w k1 k2) := by
      rw [hs', ← hlen, List.drop_left]
    refine ⟨_, ht, ?_, hdrop.symm, hactive1, ?_, ?_⟩
    · rw [tickWalked_trace_tickSaves, hs', ← hlen, List.take_left]
    · rw [tickWalked_op, hlen, hop, savesCounted_natCast j op0 (by omega)]
    · rw [hdrop]
      exact autoSaveTick_first _ hactive1 hready1
  · have := hnever j hj hjle
    rw [hfire] at this
    simp at this

/-- C11 at a concrete input: the populated example manager with batch size 3 right after
`AutoSave()`; the second save of the first tick is save number 2 of the pass and `(2 + 1) mod 3`
is 0, so the tick stops after the objects 1 and 9, and the next tick begins with the state 0. -/
theorem C11_throttle_suspends_tick_witness :
    ∃ w1, AutoSaveTick Example.startedWorld = some w1 ∧
      w1.trace = [Event.entitySave 1, Event.entitySave 9] ∧
      pendingSaves w1 = [Event.scriptedStateSave 0] ∧
      ∃ w2 more, AutoSaveTick w1 = some w2 ∧
        w2.trace = w1.trace ++ [Event.scriptedStateSave 0] ++ more :=
  have h := C11_throttle_suspends_tick Example.startedWorld ⟨true, 60, 3⟩ 3 0 2
    (by decide) (by decide) (by decide) (by decide) (by decide) (by decide) (by decide)
    (by decide) (by decide) (by decide) (by decide)
    (fun i h1 h2 => by
      have hi : i = 1 := by omega
      subst hi
      decide)
  match h with
  | ⟨w1, h1, h2, h3, _, _, h6⟩ => ⟨w1, h1, h2, h3, h6⟩

/-! ## Starting a pass -/

theorem pendingIdentified_clearPending (w : World) (h : pendingIdentified w = true) :
    pendingIdentified (clearPending w) = true := by
  simp only [pendingIdentified, Bool.and_eq_true] at h ⊢
  refine ⟨?_, by simp [clearPending]⟩
  by_cases hs : w.mgr.m_eState.toNat ≥ EPF_EPersistenceManagerState.POST_INIT.toNat
  · simp [clearPending, hs]
  · simpa [clearPending, hs] using h.1

/-- `AutoSave()` on a manager without an active pass returns when the Root Entity Collection is
there: the pass is started on the registry as the flush leaves it, with the counter and both
iterators at their start, and nothing else of the control part changed. -/
theorem autoSave_start (env : Env) (w : World) (hidle : w.mgr.m_bAutoSaveActive = false)
    (hcol : w.mgr.m_pRootEntityCollection.isSome = true) :
    ∃ w0, AutoSave env w = some w0 ∧ w0.trace = w.trace ∧
      w0.mgr.m_pSettings = w.mgr.m_pSettings ∧ w0.mgr.m_eState = w.mgr.m_eState ∧
      w0.mgr.m_pOnStateChange = w.mgr.m_pOnStateChange ∧
      w0.mgr.m_pDbContext = w.mgr.m_pDbContext ∧
      w0.mgr.m_pRootEntityCollection.isSome = true ∧
      w0.mgr.m_bAutoSaveActive = true ∧ w0.mgr.m_iSaveOperation = 0 ∧
      w0.mgr.m_iAutoSaveEntityIt = 0 ∧ w0.mgr.m_iAutoSaveScriptedStateIt = 0 ∧
      (pendingIdentified w = true →
        w0.mgr.m_mRootAutoSave = w.mgr.m_mRootAutoSave ∧
        w0.mgr.m_mScriptedStateAutoSave = w.mgr.m_mScriptedStateAutoSave ∧
        w0.mgr.m_mRootShutdown = w.mgr.m_mRootShutdown ∧
        w0.mgr.m_mScriptedStateShutdown = w.mgr.m_mScriptedStateShutdown ∧
        w0.mgr.m_mRootAutoSaveCleanup = w.mgr.m_mRootAutoSaveCleanup ∧
        w0.mgr.m_mRootShutdownCleanup = w.mgr.m_mRootShutdownCleanup ∧
        w0.components = w.components ∧ w0.scriptedStates = w.scriptedStates ∧
        pendingIdentified w0 = true) := by
  have hca : collectionAvailable
      { w with mgr := { w.mgr with
        m_bAutoSaveActive := true
        m_fAutoSaveAccumultor := 0
        m_iSaveOperation := 0 } } = true := by
    simp [collectionAvailable, hcol]
  obtain ⟨w2, hw2⟩ := flushRegistrations_total env _ hca
  have hf := (flushRegistrations_frame env _ w2 hw2).1
  simp only [control, Prod.mk.injEq] at hf
  obtain ⟨f1, f2, f3, f4, f5, f6, _, _, f9, f10, _, _⟩ := hf
  refine ⟨{ w2 with mgr := { w2.mgr with m_iAutoSaveEntityIt := 0, m_iAutoSaveScriptedStateIt := 0 } },
    by simp only [AutoSave, hidle, Bool.false_eq_true, if_false, hw2, Option.map_some'],
    f1, f2, f3, f4, f5, by rw [← hcol]; exact f6, f9, f10, rfl, rfl, ?_⟩
  intro hp
  have hp' : pendingIdentified
      { w with mgr := { w.mgr with
        m_bAutoSaveActive := true
        m_fAutoSaveAccumultor := 0
        m_iSaveOperation := 0 } } = true := hp
  have he := flushRegistrations_identified env _ hp'
  rw [hw2] at he
  simp only [Option.some.injEq] at he
  subst he
  exact ⟨rfl, rfl, rfl, rfl, rfl, rfl, rfl, rfl, pendingIdentified_clearPending _ hp'⟩

/-! ## State changes and the forced drain -/

theorem setState_mgr (w : World) (state : EPF_EPersistenceManagerState) :
    (SetState w state).mgr = { w.mgr with m_eState := state } := by
  unfold SetState
  simp only []
  split <;> rfl

theorem setState_trace (w : World) (state : EPF_EPersistenceManagerState) :
    (SetState w state).trace =
      w.trace ++ (if w.mgr.m_pOnStateChange then [Event.stateChange state] else []) := by
  unfold SetState
  cases h : w.mgr.m_pOnStateChange <;> simp [h]

theorem setState_components (w : World) (state : EPF_EPersistenceManagerState) :
    (SetState w state).components = w.components := by
  unfold SetState
  simp only []
  split <;> rfl

theorem setState_scriptedStates (w : World) (state : EPF_EPersistenceManagerState) :
    (SetState w state).scriptedStates = w.scriptedStates := by
  unfold SetState
  simp only []
  split <;> rfl

theorem setState_idHistory (w : World) (state : EPF_EPersistenceManagerState) :
    (SetState w state).idHistory = w.idHistory := by
  unfold SetState
  simp only []
  split <;> rfl

/-- Outside `ACTIVE` a tick of an active, ready pass is never suspended: it completes the pass. -/
theorem autoSaveTick_unthrottled (w : World) (ha : w.mgr.m_bAutoSaveActive = true)
    (hr : passReady w = true) (hs : w.mgr.m_eState ≠ .ACTIVE) :
    AutoSaveTick w = some (passCompleted w) := by
  rcases autoSaveTick_spec w ha hr with ⟨_, _, _, _, _, _, _, hact, _⟩ | ⟨ht, _⟩
  · exact absurd hact hs
  · exact ht

theorem unpaused_map_entitySave (w : World) (bucket : ScriptMap Ref) :
    (unpaused (fun r => (w.components r).m_eFlags) bucket).map Event.entitySave =
      entitySaves w bucket.entries := by
  simp [unpaused, entitySaves, List.map_map, Function.comp_def]

theorem unpaused_map_scriptedStateSave (w : World) (bucket : ScriptMap Ref) :
    (unpaused (fun r => (w.scriptedStates r).m_eFlags) bucket).map Event.scriptedStateSave =
      scriptedStateSaves w bucket.entries := by
  simp [unpaused, scriptedStateSaves, List.map_map, Function.comp_def]

/-- The calls of `ShutDownSave()` after its flush: the saves of the unpaused objects of the two
shutdown buckets, the save of the Root Entity Collection and one store remove per entry of the
shutdown cleanup set. -/
theorem shutDownSave_trace (env : Env) (w : World)
    (hcol : w.mgr.m_pRootEntityCollection.isSome = true)
    (hdb : w.mgr.m_pDbContext.isSome = true) :
    ∃ wf w', FlushRegistrations env w = some wf ∧ ShutDownSave env w = some w' ∧
      registrationFrame w wf ∧
      w'.trace = w.trace ++ entitySaves wf wf.mgr.m_mRootShutdown.entries ++
        scriptedStateSaves wf wf.mgr.m_mScriptedStateShutdown.entries ++
        [Event.rootEntityCollectionSave] ++
        wf.mgr.m_mRootShutdownCleanup.entries.map (fun x => Event.dbRemoveAsync x.2 x.1) ∧
      w'.mgr = { wf.mgr with m_mRootShutdownCleanup := ⟨[]⟩ } := by
  obtain ⟨wf, hf⟩ := flushRegistrations_total env w (by simp [collectionAvailable, hcol])
  have hfr := flushRegistrations_frame env w wf hf
  have hc := hfr.1
  simp only [control, Prod.mk.injEq] at hc
  obtain ⟨f1, _, _, _, f5, f6, _⟩ := hc
  cases hcc : wf.mgr.m_pRootEntityCollection with
  | none => rw [hcc, hcol] at f6; simp at f6
  | some c =>
    have h := shutDownSave_eq env w wf c hf hcc (by rw [f5, hdb]; rfl)
    refine ⟨wf, _, hf, h, hfr, ?_, rfl⟩
    simp only [unpaused_map_entitySave, unpaused_map_scriptedStateSave, f1]

/-! ## C12 -/

/-- C12, as stated, fails when a pass is partway through. On the populated example manager
`AutoSave()` and one tick save the objects 1 and 9 and the throttle suspends the pass. The
session-end handler called then does not start a pass (`AutoSave()` does nothing while one is
active) and its tick goes on from the iterators: within the handler call only the state 0 is
saved by the drain, and the unpaused objects 1 and 9 of the autosave entity bucket get no
`Save` call in it. -/
theorem C12_counterexample :
    (((AutoSave Example.env Example.busyWorld).bind AutoSaveTick).bind fun wb =>
      (OnGameEnd Example.env wb).map fun w =>
        (wb.mgr.m_bAutoSaveActive, entitySaves wb wb.mgr.m_mRootAutoSave.entries, wb.trace,
          w.trace.drop wb.trace.length)) =
    some (true, [Event.entitySave 1, Event.entitySave 9],
      [Event.entitySave 1, Event.entitySave 9],
      [Event.scriptedStateSave 0, Event.rootEntityCollectionSave,
        Event.dbRemoveAsync "ItemSaveData" "c5",
        Event.entitySave 2, Event.scriptedStateSave 1, Event.rootEntityCollectionSave,
        Event.dbRemoveAsync "ItemSaveData" "c6", Event.reset]) := by
  decide

/-- C12 (amended): for every manager state in which the session-end handler runs (Root
Entity Collection and store adapter there, iterators of an active pass within their buckets),
the handler sets `SHUTDOWN` and reports it, and the forced drain completes the autosave pass
in that single call, regardless of batch size. When no pass was active, `AutoSave()` starts
one and `Save` is called on every object of the two autosave buckets that is not flagged
`PAUSE_TRACKING`; when a pass was already partway through, `AutoSave()` does nothing and `Save`
is called on the unpaused objects at or after the two iterators only. The pass is completed
(Root Entity Collection saved, autosave cleanup set drained, active flag cleared); then
`ShutDownSave()` runs once and the singleton is reset. -/
theorem C12_game_end_drain (env : Env) (w : World)
    (hcol : w.mgr.m_pRootEntityCollection.isSome = true)
    (hdb : w.mgr.m_pDbContext.isSome = true)
    (hcur : w.mgr.m_bAutoSaveActive = true →
      w.mgr.m_iAutoSaveEntityIt ≤ w.mgr.m_mRootAutoSave.Count ∧
        w.mgr.m_iAutoSaveScriptedStateIt ≤ w.mgr.m_mScriptedStateAutoSave.Count) :
    ∃ w0 w1 wf w',
      AutoSave env (SetState w .SHUTDOWN) = some w0 ∧
      w0.trace = w.trace ++
        (if w.mgr.m_pOnStateChange then [Event.stateChange .SHUTDOWN] else []) ∧
      (w.mgr.m_bAutoSaveActive = true →
        w0 = SetState w .SHUTDOWN ∧ pendingSaves w0 = pendingSaves w) ∧
      (w.mgr.m_bAutoSaveActive = false →
        pendingSaves w0 = entitySaves w0 w0.mgr.m_mRootAutoSave.entries ++
          scriptedStateSaves w0 w0.mgr.m_mScriptedStateAutoSave.entries) ∧
      AutoSaveTick w0 = some w1 ∧
      w1.trace = w0.trace ++ pendingSaves w0 ++ completionCalls w0 ∧
      w1.mgr.m_bAutoSaveActive = false ∧
      FlushRegistrations env w1 = some wf ∧
      OnGameEnd env w = some w' ∧
      w'.trace = w1.trace ++ entitySaves wf wf.mgr.m_mRootShutdown.entries ++
        scriptedStateSaves wf wf.mgr.m_mScriptedStateShutdown.entries ++
        [Event.rootEntityCollectionSave] ++
        wf.mgr.m_mRootShutdownCleanup.entries.map (fun x => Event.dbRemoveAsync x.2 x.1) ++
        [Event.reset] := by
  have hm := setState_mgr w .SHUTDOWN
  have htr := setState_trace w .SHUTDOWN
  have key : ∃ w0, AutoSave env (SetState w .SHUTDOWN) = some w0 ∧
      w0.trace = (SetState w .SHUTDOWN).trace ∧
      w0.mgr.m_bAutoSaveActive = true ∧ passReady w0 = true ∧
      w0.mgr.m_eState = .SHUTDOWN ∧
      w0.mgr.m_pRootEntityCollection.isSome = true ∧ w0.mgr.m_pDbContext.isSome = true ∧
      (w.mgr.m_bAutoSaveActive = true →
        w0 = SetState w .SHUTDOWN ∧ pendingSaves w0 = pendingSaves w) ∧
      (w.mgr.m_bAutoSaveActive = false →
        pendingSaves w0 = entitySaves w0 w0.mgr.m_mRootAutoSave.entries ++
          scriptedStateSaves w0 w0.mgr.m_mScriptedStateAutoSave.entries) := by
    cases ha : w.mgr.m_bAutoSaveActive with
    | true =>
      have ha' : (SetState w .SHUTDOWN).mgr.m_bAutoSaveActive = true := by rw [hm]; exact ha
      obtain ⟨hc1, hc2⟩ := hcur ha
      refine ⟨SetState w .SHUTDOWN, by simp [AutoSave, ha'], rfl, ha', ?_, by rw [hm], ?_, ?_,
        fun _ => ⟨rfl, ?_⟩, fun h => by simp at h⟩
      · simp only [passReady, throttleDefined, hm, Bool.and_eq_true, decide_eq_true_eq,
          Bool.or_eq_true]
        exact ⟨⟨⟨⟨Or.inl (by decide), hc1⟩, hc2⟩, hcol⟩, Or.inl hdb⟩
      · rw [hm]; exact hcol
      · rw [hm]; exact hdb
      · simp only [pendingSaves, entitySaves, scriptedStateSaves, entityEntriesDue,
          scriptedStateEntriesDue, hm, setState_components, setState_scriptedStates]
    | false =>
      have ha' : (SetState w .SHUTDOWN).mgr.m_bAutoSaveActive = false := by rw [hm]; exact ha
      obtain ⟨w0, h0, ht, _, hst, _, hd, hc, hact, _, hi1, hi2, _⟩ :=
        autoSave_start env (SetState w .SHUTDOWN) ha' (by rw [hm]; exact hcol)
      have hst' : w0.mgr.m_eState = .SHUTDOWN := by rw [hst, hm]
      have hd' : w0.mgr.m_pDbContext.isSome = true := by rw [hd, hm]; exact hdb
      refine ⟨w0, h0, ht, hact, ?_, hst', hc, hd', fun h => by simp at h, fun _ => ?_⟩
      · simp only [passReady, throttleDefined, hst', hi1, hi2, hc, hd', Bool.and_eq_true,
          decide_eq_true_eq, Bool.or_eq_true]
        exact ⟨⟨⟨⟨Or.inl (by decide), Nat.zero_le _⟩, Nat.zero_le _⟩, trivial⟩, Or.inl trivial⟩
      · simp [pendingSaves, entityEntriesDue, scriptedStateEntriesDue, hi1, hi2]
  obtain ⟨w0, h0, ht0, hact, hready, hst, hc0, hd0, hA, hB⟩ := key
  have htick := autoSaveTick_unthrottled w0 hact hready (by rw [hst]; decide)
  obtain ⟨wf, w2, hf, hsd, _, htr2, _⟩ :=
    shutDownSave_trace env (passCompleted w0) hc0 hd0
  refine ⟨w0, passCompleted w0, wf, Reset w2, h0, by rw [ht0, htr], hA, hB, htick,
    passCompleted_trace w0, rfl, hf, ?_, ?_⟩
  · simp only [OnGameEnd, h0, Option.some_bind, htick, hsd, Option.map_some']
  · simp only [Reset, htr2]

/-- C12 (amended) at a concrete input: the populated example manager in the middle of a pass.
The drain of the handler makes the one save that was still due. -/
theorem C12_game_end_drain_witness :
    ∃ w0 w1, AutoSave Example.env (SetState Example.passWorld .SHUTDOWN) = some w0 ∧
      pendingSaves w0 = [Event.scriptedStateSave 0] ∧
      AutoSaveTick w0 = some w1 ∧
      w1.trace = w0.trace ++ pendingSaves w0 ++ completionCalls w0 :=
  have h := C12_game_end_drain Example.env Example.passWorld (by decide) (by decide)
    (fun _ => ⟨by decide, by decide⟩)
  match h with
  | ⟨w0, w1, _, _, h1, _, h3, _, h5, h6, _⟩ =>
    ⟨w0, w1, h1, by rw [(h3 (by decide)).2]; decide, h5, h6⟩

/-! ## Registering a shutdown-only root -/

theorem passCompleted_pendingIdentified (w : World) :
    pendingIdentified (passCompleted w) = pendingIdentified w := by
  simp only [pendingIdentified, passCompleted, tickWalked, scriptedStateWalked, entityWalked]

theorem hostFrame_refl (w : World) : hostFrame w w := ⟨rfl, rfl⟩

theorem hostFrame_trans {w w1 w2 : World} (h1 : hostFrame w w1) (h2 : hostFrame w1 w2) :
    hostFrame w w2 :=
  ⟨h2.1.trans h1.1, h2.2.trans h1.2⟩

theorem control_trace {w w1 : World} (h : control w1 = control w) : w1.trace = w.trace := by
  simp only [control, Prod.mk.injEq] at h
  exact h.1

theorem quiet_wellBehaved (host : Host) (h : host.quiet) : host.wellBehaved :=
  ⟨fun w p => by rw [h.1]; exact hostFrame_refl w,
    fun w c d r => by rw [h.2.1]; exact hostFrame_refl w,
    fun w e => by rw [h.2.2]; exact hostFrame_refl w⟩

theorem example_host_quiet : Example.host.quiet :=
  ⟨fun _ _ => rfl, fun _ _ _ _ => rfl, fun _ _ => rfl⟩

theorem example_offlineHost_quiet : Example.offlineHost.quiet :=
  ⟨fun _ _ => rfl, fun _ _ _ _ => rfl, fun _ _ => rfl⟩

theorem deleteEntityAndChildren_trace (host : Host) (hhost : host.wellBehaved) (w : World)
    (entity : Ref) :
    (deleteEntityAndChildren host w entity).trace =
      w.trace ++ [Event.deleteEntityAndChildren entity] :=
  control_trace (hhost.2.2 _ entity).1

/-! ## What leaves the lifecycle part alone -/

theorem reportedStates_append (a b : List Event) :
    reportedStates (a ++ b) = reportedStates a ++ reportedStates b := by
  induction a with
  | nil => rfl
  | cons e a ih => cases e <;> simp [reportedStates, ih]

theorem reportedStates_eq_nil (l : List Event) (h : ∀ e ∈ l, ∀ s, e ≠ Event.stateChange s) :
    reportedStates l = [] := by
  induction l with
  | nil => rfl
  | cons e l ih =>
    have hl := ih (fun x hx => h x (List.mem_cons_of_mem _ hx))
    cases e with
    | stateChange s => exact absurd rfl (h _ (List.mem_cons_self _ _) s)
    | _ => simpa [reportedStates] using hl

theorem lifecycle_of_control {w w1 : World} (h : control w1 = control w) :
    lifecycle w1 = lifecycle w := by
  simp only [control, Prod.mk.injEq] at h
  obtain ⟨h1, h2, h3, h4, h5, h6, h7, _⟩ := h
  simp only [lifecycle, h1, h2, h3, h4, h5, h6, h7]

theorem lifecycle_state {w w1 : World} (h : lifecycle w1 = lifecycle w) :
    w1.mgr.m_eState = w.mgr.m_eState := by
  simp only [lifecycle, Prod.mk.injEq] at h
  exact h.2.2.1

theorem lifecycle_withCall (w : World) (e : Event) (h : ∀ s, e ≠ Event.stateChange s) :
    lifecycle (withCall w e) = lifecycle w := by
  have : reportedStates [e] = [] := reportedStates_eq_nil _ (by
    intro x hx s
    rw [List.mem_singleton] at hx
    subst hx
    exact h s)
  simp [lifecycle, withCall, reportedStates_append, this]

theorem lifecycle_calls (w : World) (l : List Event) (h : ∀ e ∈ l, ∀ s, e ≠ Event.stateChange s) :
    lifecycle { w with trace := w.trace ++ l } = lifecycle w := by
  simp [lifecycle, reportedStates_append, reportedStates_eq_nil l h]

theorem flushRegistrations_lifecycle (env : Env) (w w1 : World)
    (h : FlushRegistrations env w = some w1) : lifecycle w1 = lifecycle w :=
  lifecycle_of_control (flushRegistrations_frame env w w1 h).1

theorem autoSave_lifecycle (env : Env) (w w1 : World) (h : AutoSave env w = some w1) :
    lifecycle w1 = lifecycle w := by
  unfold AutoSave at h
  by_cases ha : w.mgr.m_bAutoSaveActive = true
  · rw [if_pos ha] at h
    simp only [Option.some.injEq] at h
    rw [← h]
  · rw [if_neg ha] at h
    simp only [Option.map_eq_some'] at h
    obtain ⟨w2, h2, hw⟩ := h
    subst hw
    have e := flushRegistrations_lifecycle env _ w2 h2
    simpa [lifecycle] using e

theorem autoSaveTick_lifecycle (w w1 : World) (h : AutoSaveTick w = some w1) :
    lifecycle w1 = lifecycle w := by
  unfold AutoSaveTick at h
  by_cases ha : w.mgr.m_bAutoSaveActive = true
  · simp only [ha, Bool.not_true, Bool.false_eq_true, if_false] at h
    by_cases h1 : w.mgr.m_mRootAutoSave.Count < w.mgr.m_iAutoSaveEntityIt
    · rw [if_pos h1] at h; simp at h
    · rw [if_neg h1] at h
      cases he : autoSaveEntityWalk w
          (w.mgr.m_mRootAutoSave.entries.drop w.mgr.m_iAutoSaveEntityIt) with
      | none => rw [he] at h; simp at h
      | some r =>
        obtain ⟨b, wa⟩ := r
        obtain ⟨saves1, i1, n1, hs1, hw1⟩ := autoSaveEntityWalk_shape _ _ _ _ he
        have l1 : lifecycle wa = lifecycle w := by
          rw [hw1]
          exact lifecycle_calls { w with mgr := { w.mgr with
              m_iAutoSaveEntityIt := i1, m_iSaveOperation := n1 } } saves1 (by
            intro e hm s hs
            obtain ⟨r, hr⟩ := hs1 e hm
            rw [hr] at hs
            simp at hs)
        rw [he] at h
        cases b with
        | true =>
          simp only [Option.some.injEq] at h
          rw [← h]; exact l1
        | false =>
          simp only [] at h
          by_cases h2 : wa.mgr.m_mScriptedStateAutoSave.Count < wa.mgr.m_iAutoSaveScriptedStateIt
          · rw [if_pos h2] at h; simp at h
          · rw [if_neg h2] at h
            cases hs : autoSaveScriptedStateWalk wa
                (wa.mgr.m_mScriptedStateAutoSave.entries.drop wa.mgr.m_iAutoSaveScriptedStateIt) with
            | none => rw [hs] at h; simp at h
            | some r2 =>
              obtain ⟨b2, wb⟩ := r2
              obtain ⟨saves2, i2, n2, hs2, hw2⟩ := autoSaveScriptedStateWalk_shape _ _ _ _ hs
              have l2 : lifecycle wb = lifecycle wa := by
                rw [hw2]
                exact lifecycle_calls { wa with mgr := { wa.mgr with
                    m_iAutoSaveScriptedStateIt := i2, m_iSaveOperation := n2 } } saves2 (by
                  intro e hm s hs'
                  obtain ⟨r, hr⟩ := hs2 e hm
                  rw [hr] at hs'
                  simp at hs')
              rw [hs] at h
              cases b2 with
              | true =>
                simp only [Option.some.injEq] at h
                rw [← h]; exact l2.trans l1
              | false =>
                simp only [] at h
                have h3 := autoSaveComplete_some _ _ h
                have hr : reportedStates (wb.mgr.m_mRootAutoSaveCleanup.entries.map
                    (fun x => Event.dbRemoveAsync x.2 x.1)) = [] :=
                  reportedStates_eq_nil _ (by
                    intro e hm s hs'
                    subst hs'
                    simp at hm)
                have l3 : lifecycle w1 = lifecycle wb := by
                  rw [h3]
                  simp [lifecycle, reportedStates_append, hr, reportedStates]
                exact l3.trans (l2.trans l1)
  · have : w.mgr.m_bAutoSaveActive = false := by simpa using ha
    simp only [this, Bool.not_false, if_true, Option.some.injEq] at h
    rw [← h]

theorem shutDownSave_lifecycle (env : Env) (w w1 : World) (h : ShutDownSave env w = some w1) :
    lifecycle w1 = lifecycle w := by
  unfold ShutDownSave at h
  cases hf : FlushRegistrations env w with
  | none => rw [hf] at h; simp at h
  | some wf =>
    rw [hf] at h
    simp only [Option.some_bind, saveRootEntityCollection] at h
    cases hc : wf.mgr.m_pRootEntityCollection with
    | none => rw [hc] at h; simp at h
    | some c =>
      rw [hc] at h
      simp only [Option.some_bind, Option.map_eq_some'] at h
      obtain ⟨w5, h5, hw⟩ := h
      have h6 := removeCleanupRecords_some _ _ _ h5
      subst hw
      rw [h6]
      have hr : reportedStates (wf.mgr.m_mRootShutdownCleanup.entries.map
          (fun x => Event.dbRemoveAsync x.2 x.1)) = [] :=
        reportedStates_eq_nil _ (by
          intro e hm s hs
          subst hs
          simp at hm)
      have h1 : reportedStates ((unpaused (fun r => (wf.components r).m_eFlags)
          wf.mgr.m_mRootShutdown).map Event.entitySave) = [] :=
        reportedStates_eq_nil _ (by
          intro e hm s hs
          subst hs
          simp at hm)
      have h2 : reportedStates ((unpaused (fun r => (wf.scriptedStates r).m_eFlags)
          wf.mgr.m_mScriptedStateShutdown).map Event.scriptedStateSave) = [] :=
        reportedStates_eq_nil _ (by
          intro e hm s hs
          subst hs
          simp at hm)
      have hl := flushRegistrations_lifecycle env w wf hf
      simp only [lifecycle, Prod.mk.injEq] at hl ⊢
      simp only [reportedStates_append, hr, h1, h2, reportedStates, List.append_nil]
      exact hl

/-! ## What world load leaves alone -/

theorem findEntityByPersistentId_frame (env : Env) (w : World) (persistentId : String)
    (r : Option Ref × World) (h : FindEntityByPersistentId env w persistentId = some r) :
    registrationFrame w r.2 := by
  simp only [FindEntityByPersistentId, FindPersistenceComponentById, Option.map_map,
    Option.map_eq_some', Function.comp] at h
  obtain ⟨w1, h1, hr⟩ := h
  have hf := flushRegistrations_frame env w w1 h1
  subst hr
  split <;> exact hf

theorem findEntityByPersistentId_total (env : Env) (w : World) (persistentId : String)
    (hc : collectionAvailable w = true) :
    ∃ r, FindEntityByPersistentId env w persistentId = some r := by
  obtain ⟨w1, h1⟩ := flushRegistrations_total env w hc
  unfold FindEntityByPersistentId FindPersistenceComponentById
  rw [h1]
  exact ⟨_, rfl⟩

theorem deleteEntityAndChildren_lifecycle (host : Host) (hhost : host.wellBehaved) (w : World)
    (entity : Ref) : lifecycle (deleteEntityAndChildren host w entity) = lifecycle w :=
  (lifecycle_of_control (hhost.2.2 _ entity).1).trans
    (lifecycle_withCall w _ (by intro s hs; simp at hs))

theorem deleteEntityAndChildren_collection (host : Host) (hhost : host.wellBehaved) (w : World)
    (entity : Ref) :
    (deleteEntityAndChildren host w entity).mgr.m_pRootEntityCollection =
      w.mgr.m_pRootEntityCollection :=
  (hhost.2.2 _ entity).2

theorem lifecycle_collection (w : World) (c : EPF_PersistentRootEntityCollection)
    (h : w.mgr.m_pRootEntityCollection.isSome = true) :
    lifecycle { w with mgr := { w.mgr with m_pRootEntityCollection := some c } } = lifecycle w := by
  simp [lifecycle, h]

theorem lifecycle_ready {w w1 : World} (h : lifecycle w1 = lifecycle w) :
    w1.mgr.m_pDbContext = w.mgr.m_pDbContext ∧
    w1.mgr.m_pRootEntityCollection.isSome = w.mgr.m_pRootEntityCollection.isSome ∧
    w1.mgr.m_mBakedRoots.isSome = w.mgr.m_mBakedRoots.isSome := by
  simp only [lifecycle, Prod.mk.injEq] at h
  exact ⟨h.2.2.2.2.1, h.2.2.2.2.2.1, h.2.2.2.2.2.2⟩

/-- The loop over the removed baked roots returns when there is a Root Entity Collection, and
leaves the lifecycle part alone. -/
theorem removeBakedLoop_spec (env : Env) (host : Host) (hhost : host.wellBehaved)
    (ids : List String) :
    ∀ (w : World) (staleIds : List String), w.mgr.m_pRootEntityCollection.isSome = true →
      ∃ r, removeBakedLoop env host w staleIds ids = some r ∧ lifecycle r.2 = lifecycle w := by
  induction ids with
  | nil => intro w staleIds _; exact ⟨_, rfl, rfl⟩
  | cons id rest ih =>
    intro w staleIds hc
    obtain ⟨r, hr⟩ := findEntityByPersistentId_total env w id (by simp [collectionAvailable, hc])
    have hf := findEntityByPersistentId_frame env w id r hr
    have hl := lifecycle_of_control hf.1
    have hc1 : r.2.mgr.m_pRootEntityCollection.isSome = true := by
      rw [(lifecycle_ready hl).2.1]; exact hc
    obtain ⟨o, w1⟩ := r
    simp only [removeBakedLoop, hr]
    cases o with
    | none =>
      obtain ⟨r2, h2, l2⟩ := ih w1 (staleIds ++ [id]) hc1
      exact ⟨r2, h2, l2.trans hl⟩
    | some entity =>
      simp only []
      cases hcc : w1.mgr.m_pRootEntityCollection with
      | none => rw [hcc] at hc1; simp at hc1
      | some c =>
        simp only []
        have hl2 := (deleteEntityAndChildren_lifecycle host hhost _ entity).trans
          (lifecycle_collection w1
            { c with m_aPossibleBackedRootEntities := c.m_aPossibleBackedRootEntities ++ [id] } hc1)
        obtain ⟨r2, h2, l2⟩ := ih _ staleIds (by rw [(lifecycle_ready hl2).2.1]; exact hc1)
        exact ⟨r2, h2, l2.trans (hl2.trans hl)⟩

theorem collectBulkLoad_spec (w : World) (staleIds : List String)
    (hc : w.mgr.m_pRootEntityCollection.isSome = true) (hb : w.mgr.m_mBakedRoots.isSome = true) :
    ∃ r, collectBulkLoad w staleIds = some r ∧ lifecycle r.1 = lifecycle w := by
  unfold collectBulkLoad
  cases hcc : w.mgr.m_pRootEntityCollection with
  | none => rw [hcc] at hc; simp at hc
  | some c =>
    cases hbb : w.mgr.m_mBakedRoots with
    | none => rw [hbb] at hb; simp at hb
    | some b => exact ⟨_, rfl, lifecycle_collection w _ hc⟩

theorem spawnWorldEntity_lifecycle (host : Host) (hhost : host.wellBehaved) (w : World)
    (saveData : Option EPF_EntitySaveData) (isRoot : Bool) :
    lifecycle (SpawnWorldEntity host w saveData isRoot).2 = lifecycle w := by
  have hsp : ∀ w p, lifecycle (host.SpawnEntityPrefab w p).2 = lifecycle w :=
    fun w p => lifecycle_of_control (hhost.1 w p).1
  have hld : ∀ w c d r, lifecycle (host.Load w c d r).2 = lifecycle w :=
    fun w c d r => lifecycle_of_control (hhost.2.1 w c d r).1
  have hdel := deleteEntityAndChildren_lifecycle host hhost
  have hcall : ∀ (w : World) (e : Event), (∀ s, e ≠ Event.stateChange s) →
      lifecycle { w with trace := w.trace ++ [e] } = lifecycle w :=
    fun w e h => lifecycle_withCall w e h
  unfold SpawnWorldEntity
  cases saveData with
  | none => rfl
  | some data =>
    simp only []
    split
    · rfl
    · split
      · rfl
      · have h1 := (hsp { w with trace := w.trace ++ [Event.spawnEntityPrefab data.m_rPrefab] }
          data.m_rPrefab).trans (hcall w _ (by intro s hs; simp at hs))
        split
        · exact h1
        · split
          · exact (hdel _ _).trans h1
          · rename_i c _
            have h3 := (hld { (host.SpawnEntityPrefab
                { w with trace := w.trace ++ [Event.spawnEntityPrefab data.m_rPrefab] }
                data.m_rPrefab).2 with
              trace := (host.SpawnEntityPrefab
                { w with trace := w.trace ++ [Event.spawnEntityPrefab data.m_rPrefab] }
                data.m_rPrefab).2.trace ++ [Event.entityLoad c data (some isRoot)] }
              c data (some isRoot)).trans
                ((hcall _ _ (by intro s hs; simp at hs)).trans h1)
            split
            · exact h3
            · exact (hdel _ _).trans h3

theorem loadRecord_spec (host : Host) (hhost : host.wellBehaved) (w : World)
    (findResult : EDF_DbEntity) (hb : w.mgr.m_mBakedRoots.isSome = true) :
    ∃ w1, loadRecord host w findResult = some w1 ∧ lifecycle w1 = lifecycle w := by
  unfold loadRecord
  cases findResult.saveData with
  | none => exact ⟨w, rfl, rfl⟩
  | some saveData =>
    cases hbb : w.mgr.m_mBakedRoots with
    | none => rw [hbb] at hb; simp at hb
    | some bakedRoots =>
      simp only []
      cases bakedRoots.Find saveData.m_sId with
      | none => exact ⟨_, rfl, spawnWorldEntity_lifecycle host hhost w _ _⟩
      | some c =>
        exact ⟨_, rfl, (lifecycle_of_control (hhost.2.1 _ c saveData none).1).trans
          (lifecycle_withCall w _ (by intro s hs; simp at hs))⟩

theorem loadRecords_spec (host : Host) (hhost : host.wellBehaved) (l : List EDF_DbEntity) :
    ∀ w : World, w.mgr.m_mBakedRoots.isSome = true →
      ∃ w1, loadRecords host w l = some w1 ∧ lifecycle w1 = lifecycle w := by
  induction l with
  | nil => intro w _; exact ⟨w, rfl, rfl⟩
  | cons r rest ih =>
    intro w hb
    obtain ⟨w1, h1, l1⟩ := loadRecord_spec host hhost w r hb
    obtain ⟨w2, h2, l2⟩ := ih w1 (by rw [(lifecycle_ready l1).2.2]; exact hb)
    exact ⟨w2, by simp only [loadRecords, h1, Option.some_bind, h2], l2.trans l1⟩

theorem bulkFind_spec (host : Host) (hhost : host.wellBehaved) (l : List (String × List String)) :
    ∀ w : World, w.mgr.m_mBakedRoots.isSome = true → w.mgr.m_pDbContext.isSome = true →
      ∃ w1, bulkFind host w l = some w1 ∧ lifecycle w1 = lifecycle w := by
  induction l with
  | nil => intro w _ _; exact ⟨w, rfl, rfl⟩
  | cons e rest ih =>
    intro w hb hd
    cases hdd : w.mgr.m_pDbContext with
    | none => rw [hdd] at hd; simp at hd
    | some db =>
      have l0 : lifecycle { w with trace := w.trace ++ [Event.findAll e.1 e.2] } = lifecycle w :=
        lifecycle_withCall w _ (by intro s hs; simp at hs)
      simp only [bulkFind, hdd]
      cases host.FindAll e.1 e.2 with
      | none =>
        obtain ⟨w2, h2, l2⟩ := ih _ (by rw [(lifecycle_ready l0).2.2]; exact hb)
          (by rw [(lifecycle_ready l0).1]; exact hd)
        exact ⟨w2, h2, l2.trans l0⟩
      | some findResults =>
        obtain ⟨w1, h1, l1⟩ := loadRecords_spec host hhost findResults
          { w with trace := w.trace ++ [Event.findAll e.1 e.2] } hb
        obtain ⟨w2, h2, l2⟩ := ih w1 (by rw [(lifecycle_ready (l1.trans l0)).2.2]; exact hb)
          (by rw [(lifecycle_ready (l1.trans l0)).1]; exact hd)
        exact ⟨w2, by simp only [h1, Option.some_bind, h2], l2.trans (l1.trans l0)⟩

theorem bulkFind_lifecycle (host : Host) (hhost : host.wellBehaved)
    (l : List (String × List String)) (w w1 : World)
    (hb : w.mgr.m_mBakedRoots.isSome = true) (h : bulkFind host w l = some w1) :
    lifecycle w1 = lifecycle w := by
  cases hd : w.mgr.m_pDbContext with
  | none =>
    cases l with
    | nil =>
      simp only [bulkFind, Option.some.injEq] at h
      rw [← h]
    | cons e rest => simp [bulkFind, hd] at h
  | some db =>
    obtain ⟨w2, h2, l2⟩ := bulkFind_spec host hhost l w hb (by rw [hd]; rfl)
    rw [h] at h2
    simp only [Option.some.injEq] at h2
    rw [h2]; exact l2

theorem forwardPath_append (a b : List EPF_EPersistenceManagerState) :
    ∀ s, forwardPath s (a ++ b) = (forwardPath s a).bind fun t => forwardPath t b := by
  induction a with
  | nil => intro s; rfl
  | cons x a ih =>
    intro s
    simp only [List.cons_append, forwardPath]
    split
    · exact ih x
    · rfl

theorem forwardPath_le (l : List EPF_EPersistenceManagerState) :
    ∀ s t, forwardPath s l = some t → s.toNat ≤ t.toNat := by
  induction l with
  | nil =>
    intro s t h
    simp only [forwardPath, Option.some.injEq] at h
    rw [h]
  | cons x l ih =>
    intro s t h
    simp only [forwardPath] at h
    split at h
    · rename_i hle
      exact Nat.le_trans hle (ih x t h)
    · simp at h

theorem movesForward_setState (w : World) (state : EPF_EPersistenceManagerState)
    (h : w.mgr.m_eState.toNat ≤ state.toNat) : movesForward w (SetState w state) [state] := by
  refine ⟨by rw [setState_mgr], ?_, fun hi => ?_⟩
  · rw [setState_mgr]
    simp [forwardPath, h]
  · rw [setState_trace, hi, reportedStates_append]
    rfl

theorem movesForward_of_lifecycle {w w1 : World} (h : lifecycle w1 = lifecycle w) :
    movesForward w w1 [] := by
  simp only [lifecycle, Prod.mk.injEq] at h
  exact ⟨h.2.2.2.1, by rw [h.2.2.1]; rfl, fun _ => by rw [h.1, List.append_nil]⟩

theorem movesForward_trans {w w1 w2 : World} {s1 s2 : List EPF_EPersistenceManagerState}
    (h1 : movesForward w w1 s1) (h2 : movesForward w1 w2 s2) : movesForward w w2 (s1 ++ s2) := by
  obtain ⟨a1, b1, d1⟩ := h1
  obtain ⟨a2, b2, d2⟩ := h2
  refine ⟨a2.trans a1, ?_, fun hi => ?_⟩
  · rw [forwardPath_append, b1]
    exact b2
  · rw [d2 (by rw [a1]; exact hi), d1 hi, List.append_assoc]

/-! ## The lifecycle handlers -/

theorem onPostFrame_lifecycle (env : Env) (w w1 : World) (timeSlice : Rat)
    (h : OnPostFrame env w timeSlice = some w1) : lifecycle w1 = lifecycle w := by
  unfold OnPostFrame at h
  cases hs : w.mgr.m_pSettings with
  | none => rw [hs] at h; simp at h
  | some settings =>
    rw [hs] at h
    simp only [] at h
    by_cases he : settings.m_bEnableAutosave = true
    · simp only [he, Bool.not_true, Bool.false_eq_true, if_false, Option.bind_eq_some] at h
      obtain ⟨w2, h2, h3⟩ := h
      have l3 := autoSaveTick_lifecycle w2 w1 h3
      split at h2
      · exact l3.trans ((autoSave_lifecycle env _ w2 h2).trans rfl)
      · simp only [Option.some.injEq] at h2
        rw [← h2] at l3
        exact l3
    · have : settings.m_bEnableAutosave = false := by simpa using he
      simp only [this, Bool.not_false, if_true, Option.some.injEq] at h
      rw [← h]

theorem onGameEnd_moves (env : Env) (w w1 : World) (h : OnGameEnd env w = some w1) :
    movesForward w w1 [.SHUTDOWN] := by
  simp only [OnGameEnd, Option.map_eq_some', Option.bind_eq_some] at h
  obtain ⟨w4, ⟨w3, ⟨w2, h2, h3⟩, h4⟩, h5⟩ := h
  have l := ((shutDownSave_lifecycle env w3 w4 h4).trans
    (autoSaveTick_lifecycle w2 w3 h3)).trans (autoSave_lifecycle env _ w2 h2)
  have l5 : lifecycle w1 = lifecycle w4 := by
    rw [← h5]
    exact lifecycle_withCall w4 Event.reset (by intro s hs; simp at hs)
  have hm := movesForward_trans
    (movesForward_setState w .SHUTDOWN (by cases w.mgr.m_eState <;> decide))
    (movesForward_of_lifecycle (l5.trans l))
  simpa using hm

theorem onPostInit_moves (host : Host) (w : World)
    (settings : EPF_PersistenceManagerComponentClass)
    (h : w.mgr.m_eState.toNat ≤ EPF_EPersistenceManagerState.POST_INIT.toNat) :
    ∃ states, movesForward w (OnPostInit host w settings) states := by
  unfold OnPostInit
  cases hd : host.CreateDbContext settings with
  | none =>
    exact ⟨[], rfl, rfl, fun _ => by simp⟩
  | some db =>
    simp only []
    refine ⟨[.POST_INIT], ?_⟩
    have hm := movesForward_setState
      { w with mgr := { w.mgr with
        m_pSettings := some settings
        m_pDbContext := some db
        m_pRootEntityCollection := some
          (match host.FindRootEntityCollection db (rootEntityCollectionId host) with
          | some found => found
          | none => { newRootEntityCollection with m_sId := rootEntityCollectionId host }) } }
      .POST_INIT h
    exact hm

/-- World load, when it returns, has gone through `SETUP` to `ACTIVE`. -/
theorem onWorldPostProcess_moves (env : Env) (host : Host) (hhost : host.wellBehaved)
    (w w1 : World) (h : OnWorldPostProcess env host w = some w1)
    (hle : w.mgr.m_eState.toNat ≤ EPF_EPersistenceManagerState.SETUP.toNat) :
    movesForward w w1 [.SETUP, .ACTIVE] ∧ w1.mgr.m_mBakedRoots = none := by
  simp only [OnWorldPostProcess, Option.bind_eq_some] at h
  obtain ⟨w0, h0, h⟩ := h
  have l0 := flushRegistrations_lifecycle env w w0 h0
  have m1 : movesForward w (SetState w0 .SETUP) ([] ++ [.SETUP]) :=
    movesForward_trans (movesForward_of_lifecycle l0)
      (movesForward_setState w0 .SETUP (by rw [lifecycle_state l0]; exact hle))
  cases hc : (SetState w0 .SETUP).mgr.m_pRootEntityCollection with
  | none => rw [hc] at h; simp at h
  | some c =>
    rw [hc] at h
    simp only [Option.bind_eq_some, Option.map_eq_some'] at h
    obtain ⟨r, hr, b, hb, w4, h4, w5, h5, hw⟩ := h
    obtain ⟨r', hr', lr⟩ := removeBakedLoop_spec env host hhost c.m_aRemovedBackedRootEntities
      (SetState w0 .SETUP) [] (by rw [hc]; rfl)
    rw [hr] at hr'
    simp only [Option.some.injEq] at hr'
    subst hr'
    have hbk : r.2.mgr.m_mBakedRoots.isSome = true := by
      unfold collectBulkLoad at hb
      cases hcc : r.2.mgr.m_pRootEntityCollection with
      | none => rw [hcc] at hb; simp at hb
      | some c2 =>
        cases hbb : r.2.mgr.m_mBakedRoots with
        | none => rw [hcc, hbb] at hb; simp at hb
        | some x => rfl
    have hck : r.2.mgr.m_pRootEntityCollection.isSome = true := by
      rw [(lifecycle_ready lr).2.1, hc]; rfl
    obtain ⟨b', hb', lb⟩ := collectBulkLoad_spec r.2 r.1 hck hbk
    rw [hb] at hb'
    simp only [Option.some.injEq] at hb'
    subst hb'
    have l4 := bulkFind_lifecycle host hhost b.2 b.1 w4
      (by rw [(lifecycle_ready lb).2.2]; exact hbk) h4
    have l5 : lifecycle w5 = lifecycle w4 := by
      unfold saveRootEntityCollection at h5
      cases hcc : w4.mgr.m_pRootEntityCollection with
      | none => rw [hcc] at h5; simp at h5
      | some c4 =>
        rw [hcc] at h5
        simp only [Option.some.injEq] at h5
        rw [← h5]
        exact lifecycle_withCall w4 _ (by intro s hs; simp at hs)
    have lall : lifecycle w5 = lifecycle (SetState w0 .SETUP) :=
      l5.trans (l4.trans (lb.trans lr))
    have m2 := movesForward_of_lifecycle lall
    have hst5 : w5.mgr.m_eState = .SETUP := by
      rw [lifecycle_state lall, setState_mgr]
    have m3 : movesForward w5 w1 [.ACTIVE] := by
      rw [← hw]
      have := movesForward_setState { w5 with mgr := { w5.mgr with m_mBakedRoots := none } } .ACTIVE
        (by show w5.mgr.m_eState.toNat ≤ _; rw [hst5]; decide)
      exact this
    refine ⟨by simpa using movesForward_trans (movesForward_trans m1 m2) m3, ?_⟩
    rw [← hw, setState_mgr]

theorem deliver_moves (env : Env) (host : Host) (hhost : host.wellBehaved) (w w1 : World)
    (e : LifecycleEvent) (hord : e.inOrder w = true) (h : e.deliver env host w = some w1) :
    ∃ states, movesForward w w1 states := by
  cases e with
  | postInit settings =>
    simp only [LifecycleEvent.deliver, Option.some.injEq] at h
    rw [← h]
    exact onPostInit_moves host w settings (by simpa [LifecycleEvent.inOrder] using hord)
  | postFrame timeSlice =>
    exact ⟨[], movesForward_of_lifecycle (onPostFrame_lifecycle env w w1 timeSlice h)⟩
  | worldPostProcess =>
    exact ⟨_, (onWorldPostProcess_moves env host hhost w w1 h
      (by simpa [LifecycleEvent.inOrder] using hord)).1⟩
  | gameEnd => exact ⟨_, onGameEnd_moves env w w1 h⟩

theorem runEvents_moves (env : Env) (host : Host) (hhost : host.wellBehaved)
    (events : List LifecycleEvent) :
    ∀ w w1 : World, orderedRun env host w events = true →
      runEvents env host w events = some w1 → ∃ states, movesForward w w1 states := by
  induction events with
  | nil =>
    intro w w1 _ h
    simp only [runEvents, Option.some.injEq] at h
    rw [← h]
    exact ⟨[], rfl, rfl, fun _ => by simp⟩
  | cons e rest ih =>
    intro w w1 hord h
    simp only [runEvents, Option.bind_eq_some] at h
    obtain ⟨w2, h2, h3⟩ := h
    simp only [orderedRun, h2, Bool.and_eq_true] at hord
    obtain ⟨s1, m1⟩ := deliver_moves env host hhost w w2 e hord.1 h2
    obtain ⟨s2, m2⟩ := ih w2 w1 hord.2 h3
    exact ⟨s1 ++ s2, movesForward_trans m1 m2⟩

/-! ## C14 -/

/-- C14, as stated, fails: the handlers do not look at the state they are called in. On the
new example manager, post-init and world-ready bring the state to `ACTIVE`; a second post-init
delivered after them sets it back to `POST_INIT` and notifies `POST_INIT` to the subscribers. -/
theorem C14_counterexample :
    (runEvents Example.env Example.host Example.newWorld
        [.postInit Example.settings, .worldPostProcess]).map (fun w => w.mgr.m_eState) =
      some .ACTIVE ∧
    (runEvents Example.env Example.host Example.newWorld
        [.postInit Example.settings, .worldPostProcess, .postInit Example.settings]).map
      (fun w => (w.mgr.m_eState, reportedStates w.trace)) =
      some (.POST_INIT, [.POST_INIT, .SETUP, .ACTIVE, .POST_INIT]) := by
  decide

/-- C14, amended: for every sequence of lifecycle events (post-init, per-frame tick,
world-ready, session-end) delivered to one manager in the host's order, that is post-init only
while the state is `PRE_INIT` or `POST_INIT` and world-ready only while the state is at most
`SETUP`, with host callbacks that leave the manager's lifecycle fields alone, and whose
handlers all return: the handlers go through a sequence of states, one `SetState` each, in
which no state is earlier than the one before it in the order
`PRE_INIT < POST_INIT < SETUP < ACTIVE < SHUTDOWN`, starting from the state before the events
and ending in the state after them, so that the state after the events is not earlier than
the state before them; and when the invoker exists, exactly these states are notified to the
subscribers, in this order. -/
theorem C14_state_moves_forward (env : Env) (host : Host) (hhost : host.wellBehaved)
    (w w1 : World) (events : List LifecycleEvent)
    (hord : orderedRun env host w events = true)
    (hrun : runEvents env host w events = some w1) :
    ∃ states, movesForward w w1 states ∧ w.mgr.m_eState.toNat ≤ w1.mgr.m_eState.toNat := by
  obtain ⟨states, m⟩ := runEvents_moves env host hhost events w w1 hord hrun
  exact ⟨states, m, forwardPath_le states _ _ m.2.1⟩

/-- C14 (amended) at a concrete input: post-init, two frames, world-ready, a frame and the
session end on the new example manager go through `POST_INIT`, `SETUP`, `ACTIVE` and
`SHUTDOWN`. -/
theorem C14_state_moves_forward_witness :
    (runEvents Example.env Example.host Example.newWorld
        [.postInit Example.settings, .postFrame 1, .postFrame 60, .worldPostProcess,
          .postFrame 1, .gameEnd]).map (fun w => (w.mgr.m_eState, reportedStates w.trace)) =
      some (.SHUTDOWN, [.POST_INIT, .SETUP, .ACTIVE, .SHUTDOWN]) ∧
    ∃ w1, runEvents Example.env Example.host Example.newWorld
        [.postInit Example.settings, .postFrame 1, .postFrame 60, .worldPostProcess,
          .postFrame 1, .gameEnd] = some w1 ∧
      ∃ states, movesForward Example.newWorld w1 states ∧
        Example.newWorld.mgr.m_eState.toNat ≤ w1.mgr.m_eState.toNat :=
  have hs : (runEvents Example.env Example.host Example.newWorld
      [.postInit Example.settings, .postFrame 1, .postFrame 60, .worldPostProcess,
        .postFrame 1, .gameEnd]).isSome = true := by with_unfolding_all decide
  ⟨by with_unfolding_all decide, Option.get _ hs, (Option.some_get hs).symm,
    C14_state_moves_forward Example.env Example.host (quiet_wellBehaved _ example_host_quiet)
      Example.newWorld (Option.get _ hs)
      [.postInit Example.settings, .postFrame 1, .postFrame 60, .worldPostProcess,
        .postFrame 1, .gameEnd] (by with_unfolding_all decide) (Option.some_get hs).symm⟩

/-! ## C15 -/

/-- C15: `OnPostInit` on a new manager (state `PRE_INIT`, no Root Entity Collection
yet). If the store adapter cannot be created, the manager stays in `PRE_INIT`,
`GetDbContext` stays empty, no Root Entity Collection is set and no state change is notified.
If it can be created, the state becomes `POST_INIT` (notified when the invoker exists),
`GetDbContext` returns the adapter, and the Root Entity Collection is the record found under
the identifier `00EC<hive>-0000-0000-0000-000000000000`, the hive number written with four
digits, or, if none is found, a new empty collection with that identifier. -/
theorem C15_post_init (host : Host) (w : World) (settings : EPF_PersistenceManagerComponentClass)
    (hstate : w.mgr.m_eState = .PRE_INIT)
    (hcol : w.mgr.m_pRootEntityCollection = none) :
    (host.CreateDbContext settings = none →
      (OnPostInit host w settings).mgr.m_eState = .PRE_INIT ∧
      GetDbContext (OnPostInit host w settings) = none ∧
      (OnPostInit host w settings).mgr.m_pRootEntityCollection = none ∧
      (OnPostInit host w settings).trace = w.trace) ∧
    (∀ db, host.CreateDbContext settings = some db →
      (OnPostInit host w settings).mgr.m_eState = .POST_INIT ∧
      GetDbContext (OnPostInit host w settings) = some db ∧
      (OnPostInit host w settings).mgr.m_pRootEntityCollection =
        some (match host.FindRootEntityCollection db
            ("00EC" ++ intToString host.GetHiveId 4 ++ "-0000-0000-0000-000000000000") with
          | some found => found
          | none => ⟨"00EC" ++ intToString host.GetHiveId 4 ++ "-0000-0000-0000-000000000000",
              [], [], []⟩) ∧
      (OnPostInit host w settings).trace = w.trace ++
        (if w.mgr.m_pOnStateChange then [Event.stateChange .POST_INIT] else [])) := by
  constructor
  · intro hnone
    simp only [OnPostInit, GetDbContext, hnone, hstate, hcol, and_self]
  · intro db hsome
    simp only [OnPostInit, GetDbContext, hsome, setState_mgr, setState_trace, true_and,
      rootEntityCollectionId, newRootEntityCollection, Option.some.injEq, and_true]

/-- C15 at concrete inputs: the new example manager with the example host, whose store holds
a Root Entity Collection under the identifier of hive 1, and with the host without a store
connection. -/
theorem C15_post_init_witness :
    ((OnPostInit Example.host Example.world Example.settings).mgr.m_eState = .POST_INIT ∧
      (OnPostInit Example.host Example.world Example.settings).mgr.m_pRootEntityCollection =
        some Example.storedCollection) ∧
    ((OnPostInit Example.offlineHost Example.world Example.settings).mgr.m_eState = .PRE_INIT ∧
      GetDbContext (OnPostInit Example.offlineHost Example.world Example.settings) = none) :=
  have h1 := (C15_post_init Example.host Example.world Example.settings rfl rfl).2 ⟨0⟩ rfl
  have h2 := (C15_post_init Example.offlineHost Example.world Example.settings rfl rfl).1 rfl
  ⟨⟨h1.1, h1.2.2.1.trans (by decide)⟩, ⟨h2.1, h2.2.1⟩⟩

theorem lifecycle_setState_ready (w : World) (state : EPF_EPersistenceManagerState) :
    (SetState w state).mgr.m_pDbContext = w.mgr.m_pDbContext ∧
    (SetState w state).mgr.m_pRootEntityCollection = w.mgr.m_pRootEntityCollection ∧
    (SetState w state).mgr.m_mBakedRoots = w.mgr.m_mBakedRoots := by
  rw [setState_mgr]
  exact ⟨rfl, rfl, rfl⟩

/-- World load returns once post-init has set up the store adapter and the Root Entity
Collection and the baked-roots working set is still there. -/
theorem onWorldPostProcess_total (env : Env) (host : Host) (hhost : host.wellBehaved)
    (w : World) (hcol : w.mgr.m_pRootEntityCollection.isSome = true)
    (hdb : w.mgr.m_pDbContext.isSome = true) (hbaked : w.mgr.m_mBakedRoots.isSome = true) :
    ∃ w1, OnWorldPostProcess env host w = some w1 := by
  obtain ⟨w0, h0⟩ := flushRegistrations_total env w (by simp [collectionAvailable, hcol])
  have l0 := lifecycle_ready (flushRegistrations_lifecycle env w w0 h0)
  have r1 := lifecycle_setState_ready w0 .SETUP
  have hc1 : (SetState w0 .SETUP).mgr.m_pRootEntityCollection.isSome = true := by
    rw [r1.2.1, l0.2.1]; exact hcol
  cases hc : (SetState w0 .SETUP).mgr.m_pRootEntityCollection with
  | none => rw [hc] at hc1; simp at hc1
  | some c =>
    obtain ⟨r, hr, lr⟩ := removeBakedLoop_spec env host hhost c.m_aRemovedBackedRootEntities
      (SetState w0 .SETUP) [] hc1
    have l2 := lifecycle_ready lr
    have hb2 : r.2.mgr.m_mBakedRoots.isSome = true := by
      rw [l2.2.2, r1.2.2, l0.2.2]; exact hbaked
    obtain ⟨b, hb, lb⟩ := collectBulkLoad_spec r.2 r.1 (by rw [l2.2.1]; exact hc1) hb2
    have l3 := lifecycle_ready lb
    obtain ⟨w4, h4, l4⟩ := bulkFind_spec host hhost b.2 b.1 (by rw [l3.2.2]; exact hb2)
      (by rw [l3.1, l2.1, r1.1, l0.1]; exact hdb)
    have hc4 : w4.mgr.m_pRootEntityCollection.isSome = true := by
      rw [(lifecycle_ready l4).2.1, l3.2.1, l2.2.1]; exact hc1
    cases hcc : w4.mgr.m_pRootEntityCollection with
    | none => rw [hcc] at hc4; simp at hc4
    | some c4 =>
      have hs : (OnWorldPostProcess env host w).isSome = true := by
        simp only [OnWorldPostProcess, h0, Option.some_bind, hc, hr, hb, h4,
          saveRootEntityCollection, hcc, Option.map_some', Option.isSome_some]
      exact Option.isSome_iff_exists.mp hs

/-- World load, when it returns, ends in `ACTIVE` without the baked-roots working set, having
notified `SETUP` and `ACTIVE`. -/
theorem onWorldPostProcess_end (env : Env) (host : Host) (hhost : host.wellBehaved)
    (w w1 : World) (h : OnWorldPostProcess env host w = some w1) :
    w1.mgr.m_eState = .ACTIVE ∧ w1.mgr.m_mBakedRoots = none ∧
    (w.mgr.m_pOnStateChange = true →
      reportedStates w1.trace = reportedStates w.trace ++ [.SETUP, .ACTIVE]) := by
  simp only [OnWorldPostProcess, Option.bind_eq_some] at h
  obtain ⟨w0, h0, h⟩ := h
  have l0 := flushRegistrations_lifecycle env w w0 h0
  cases hc : (SetState w0 .SETUP).mgr.m_pRootEntityCollection with
  | none => rw [hc] at h; simp at h
  | some c =>
    rw [hc] at h
    simp only [Option.bind_eq_some, Option.map_eq_some'] at h
    obtain ⟨r, hr, b, hb, w4, h4, w5, h5, hw⟩ := h
    obtain ⟨r', hr', lr⟩ := removeBakedLoop_spec env host hhost c.m_aRemovedBackedRootEntities
      (SetState w0 .SETUP) [] (by rw [hc]; rfl)
    rw [hr] at hr'
    simp only [Option.some.injEq] at hr'
    subst hr'
    have hbk : r.2.mgr.m_mBakedRoots.isSome = true := by
      unfold collectBulkLoad at hb
      cases hcc : r.2.mgr.m_pRootEntityCollection with
      | none => rw [hcc] at hb; simp at hb
      | some c2 =>
        cases hbb : r.2.mgr.m_mBakedRoots with
        | none => rw [hcc, hbb] at hb; simp at hb
        | some x => rfl
    have hck : r.2.mgr.m_pRootEntityCollection.isSome = true := by
      rw [(lifecycle_ready lr).2.1, hc]; rfl
    obtain ⟨b', hb', lb⟩ := collectBulkLoad_spec r.2 r.1 hck hbk
    rw [hb] at hb'
    simp only [Option.some.injEq] at hb'
    subst hb'
    have l4 := bulkFind_lifecycle host hhost b.2 b.1 w4
      (by rw [(lifecycle_ready lb).2.2]; exact hbk) h4
    have l5 : lifecycle w5 = lifecycle w4 := by
      unfold saveRootEntityCollection at h5
      cases hcc : w4.mgr.m_pRootEntityCollection with
      | none => rw [hcc] at h5; simp at h5
      | some c4 =>
        rw [hcc] at h5
        simp only [Option.some.injEq] at h5
        rw [← h5]
        exact lifecycle_withCall w4 _ (by intro s hs; simp at hs)
    have lall : lifecycle w5 = lifecycle (SetState w0 .SETUP) :=
      l5.trans (l4.trans (lb.trans lr))
    simp only [lifecycle, Prod.mk.injEq] at lall l0
    refine ⟨by rw [← hw, setState_mgr], by rw [← hw, setState_mgr], fun hi => ?_⟩
    have hi0 : w0.mgr.m_pOnStateChange = true := by rw [l0.2.2.2.1]; exact hi
    have hi5 : w5.mgr.m_pOnStateChange = true := by
      rw [lall.2.2.2.1, setState_mgr]; exact hi0
    rw [← hw, setState_trace]
    simp only [hi5, if_true, reportedStates_append, lall.1, setState_trace, hi0, l0.1,
      reportedStates, List.append_assoc, List.singleton_append]

/-! ## World load with a host that keeps the manager ready -/

theorem loadReady_iff (w : World) :
    loadReady w = true ↔ w.mgr.m_pDbContext.isSome = true ∧
      w.mgr.m_pRootEntityCollection.isSome = true ∧ w.mgr.m_mBakedRoots.isSome = true := by
  simp [loadReady, Bool.and_eq_true, and_assoc]

theorem loadReady_of_control {w w1 : World} (h : control w1 = control w) :
    loadReady w1 = loadReady w := by
  simp only [control, Prod.mk.injEq] at h
  obtain ⟨_, _, _, _, h5, h6, h7, _⟩ := h
  simp only [loadReady, h5, h6, h7]

theorem loadReady_withCall (w : World) (e : Event) : loadReady (withCall w e) = loadReady w :=
  rfl

theorem loadReady_setState (w : World) (state : EPF_EPersistenceManagerState) :
    loadReady (SetState w state) = loadReady w := by
  simp only [loadReady, setState_mgr]

theorem wellBehaved_keepsLoadReady (host : Host) (h : host.wellBehaved) : host.keepsLoadReady :=
  ⟨fun w p hw => by rw [loadReady_of_control (h.1 w p).1]; exact hw,
    fun w c d r hw => by rw [loadReady_of_control (h.2.1 w c d r).1]; exact hw,
    fun w e hw => by rw [loadReady_of_control (h.2.2 w e).1]; exact hw⟩

theorem deleteEntityAndChildren_ready (host : Host) (hhost : host.keepsLoadReady) (w : World)
    (entity : Ref) (h : loadReady w = true) :
    loadReady (deleteEntityAndChildren host w entity) = true :=
  hhost.2.2 _ entity h

theorem spawnWorldEntity_ready (host : Host) (hhost : host.keepsLoadReady) (w : World)
    (saveData : Option EPF_EntitySaveData) (isRoot : Bool) (h : loadReady w = true) :
    loadReady (SpawnWorldEntity host w saveData isRoot).2 = true := by
  unfold SpawnWorldEntity
  cases saveData with
  | none => exact h
  | some data =>
    simp only []
    split
    · exact h
    · split
      · exact h
      · have h1 : loadReady (host.SpawnEntityPrefab
            { w with trace := w.trace ++ [Event.spawnEntityPrefab data.m_rPrefab] }
            data.m_rPrefab).2 = true := hhost.1 _ _ h
        split
        · exact h1
        · split
          · exact deleteEntityAndChildren_ready host hhost _ _ h1
          · rename_i c _
            have h3 : loadReady (host.Load { (host.SpawnEntityPrefab
                { w with trace := w.trace ++ [Event.spawnEntityPrefab data.m_rPrefab] }
                data.m_rPrefab).2 with
              trace := (host.SpawnEntityPrefab
                { w with trace := w.trace ++ [Event.spawnEntityPrefab data.m_rPrefab] }
                data.m_rPrefab).2.trace ++ [Event.entityLoad c data (some isRoot)] }
              c data (some isRoot)).2 = true := hhost.2.1 _ _ _ _ h1
            split
            · exact h3
            · exact deleteEntityAndChildren_ready host hhost _ _ h3

/-- On a ready manager the body of the inner loop of world load returns and does what the
specification says of one record, and leaves the manager ready. -/
theorem loadRecord_ready (host : Host) (hhost : host.keepsLoadReady) (w : World)
    (findResult : EDF_DbEntity) (h : loadReady w = true) :
    loadRecord host w findResult = some (loadRecordSpec host w findResult) ∧
      loadReady (loadRecordSpec host w findResult) = true := by
  have hb := ((loadReady_iff w).mp h).2.2
  unfold loadRecord loadRecordSpec
  cases findResult.saveData with
  | none => exact ⟨rfl, h⟩
  | some saveData =>
    cases hbb : w.mgr.m_mBakedRoots with
    | none => rw [hbb] at hb; simp at hb
    | some bakedRoots =>
      simp only [Option.some_bind]
      cases bakedRoots.Find saveData.m_sId with
      | none => exact ⟨rfl, spawnWorldEntity_ready host hhost w _ _ h⟩
      | some c => exact ⟨rfl, hhost.2.1 _ c saveData none h⟩

theorem loadRecords_ready (host : Host) (hhost : host.keepsLoadReady) (l : List EDF_DbEntity) :
    ∀ w : World, loadReady w = true →
      loadRecords host w l = some (l.foldl (loadRecordSpec host) w) ∧
        loadReady (l.foldl (loadRecordSpec host) w) = true := by
  induction l with
  | nil => intro w h; exact ⟨rfl, h⟩
  | cons r rest ih =>
    intro w h
    obtain ⟨h1, l1⟩ := loadRecord_ready host hhost w r h
    obtain ⟨h2, l2⟩ := ih _ l1
    exact ⟨by simp only [loadRecords, h1, Option.some_bind, h2, List.foldl_cons], l2⟩

/-- On a ready manager the bulk find of world load returns and is the bulk pass of the
specification: no record and no request is left out, whatever happens to the others. -/
theorem bulkFind_ready (host : Host) (hhost : host.keepsLoadReady)
    (l : List (String × List String)) :
    ∀ w : World, loadReady w = true →
      bulkFind host w l = some (bulkLoadSpec host w l) ∧
        loadReady (bulkLoadSpec host w l) = true := by
  induction l with
  | nil => intro w h; exact ⟨rfl, h⟩
  | cons e rest ih =>
    intro w h
    have hd := ((loadReady_iff w).mp h).1
    cases hdd : w.mgr.m_pDbContext with
    | none => rw [hdd] at hd; simp at hd
    | some db =>
      simp only [bulkFind, hdd, bulkLoadSpec, List.foldl_cons, foundRecords]
      cases host.FindAll e.1 e.2 with
      | none => exact ih _ h
      | some findResults =>
        obtain ⟨h1, l1⟩ := loadRecords_ready host hhost findResults
          (withCall w (Event.findAll e.1 e.2)) h
        obtain ⟨h2, l2⟩ := ih _ l1
        simp only [withCall] at h1
        exact ⟨by simp only [h1, Option.some_bind]; exact h2, l2⟩

theorem removeBakedLoop_ready (env : Env) (host : Host) (hhost : host.keepsLoadReady)
    (ids : List String) :
    ∀ (w : World) (staleIds : List String), loadReady w = true →
      ∃ r, removeBakedLoop env host w staleIds ids = some r ∧ loadReady r.2 = true := by
  induction ids with
  | nil => intro w staleIds h; exact ⟨_, rfl, h⟩
  | cons id rest ih =>
    intro w staleIds h
    have hc := ((loadReady_iff w).mp h).2.1
    obtain ⟨r, hr⟩ := findEntityByPersistentId_total env w id (by simp [collectionAvailable, hc])
    have hf := findEntityByPersistentId_frame env w id r hr
    have h1 : loadReady r.2 = true := by rw [loadReady_of_control hf.1]; exact h
    obtain ⟨o, w1⟩ := r
    simp only [removeBakedLoop, hr]
    cases o with
    | none => exact ih w1 (staleIds ++ [id]) h1
    | some entity =>
      simp only []
      have hc1 := ((loadReady_iff w1).mp h1).2.1
      cases hcc : w1.mgr.m_pRootEntityCollection with
      | none => rw [hcc] at hc1; simp at hc1
      | some c =>
        simp only []
        refine ih _ staleIds (deleteEntityAndChildren_ready host hhost _ entity ?_)
        have := (loadReady_iff w1).mp h1
        exact (loadReady_iff _).mpr ⟨this.1, rfl, this.2.2⟩

theorem collectBulkLoad_ready (w : World) (staleIds : List String) (h : loadReady w = true) :
    ∃ r, collectBulkLoad w staleIds = some r ∧ loadReady r.1 = true := by
  have hh := (loadReady_iff w).mp h
  unfold collectBulkLoad
  cases hcc : w.mgr.m_pRootEntityCollection with
  | none => rw [hcc] at hh; simp at hh
  | some c =>
    cases hbb : w.mgr.m_mBakedRoots with
    | none => rw [hbb] at hh; simp at hh
    | some b =>
      refine ⟨_, rfl, ?_⟩
      exact (loadReady_iff _).mpr ⟨hh.1, rfl, by simp only [hbb]; rfl⟩

/-- World load on a ready manager, stage by stage: the flush, the loop over the removed baked
roots, the collection of the requests, the bulk find on exactly those requests, the save of
the Root Entity Collection, and the end in `ACTIVE` without the baked-roots working set. -/
theorem onWorldPostProcess_run (env : Env) (host : Host) (hhost : host.keepsLoadReady)
    (w : World) (h : loadReady w = true) :
    ∃ (w0 : World) (c : EPF_PersistentRootEntityCollection) (r : List String × World)
      (b : World × List (String × List String)),
      FlushRegistrations env w = some w0 ∧
      (SetState w0 .SETUP).mgr.m_pRootEntityCollection = some c ∧
      removeBakedLoop env host (SetState w0 .SETUP) [] c.m_aRemovedBackedRootEntities = some r ∧
      collectBulkLoad r.2 r.1 = some b ∧ loadReady b.1 = true ∧
      bulkFind host b.1 b.2 = some (bulkLoadSpec host b.1 b.2) ∧
      OnWorldPostProcess env host w =
        some (SetState { withCall (bulkLoadSpec host b.1 b.2) Event.rootEntityCollectionSave with
          mgr := { (bulkLoadSpec host b.1 b.2).mgr with m_mBakedRoots := none } } .ACTIVE) := by
  have hc := ((loadReady_iff w).mp h).2.1
  obtain ⟨w0, h0⟩ := flushRegistrations_total env w (by simp [collectionAvailable, hc])
  have r0 : loadReady w0 = true := by
    rw [loadReady_of_control (flushRegistrations_frame env w w0 h0).1]; exact h
  have r1 : loadReady (SetState w0 .SETUP) = true := by rw [loadReady_setState]; exact r0
  have hc1 := ((loadReady_iff _).mp r1).2.1
  cases hcc : (SetState w0 .SETUP).mgr.m_pRootEntityCollection with
  | none => rw [hcc] at hc1; simp at hc1
  | some c =>
    obtain ⟨r, hr, r2⟩ := removeBakedLoop_ready env host hhost c.m_aRemovedBackedRootEntities
      (SetState w0 .SETUP) [] r1
    obtain ⟨b, hb, r3⟩ := collectBulkLoad_ready r.2 r.1 r2
    obtain ⟨h4, r4⟩ := bulkFind_ready host hhost b.2 b.1 r3
    have hc4 := ((loadReady_iff _).mp r4).2.1
    cases hc5 : (bulkLoadSpec host b.1 b.2).mgr.m_pRootEntityCollection with
    | none => rw [hc5] at hc4; simp at hc4
    | some c4 =>
      refine ⟨w0, c, r, b, h0, hcc, hr, hb, r3, h4, ?_⟩
      simp only [OnWorldPostProcess, h0, Option.some_bind, hcc, hr, hb, h4,
        saveRootEntityCollection, hc5, Option.map_some', withCall]

/-! ## C17 -/

/-- C17: world load (`OnWorldPostProcess`) on a manager that has a store adapter, a Root Entity
Collection and the baked-roots working set, with a host whose spawning, loading and deleting
do not take these three away. The load returns. After the flush, the loop over the removed
baked roots and the collection of the requests, its bulk find runs on exactly the collected
requests and is the bulk pass `bulkLoadSpec`: one `FindAll` per request, and every record
returned gets its turn, in order, whatever happened to the records and requests before it. At
its turn (`loadRecordSpec`) a record of an unexpected type is skipped; a record whose
identifier is a key of the baked-roots working set has `Load` called on the baked component
stored under it, with the record, and nothing is spawned for it; for any other record exactly
one `SpawnWorldEntity(record, true)` is made; a failed spawn or load only leaves its world
behind. The load then saves the Root Entity Collection and ends in state `ACTIVE` with the
baked-roots working set discarded. -/
theorem C17_world_load_records (env : Env) (host : Host) (hhost : host.keepsLoadReady)
    (w : World) (hcol : w.mgr.m_pRootEntityCollection.isSome = true)
    (hdb : w.mgr.m_pDbContext.isSome = true) (hbaked : w.mgr.m_mBakedRoots.isSome = true) :
    ∃ (w0 : World) (c : EPF_PersistentRootEntityCollection) (r : List String × World)
      (b : World × List (String × List String)) (w1 : World),
      FlushRegistrations env w = some w0 ∧
      (SetState w0 .SETUP).mgr.m_pRootEntityCollection = some c ∧
      removeBakedLoop env host (SetState w0 .SETUP) [] c.m_aRemovedBackedRootEntities = some r ∧
      collectBulkLoad r.2 r.1 = some b ∧
      bulkFind host b.1 b.2 = some (bulkLoadSpec host b.1 b.2) ∧
      OnWorldPostProcess env host w = some w1 ∧
      w1 = SetState { withCall (bulkLoadSpec host b.1 b.2) Event.rootEntityCollectionSave with
        mgr := { (bulkLoadSpec host b.1 b.2).mgr with m_mBakedRoots := none } } .ACTIVE ∧
      w1.mgr.m_eState = .ACTIVE ∧ w1.mgr.m_mBakedRoots = none := by
  obtain ⟨w0, c, r, b, h0, hc, hr, hb, _, h4, h⟩ := onWorldPostProcess_run env host hhost w
    ((loadReady_iff w).mpr ⟨hdb, hcol, hbaked⟩)
  refine ⟨w0, c, r, b, _, h0, hc, hr, hb, h4, h, rfl, ?_, ?_⟩
  · rw [setState_mgr]
  · rw [setState_mgr]

/-- C17 at a concrete input: world load on the new example manager after post-init, with the
example host. The vehicle record with the invalid blueprint is skipped, the vehicle "dyn1" is
spawned and loaded, the vehicle "dyn3" is spawned, fails to load and is deleted, and the load
goes on with the character record, whose identifier is the one of the baked object 1: `Load`
is called on it and nothing is spawned. The load ends in `ACTIVE` without the baked-roots
working set. -/
theorem C17_world_load_records_witness :
    (OnWorldPostProcess Example.env Example.host
        (OnPostInit Example.host Example.newWorld Example.settings)).map (fun w => w.trace) =
      some [.stateChange .POST_INIT, .stateChange .SETUP, .deleteEntityAndChildren 11,
        .findAll "VehicleSaveData" ["dyn1", "lost"],
        .spawnEntityPrefab "Car.et",
        .entityLoad 20 ⟨"VehicleSaveData", "dyn1", "Car.et"⟩ (some true),
        .spawnEntityPrefab "Wreck.et",
        .entityLoad 20 ⟨"VehicleSaveData", "dyn3", "Wreck.et"⟩ (some true),
        .deleteEntityAndChildren 100,
        .findAll "CharacterSaveData" [Example.bakedId],
        .entityLoad 1 ⟨"CharacterSaveData", Example.bakedId, "Soldier.et"⟩ none,
        .rootEntityCollectionSave, .stateChange .ACTIVE] ∧
    ∃ w1, OnWorldPostProcess Example.env Example.host
        (OnPostInit Example.host Example.newWorld Example.settings) = some w1 ∧
      w1.mgr.m_eState = .ACTIVE ∧ w1.mgr.m_mBakedRoots = none :=
  ⟨by decide,
    match C17_world_load_records Example.env Example.host
      (wellBehaved_keepsLoadReady _ (quiet_wellBehaved _ example_host_quiet))
      (OnPostInit Example.host Example.newWorld Example.settings)
      (by decide) (by decide) (by decide) with
    | ⟨_, _, _, _, w1, _, _, _, _, _, h6, _, h8, h9⟩ => ⟨w1, h6, h8, h9⟩⟩

/-! ## The removed-baked-roots list -/

theorem count_getLast_dropLast (l : List String) (y : String) :
    (match l.getLast? with
      | none => []
      | some z => z :: l.dropLast).count y = l.count y := by
  rcases List.eq_nil_or_concat l with h | ⟨l1, z, h⟩
  · subst h; rfl
  · subst h
    rw [List.concat_eq_append, List.getLast?_append, List.getLast?_singleton]
    simp only [Option.or, List.dropLast_concat, List.count_cons, List.count_append,
      List.count_nil]
    omega

theorem removeItem_count (l : List String) (x y : String) :
    (RemoveItem l x).count y = if y = x then l.count y - 1 else l.count y := by
  induction l with
  | nil => simp [RemoveItem]
  | cons a rest ih =>
    unfold RemoveItem
    by_cases ha : a = x
    · rw [if_pos ha, count_getLast_dropLast]
      subst ha
      by_cases hy : y = a
      · subst hy; simp
      · rw [if_neg hy, List.count_cons_of_ne hy]
    · rw [if_neg ha, List.count_cons, ih, List.count_cons]
      by_cases hy : y = x
      · subst hy
        have : (a == y) = false := by simpa using ha
        simp [this]
      · simp [hy]

theorem foldl_removeItem_count (s : List String) :
    ∀ (l : List String) (y : String), (s.foldl RemoveItem l).count y = l.count y - s.count y := by
  induction s with
  | nil => intro l y; simp
  | cons x s ih =>
    intro l y
    rw [List.foldl_cons, ih, removeItem_count, List.count_cons]
    by_cases hy : y = x
    · subst hy; simp; omega
    · have : (x == y) = false := by simpa using Ne.symm hy
      simp [hy, this]

theorem count_staleIds_add_foundIds (lookups : List (String × Option Ref)) (y : String) :
    (staleIds lookups).count y + (foundIds lookups).count y =
      (lookups.map Prod.fst).count y := by
  induction lookups with
  | nil => rfl
  | cons p rest ih =>
    obtain ⟨id, o⟩ := p
    cases o with
    | none =>
      simp only [staleIds, foundIds, List.filter_cons, Option.isNone_none, Option.isSome_none,
        if_true, Bool.false_eq_true, if_false, List.map_cons, List.count_cons] at ih ⊢
      omega
    | some e =>
      simp only [staleIds, foundIds, List.filter_cons, Option.isNone_some, Option.isSome_some,
        if_true, Bool.false_eq_true, if_false, List.map_cons, List.count_cons] at ih ⊢
      omega

theorem mem_foundIds (lookups : List (String × Option Ref)) (y : String) :
    y ∈ foundIds lookups ↔ ∃ entity, (y, some entity) ∈ lookups := by
  simp only [foundIds, List.mem_map, List.mem_filter, Prod.exists, exists_and_right,
    exists_eq_right, Option.isSome_iff_exists]
  constructor
  · rintro ⟨o, h, e, rfl⟩
    exact ⟨e, h⟩
  · rintro ⟨e, h⟩
    exact ⟨some e, h, e, rfl⟩

/-- After the stale identifiers are removed, an identifier of the list is still in the list
exactly when it was found at one of its turns. -/
theorem mem_foldl_removeItem_staleIds (lookups : List (String × Option Ref)) (y : String) :
    y ∈ (staleIds lookups).foldl RemoveItem (lookups.map Prod.fst) ↔
      ∃ entity, (y, some entity) ∈ lookups := by
  rw [← mem_foundIds, ← List.count_pos_iff, ← List.count_pos_iff, foldl_removeItem_count]
  have := count_staleIds_add_foundIds lookups y
  omega

theorem findAllRequests_append (a b : List Event) :
    findAllRequests (a ++ b) = findAllRequests a ++ findAllRequests b := by
  induction a with
  | nil => rfl
  | cons e a ih => cases e <;> simp [findAllRequests, ih]

/-- The first loop of world load, when it returns: the identifiers found stale are those of the
lookups without an instance, every identifier found is appended to the possibly-baked list and
its instance deleted, and nothing else is called. -/
theorem removeBakedLoop_lookups (env : Env) (host : Host) (hhost : host.wellBehaved)
    (ids : List String) :
    ∀ (w : World) (stale : List String) (c : EPF_PersistentRootEntityCollection)
      (r : List String × World),
      w.mgr.m_pRootEntityCollection = some c →
      w.mgr.m_eState.toNat < EPF_EPersistenceManagerState.ACTIVE.toNat →
      removeBakedLoop env host w stale ids = some r →
      (bakedLookups env host w ids).map Prod.fst = ids ∧
      r.1 = stale ++ staleIds (bakedLookups env host w ids) ∧
      r.2.mgr.m_pRootEntityCollection = some { c with
        m_aPossibleBackedRootEntities :=
          c.m_aPossibleBackedRootEntities ++ foundIds (bakedLookups env host w ids) } ∧
      ∃ calls, r.2.trace = w.trace ++ calls ∧ findAllRequests calls = [] ∧
        ∀ id entity, (id, some entity) ∈ bakedLookups env host w ids →
          Event.deleteEntityAndChildren entity ∈ calls := by
  induction ids with
  | nil =>
    intro w stale c r hc _ h
    simp only [removeBakedLoop, Option.some.injEq] at h
    subst h
    simp only [bakedLookups, staleIds, foundIds, List.filter_nil, List.map_nil, List.append_nil,
      hc, true_and]
    exact ⟨[], by simp, rfl, by simp⟩
  | cons id rest ih =>
    intro w stale c r hc hst h
    cases hf : FindEntityByPersistentId env w id with
    | none => simp [removeBakedLoop, hf] at h
    | some f =>
      obtain ⟨found, w1⟩ := f
      have fr := findEntityByPersistentId_frame env w id _ hf
      have hc1 : w1.mgr.m_pRootEntityCollection = some c := by rw [fr.2 hst]; exact hc
      have ht1 : w1.trace = w.trace := control_trace fr.1
      have hs1 : w1.mgr.m_eState = w.mgr.m_eState := control_state fr.1
      cases found with
      | none =>
        simp only [removeBakedLoop, hf] at h
        have hone : removeBakedLoop env host w [] [id] = some ([id], w1) := by
          simp only [removeBakedLoop, hf, List.nil_append]
        obtain ⟨i1, i2, i3, calls, i4, i5, i6⟩ :=
          ih w1 (stale ++ [id]) c r hc1 (by rw [hs1]; exact hst) h
        simp only [bakedLookups, hf, hone, List.map_cons, i1, true_and]
        refine ⟨?_, ?_, calls, by rw [i4, ht1], i5, ?_⟩
        · rw [i2]
          simp [staleIds, List.filter_cons]
        · rw [i3]
          simp [foundIds, List.filter_cons]
        · intro id1 entity hm
          simp only [List.mem_cons, Prod.mk.injEq, reduceCtorEq, and_false, false_or] at hm
          exact i6 id1 entity hm
      | some entity =>
        simp only [removeBakedLoop, hf, hc1] at h
        have hone : removeBakedLoop env host w [] [id] = some ([], deleteEntityAndChildren host
            { w1 with mgr := { w1.mgr with m_pRootEntityCollection := some { c with
              m_aPossibleBackedRootEntities := c.m_aPossibleBackedRootEntities ++ [id] } } }
            entity) := by
          simp only [removeBakedLoop, hf, hc1]
        have hs3 : (deleteEntityAndChildren host
            { w1 with mgr := { w1.mgr with m_pRootEntityCollection := some { c with
              m_aPossibleBackedRootEntities := c.m_aPossibleBackedRootEntities ++ [id] } } }
            entity).mgr.m_eState = w.mgr.m_eState :=
          (lifecycle_state (deleteEntityAndChildren_lifecycle host hhost _ entity)).trans hs1
        obtain ⟨i1, i2, i3, calls, i4, i5, i6⟩ :=
          ih _ stale { c with
            m_aPossibleBackedRootEntities := c.m_aPossibleBackedRootEntities ++ [id] } r
            (deleteEntityAndChildren_collection host hhost _ entity)
            (by rw [hs3]; exact hst)
            h
        simp only [bakedLookups, hf, hone, List.map_cons, i1, true_and]
        refine ⟨?_, ?_, Event.deleteEntityAndChildren entity :: calls, ?_, ?_, ?_⟩
        · rw [i2]
          simp [staleIds, List.filter_cons]
        · rw [i3]
          simp [foundIds, List.filter_cons]
        · rw [i4, deleteEntityAndChildren_trace host hhost]
          simp only [ht1, List.append_assoc, List.singleton_append]
        · simp only [findAllRequests, i5]
        · intro id1 e1 hm
          simp only [List.mem_cons, Prod.mk.injEq, Option.some.injEq] at hm
          rcases hm with ⟨_, he⟩ | hm
          · rw [he]; exact List.mem_cons_self _ _
          · exact List.mem_cons_of_mem _ (i6 id1 e1 hm)

/-! ## The bulk requests of world load -/

theorem loadFrame_refl (w : World) : loadFrame w w [] :=
  ⟨rfl, [], by simp, rfl⟩

theorem loadFrame_trans {w w1 w2 : World} {a b : List (String × List String)}
    (h1 : loadFrame w w1 a) (h2 : loadFrame w1 w2 b) : loadFrame w w2 (a ++ b) := by
  obtain ⟨c1, l1, t1, f1⟩ := h1
  obtain ⟨c2, l2, t2, f2⟩ := h2
  exact ⟨c2.trans c1, l1 ++ l2, by rw [t2, t1, List.append_assoc],
    by rw [findAllRequests_append, f1, f2]⟩

theorem loadFrame_of_hostFrame {w w1 : World} (h : hostFrame w w1) : loadFrame w w1 [] :=
  ⟨h.2, [], by rw [control_trace h.1, List.append_nil], rfl⟩

theorem loadFrame_withCall (w : World) (e : Event) :
    loadFrame w (withCall w e) (findAllRequests [e]) :=
  ⟨rfl, [e], rfl, rfl⟩

theorem deleteEntityAndChildren_loadFrame (host : Host) (hhost : host.wellBehaved) (w : World)
    (entity : Ref) : loadFrame w (deleteEntityAndChildren host w entity) [] :=
  loadFrame_trans (loadFrame_withCall w (Event.deleteEntityAndChildren entity))
    (loadFrame_of_hostFrame (hhost.2.2 _ entity))

theorem spawnWorldEntity_loadFrame (host : Host) (hhost : host.wellBehaved) (w : World)
    (saveData : Option EPF_EntitySaveData) (isRoot : Bool) :
    loadFrame w (SpawnWorldEntity host w saveData isRoot).2 [] := by
  cases saveData with
  | none => exact loadFrame_refl w
  | some data =>
    unfold SpawnWorldEntity
    simp only []
    split
    · exact loadFrame_refl w
    · split
      · exact loadFrame_refl w
      · have f1 : loadFrame w (host.SpawnEntityPrefab
            (withCall w (Event.spawnEntityPrefab data.m_rPrefab)) data.m_rPrefab).2 [] :=
          loadFrame_trans (loadFrame_withCall w (Event.spawnEntityPrefab data.m_rPrefab))
            (loadFrame_of_hostFrame (hhost.1 _ _))
        simp only [withCall] at f1
        split
        · exact f1
        · rename_i entity _
          split
          · exact loadFrame_trans f1 (deleteEntityAndChildren_loadFrame host hhost _ entity)
          · rename_i persistenceComponent _
            have f2 := loadFrame_trans f1 (loadFrame_trans
              (loadFrame_withCall _ (Event.entityLoad persistenceComponent data (some isRoot)))
              (loadFrame_of_hostFrame (hhost.2.1 _ persistenceComponent data (some isRoot))))
            simp only [withCall] at f2
            split
            · exact f2
            · exact loadFrame_trans f2 (deleteEntityAndChildren_loadFrame host hhost _ entity)

theorem loadRecord_loadFrame (host : Host) (hhost : host.wellBehaved) (w w1 : World)
    (findResult : EDF_DbEntity) (h : loadRecord host w findResult = some w1) :
    loadFrame w w1 [] := by
  unfold loadRecord at h
  cases hs : findResult.saveData with
  | none =>
    rw [hs] at h
    simp only [Option.some.injEq] at h
    rw [← h]; exact loadFrame_refl w
  | some saveData =>
    rw [hs] at h
    simp only [] at h
    cases hb : w.mgr.m_mBakedRoots with
    | none => rw [hb] at h; simp at h
    | some bakedRoots =>
      rw [hb] at h
      simp only [] at h
      cases hf : bakedRoots.Find saveData.m_sId with
      | none =>
        rw [hf] at h
        simp only [Option.some.injEq] at h
        rw [← h]; exact spawnWorldEntity_loadFrame host hhost w _ _
      | some c =>
        rw [hf] at h
        simp only [Option.some.injEq] at h
        rw [← h]
        exact loadFrame_trans (loadFrame_withCall w (Event.entityLoad c saveData none))
          (loadFrame_of_hostFrame (hhost.2.1 _ c saveData none))

theorem loadRecords_loadFrame (host : Host) (hhost : host.wellBehaved) (l : List EDF_DbEntity) :
    ∀ w w1 : World, loadRecords host w l = some w1 → loadFrame w w1 [] := by
  induction l with
  | nil =>
    intro w w1 h
    simp only [loadRecords, Option.some.injEq] at h
    rw [← h]; exact loadFrame_refl w
  | cons e rest ih =>
    intro w w1 h
    simp only [loadRecords, Option.bind_eq_some] at h
    obtain ⟨w2, h2, h3⟩ := h
    exact loadFrame_trans (loadRecord_loadFrame host hhost w w2 e h2) (ih w2 w1 h3)

/-- The bulk requests the last loop of world load issues are the entries of the local map
`bulkLoad`, in order. -/
theorem bulkFind_loadFrame (host : Host) (hhost : host.wellBehaved)
    (l : List (String × List String)) :
    ∀ w w1 : World, bulkFind host w l = some w1 → loadFrame w w1 l := by
  induction l with
  | nil =>
    intro w w1 h
    simp only [bulkFind, Option.some.injEq] at h
    rw [← h]; exact loadFrame_refl w
  | cons e rest ih =>
    intro w w1 h
    unfold bulkFind at h
    cases hd : w.mgr.m_pDbContext with
    | none => rw [hd] at h; simp at h
    | some db =>
      rw [hd] at h
      simp only [] at h
      have f0 : loadFrame w (withCall w (Event.findAll e.1 e.2)) [(e.1, e.2)] :=
        loadFrame_withCall w _
      cases hf : host.FindAll e.1 e.2 with
      | none =>
        rw [hf] at h
        simp only [] at h
        exact loadFrame_trans f0 (ih _ w1 h)
      | some findResults =>
        rw [hf] at h
        simp only [Option.bind_eq_some] at h
        obtain ⟨w2, h2, h3⟩ := h
        have := loadFrame_trans (loadFrame_trans f0
          (loadRecords_loadFrame host hhost findResults _ w2 h2)) (ih w2 w1 h3)
        simpa using this

theorem mem_entries_set {V : Type} (m : ScriptMap V) (k : String) (v : V) (e : String × V)
    (h : e ∈ (m.Set k v).entries) : e = (k, v) ∨ e ∈ m.entries := by
  unfold ScriptMap.Set at h
  split at h
  · simp only [List.mem_map] at h
    obtain ⟨a, ha, he⟩ := h
    split at he
    · exact Or.inl he.symm
    · exact Or.inr (he ▸ ha)
  · simp only [List.mem_append, List.mem_singleton] at h
    exact h.symm

theorem mem_entries_of_find {V : Type} (m : ScriptMap V) (k : String) (v : V)
    (h : m.Find k = some v) : (k, v) ∈ m.entries := by
  obtain ⟨l⟩ := m
  simp only [ScriptMap.Find] at h
  induction l with
  | nil => simp at h
  | cons a l ih =>
    obtain ⟨a1, a2⟩ := a
    by_cases hk : k = a1
    · subst hk
      rw [ScriptMap.lookup_cons_self] at h
      simp only [Option.some.injEq] at h
      subst h
      exact List.mem_cons_self _ _
    · rw [ScriptMap.lookup_cons_ne l a1 k a2 hk] at h
      exact List.mem_cons_of_mem _ (ih h)

theorem bulkLoadDynamic_entries (selfSpawn : List (String × List String)) :
    ∀ e ∈ (bulkLoadDynamic selfSpawn).entries, e ∈ selfSpawn := by
  have key : ∀ (l : List (String × List String)) (acc : ScriptMap (List String)),
      ∀ e ∈ (l.foldl (fun bulkLoad e => bulkLoad.Set e.1 e.2) acc).entries,
        e ∈ acc.entries ∨ e ∈ l := by
    intro l
    induction l with
    | nil => intro acc e h; exact Or.inl h
    | cons a l ih =>
      intro acc e h
      rw [List.foldl_cons] at h
      rcases ih _ e h with h1 | h1
      · rcases mem_entries_set acc a.1 a.2 e h1 with h2 | h2
        · exact Or.inr (h2 ▸ List.mem_cons_self _ _)
        · exact Or.inl h2
      · exact Or.inr (List.mem_cons_of_mem _ h1)
  intro e h
  rcases key selfSpawn ScriptMap.empty e h with h1 | h1
  · simp [ScriptMap.empty] at h1
  · exact h1

theorem bulkLoadBaked_spec (w : World) (S : String → Prop) (entries : List (String × Ref)) :
    ∀ acc : List String × ScriptMap (List String),
      (∀ e ∈ acc.2.entries, ∀ x ∈ e.2, S x) → (∀ e ∈ entries, S e.1) →
      (bulkLoadBaked w acc entries).1 = acc.1 ++ entries.map Prod.fst ∧
      ∀ e ∈ (bulkLoadBaked w acc entries).2.entries, ∀ x ∈ e.2, S x := by
  induction entries with
  | nil =>
    intro acc h _
    simp only [bulkLoadBaked, List.map_nil, List.append_nil, true_and]
    exact h
  | cons a rest ih =>
    intro acc h hs
    unfold bulkLoadBaked
    simp only []
    have hrest : ∀ e ∈ rest, S e.1 := fun e he => hs e (List.mem_cons_of_mem _ he)
    have ha : S a.1 := hs a (List.mem_cons_self _ _)
    have step : ∀ e ∈ (acc.2.Set (w.components a.2).settings.m_tSaveDataType
        ((match acc.2.Find (w.components a.2).settings.m_tSaveDataType with
          | some ids => ids
          | none => []) ++ [a.1])).entries, ∀ x ∈ e.2, S x := by
      intro e he x hx
      rcases mem_entries_set _ _ _ e he with h1 | h1
      · rw [h1] at hx
        simp only [List.mem_append, List.mem_singleton] at hx
        rcases hx with hx | hx
        · cases hf : acc.2.Find (w.components a.2).settings.m_tSaveDataType with
          | none => rw [hf] at hx; simp at hx
          | some ids =>
            rw [hf] at hx
            exact h _ (mem_entries_of_find _ _ _ hf) x hx
        · rw [hx]; exact ha
      · exact h e h1 x hx
    obtain ⟨i1, i2⟩ := ih (acc.1 ++ [a.1], acc.2.Set (w.components a.2).settings.m_tSaveDataType
      ((match acc.2.Find (w.components a.2).settings.m_tSaveDataType with
        | some ids => ids
        | none => []) ++ [a.1])) step hrest
    refine ⟨?_, i2⟩
    rw [i1]
    simp only [List.map_cons, List.append_assoc, List.singleton_append]

/-- What `collectBulkLoad` leaves: the stale identifiers are removed from the removed list, the
keys of the baked-roots working set are appended to the possibly-baked list, and every
identifier of a request is recorded as self-spawning or is a key of the working set. -/
theorem collectBulkLoad_result (w : World) (stale : List String)
    (c : EPF_PersistentRootEntityCollection) (bakedRoots : ScriptMap Ref)
    (b : World × List (String × List String))
    (hc : w.mgr.m_pRootEntityCollection = some c) (hb : w.mgr.m_mBakedRoots = some bakedRoots)
    (h : collectBulkLoad w stale = some b) :
    b.1.mgr.m_pRootEntityCollection = some { c with
      m_aRemovedBackedRootEntities := stale.foldl RemoveItem c.m_aRemovedBackedRootEntities
      m_aPossibleBackedRootEntities := c.m_aPossibleBackedRootEntities ++ bakedRoots.keys } ∧
    b.1.trace = w.trace ∧
    ∀ request ∈ b.2, ∀ x ∈ request.2,
      (∃ e ∈ c.m_mSelfSpawnDynamicEntities, x ∈ e.2) ∨ x ∈ bakedRoots.keys := by
  simp only [collectBulkLoad, hc, hb, Option.some.injEq] at h
  subst h
  obtain ⟨i1, i2⟩ := bulkLoadBaked_spec w
    (fun x => (∃ e ∈ c.m_mSelfSpawnDynamicEntities, x ∈ e.2) ∨ x ∈ bakedRoots.keys)
    bakedRoots.entries
    (c.m_aPossibleBackedRootEntities, bulkLoadDynamic c.m_mSelfSpawnDynamicEntities)
    (fun e he x hx => Or.inl ⟨e, bulkLoadDynamic_entries _ e he, hx⟩)
    (fun e he => Or.inr (List.mem_map_of_mem _ he))
  refine ⟨?_, rfl, i2⟩
  simp only [i1, ScriptMap.keys]

theorem findAllRequests_setState_calls (b : Bool) (state : EPF_EPersistenceManagerState) :
    findAllRequests (if b = true then [Event.stateChange state] else []) = [] := by
  cases b <;> rfl

/-! ## C16 -/

/-- C16, as stated, fails: the requests of the bulk find are collected from the recorded
self-spawning entities and the keys of the baked-roots working set without looking at the
stale identifiers. In the example store the identifier "lost" is recorded as a removed baked
root and as a self-spawning vehicle; no live instance is found for it, it is dropped from the
removed list, and it is among the identifiers of the `FindAll` request for the vehicles. -/
theorem C16_counterexample :
    (OnPostInit Example.host Example.newWorld Example.settings).mgr.m_pRootEntityCollection =
      some Example.storedCollection ∧
    Example.storedCollection.m_aRemovedBackedRootEntities = [Example.bakedId, "gone", "lost"] ∧
    (FlushRegistrations Example.env
        (OnPostInit Example.host Example.newWorld Example.settings)).map
      (fun w0 => bakedLookups Example.env Example.host (SetState w0 .SETUP)
        [Example.bakedId, "gone", "lost"]) =
      some [(Example.bakedId, some 11), ("gone", none), ("lost", none)] ∧
    (OnWorldPostProcess Example.env Example.host
        (OnPostInit Example.host Example.newWorld Example.settings)).map
      (fun w => (w.mgr.m_pRootEntityCollection.map fun c => c.m_aRemovedBackedRootEntities,
        findAllRequests w.trace)) =
      some (some [Example.bakedId],
        [("VehicleSaveData", ["dyn1", "lost"]), ("CharacterSaveData", [Example.bakedId])]) := by
  decide

/-- C16, amended: world load (`OnWorldPostProcess`) on a manager that post-init has given a
store adapter and a Root Entity Collection and whose baked-roots working set is still there,
with host callbacks that leave the manager's lifecycle fields and the Root Entity Collection
alone, returns, and for the removed-baked-roots list of the collection as it is after the
initial flush (the collection the load was called with, when that was before `ACTIVE`): every
identifier of the list for which no live instance is found at any of its turns is absent from
the removed-baked-roots list after the load, and is not among the identifiers of any `FindAll`
request issued by that load unless it is recorded as a self-spawning dynamic entity or is a
key of the baked-roots working set when the requests are collected; every identifier of the
list for which a live instance is found stays in the list, is appended to the possibly-baked
list (which after the load is the old list, then the identifiers found, then the keys of the
baked-roots working set), and its instance is destroyed with its children. -/
theorem C16_removed_baked_roots (env : Env) (host : Host) (hhost : host.wellBehaved) (w : World)
    (hcol : w.mgr.m_pRootEntityCollection.isSome = true)
    (hdb : w.mgr.m_pDbContext.isSome = true) (hbaked : w.mgr.m_mBakedRoots.isSome = true) :
    ∃ (w0 w1 : World) (c c1 : EPF_PersistentRootEntityCollection) (r : List String × World)
      (bakedRoots : ScriptMap Ref) (calls : List Event),
      FlushRegistrations env w = some w0 ∧ w0.mgr.m_pRootEntityCollection = some c ∧
      (w.mgr.m_eState.toNat < EPF_EPersistenceManagerState.ACTIVE.toNat →
        w.mgr.m_pRootEntityCollection = some c) ∧
      removeBakedLoop env host (SetState w0 .SETUP) [] c.m_aRemovedBackedRootEntities = some r ∧
      r.2.mgr.m_mBakedRoots = some bakedRoots ∧
      OnWorldPostProcess env host w = some w1 ∧
      w1.mgr.m_pRootEntityCollection = some c1 ∧ w1.trace = w.trace ++ calls ∧
      (bakedLookups env host (SetState w0 .SETUP) c.m_aRemovedBackedRootEntities).map Prod.fst =
        c.m_aRemovedBackedRootEntities ∧
      c1.m_aPossibleBackedRootEntities = c.m_aPossibleBackedRootEntities ++
        foundIds (bakedLookups env host (SetState w0 .SETUP) c.m_aRemovedBackedRootEntities) ++
        bakedRoots.keys ∧
      ∀ id ∈ c.m_aRemovedBackedRootEntities,
        ((∀ entity, (id, some entity) ∉
            bakedLookups env host (SetState w0 .SETUP) c.m_aRemovedBackedRootEntities) →
          id ∉ c1.m_aRemovedBackedRootEntities ∧
          ((∀ e ∈ c.m_mSelfSpawnDynamicEntities, id ∉ e.2) → id ∉ bakedRoots.keys →
            ∀ request ∈ findAllRequests calls, id ∉ request.2)) ∧
        (∀ entity, (id, some entity) ∈
            bakedLookups env host (SetState w0 .SETUP) c.m_aRemovedBackedRootEntities →
          id ∈ c1.m_aRemovedBackedRootEntities ∧ id ∈ c1.m_aPossibleBackedRootEntities ∧
          Event.deleteEntityAndChildren entity ∈ calls) := by
  obtain ⟨w1, h1⟩ := onWorldPostProcess_total env host hhost w hcol hdb hbaked
  have h := h1
  simp only [OnWorldPostProcess, Option.bind_eq_some] at h
  obtain ⟨w0, h0, h⟩ := h
  have fr0 := flushRegistrations_frame env w w0 h0
  have hs1 : (SetState w0 .SETUP).mgr.m_eState.toNat <
      EPF_EPersistenceManagerState.ACTIVE.toNat := by
    rw [setState_mgr]
    show EPF_EPersistenceManagerState.SETUP.toNat < _
    decide
  cases hc : (SetState w0 .SETUP).mgr.m_pRootEntityCollection with
  | none => rw [hc] at h; simp at h
  | some c =>
    rw [hc] at h
    simp only [Option.bind_eq_some, Option.map_eq_some'] at h
    obtain ⟨r, hr, b, hb, w4, h4, w5, h5, hw⟩ := h
    have hc0 : w0.mgr.m_pRootEntityCollection = some c := by
      rw [← hc, setState_mgr]
    obtain ⟨i1, i2, i3, calls1, i4, i5, i6⟩ := removeBakedLoop_lookups env host hhost
      c.m_aRemovedBackedRootEntities (SetState w0 .SETUP) [] c r hc hs1 hr
    cases hbb : r.2.mgr.m_mBakedRoots with
    | none => simp [collectBulkLoad, i3, hbb] at hb
    | some bakedRoots =>
      obtain ⟨j1, j2, j3⟩ := collectBulkLoad_result r.2 r.1 _ bakedRoots b i3 hbb hb
      obtain ⟨k1, calls4, k2, k3⟩ := bulkFind_loadFrame host hhost b.2 b.1 w4 h4
      have h5c : w5.mgr.m_pRootEntityCollection = w4.mgr.m_pRootEntityCollection ∧
          w5.trace = w4.trace ++ [Event.rootEntityCollectionSave] := by
        unfold saveRootEntityCollection at h5
        cases hcc : w4.mgr.m_pRootEntityCollection with
        | none => rw [hcc] at h5; simp at h5
        | some c4 =>
          rw [hcc] at h5
          simp only [Option.some.injEq] at h5
          rw [← h5]
          exact ⟨hcc, rfl⟩
      have hcol1 : w1.mgr.m_pRootEntityCollection = some { c with
          m_aRemovedBackedRootEntities := r.1.foldl RemoveItem c.m_aRemovedBackedRootEntities
          m_aPossibleBackedRootEntities := c.m_aPossibleBackedRootEntities ++
            foundIds (bakedLookups env host (SetState w0 .SETUP)
              c.m_aRemovedBackedRootEntities) ++ bakedRoots.keys } := by
        rw [← hw, setState_mgr]
        show w5.mgr.m_pRootEntityCollection = _
        rw [h5c.1, k1, j1]
      have htr : w1.trace = w.trace ++
          ((if w0.mgr.m_pOnStateChange = true then [Event.stateChange .SETUP] else []) ++
            calls1 ++ calls4 ++ [Event.rootEntityCollectionSave] ++
            (if w5.mgr.m_pOnStateChange = true then [Event.stateChange .ACTIVE] else [])) := by
        rw [← hw, setState_trace]
        show w5.trace ++ _ = _
        rw [h5c.2, k2, j2, i4, setState_trace, control_trace fr0.1]
        simp only [List.append_assoc]
      have hreq : findAllRequests
          ((if w0.mgr.m_pOnStateChange = true then [Event.stateChange .SETUP] else []) ++
            calls1 ++ calls4 ++ [Event.rootEntityCollectionSave] ++
            (if w5.mgr.m_pOnStateChange = true then [Event.stateChange .ACTIVE] else [])) =
          b.2 := by
        simp only [findAllRequests_append, findAllRequests_setState_calls, i5, k3,
          findAllRequests, List.nil_append, List.append_nil]
      rw [List.nil_append] at i2
      have hmem := fun id => mem_foldl_removeItem_staleIds
        (bakedLookups env host (SetState w0 .SETUP) c.m_aRemovedBackedRootEntities) id
      rw [i1] at hmem
      refine ⟨w0, w1, c, _, r, bakedRoots, _, h0, hc0, fun hlt => ?_, hr, hbb, h1, hcol1, htr,
        i1, rfl, fun id _ => ⟨fun hnone => ⟨?_, fun hself hkey request hreq1 hmem => ?_⟩,
          fun entity hfound => ⟨?_, ?_, ?_⟩⟩⟩
      · rw [← fr0.2 hlt]; exact hc0
      · show id ∉ r.1.foldl RemoveItem c.m_aRemovedBackedRootEntities
        rw [i2]
        intro hin
        obtain ⟨entity, he⟩ := (hmem id).mp hin
        exact hnone entity he
      · rw [hreq] at hreq1
        rcases j3 request hreq1 id hmem with ⟨e, he, hx⟩ | hk
        · exact hself e he hx
        · exact hkey hk
      · show id ∈ r.1.foldl RemoveItem c.m_aRemovedBackedRootEntities
        rw [i2]
        exact (hmem id).mpr ⟨entity, hfound⟩
      · show id ∈ c.m_aPossibleBackedRootEntities ++ _ ++ bakedRoots.keys
        exact List.mem_append_left _ (List.mem_append_right _
          ((mem_foundIds _ id).mpr ⟨entity, hfound⟩))
      · exact List.mem_append_left _ (List.mem_append_left _ (List.mem_append_left _
          (List.mem_append_right _ (i6 id entity hfound))))
/-- C16 (amended) at a concrete input: world load on the new example manager after post-init,
with the example host. No live instance is found for "gone", which is neither recorded as
self-spawning nor a baked root: it is dropped from the removed list and is in no request. The
baked identifier is found with the instance 11: it stays in the removed list, is in the
possibly-baked list, and the instance 11 is deleted. -/
theorem C16_removed_baked_roots_witness :
    ∃ (w1 : World) (c1 : EPF_PersistentRootEntityCollection) (calls : List Event),
      OnWorldPostProcess Example.env Example.host
        (OnPostInit Example.host Example.newWorld Example.settings) = some w1 ∧
      w1.mgr.m_pRootEntityCollection = some c1 ∧
      w1.trace = (OnPostInit Example.host Example.newWorld Example.settings).trace ++ calls ∧
      "gone" ∉ c1.m_aRemovedBackedRootEntities ∧
      (∀ request ∈ findAllRequests calls, "gone" ∉ request.2) ∧
      Example.bakedId ∈ c1.m_aRemovedBackedRootEntities ∧
      Example.bakedId ∈ c1.m_aPossibleBackedRootEntities ∧
      Event.deleteEntityAndChildren 11 ∈ calls := by
  obtain ⟨w0, w1, c, c1, r, bakedRoots, calls, h0, _, hlt, hr, hbb, h1, hc1, htr, _, _, hall⟩ :=
    C16_removed_baked_roots Example.env Example.host (quiet_wellBehaved _ example_host_quiet)
      (OnPostInit Example.host Example.newWorld Example.settings)
      (by decide) (by decide) (by decide)
  have hc : c = Example.storedCollection := by
    have e := hlt (by decide)
    have e1 : (OnPostInit Example.host Example.newWorld
      Example.settings).mgr.m_pRootEntityCollection = some Example.storedCollection := by decide
    rw [e1] at e
    exact (Option.some.inj e).symm
  subst hc
  have hl : (FlushRegistrations Example.env
      (OnPostInit Example.host Example.newWorld Example.settings)).map
      (fun w0 => bakedLookups Example.env Example.host (SetState w0 .SETUP)
        Example.storedCollection.m_aRemovedBackedRootEntities) =
      some [(Example.bakedId, some 11), ("gone", none), ("lost", none)] := by decide
  rw [h0, Option.map_some', Option.some.injEq] at hl
  have hk : (FlushRegistrations Example.env
      (OnPostInit Example.host Example.newWorld Example.settings)).bind
      (fun w0 => (removeBakedLoop Example.env Example.host (SetState w0 .SETUP) []
        Example.storedCollection.m_aRemovedBackedRootEntities).map
          fun r => r.2.mgr.m_mBakedRoots.map fun m => m.keys) =
      some (some [Example.bakedId]) := by decide
  rw [h0, Option.some_bind, hr, Option.map_some', hbb, Option.map_some', Option.some.injEq,
    Option.some.injEq] at hk
  rw [hl] at hall
  have hgone := (hall "gone" (by decide)).1 (by
    intro entity hm
    simp only [List.mem_cons, Prod.mk.injEq, reduceCtorEq, and_false, List.mem_singleton,
      List.not_mem_nil, or_false, false_or] at hm
    exact absurd hm.1 (by decide))
  have hbakedId := (hall Example.bakedId (by decide)).2 11 (by decide)
  exact ⟨w1, c1, calls, h1, hc1, htr, hgone.1,
    hgone.2 (by decide) (by rw [hk]; decide), hbakedId.1, hbakedId.2.1, hbakedId.2.2⟩

/-! ## C18 -/

/-- C18: `SpawnWorldEntity(saveData, isRoot)` returns an instance if and only if the record is
present with a non-empty identifier, its blueprint resolves to a valid resource, the spawner
returns an instance, that instance has a persistence component and `Load(saveData, isRoot)` on
it succeeds; the instance returned is the one spawned, and then nothing is destroyed. When the
instance was spawned but the component is missing or the load fails, the instance and its
children are destroyed exactly once and null is returned. When the record or the blueprint
fails, the world is left as it is, no spawner call included; when the spawner returns null,
nothing is destroyed. (The host's operations make no call of the manager's own.) -/
theorem C18_spawn_world_entity (host : Host) (hhost : host.wellBehaved) (w : World)
    (isRoot : Bool) :
    (∀ saveData entity, (SpawnWorldEntity host w saveData isRoot).1 = some entity ↔
      ∃ data component, saveData = some data ∧ data.m_sId ≠ "" ∧
        host.resourceValid data.m_rPrefab = true ∧
        (host.SpawnEntityPrefab (withCall w (.spawnEntityPrefab data.m_rPrefab))
          data.m_rPrefab).1 = some entity ∧
        host.FindComponent (host.SpawnEntityPrefab (withCall w (.spawnEntityPrefab data.m_rPrefab))
          data.m_rPrefab).2 entity = some component ∧
        (host.Load (withCall (host.SpawnEntityPrefab (withCall w (.spawnEntityPrefab data.m_rPrefab))
          data.m_rPrefab).2 (.entityLoad component data (some isRoot)))
          component data (some isRoot)).1 = true) ∧
    SpawnWorldEntity host w none isRoot = (none, w) ∧
    ∀ data : EPF_EntitySaveData,
      ((data.m_sId = "" ∨ host.resourceValid data.m_rPrefab = false) →
        SpawnWorldEntity host w (some data) isRoot = (none, w)) ∧
      (data.m_sId ≠ "" → host.resourceValid data.m_rPrefab = true →
        ((host.SpawnEntityPrefab (withCall w (.spawnEntityPrefab data.m_rPrefab))
            data.m_rPrefab).1 = none →
          (SpawnWorldEntity host w (some data) isRoot).1 = none ∧
          (SpawnWorldEntity host w (some data) isRoot).2.trace =
            w.trace ++ [Event.spawnEntityPrefab data.m_rPrefab]) ∧
        ∀ entity,
          (host.SpawnEntityPrefab (withCall w (.spawnEntityPrefab data.m_rPrefab))
            data.m_rPrefab).1 = some entity →
          (host.FindComponent (host.SpawnEntityPrefab
              (withCall w (.spawnEntityPrefab data.m_rPrefab)) data.m_rPrefab).2 entity = none →
            (SpawnWorldEntity host w (some data) isRoot).1 = none ∧
            (SpawnWorldEntity host w (some data) isRoot).2.trace =
              w.trace ++ [Event.spawnEntityPrefab data.m_rPrefab,
                Event.deleteEntityAndChildren entity]) ∧
          ∀ component,
            host.FindComponent (host.SpawnEntityPrefab
              (withCall w (.spawnEntityPrefab data.m_rPrefab)) data.m_rPrefab).2 entity =
                some component →
            ((host.Load (withCall (host.SpawnEntityPrefab
                (withCall w (.spawnEntityPrefab data.m_rPrefab)) data.m_rPrefab).2
                (.entityLoad component data (some isRoot))) component data (some isRoot)).1 = false →
              (SpawnWorldEntity host w (some data) isRoot).1 = none ∧
              (SpawnWorldEntity host w (some data) isRoot).2.trace =
                w.trace ++ [Event.spawnEntityPrefab data.m_rPrefab,
                  Event.entityLoad component data (some isRoot),
                  Event.deleteEntityAndChildren entity]) ∧
            ((host.Load (withCall (host.SpawnEntityPrefab
                (withCall w (.spawnEntityPrefab data.m_rPrefab)) data.m_rPrefab).2
                (.entityLoad component data (some isRoot))) component data (some isRoot)).1 = true →
              (SpawnWorldEntity host w (some data) isRoot).1 = some entity ∧
              (SpawnWorldEntity host w (some data) isRoot).2.trace =
                w.trace ++ [Event.spawnEntityPrefab data.m_rPrefab,
                  Event.entityLoad component data (some isRoot)])) := by
  have hsp : ∀ w p, (host.SpawnEntityPrefab w p).2.trace = w.trace :=
    fun w p => control_trace (hhost.1 w p).1
  have hld : ∀ w c d r, (host.Load w c d r).2.trace = w.trace :=
    fun w c d r => control_trace (hhost.2.1 w c d r).1
  have hdel := deleteEntityAndChildren_trace host hhost
  refine ⟨?_, rfl, ?_⟩
  · intro saveData entity
    constructor
    · intro h
      cases saveData with
      | none => simp [SpawnWorldEntity] at h
      | some data =>
        by_cases hid : data.m_sId = ""
        · simp [SpawnWorldEntity, hid] at h
        · by_cases hv : host.resourceValid data.m_rPrefab = true
          · cases hs : (host.SpawnEntityPrefab (withCall w (.spawnEntityPrefab data.m_rPrefab))
                data.m_rPrefab).1 with
            | none =>
              simp only [withCall] at hs
              simp [SpawnWorldEntity, hid, hv, hs] at h
            | some e =>
              cases hf : host.FindComponent (host.SpawnEntityPrefab
                  (withCall w (.spawnEntityPrefab data.m_rPrefab)) data.m_rPrefab).2 e with
              | none =>
                simp only [withCall] at hs hf
                simp [SpawnWorldEntity, hid, hv, hs, hf] at h
              | some c =>
                cases hl : (host.Load (withCall (host.SpawnEntityPrefab
                    (withCall w (.spawnEntityPrefab data.m_rPrefab)) data.m_rPrefab).2
                    (.entityLoad c data (some isRoot))) c data (some isRoot)).1 with
                | false =>
                  simp only [withCall] at hs hf hl
                  simp [SpawnWorldEntity, hid, hv, hs, hf, hl] at h
                | true =>
                  have he : e = entity := by
                    simp only [withCall] at hs hf hl
                    simpa [SpawnWorldEntity, hid, hv, hs, hf, hl] using h
                  subst he
                  exact ⟨data, c, rfl, hid, hv, hs, hf, hl⟩
          · simp [SpawnWorldEntity, hid, hv] at h
    · rintro ⟨data, c, rfl, hid, hv, hs, hf, hl⟩
      simp only [withCall] at hs hf hl
      simp [SpawnWorldEntity, hid, hv, hs, hf, hl]
  · intro data
    refine ⟨?_, ?_⟩
    · rintro (h | h)
      · simp [SpawnWorldEntity, h]
      · simp [SpawnWorldEntity, h]
    · intro hid hv
      refine ⟨?_, ?_⟩
      · intro hs
        simp only [withCall] at hs
        simp only [SpawnWorldEntity, hid, hv, if_false, Bool.not_true, Bool.false_eq_true, hs, hsp,
          and_self]
      · intro entity hs
        simp only [withCall] at hs
        refine ⟨?_, ?_⟩
        · intro hf
          simp only [withCall] at hf
          simp only [SpawnWorldEntity, hid, hv, if_false, Bool.not_true, Bool.false_eq_true, hs, hf,
            hdel, hsp, true_and, List.append_assoc, List.singleton_append]
        · intro c hf
          simp only [withCall] at hf
          refine ⟨?_, ?_⟩
          · intro hl
            simp only [withCall] at hl
            simp only [SpawnWorldEntity, hid, hv, if_false, Bool.not_true, Bool.false_eq_true, hs,
              hf, hl, true_and]
            simp only [hdel, hld, hsp, List.append_assoc, List.singleton_append,
              List.cons_append, List.nil_append]
          · intro hl
            simp only [withCall] at hl
            simp only [SpawnWorldEntity, hid, hv, if_false, Bool.not_true, Bool.false_eq_true, hs,
              hf, hl, if_true, true_and]
            simp only [hld, hsp, List.append_assoc, List.singleton_append]

/-- C18 at a concrete input: the example host spawns the instance 100 for the record "dyn3",
whose load fails; the instance is destroyed once and null is returned. -/
theorem C18_spawn_world_entity_witness :
    (SpawnWorldEntity Example.host Example.activeWorld
      (some ⟨"VehicleSaveData", "dyn3", "Wreck.et"⟩) true).1 = none ∧
    (SpawnWorldEntity Example.host Example.activeWorld
      (some ⟨"VehicleSaveData", "dyn3", "Wreck.et"⟩) true).2.trace =
      [Event.spawnEntityPrefab "Wreck.et",
        Event.entityLoad 20 ⟨"VehicleSaveData", "dyn3", "Wreck.et"⟩ (some true),
        Event.deleteEntityAndChildren 100] :=
  have h := (C18_spawn_world_entity Example.host (quiet_wellBehaved _ example_host_quiet)
    Example.activeWorld true).2.2 ⟨"VehicleSaveData", "dyn3", "Wreck.et"⟩
  have h1 := (h.2 (by decide) (by decide)).2 100 (by decide)
  (h1.2 20 (by decide)).1 (by decide)

/-! ## C19 -/

/-- C20 on the code: after a post-init without a store connection the example manager is in
`PRE_INIT` with its settings, without a store adapter and without a Root Entity Collection,
and nothing was called. A frame before the autosave interval has elapsed returns. The frame
on which the interval elapses starts a pass, and its tick ends in the null access
`m_pRootEntityCollection.Save(m_pDbContext)`; world-ready ends in the null access
`m_pRootEntityCollection.m_aRemovedBackedRootEntities`; the session end ends in the same null
access as the tick. None of the three handlers guards against the collection that post-init
did not create. -/
theorem C20_failed_init_null_access :
    (OnPostInit Example.offlineHost Example.world Example.settings).mgr.m_eState = .PRE_INIT ∧
    (OnPostInit Example.offlineHost Example.world Example.settings).mgr.m_pSettings =
      some Example.settings ∧
    GetDbContext (OnPostInit Example.offlineHost Example.world Example.settings) = none ∧
    (OnPostInit Example.offlineHost Example.world Example.settings).mgr.m_pRootEntityCollection =
      none ∧
    (OnPostInit Example.offlineHost Example.world Example.settings).trace = [] ∧
    (OnPostFrame Example.env
      (OnPostInit Example.offlineHost Example.world Example.settings) 1).isSome = true ∧
    (OnPostFrame Example.env
      (OnPostInit Example.offlineHost Example.world Example.settings) 60).isNone = true ∧
    (OnWorldPostProcess Example.env Example.offlineHost
      (OnPostInit Example.offlineHost Example.world Example.settings)).isNone = true ∧
    (OnGameEnd Example.env
      (OnPostInit Example.offlineHost Example.world Example.settings)).isNone = true := by
  refine ⟨by decide, by decide, by decide, by decide, by decide, ?_, ?_, by decide, by decide⟩
  · with_unfolding_all decide
  · with_unfolding_all decide

/-! ## C23 -/

theorem exists_throttle_step (b op0 : Nat) (hb1 : 1 ≤ b) :
    ∃ i, 1 ≤ i ∧ i ≤ b ∧ (op0 + i + 1) % b = 0 := by
  have hr : (op0 + 1) % b < b := Nat.mod_lt _ (by omega)
  have hd : b * ((op0 + 1) / b) + (op0 + 1) % b = op0 + 1 := Nat.div_add_mod _ _
  refine ⟨b - (op0 + 1) % b, by omega, by omega, ?_⟩
  have e : op0 + (b - (op0 + 1) % b) + 1 = b * ((op0 + 1) / b + 1) := by
    rw [Nat.mul_add, Nat.mul_one]
    omega
  rw [e]
  exact Nat.mul_mod_right _ _

/-- C23: in state `ACTIVE` with batch size `b ≥ 1`, one `AutoSaveTick()` call on an active
pass returns having made the first `n` of the `Save` calls that were due (the unpaused objects
from the entity cursor on, then the unpaused free-standing objects from the state cursor on),
with `n ≤ b` counted over both buckets together, and `n ≥ 1` whenever a `Save` call was due,
that is whenever an object that is not flagged `PAUSE_TRACKING` remains at or after the
cursors. After them the tick makes no further call, or it makes the calls that complete the
pass, none of which is a `Save` on an object. (The pass is ready: cursors within their
buckets, Root Entity Collection and store adapter there for the end of the pass; the operation
counter is the number `op0` of saves made so far in the pass and stays below `2^31`.) -/
theorem C23_tick_save_bound (w : World) (settings : EPF_PersistenceManagerComponentClass)
    (b op0 : Nat)
    (hactive : w.mgr.m_bAutoSaveActive = true) (hready : passReady w = true)
    (hstate : w.mgr.m_eState = .ACTIVE) (hset : w.mgr.m_pSettings = some settings)
    (hb : settings.m_iAutosaveIterations = (b : Int)) (hb1 : 1 ≤ b)
    (hop : w.mgr.m_iSaveOperation = (op0 : Int))
    (hrange : op0 + b + 1 < 2147483648) :
    ∃ (w1 : World) (n : Nat) (rest : List Event), AutoSaveTick w = some w1 ∧
      w1.trace = w.trace ++ (pendingSaves w).take n ++ rest ∧
      n ≤ (pendingSaves w).length ∧ n ≤ b ∧
      (pendingSaves w ≠ [] → 1 ≤ n) ∧
      (rest = [] ∨ rest = completionCalls w) := by
  obtain ⟨i0, hi1, hib, hi0⟩ := exists_throttle_step b op0 hb1
  have hat : throttleAfter w i0 = some true := by
    rw [throttleAfter_active w settings b op0 i0 hstate hset hb hb1 hop (by omega)]
    simp [hi0]
  rcases autoSaveTick_spec w hactive hready with
    ⟨k1, k2, ht, h1, h2, _, hor, _, _, hne, hbefore⟩ | ⟨ht, hnever⟩
  · have hs : pendingSaves w = tickSaves w k1 k2 ++ pendingSaves (tickWalked w k1 k2) :=
      tickWalked_split w k1 k2 h1 h2 hor
    have hpos : 1 ≤ (tickSaves w k1 k2).length := by
      cases hts : tickSaves w k1 k2 with
      | nil => exact absurd hts hne
      | cons x xs => simp
    refine ⟨_, (tickSaves w k1 k2).length, [], ht, ?_, ?_, ?_, fun _ => hpos, Or.inl rfl⟩
    · rw [tickWalked_trace_tickSaves, List.append_nil]
      congr 1
      rw [hs, List.take_left]
    · rw [hs, List.length_append]
      omega
    · by_cases hlt : i0 < (tickSaves w k1 k2).length
      · have := hbefore i0 hi1 hlt
        rw [hat] at this
        simp at this
      · omega
  · refine ⟨_, (pendingSaves w).length, completionCalls w, ht, ?_, Nat.le_refl _, ?_, ?_,
      Or.inr rfl⟩
    · rw [passCompleted_trace, List.take_length]
    · by_cases hle : i0 ≤ (pendingSaves w).length
      · have := hnever i0 hi1 hle
        rw [hat] at this
        simp at this
      · omega
    · intro hne
      cases hp : pendingSaves w with
      | nil => exact absurd hp hne
      | cons x xs => simp

/-- C23 at concrete inputs: the populated example manager with batch size 3 in the middle of
a pass, after two saves; the tick makes the one save that is left and completes the pass. -/
theorem C23_tick_save_bound_witness :
    pendingSaves Example.passWorld = [Event.scriptedStateSave 0] ∧
    ∃ (w1 : World) (n : Nat) (rest : List Event), AutoSaveTick Example.passWorld = some w1 ∧
      w1.trace = Example.passWorld.trace ++ (pendingSaves Example.passWorld).take n ++ rest ∧
      n ≤ (pendingSaves Example.passWorld).length ∧ n ≤ 3 ∧
      (pendingSaves Example.passWorld ≠ [] → 1 ≤ n) ∧
      (rest = [] ∨ rest = completionCalls Example.passWorld) :=
  ⟨by decide, C23_tick_save_bound Example.passWorld ⟨true, 60, 3⟩ 3 2
    (by decide) (by decide) (by decide) (by decide) (by decide) (by decide) (by decide)
    (by decide)⟩

/-! ## C24 -/

/-- C24: when autosave is disabled in the settings, `OnPostFrame` returns and leaves the
world as it is, for every time slice and so for every sequence of frames: the manager's fields
(accumulator, active flag, cursors and counter among them) are the same and no call was made.
This also holds for the world a manual `AutoSave()` call leaves: the pass it started is not
advanced by a frame. -/
theorem C24_autosave_disabled (env : Env) (host : Host) (w : World)
    (settings : EPF_PersistenceManagerComponentClass)
    (hset : w.mgr.m_pSettings = some settings) (hoff : settings.m_bEnableAutosave = false) :
    (∀ timeSlice, OnPostFrame env w timeSlice = some w) ∧
    (∀ slices : List Rat,
      runEvents env host w (slices.map LifecycleEvent.postFrame) = some w) ∧
    (∀ w0 timeSlice, AutoSave env w = some w0 → OnPostFrame env w0 timeSlice = some w0) := by
  have key : ∀ v : World, v.mgr.m_pSettings = some settings →
      ∀ timeSlice, OnPostFrame env v timeSlice = some v := by
    intro v hv timeSlice
    simp only [OnPostFrame, hv, hoff, Bool.not_false, if_true]
  refine ⟨key w hset, fun slices => ?_, fun w0 timeSlice h0 => key w0 ?_ timeSlice⟩
  · induction slices with
    | nil => rfl
    | cons t rest ih =>
      simp only [List.map_cons, runEvents, LifecycleEvent.deliver, key w hset t,
        Option.some_bind]
      exact ih
  · have l := autoSave_lifecycle env w w0 h0
    simp only [lifecycle, Prod.mk.injEq] at l
    rw [l.2.1, hset]

/-- C24 at concrete inputs: the populated example manager with autosave disabled. A manual
`AutoSave()` starts a pass, and a frame of 100 seconds on the world it leaves makes no call and
keeps the pass where it is. -/
theorem C24_autosave_disabled_witness :
    (OnPostFrame Example.env Example.manualWorld 100).map
      (fun w => (w.trace, w.mgr.m_fAutoSaveAccumultor, w.mgr.m_bAutoSaveActive)) =
      some ([], 0, false) ∧
    ((AutoSave Example.env Example.manualWorld).bind
        fun w0 => OnPostFrame Example.env w0 100).map
      (fun w => (w.trace, w.mgr.m_bAutoSaveActive, w.mgr.m_iSaveOperation,
        w.mgr.m_iAutoSaveEntityIt, w.mgr.m_iAutoSaveScriptedStateIt)) =
      some ([], true, 0, 0, 0) :=
  have h := C24_autosave_disabled Example.env Example.host Example.manualWorld ⟨false, 60, 3⟩
    (by decide) (by decide)
  ⟨by rw [h.1 100]; decide, by
    obtain ⟨w0, h0⟩ := Option.isSome_iff_exists.mp
      (by decide : (AutoSave Example.env Example.manualWorld).isSome = true)
    have e : (AutoSave Example.env Example.manualWorld).map
        (fun w => (w.trace, w.mgr.m_bAutoSaveActive, w.mgr.m_iSaveOperation,
          w.mgr.m_iAutoSaveEntityIt, w.mgr.m_iAutoSaveScriptedStateIt)) =
        some ([], true, 0, 0, 0) := by decide
    rw [h0] at e
    rw [h0, Option.some_bind, h.2.2 w0 100 h0]
    exact e⟩

/-! ## Store removes after `RemoveAsync` -/

theorem dbRemoveAsync_not_mem_cleanup (cleanup : ScriptMap String) (id : String)
    (h : cleanup.Contains id = false) (saveDataType : String) :
    Event.dbRemoveAsync saveDataType id ∉
      cleanup.entries.map (fun x => Event.dbRemoveAsync x.2 x.1) := by
  simp only [ScriptMap.Contains, List.any_eq_false, beq_iff_eq] at h
  simp only [List.mem_map, not_exists, not_and]
  intro e he heq
  injection heq with _ h2
  exact h e he h2

theorem dbRemoveAsync_not_mem_pendingSaves (w : World) (saveDataType id : String) :
    Event.dbRemoveAsync saveDataType id ∉ pendingSaves w := by
  simp [pendingSaves, entitySaves, scriptedStateSaves]

theorem passCompleted_fields (w : World) :
    (passCompleted w).mgr.m_bAutoSaveActive = false ∧
    (passCompleted w).mgr.m_pRootEntityCollection = w.mgr.m_pRootEntityCollection ∧
    (passCompleted w).mgr.m_pDbContext = w.mgr.m_pDbContext ∧
    (passCompleted w).mgr.m_mRootShutdownCleanup = w.mgr.m_mRootShutdownCleanup := by
  simp only [passCompleted, tickWalked, scriptedStateWalked, entityWalked, and_self]

/-- A pass on a manager whose autosave cleanup set has no entry for the identifier, started by
`AutoSave()` unless one is under way, is completed by finitely many ticks without a store
remove for the identifier. -/
theorem pass_without_remove (env : Env) (v : World) (id : String)
    (hcol : v.mgr.m_pRootEntityCollection.isSome = true)
    (hdb : v.mgr.m_pDbContext.isSome = true) (hpend : pendingIdentified v = true)
    (hthr : throttleDefined v = true)
    (hit : v.mgr.m_bAutoSaveActive = true →
      v.mgr.m_iAutoSaveEntityIt ≤ v.mgr.m_mRootAutoSave.Count ∧
      v.mgr.m_iAutoSaveScriptedStateIt ≤ v.mgr.m_mScriptedStateAutoSave.Count)
    (hno : v.mgr.m_mRootAutoSaveCleanup.Contains id = false) :
    ∃ (v2 : World) (calls : List Event),
      (∀ j, v.mgr.m_mRootAutoSave.Count + v.mgr.m_mScriptedStateAutoSave.Count + 1 ≤ j →
        (AutoSave env v).bind (runTicks j) = some v2) ∧
      v2.mgr.m_bAutoSaveActive = false ∧ v2.trace = v.trace ++ calls ∧
      (∀ saveDataType, Event.dbRemoveAsync saveDataType id ∉ calls) ∧
      v2.mgr.m_pRootEntityCollection.isSome = true ∧ v2.mgr.m_pDbContext.isSome = true ∧
      pendingIdentified v2 = true ∧
      v2.mgr.m_mRootShutdownCleanup = v.mgr.m_mRootShutdownCleanup := by
  have hcalls : ∀ (u : World), u.mgr.m_mRootAutoSaveCleanup.Contains id = false →
      ∀ saveDataType, Event.dbRemoveAsync saveDataType id ∉
        pendingSaves u ++ completionCalls u := by
    intro u hu saveDataType hm
    rcases List.mem_append.mp hm with h1 | h1
    · exact dbRemoveAsync_not_mem_pendingSaves u saveDataType id h1
    · simp only [completionCalls, List.mem_cons, reduceCtorEq, false_or] at h1
      exact dbRemoveAsync_not_mem_cleanup _ id hu saveDataType h1
  by_cases ha : v.mgr.m_bAutoSaveActive = true
  · have hready : passReady v = true := by
      simp only [passReady, hthr, (hit ha).1, (hit ha).2, hcol, hdb, decide_True, Bool.and_self,
        Bool.true_or]
    have hdue : entriesDue v ≤
        v.mgr.m_mRootAutoSave.Count + v.mgr.m_mScriptedStateAutoSave.Count := by
      simp only [entriesDue, entityEntriesDue, scriptedStateEntriesDue, List.length_drop,
        ScriptMap.Count]
      omega
    have hrun := runTicks_completes
      (v.mgr.m_mRootAutoSave.Count + v.mgr.m_mScriptedStateAutoSave.Count + 1) v ha hready
      (by omega)
    have hf := passCompleted_fields v
    refine ⟨passCompleted v, pendingSaves v ++ completionCalls v, fun j hj => ?_, hf.1, ?_,
      hcalls v hno, by rw [hf.2.1]; exact hcol, by rw [hf.2.2.1]; exact hdb,
      by rw [passCompleted_pendingIdentified]; exact hpend, hf.2.2.2⟩
    · simp only [AutoSave, ha, if_true, Option.some_bind]
      exact hrun j hj
    · rw [passCompleted_trace, List.append_assoc]
  · have hidle : v.mgr.m_bAutoSaveActive = false := by simpa using ha
    obtain ⟨w0, h0, ht, hs, hst, _, hd, hc, hact, _, hi1, hi2, hp⟩ :=
      autoSave_start env v hidle hcol
    obtain ⟨e1, e2, _, _, e5, e6, _, _, e9⟩ := hp hpend
    have hready : passReady w0 = true := by
      have hthr0 : throttleDefined w0 = true := by
        simp only [throttleDefined, hs, hst] at hthr ⊢
        exact hthr
      simp only [passReady, hthr0, hi1, hi2, hc, hd, hdb, Nat.zero_le, decide_True,
        Bool.and_self, Bool.true_or]
    have hdue : entriesDue w0 =
        v.mgr.m_mRootAutoSave.Count + v.mgr.m_mScriptedStateAutoSave.Count := by
      simp only [entriesDue, entityEntriesDue, scriptedStateEntriesDue, hi1, hi2, List.drop_zero,
        e1, e2, ScriptMap.Count]
    have hrun := runTicks_completes
      (v.mgr.m_mRootAutoSave.Count + v.mgr.m_mScriptedStateAutoSave.Count + 1) w0 hact hready
      (by omega)
    have hf := passCompleted_fields w0
    refine ⟨passCompleted w0, pendingSaves w0 ++ completionCalls w0, fun j hj => ?_, hf.1, ?_,
      hcalls w0 (by rw [e5]; exact hno), by rw [hf.2.1]; exact hc, by rw [hf.2.2.1, hd]; exact hdb,
      by rw [passCompleted_pendingIdentified]; exact e9, by rw [hf.2.2.2, e6]⟩
    · rw [h0, Option.some_bind]
      exact hrun j hj
    · rw [passCompleted_trace, ht, List.append_assoc]

/-- `ShutDownSave()` on a manager whose shutdown cleanup set has no entry for the identifier
makes no store remove for it. -/
theorem shutDownSave_without_remove (env : Env) (v : World) (id : String)
    (hcol : v.mgr.m_pRootEntityCollection.isSome = true)
    (hdb : v.mgr.m_pDbContext.isSome = true) (hpend : pendingIdentified v = true)
    (hno : v.mgr.m_mRootShutdownCleanup.Contains id = false) :
    ∃ (v2 : World) (calls : List Event), ShutDownSave env v = some v2 ∧
      v2.trace = v.trace ++ calls ∧
      ∀ saveDataType, Event.dbRemoveAsync saveDataType id ∉ calls := by
  obtain ⟨wf, v2, hf, hs, _, ht, _⟩ := shutDownSave_trace env v hcol hdb
  rw [flushRegistrations_identified env v hpend, Option.some.injEq] at hf
  have hcl : wf.mgr.m_mRootShutdownCleanup = v.mgr.m_mRootShutdownCleanup := by
    rw [← hf]; rfl
  refine ⟨v2, entitySaves wf wf.mgr.m_mRootShutdown.entries ++
      scriptedStateSaves wf wf.mgr.m_mScriptedStateShutdown.entries ++
      [Event.rootEntityCollectionSave] ++
      wf.mgr.m_mRootShutdownCleanup.entries.map (fun x => Event.dbRemoveAsync x.2 x.1),
    hs, by rw [ht]; simp only [List.append_assoc], ?_⟩
  intro saveDataType hm
  simp only [List.mem_append, List.mem_singleton, reduceCtorEq, or_false] at hm
  rcases hm with (h1 | h1) | h1
  · simp [entitySaves] at h1
  · simp [scriptedStateSaves] at h1
  · rw [hcl] at h1
    exact dbRemoveAsync_not_mem_cleanup _ id hno saveDataType h1

/-! ## C25 -/

/-- C25: `RemoveAsync(saveDataType, id)` on a manager with a store adapter returns having made
exactly one call, the store remove for `(saveDataType, id)`; afterwards neither cleanup set
has an entry for `id`, every other cleanup entry is as before, and the six buckets are
unchanged. So, when nothing re-enters the identifier (no pending object needs an identifier,
Root Entity Collection there, the operands of the throttle test there, the cursors of a pass
under way within their buckets), the next pass, started by `AutoSave()` unless one is under
way, is completed by finitely many ticks, and the `ShutDownSave()` after it, as well as a
`ShutDownSave()` made right away, returns, all without a store remove for `id`. -/
theorem C25_remove_async (env : Env) (w : World) (saveDataType id : String)
    (hdb : w.mgr.m_pDbContext.isSome = true) :
    ∃ w1, RemoveAsync w saveDataType id = some w1 ∧
      w1.trace = w.trace ++ [Event.dbRemoveAsync saveDataType id] ∧
      w1.mgr.m_mRootAutoSaveCleanup.Contains id = false ∧
      w1.mgr.m_mRootShutdownCleanup.Contains id = false ∧
      (∀ k, k ≠ id →
        w1.mgr.m_mRootAutoSaveCleanup.Find k = w.mgr.m_mRootAutoSaveCleanup.Find k ∧
        w1.mgr.m_mRootShutdownCleanup.Find k = w.mgr.m_mRootShutdownCleanup.Find k) ∧
      w1.mgr.m_mRootAutoSave = w.mgr.m_mRootAutoSave ∧
      w1.mgr.m_mRootShutdown = w.mgr.m_mRootShutdown ∧
      w1.mgr.m_mUncategorizedEntities = w.mgr.m_mUncategorizedEntities ∧
      w1.mgr.m_mScriptedStateAutoSave = w.mgr.m_mScriptedStateAutoSave ∧
      w1.mgr.m_mScriptedStateShutdown = w.mgr.m_mScriptedStateShutdown ∧
      w1.mgr.m_mScriptedStateUncategorized = w.mgr.m_mScriptedStateUncategorized ∧
      (w.mgr.m_pRootEntityCollection.isSome = true → pendingIdentified w = true →
        throttleDefined w = true →
        (w.mgr.m_bAutoSaveActive = true →
          w.mgr.m_iAutoSaveEntityIt ≤ w.mgr.m_mRootAutoSave.Count ∧
          w.mgr.m_iAutoSaveScriptedStateIt ≤ w.mgr.m_mScriptedStateAutoSave.Count) →
        ∃ (w2 w3 w4 : World) (calls2 calls3 calls4 : List Event),
          (∀ j, w.mgr.m_mRootAutoSave.Count + w.mgr.m_mScriptedStateAutoSave.Count + 1 ≤ j →
            (AutoSave env w1).bind (runTicks j) = some w2) ∧
          w2.mgr.m_bAutoSaveActive = false ∧ w2.trace = w1.trace ++ calls2 ∧
          ShutDownSave env w2 = some w3 ∧ w3.trace = w2.trace ++ calls3 ∧
          ShutDownSave env w1 = some w4 ∧ w4.trace = w1.trace ++ calls4 ∧
          ∀ t, Event.dbRemoveAsync t id ∉ calls2 ∧ Event.dbRemoveAsync t id ∉ calls3 ∧
            Event.dbRemoveAsync t id ∉ calls4) := by
  cases hd : w.mgr.m_pDbContext with
  | none => rw [hd] at hdb; simp at hdb
  | some db =>
    have hA := ScriptMap.contains_remove_self w.mgr.m_mRootAutoSaveCleanup id
    have hS := ScriptMap.contains_remove_self w.mgr.m_mRootShutdownCleanup id
    refine ⟨{ w with
        mgr := { w.mgr with
          m_mRootAutoSaveCleanup := w.mgr.m_mRootAutoSaveCleanup.Remove id
          m_mRootShutdownCleanup := w.mgr.m_mRootShutdownCleanup.Remove id }
        trace := w.trace ++ [Event.dbRemoveAsync saveDataType id] },
      by simp only [RemoveAsync, hd], rfl, hA, hS,
      fun k hk => ⟨ScriptMap.find_remove_ne _ id k hk, ScriptMap.find_remove_ne _ id k hk⟩,
      rfl, rfl, rfl, rfl, rfl, rfl, fun hcol hpend hthr hit => ?_⟩
    obtain ⟨w2, calls2, p1, p2, p3, p4, p5, p6, p7, p8⟩ := pass_without_remove env
      { w with
        mgr := { w.mgr with
          m_mRootAutoSaveCleanup := w.mgr.m_mRootAutoSaveCleanup.Remove id
          m_mRootShutdownCleanup := w.mgr.m_mRootShutdownCleanup.Remove id }
        trace := w.trace ++ [Event.dbRemoveAsync saveDataType id] }
      id hcol hdb hpend hthr hit hA
    obtain ⟨w3, calls3, s1, s2, s3⟩ := shutDownSave_without_remove env w2 id p5 p6 p7
      (by rw [p8]; exact hS)
    obtain ⟨w4, calls4, r1, r2, r3⟩ := shutDownSave_without_remove env
      { w with
        mgr := { w.mgr with
          m_mRootAutoSaveCleanup := w.mgr.m_mRootAutoSaveCleanup.Remove id
          m_mRootShutdownCleanup := w.mgr.m_mRootShutdownCleanup.Remove id }
        trace := w.trace ++ [Event.dbRemoveAsync saveDataType id] }
      id hcol hdb hpend hS
    exact ⟨w2, w3, w4, calls2, calls3, calls4, p1, p2, p3, s1, s2, r1, r2,
      fun t => ⟨p4 t, s3 t, r3 t⟩⟩

/-- C25 at a concrete input: on the populated example manager, whose autosave cleanup set
holds the entry "c5", `RemoveAsync("ItemSaveData", "c5")` makes the one store remove and
leaves only the shutdown cleanup entry "c6"; the pass and the shutdown save that follow make
no remove for "c5". -/
theorem C25_remove_async_witness :
    ∃ w1, RemoveAsync Example.busyWorld "ItemSaveData" "c5" = some w1 ∧
      w1.trace = [Event.dbRemoveAsync "ItemSaveData" "c5"] ∧
      w1.mgr.m_mRootAutoSaveCleanup.Contains "c5" = false ∧
      w1.mgr.m_mRootShutdownCleanup.Find "c6" = some "ItemSaveData" ∧
      ∃ (w2 w3 : World) (calls2 calls3 : List Event),
        (AutoSave Example.env w1).bind (runTicks 5) = some w2 ∧
        w2.mgr.m_bAutoSaveActive = false ∧ w2.trace = w1.trace ++ calls2 ∧
        ShutDownSave Example.env w2 = some w3 ∧ w3.trace = w2.trace ++ calls3 ∧
        ∀ t, Event.dbRemoveAsync t "c5" ∉ calls2 ∧ Event.dbRemoveAsync t "c5" ∉ calls3 := by
  obtain ⟨w1, h1, h2, h3, _, h5, _, _, _, _, _, _, h12⟩ :=
    C25_remove_async Example.env Example.busyWorld "ItemSaveData" "c5" (by decide)
  obtain ⟨w2, w3, _, calls2, calls3, _, q1, q2, q3, q4, q5, _, _, q8⟩ :=
    h12 (by decide) (by decide) (by decide) (fun h => absurd h (by decide))
  exact ⟨w1, h1, h2, h3, by rw [(h5 "c6" (by decide)).2]; decide, w2, w3, calls2, calls3,
    q1 5 (by decide), q2, q3, q4, q5, fun t => ⟨(q8 t).1, (q8 t).2.1⟩⟩

/-! ## Flushing asks every pending object -/

theorem flushEntityRegistrations_eq_request (env : Env) (l : List (Option Ref)) :
    ∀ w, flushEntityRegistrations env w l = requestComponentIds env w (nonNull l) := by
  induction l with
  | nil => intro w; rfl
  | cons o rest ih =>
    intro w
    cases o with
    | none =>
      simp only [flushEntityRegistrations, nonNull, List.filterMap_cons]
      exact ih w
    | some ref =>
      simp only [flushEntityRegistrations, nonNull, List.filterMap_cons, requestComponentIds]
      cases h : EPF_PersistenceComponent.GetPersistentId env w ref with
      | none => rfl
      | some r => exact ih r.2

theorem flushScriptedStateRegistrations_eq_request (env : Env) (l : List (Option Ref)) :
    ∀ w, flushScriptedStateRegistrations env w l = requestScriptedStateIds env w (nonNull l) := by
  induction l with
  | nil => intro w; rfl
  | cons o rest ih =>
    intro w
    cases o with
    | none =>
      simp only [flushScriptedStateRegistrations, nonNull, List.filterMap_cons]
      exact ih w
    | some ref =>
      simp only [flushScriptedStateRegistrations, nonNull, List.filterMap_cons,
        requestScriptedStateIds]
      exact ih _

theorem flushRegistrations_eq_spec (env : Env) (w : World) :
    FlushRegistrations env w = flushRegistrationsSpec env w := by
  unfold FlushRegistrations flushRegistrationsSpec
  simp only [flushEntityRegistrations_eq_request, flushScriptedStateRegistrations_eq_request,
    ge_iff_le]

/-- What a component's `GetPersistentId()` leaves of the identifiers: owners and free-standing
objects are untouched, an identifier once stored stays, and an object with an owner has one
afterwards when the generator never returns the empty identifier. -/
theorem component_getPersistentId_identifiers (env : Env) (w : World) (ref : Ref)
    (r : String × World) (hc : collectionAvailable w = true)
    (h : EPF_PersistenceComponent.GetPersistentId env w ref = some r) :
    (∀ x, (r.2.components x).m_pOwner = (w.components x).m_pOwner) ∧
    (∀ x, (w.components x).m_sId ≠ "" → (r.2.components x).m_sId = (w.components x).m_sId) ∧
    r.2.scriptedStates = w.scriptedStates ∧
    r.2.mgr.m_aPendingScriptedStateRegistrations = w.mgr.m_aPendingScriptedStateRegistrations ∧
    ((∀ history arg, env.Generate history arg ≠ "") →
      (w.components ref).m_pOwner.isSome = true → (r.2.components ref).m_sId ≠ "") := by
  unfold EPF_PersistenceComponent.GetPersistentId at h
  by_cases hid : (w.components ref).m_sId ≠ ""
  · rw [if_pos hid, Option.some.injEq] at h
    subst h
    exact ⟨fun _ => rfl, fun _ _ => rfl, rfl, rfl, fun _ _ => hid⟩
  · rw [if_neg hid] at h
    have hid0 : (w.components ref).m_sId = "" := by simpa using hid
    cases hown : (w.components ref).m_pOwner with
    | none =>
      simp only [Register, hown, Option.map_some', Option.some.injEq] at h
      subst h
      refine ⟨fun x => ?_, fun x hx => ?_, rfl, rfl, fun _ ho => by simp at ho⟩
      · by_cases hxr : x = ref
        · subst hxr; simp [hown]
        · simp [Function.update_noteq hxr]
      · by_cases hxr : x = ref
        · subst hxr; exact absurd hid0 hx
        · simp [Function.update_noteq hxr]
    | some o =>
      obtain ⟨b, c, hreg, _⟩ := register_shape env w ref "" (by rw [hown]; rfl) hc
      rw [hreg, Option.map_some', Option.some.injEq] at h
      subst h
      refine ⟨fun x => ?_, fun x hx => ?_, registerPrep_scriptedStates env w ref "", ?_,
        fun hgen _ => ?_⟩
      · by_cases hxr : x = ref
        · subst hxr
          simp only [Function.update_same]
          exact registerPrep_owner env w x "" x
        · simp only [Function.update_noteq hxr]
          exact registerPrep_owner env w ref "" x
      · by_cases hxr : x = ref
        · subst hxr; exact absurd hid0 hx
        · simp only [Function.update_noteq hxr]
          exact registerPrep_m_sId env w ref "" x
      · show (registerBuckets env w ref "").m_aPendingScriptedStateRegistrations = _
        rw [registerBuckets, categorize_m_aPendingScriptedStateRegistrations, registerPrep_mgr]
      · simp only [Function.update_same]
        rw [registerId_mint]
        exact hgen _ _

theorem requestComponentIds_identifiers (env : Env) (l : List Ref) :
    ∀ w, collectionAvailable w = true →
      ∃ w1, requestComponentIds env w l = some w1 ∧ registrationFrame w w1 ∧
        (∀ x, (w1.components x).m_pOwner = (w.components x).m_pOwner) ∧
        (∀ x, (w.components x).m_sId ≠ "" → (w1.components x).m_sId = (w.components x).m_sId) ∧
        w1.scriptedStates = w.scriptedStates ∧
        w1.mgr.m_aPendingScriptedStateRegistrations =
          w.mgr.m_aPendingScriptedStateRegistrations ∧
        ((∀ history arg, env.Generate history arg ≠ "") →
          ∀ ref ∈ l, (w.components ref).m_pOwner.isSome = true →
            (w1.components ref).m_sId ≠ "") := by
  induction l with
  | nil =>
    intro w _
    exact ⟨w, rfl, registrationFrame_refl w, fun _ => rfl, fun _ _ => rfl, rfl, rfl,
      fun _ ref hr => by simp at hr⟩
  | cons a rest ih =>
    intro w hc
    obtain ⟨r, hr⟩ := component_getPersistentId_total env w a hc
    have fr := component_getPersistentId_frame env w a r hr
    obtain ⟨g1, g2, g3, g5, g4⟩ := component_getPersistentId_identifiers env w a r hc hr
    obtain ⟨w1, h1, f1, i1, i2, i3, i5, i4⟩ :=
      ih r.2 (by rw [control_collectionAvailable fr.1]; exact hc)
    refine ⟨w1, by simp only [requestComponentIds, hr, Option.some_bind, h1],
      registrationFrame_trans fr f1, fun x => (i1 x).trans (g1 x), fun x hx => ?_,
      i3.trans g3, i5.trans g5, fun hgen ref hmem ho => ?_⟩
    · rw [i2 x (by rw [g2 x hx]; exact hx), g2 x hx]
    · rcases List.mem_cons.mp hmem with he | hm
      · subst he
        have := g4 hgen ho
        rw [i2 ref this]
        exact this
      · exact i4 hgen ref hm (by rw [g1 ref]; exact ho)

theorem scriptedState_getPersistentId_identifiers (env : Env) (w : World) (ref : Ref) :
    (EPF_PersistentScriptedState.GetPersistentId env w ref).2.components = w.components ∧
    (EPF_PersistentScriptedState.GetPersistentId env w ref).2.mgr.m_aPendingEntityRegistrations =
      w.mgr.m_aPendingEntityRegistrations ∧
    (∀ x, (w.scriptedStates x).m_sId ≠ "" →
      ((EPF_PersistentScriptedState.GetPersistentId env w ref).2.scriptedStates x).m_sId =
        (w.scriptedStates x).m_sId) ∧
    ((∀ history arg, env.Generate history arg ≠ "") →
      ((EPF_PersistentScriptedState.GetPersistentId env w ref).2.scriptedStates ref).m_sId ≠
        "") := by
  unfold EPF_PersistentScriptedState.GetPersistentId
  by_cases hid : (w.scriptedStates ref).m_sId ≠ ""
  · rw [if_pos hid]
    exact ⟨rfl, rfl, fun _ _ => rfl, fun _ => hid⟩
  · rw [if_neg hid]
    have hid0 : (w.scriptedStates ref).m_sId = "" := by simpa using hid
    rw [registerScriptedState_mint]
    refine ⟨rfl, categorizeScriptedState_m_aPendingEntityRegistrations _ _ _ _,
      fun x hx => ?_, fun hgen => ?_⟩
    · by_cases hxr : x = ref
      · subst hxr; exact absurd hid0 hx
      · simp [Function.update_noteq hxr]
    · simp only [Function.update_same]
      exact hgen _ _

theorem requestScriptedStateIds_identifiers (env : Env) (l : List Ref) :
    ∀ w, (requestScriptedStateIds env w l).components = w.components ∧
      (requestScriptedStateIds env w l).mgr.m_aPendingEntityRegistrations =
        w.mgr.m_aPendingEntityRegistrations ∧
      (∀ x, (w.scriptedStates x).m_sId ≠ "" →
        ((requestScriptedStateIds env w l).scriptedStates x).m_sId =
          (w.scriptedStates x).m_sId) ∧
      ((∀ history arg, env.Generate history arg ≠ "") →
        ∀ ref ∈ l, ((requestScriptedStateIds env w l).scriptedStates ref).m_sId ≠ "") := by
  induction l with
  | nil =>
    intro w
    exact ⟨rfl, rfl, fun _ _ => rfl, fun _ ref hr => by simp at hr⟩
  | cons a rest ih =>
    intro w
    obtain ⟨g1, g4, g2, g3⟩ := scriptedState_getPersistentId_identifiers env w a
    obtain ⟨i1, i4, i2, i3⟩ := ih (EPF_PersistentScriptedState.GetPersistentId env w a).2
    refine ⟨i1.trans g1, i4.trans g4, fun x hx => ?_, fun hgen ref hmem => ?_⟩
    · show ((requestScriptedStateIds env _ rest).scriptedStates x).m_sId = _
      rw [i2 x (by rw [g2 x hx]; exact hx), g2 x hx]
    · show ((requestScriptedStateIds env _ rest).scriptedStates ref).m_sId ≠ ""
      rcases List.mem_cons.mp hmem with he | hm
      · subst he
        have := g3 hgen
        rw [i2 ref this]
        exact this
      · exact i3 hgen ref hm

theorem mem_nonNull (pending : List (Option Ref)) (ref : Ref) :
    ref ∈ nonNull pending ↔ some ref ∈ pending := by
  simp [nonNull]

/-! ## C22 -/

/-- C22, as stated, fails: the entity part of `FlushRegistrations` is guarded by
`m_eState >= POST_INIT`. On the new example manager, which is in `PRE_INIT` with the object 1
in the pending entity list, the flush leaves the list as it is, the object without an
identifier, and makes no call of the identity generator. -/
theorem C22_counterexample :
    Example.newWorld.mgr.m_eState = .PRE_INIT ∧
    Example.newWorld.mgr.m_aPendingEntityRegistrations = [some 1] ∧
    (Example.newWorld.components 1).m_sId = "" ∧
    (FlushRegistrations Example.env Example.newWorld).map
      (fun w => (w.mgr.m_aPendingEntityRegistrations, (w.components 1).m_sId, w.idHistory)) =
      some ([some 1], "", []) := by
  decide

/-- C22, amended: `FlushRegistrations` does what the specification says with the guard on the
lifecycle state. From `POST_INIT` on it requests the persistent identifier of every non-null
object of the pending entity list, in order, and empties that list; in `PRE_INIT` it leaves the
pending entity list and the entity-backed objects as they are. In every state it requests the
persistent identifier of every non-null object of the pending free-standing-state list, in
order, and empties that list. It returns (the Root Entity Collection being there once the
manager is `ACTIVE`), and when the generator never returns the empty identifier, every object
that was asked has an identifier afterwards, an entity-backed object provided it has an
owner. -/
theorem C22_flush_registrations (env : Env) (w : World) (hc : collectionAvailable w = true) :
    FlushRegistrations env w = flushRegistrationsSpec env w ∧
    ∃ w1, FlushRegistrations env w = some w1 ∧
      w1.mgr.m_aPendingScriptedStateRegistrations = [] ∧
      (EPF_EPersistenceManagerState.POST_INIT.toNat ≤ w.mgr.m_eState.toNat →
        w1.mgr.m_aPendingEntityRegistrations = []) ∧
      (w.mgr.m_eState.toNat < EPF_EPersistenceManagerState.POST_INIT.toNat →
        w1.mgr.m_aPendingEntityRegistrations = w.mgr.m_aPendingEntityRegistrations ∧
        w1.components = w.components) ∧
      ((∀ history arg, env.Generate history arg ≠ "") →
        (∀ ref, some ref ∈ w.mgr.m_aPendingScriptedStateRegistrations →
          (w1.scriptedStates ref).m_sId ≠ "") ∧
        (EPF_EPersistenceManagerState.POST_INIT.toNat ≤ w.mgr.m_eState.toNat →
          ∀ ref, some ref ∈ w.mgr.m_aPendingEntityRegistrations →
            (w.components ref).m_pOwner.isSome = true → (w1.components ref).m_sId ≠ "")) := by
  refine ⟨flushRegistrations_eq_spec env w, ?_⟩
  rw [flushRegistrations_eq_spec]
  unfold flushRegistrationsSpec
  by_cases hs : EPF_EPersistenceManagerState.POST_INIT.toNat ≤ w.mgr.m_eState.toNat
  · obtain ⟨v, hv, _, _, _, _, i5, i4⟩ := requestComponentIds_identifiers env
      (nonNull w.mgr.m_aPendingEntityRegistrations) w hc
    obtain ⟨j1, j2, _, j3⟩ := requestScriptedStateIds_identifiers env
      (nonNull v.mgr.m_aPendingScriptedStateRegistrations)
      { v with mgr := { v.mgr with m_aPendingEntityRegistrations := [] } }
    rw [if_pos hs, hv]
    refine ⟨_, rfl, rfl, fun _ => j2, fun hlt => absurd hs (by omega), fun hgen => ⟨?_, ?_⟩⟩
    · intro ref hm
      rw [← i5] at hm
      exact j3 hgen ref ((mem_nonNull _ ref).mpr hm)
    · intro _ ref hm ho
      show ((requestScriptedStateIds env
        { v with mgr := { v.mgr with m_aPendingEntityRegistrations := [] } }
        (nonNull v.mgr.m_aPendingScriptedStateRegistrations)).components ref).m_sId ≠ ""
      rw [j1]
      exact i4 hgen ref ((mem_nonNull _ ref).mpr hm) ho
  · obtain ⟨j1, j2, _, j3⟩ := requestScriptedStateIds_identifiers env
      (nonNull w.mgr.m_aPendingScriptedStateRegistrations) w
    rw [if_neg hs]
    refine ⟨_, rfl, rfl, fun h => absurd h hs, fun _ => ⟨j2, j1⟩, fun hgen => ⟨?_, ?_⟩⟩
    · intro ref hm
      exact j3 hgen ref ((mem_nonNull _ ref).mpr hm)
    · intro h
      exact absurd h hs

/-- C22 (amended) at concrete inputs: the new example manager after `OnPostInit`, in
`POST_INIT` with the object 1 in the pending entity list. The flush empties the list and the
object has the baked identifier afterwards. -/
theorem C22_flush_registrations_witness :
    (OnPostInit Example.host Example.newWorld Example.settings).mgr.m_aPendingEntityRegistrations =
      [some 1] ∧
    (FlushRegistrations Example.env
        (OnPostInit Example.host Example.newWorld Example.settings)).map
      (fun w => (w.mgr.m_aPendingEntityRegistrations, (w.components 1).m_sId)) =
      some ([], Example.bakedId) ∧
    FlushRegistrations Example.env (OnPostInit Example.host Example.newWorld Example.settings) =
      flushRegistrationsSpec Example.env
        (OnPostInit Example.host Example.newWorld Example.settings) :=
  ⟨by decide, by decide,
    (C22_flush_registrations Example.env
      (OnPostInit Example.host Example.newWorld Example.settings) (by decide)).1⟩

/-! ## Root status round trip -/

theorem remove_set_of_not_contains {V : Type} (m : ScriptMap V) (k : String) (v : V)
    (h : m.Contains k = false) : (m.Set k v).Remove k = m := by
  obtain ⟨l⟩ := m
  simp only [ScriptMap.Contains, List.any_eq_false, beq_iff_eq] at h
  simp only [ScriptMap.Set, ScriptMap.Contains]
  have hany : (l.any fun e => e.1 == k) = false := by
    simp only [List.any_eq_false, beq_iff_eq]
    exact h
  simp only [hany, Bool.false_eq_true, if_false, ScriptMap.Remove, List.filter_append,
    List.filter_cons, List.filter_nil, bne_self_eq_false, List.append_nil]
  congr 1
  rw [List.filter_eq_self]
  intro e he
  simpa using h e he

theorem remove_remove {V : Type} (m : ScriptMap V) (k : String) :
    (m.Remove k).Remove k = m.Remove k :=
  ScriptMap.remove_of_not_contains _ k (ScriptMap.contains_remove_self m k)

theorem set_eq_self_of_entries {V : Type} (n : ScriptMap V) (k : String) (v : V)
    (hc : n.Contains k = true) (h : ∀ e ∈ n.entries, e.1 = k → e = (k, v)) :
    n.Set k v = n := by
  obtain ⟨l⟩ := n
  unfold ScriptMap.Set
  rw [if_pos hc]
  congr 1
  have hid : ∀ e ∈ l, (fun e : String × V => if (e.1 == k) = true then (k, v) else e) e = id e := by
    intro e he
    by_cases hk : e.1 = k
    · simp [hk, h e he hk]
    · simp [hk]
  exact (List.map_congr_left hid).trans (List.map_id l)

theorem set_set {V : Type} (m : ScriptMap V) (k : String) (v : V) :
    (m.Set k v).Set k v = m.Set k v := by
  apply set_eq_self_of_entries _ k v (ScriptMap.contains_set_self m k v)
  intro e he hk
  unfold ScriptMap.Set at he
  by_cases h : m.Contains k = true
  · rw [if_pos h] at he
    simp only [List.mem_map] at he
    obtain ⟨a, _, ha⟩ := he
    by_cases hak : (a.1 == k) = true
    · rw [if_pos hak] at ha
      exact ha.symm
    · rw [if_neg hak] at ha
      subst ha
      exact absurd (by simpa using hk) hak
  · rw [if_neg h] at he
    have h0 : m.Contains k = false := by simpa using h
    simp only [ScriptMap.Contains, List.any_eq_false, beq_iff_eq] at h0
    simp only [List.mem_append, List.mem_singleton] at he
    rcases he with he | he
    · exact absurd hk (h0 e he)
    · exact he

theorem categorize_with (m : EPF_PersistenceManager) (b : Option (ScriptMap Ref))
    (col : Option EPF_PersistentRootEntityCollection) (c : EPF_PersistenceComponent) (ref : Ref)
    (id : String) (settings : EPF_PersistenceComponentClass) (isRootEntity : Bool) :
    registry (categorize { m with m_mBakedRoots := b, m_pRootEntityCollection := col }
      c ref id settings isRootEntity) = registry (categorize m c ref id settings isRootEntity) := by
  unfold categorize
  by_cases h1 : m.m_mRootAutoSave.Contains id = true <;>
  by_cases h2 : m.m_mRootShutdown.Contains id = true <;>
  by_cases h3 : EPF_BitFlags.CheckFlags c.m_eFlags .PERSISTENT_RECORD = true <;>
  cases settings.m_eSaveType <;> cases isRootEntity <;> simp [registry, h1, h2, h3]

/-- The bucket and cleanup-set changes of `UpdateRootStatus` are the same when made twice. -/
theorem categorize_idempotent (m : EPF_PersistenceManager) (c : EPF_PersistenceComponent)
    (ref : Ref) (id : String) (settings : EPF_PersistenceComponentClass) (isRootEntity : Bool) :
    registry (categorize (categorize m c ref id settings isRootEntity) c ref id settings
      isRootEntity) = registry (categorize m c ref id settings isRootEntity) := by
  unfold categorize
  by_cases h1 : m.m_mRootAutoSave.Contains id = true <;>
  by_cases h2 : m.m_mRootShutdown.Contains id = true <;>
  by_cases h3 : EPF_BitFlags.CheckFlags c.m_eFlags .PERSISTENT_RECORD = true <;>
  cases settings.m_eSaveType <;> cases isRootEntity <;>
  simp [registry, h1, h2, h3, remove_remove, set_set, ScriptMap.contains_remove_self,
    ScriptMap.contains_set_self]

theorem categorize_interval_root (m : EPF_PersistenceManager) (c : EPF_PersistenceComponent)
    (ref : Ref) (id : String) (settings : EPF_PersistenceComponentClass)
    (h : settings.m_eSaveType = .INTERVAL_SHUTDOWN) :
    registry (categorize m c ref id settings true) =
      (m.m_mRootAutoSave.Set id ref, m.m_mRootShutdown, m.m_mUncategorizedEntities.Remove id,
        m.m_mScriptedStateAutoSave, m.m_mScriptedStateShutdown, m.m_mScriptedStateUncategorized,
        m.m_mRootAutoSaveCleanup.Remove id, m.m_mRootShutdownCleanup) := by
  simp [categorize, h, registry]

theorem categorize_shutdown_root (m : EPF_PersistenceManager) (c : EPF_PersistenceComponent)
    (ref : Ref) (id : String) (settings : EPF_PersistenceComponentClass)
    (h : settings.m_eSaveType = .SHUTDOWN) :
    registry (categorize m c ref id settings true) =
      (m.m_mRootAutoSave, m.m_mRootShutdown.Set id ref, m.m_mUncategorizedEntities.Remove id,
        m.m_mScriptedStateAutoSave, m.m_mScriptedStateShutdown, m.m_mScriptedStateUncategorized,
        m.m_mRootAutoSaveCleanup, m.m_mRootShutdownCleanup.Remove id) := by
  simp [categorize, h, registry]

theorem categorize_interval_leave (m : EPF_PersistenceManager) (c : EPF_PersistenceComponent)
    (ref : Ref) (id : String) (settings : EPF_PersistenceComponentClass)
    (h : settings.m_eSaveType = .INTERVAL_SHUTDOWN) (hin : m.m_mRootAutoSave.Contains id = true) :
    registry (categorize m c ref id settings false) =
      (m.m_mRootAutoSave.Remove id, m.m_mRootShutdown, m.m_mUncategorizedEntities.Set id ref,
        m.m_mScriptedStateAutoSave, m.m_mScriptedStateShutdown, m.m_mScriptedStateUncategorized,
        (if EPF_BitFlags.CheckFlags c.m_eFlags .PERSISTENT_RECORD then
          m.m_mRootAutoSaveCleanup.Set id settings.m_tSaveDataType
        else m.m_mRootAutoSaveCleanup), m.m_mRootShutdownCleanup) := by
  by_cases h3 : EPF_BitFlags.CheckFlags c.m_eFlags .PERSISTENT_RECORD = true <;>
  simp [categorize, h, registry, hin, h3]

theorem categorize_shutdown_leave (m : EPF_PersistenceManager) (c : EPF_PersistenceComponent)
    (ref : Ref) (id : String) (settings : EPF_PersistenceComponentClass)
    (h : settings.m_eSaveType = .SHUTDOWN) (hin : m.m_mRootShutdown.Contains id = true) :
    registry (categorize m c ref id settings false) =
      (m.m_mRootAutoSave, m.m_mRootShutdown.Remove id, m.m_mUncategorizedEntities.Set id ref,
        m.m_mScriptedStateAutoSave, m.m_mScriptedStateShutdown, m.m_mScriptedStateUncategorized,
        m.m_mRootAutoSaveCleanup,
        (if EPF_BitFlags.CheckFlags c.m_eFlags .PERSISTENT_RECORD then
          m.m_mRootShutdownCleanup.Set id settings.m_tSaveDataType
        else m.m_mRootShutdownCleanup)) := by
  by_cases h3 : EPF_BitFlags.CheckFlags c.m_eFlags .PERSISTENT_RECORD = true <;>
  simp [categorize, h, registry, hin, h3]

theorem find_set_remove (m : ScriptMap Ref) (id : String) (ref : Ref)
    (h : m.Find id = some ref) (k : String) : ((m.Remove id).Set id ref).Find k = m.Find k := by
  by_cases hk : k = id
  · subst hk
    rw [ScriptMap.find_set_self, h]
  · rw [ScriptMap.find_set_ne _ id k ref hk, ScriptMap.find_remove_ne m id k hk]

theorem cleanup_restored (cleanup : ScriptMap String) (id t : String) (b : Bool)
    (h : cleanup.Contains id = false) :
    (if b = true then cleanup.Set id t else cleanup).Remove id = cleanup := by
  cases b
  · exact ScriptMap.remove_of_not_contains cleanup id h
  · exact remove_set_of_not_contains cleanup id t h

/-- Two `UpdateRootStatus` calls in a row: both return, and the buckets and cleanup sets they
leave are those of the two `switch` passes. -/
theorem updateRootStatus_twice (env : Env) (w : World) (ref : Ref) (id : String)
    (settings : EPF_PersistenceComponentClass) (r1 r2 : Bool)
    (hcoll : collectionAvailable w = true) :
    ∃ w1 w2, UpdateRootStatus env w ref id settings r1 = some w1 ∧
      UpdateRootStatus env w1 ref id settings r2 = some w2 ∧
      registry w1.mgr = registry (categorize w.mgr (w.components ref) ref id settings r1) ∧
      registry w2.mgr = registry (categorize
        (categorize w.mgr (w.components ref) ref id settings r1) (w.components ref) ref id
        settings r2) := by
  obtain ⟨b1, c1, h1, hc1⟩ := updateRootStatus_shape env w ref id settings r1 hcoll
  have hcoll1 : collectionAvailable { w with
      mgr := { categorize w.mgr (w.components ref) ref id settings r1 with
        m_mBakedRoots := b1, m_pRootEntityCollection := c1 } } = true := by
    simp only [collectionAvailable, categorize_m_eState, hc1] at hcoll ⊢
    exact hcoll
  obtain ⟨b2, c2, h2, _⟩ := updateRootStatus_shape env _ ref id settings r2 hcoll1
  exact ⟨_, _, h1, h2, rfl, categorize_with _ b1 c1 _ ref id settings r2⟩

/-! ## C26 -/

/-- C26, as stated, fails when the identifier is also a key of the uncategorized bucket. On a
new manager the autosave root 1 and then the manual object 3 are registered under "x": "x"
is filed with the object 1 in the autosave bucket and with the object 3 in the uncategorized
bucket, and has no cleanup entry. `UpdateRootStatus` for the object 1 with
`isRootEntity = false` and then with `isRootEntity = true` leaves the uncategorized bucket
empty: the entry of the object 3 is not restored. -/
theorem C26_counterexample :
    (runOps Example.env Example.world [.register 1 "x", .register 3 "x"]).map (fun w =>
      (w.mgr.m_mRootAutoSave.Find "x", w.mgr.m_mUncategorizedEntities.entries,
        w.mgr.m_mRootAutoSaveCleanup.Contains "x", w.mgr.m_mRootShutdownCleanup.Contains "x")) =
      some (some 1, [("x", 3)], false, false) ∧
    (runOps Example.env Example.world [.register 1 "x", .register 3 "x",
        .updateRootStatus 1 "x" ⟨.INTERVAL_SHUTDOWN, "CharacterSaveData"⟩ false,
        .updateRootStatus 1 "x" ⟨.INTERVAL_SHUTDOWN, "CharacterSaveData"⟩ true]).map (fun w =>
      (w.mgr.m_mRootAutoSave.Find "x", w.mgr.m_mUncategorizedEntities.entries)) =
      some (some 1, []) := by
  decide

/-- C26, amended: let an object be filed under its identifier in the autosave bucket, with the
autosave+shutdown policy (resp. in the shutdown bucket, with the shutdown-only policy), let
neither cleanup set have an entry for the identifier, and let the identifier not be a key of
the uncategorized bucket (as it is when an identifier is used for one object only). Then
`UpdateRootStatus` with `isRootEntity = false` followed by `UpdateRootStatus` with
`isRootEntity = true` both return and restore the buckets and both cleanup sets: the bucket of
the policy holds the same object under every key, the other buckets and the two cleanup sets
are the same, so that neither cleanup set has an entry for the identifier and the drain of
either set makes no store remove for it. And for every policy and root status,
`UpdateRootStatus` applied twice with the same arguments returns and leaves the buckets and
cleanup sets as after applying it once. (The Root Entity Collection is there once the manager
is `ACTIVE`.) -/
theorem C26_root_round_trip (env : Env) (w : World) (ref : Ref) (id : String)
    (sa ss : EPF_PersistenceComponentClass)
    (hcoll : collectionAvailable w = true)
    (ha : sa.m_eSaveType = .INTERVAL_SHUTDOWN) (hs : ss.m_eSaveType = .SHUTDOWN) :
    (w.mgr.m_mRootAutoSave.Find id = some ref →
      w.mgr.m_mRootAutoSaveCleanup.Contains id = false →
      w.mgr.m_mRootShutdownCleanup.Contains id = false →
      w.mgr.m_mUncategorizedEntities.Contains id = false →
      ∃ w1 w2, UpdateRootStatus env w ref id sa false = some w1 ∧
        UpdateRootStatus env w1 ref id sa true = some w2 ∧
        (∀ k, w2.mgr.m_mRootAutoSave.Find k = w.mgr.m_mRootAutoSave.Find k) ∧
        w2.mgr.m_mRootShutdown = w.mgr.m_mRootShutdown ∧
        w2.mgr.m_mUncategorizedEntities = w.mgr.m_mUncategorizedEntities ∧
        w2.mgr.m_mScriptedStateAutoSave = w.mgr.m_mScriptedStateAutoSave ∧
        w2.mgr.m_mScriptedStateShutdown = w.mgr.m_mScriptedStateShutdown ∧
        w2.mgr.m_mScriptedStateUncategorized = w.mgr.m_mScriptedStateUncategorized ∧
        w2.mgr.m_mRootAutoSaveCleanup = w.mgr.m_mRootAutoSaveCleanup ∧
        w2.mgr.m_mRootShutdownCleanup = w.mgr.m_mRootShutdownCleanup ∧
        ∀ t, Event.dbRemoveAsync t id ∉ completionCalls w2 ∧
          Event.dbRemoveAsync t id ∉
            w2.mgr.m_mRootShutdownCleanup.entries.map (fun x => Event.dbRemoveAsync x.2 x.1)) ∧
    (w.mgr.m_mRootShutdown.Find id = some ref →
      w.mgr.m_mRootAutoSaveCleanup.Contains id = false →
      w.mgr.m_mRootShutdownCleanup.Contains id = false →
      w.mgr.m_mUncategorizedEntities.Contains id = false →
      ∃ w1 w2, UpdateRootStatus env w ref id ss false = some w1 ∧
        UpdateRootStatus env w1 ref id ss true = some w2 ∧
        (∀ k, w2.mgr.m_mRootShutdown.Find k = w.mgr.m_mRootShutdown.Find k) ∧
        w2.mgr.m_mRootAutoSave = w.mgr.m_mRootAutoSave ∧
        w2.mgr.m_mUncategorizedEntities = w.mgr.m_mUncategorizedEntities ∧
        w2.mgr.m_mScriptedStateAutoSave = w.mgr.m_mScriptedStateAutoSave ∧
        w2.mgr.m_mScriptedStateShutdown = w.mgr.m_mScriptedStateShutdown ∧
        w2.mgr.m_mScriptedStateUncategorized = w.mgr.m_mScriptedStateUncategorized ∧
        w2.mgr.m_mRootAutoSaveCleanup = w.mgr.m_mRootAutoSaveCleanup ∧
        w2.mgr.m_mRootShutdownCleanup = w.mgr.m_mRootShutdownCleanup ∧
        ∀ t, Event.dbRemoveAsync t id ∉ completionCalls w2 ∧
          Event.dbRemoveAsync t id ∉
            w2.mgr.m_mRootShutdownCleanup.entries.map (fun x => Event.dbRemoveAsync x.2 x.1)) ∧
    (∀ (settings : EPF_PersistenceComponentClass) (isRootEntity : Bool),
      ∃ w1 w2, UpdateRootStatus env w ref id settings isRootEntity = some w1 ∧
        UpdateRootStatus env w1 ref id settings isRootEntity = some w2 ∧
        registry w2.mgr = registry w1.mgr) := by
  have hcalls : ∀ v : World, v.mgr.m_mRootAutoSaveCleanup = w.mgr.m_mRootAutoSaveCleanup →
      v.mgr.m_mRootShutdownCleanup = w.mgr.m_mRootShutdownCleanup →
      w.mgr.m_mRootAutoSaveCleanup.Contains id = false →
      w.mgr.m_mRootShutdownCleanup.Contains id = false →
      ∀ t, Event.dbRemoveAsync t id ∉ completionCalls v ∧
        Event.dbRemoveAsync t id ∉
          v.mgr.m_mRootShutdownCleanup.entries.map (fun x => Event.dbRemoveAsync x.2 x.1) := by
    intro v e1 e2 h1 h2 t
    refine ⟨fun hm => ?_, by rw [e2]; exact dbRemoveAsync_not_mem_cleanup _ id h2 t⟩
    simp only [completionCalls, List.mem_cons, reduceCtorEq, false_or] at hm
    rw [e1] at hm
    exact dbRemoveAsync_not_mem_cleanup _ id h1 t hm
  refine ⟨fun hin hclA hclS hun => ?_, fun hin hclA hclS hun => ?_, fun settings r => ?_⟩
  · obtain ⟨w1, w2, h1, h2, _, e2⟩ := updateRootStatus_twice env w ref id sa false true hcoll
    rw [categorize_interval_root _ _ ref id sa ha] at e2
    have e1 := categorize_interval_leave w.mgr (w.components ref) ref id sa ha
      (ScriptMap.contains_of_find _ id ref hin)
    simp only [registry, Prod.mk.injEq] at e1 e2
    obtain ⟨a1, a2, a3, a4, a5, a6, a7, a8⟩ := e1
    obtain ⟨b1, b2, b3, b4, b5, b6, b7, b8⟩ := e2
    have rA : w2.mgr.m_mRootAutoSaveCleanup = w.mgr.m_mRootAutoSaveCleanup := by
      rw [b7, a7]; exact cleanup_restored _ id _ _ hclA
    have rS : w2.mgr.m_mRootShutdownCleanup = w.mgr.m_mRootShutdownCleanup := by rw [b8, a8]
    refine ⟨w1, w2, h1, h2, fun k => ?_, by rw [b2, a2], ?_, by rw [b4, a4], by rw [b5, a5],
      by rw [b6, a6], rA, rS, hcalls w2 rA rS hclA hclS⟩
    · rw [b1, a1]; exact find_set_remove _ id ref hin k
    · rw [b3, a3]; exact remove_set_of_not_contains _ id ref hun
  · obtain ⟨w1, w2, h1, h2, _, e2⟩ := updateRootStatus_twice env w ref id ss false true hcoll
    rw [categorize_shutdown_root _ _ ref id ss hs] at e2
    have e1 := categorize_shutdown_leave w.mgr (w.components ref) ref id ss hs
      (ScriptMap.contains_of_find _ id ref hin)
    simp only [registry, Prod.mk.injEq] at e1 e2
    obtain ⟨a1, a2, a3, a4, a5, a6, a7, a8⟩ := e1
    obtain ⟨b1, b2, b3, b4, b5, b6, b7, b8⟩ := e2
    have rA : w2.mgr.m_mRootAutoSaveCleanup = w.mgr.m_mRootAutoSaveCleanup := by rw [b7, a7]
    have rS : w2.mgr.m_mRootShutdownCleanup = w.mgr.m_mRootShutdownCleanup := by
      rw [b8, a8]; exact cleanup_restored _ id _ _ hclS
    refine ⟨w1, w2, h1, h2, fun k => ?_, by rw [b1, a1], ?_, by rw [b4, a4], by rw [b5, a5],
      by rw [b6, a6], rA, rS, hcalls w2 rA rS hclA hclS⟩
    · rw [b2, a2]; exact find_set_remove _ id ref hin k
    · rw [b3, a3]; exact remove_set_of_not_contains _ id ref hun
  · obtain ⟨w1, w2, h1, h2, e1, e2⟩ := updateRootStatus_twice env w ref id settings r r hcoll
    exact ⟨w1, w2, h1, h2, by rw [e2, e1]; exact categorize_idempotent _ _ ref id settings r⟩

/-- C26 (amended) at a concrete input: the populated example manager, where the object 1 is
filed under "a1" in the autosave bucket. After the round trip the bucket finds the objects
1, 4 and 9 under their keys as before, and the cleanup sets and the uncategorized bucket are
unchanged. -/
theorem C26_root_round_trip_witness :
    ∃ w1 w2, UpdateRootStatus Example.env Example.busyWorld 1 "a1"
        ⟨.INTERVAL_SHUTDOWN, "CharacterSaveData"⟩ false = some w1 ∧
      UpdateRootStatus Example.env w1 1 "a1" ⟨.INTERVAL_SHUTDOWN, "CharacterSaveData"⟩ true =
        some w2 ∧
      (∀ k, w2.mgr.m_mRootAutoSave.Find k = Example.busyWorld.mgr.m_mRootAutoSave.Find k) ∧
      w2.mgr.m_mUncategorizedEntities.entries = [("u3", 3)] ∧
      w2.mgr.m_mRootAutoSaveCleanup.entries = [("c5", "ItemSaveData")] ∧
      w2.mgr.m_mRootShutdownCleanup.entries = [("c6", "ItemSaveData")] :=
  have h := (C26_root_round_trip Example.env Example.busyWorld 1 "a1"
    ⟨.INTERVAL_SHUTDOWN, "CharacterSaveData"⟩ ⟨.SHUTDOWN, "VehicleSaveData"⟩
    (by decide) rfl rfl).1 (by decide) (by decide) (by decide) (by decide)
  match h with
  | ⟨w1, w2, h1, h2, h3, _, h5, _, _, _, h9, h10, _⟩ =>
    ⟨w1, w2, h1, h2, h3, by rw [h5]; decide, by rw [h9]; decide, by rw [h10]; decide⟩

/-! ## The requests of the bulk find -/

theorem keys_set_nodup {V : Type} (m : ScriptMap V) (k : String) (v : V)
    (h : m.keys.Nodup) : (m.Set k v).keys.Nodup := by
  unfold ScriptMap.Set
  by_cases hc : m.Contains k = true
  · rw [if_pos hc]
    have e : (ScriptMap.mk (m.entries.map fun e => if (e.1 == k) = true then (k, v) else e)).keys =
        m.keys := by
      simp only [ScriptMap.keys, List.map_map]
      apply List.map_congr_left
      intro e _
      by_cases he : (e.1 == k) = true
      · simp only [Function.comp, he, if_true]
        exact (beq_iff_eq.mp he).symm
      · have hne : ¬ e.1 = k := by simpa using he
        simp [hne]
    rw [e]; exact h
  · rw [if_neg hc]
    have h0 : m.Contains k = false := by simpa using hc
    simp only [ScriptMap.Contains, List.any_eq_false, beq_iff_eq] at h0
    simp only [ScriptMap.keys, List.map_append, List.map_cons, List.map_nil]
    rw [List.nodup_append]
    refine ⟨h, List.nodup_singleton k, ?_⟩
    intro a ha hb
    simp only [List.mem_singleton] at hb
    subst hb
    simp only [List.mem_map] at ha
    obtain ⟨e, he, hek⟩ := ha
    exact h0 e he hek

theorem find_of_mem_of_nodup {V : Type} (m : ScriptMap V) (k : String) (v : V)
    (h : m.keys.Nodup) (hm : (k, v) ∈ m.entries) : m.Find k = some v := by
  obtain ⟨l⟩ := m
  simp only [ScriptMap.keys, ScriptMap.Find] at h hm ⊢
  induction l with
  | nil => simp at hm
  | cons a l ih =>
    obtain ⟨a1, a2⟩ := a
    simp only [List.map_cons, List.nodup_cons] at h
    rcases List.mem_cons.mp hm with he | he
    · injection he with h1 h2
      subst h1; subst h2
      exact ScriptMap.lookup_cons_self l k v
    · have hne : k ≠ a1 := by
        intro hk
        subst hk
        exact h.1 (List.mem_map.mpr ⟨(k, v), he, rfl⟩)
      rw [ScriptMap.lookup_cons_ne l a1 k a2 hne]
      exact ih h.2 he

theorem bulkLoadDynamic_of_nodup (selfSpawn : List (String × List String))
    (h : (selfSpawn.map Prod.fst).Nodup) : bulkLoadDynamic selfSpawn = ⟨selfSpawn⟩ := by
  have key : ∀ (l : List (String × List String)) (acc : ScriptMap (List String)),
      ((acc.entries ++ l).map Prod.fst).Nodup →
      l.foldl (fun bulkLoad e => bulkLoad.Set e.1 e.2) acc = ⟨acc.entries ++ l⟩ := by
    intro l
    induction l with
    | nil => intro acc _; simp
    | cons a l ih =>
      intro acc hn
      rw [List.foldl_cons]
      have hnc : acc.Contains a.1 = false := by
        simp only [ScriptMap.Contains, List.any_eq_false, beq_iff_eq]
        intro e he hk
        simp only [List.map_append, List.map_cons, List.nodup_append, List.nodup_cons] at hn
        exact hn.2.2 (List.mem_map.mpr ⟨e, he, rfl⟩) (by rw [hk]; exact List.mem_cons_self _ _)
      have hset : acc.Set a.1 a.2 = ⟨acc.entries ++ [a]⟩ := by
        simp [ScriptMap.Set, hnc]
      rw [hset, ih _ (by simpa using hn)]
      simp
  have := key selfSpawn ScriptMap.empty (by simpa [ScriptMap.empty] using h)
  simpa [bulkLoadDynamic, ScriptMap.empty] using this

theorem bulkLoadBaked_requests (w : World) (entries : List (String × Ref)) :
    ∀ acc : List String × ScriptMap (List String), acc.2.keys.Nodup →
      (bulkLoadBaked w acc entries).2.keys.Nodup ∧
      ∀ t, (bulkLoadBaked w acc entries).2.Find t =
        requestIds (acc.2.Find t) (bakedIdsOfType w ⟨entries⟩ t) := by
  induction entries with
  | nil =>
    intro acc h
    refine ⟨h, fun t => ?_⟩
    cases hf : acc.2.Find t <;> simp [bulkLoadBaked, requestIds, bakedIdsOfType, hf]
  | cons a rest ih =>
    intro acc h
    unfold bulkLoadBaked
    simp only []
    obtain ⟨i1, i2⟩ := ih (acc.1 ++ [a.1], acc.2.Set (w.components a.2).settings.m_tSaveDataType
      ((match acc.2.Find (w.components a.2).settings.m_tSaveDataType with
        | some ids => ids
        | none => []) ++ [a.1])) (keys_set_nodup _ _ _ h)
    refine ⟨i1, fun t => ?_⟩
    rw [i2 t]
    by_cases ht : t = (w.components a.2).settings.m_tSaveDataType
    · subst ht
      rw [ScriptMap.find_set_self]
      have hb : bakedIdsOfType w ⟨a :: rest⟩ (w.components a.2).settings.m_tSaveDataType =
          a.1 :: bakedIdsOfType w ⟨rest⟩ (w.components a.2).settings.m_tSaveDataType := by
        simp [bakedIdsOfType, List.filter_cons]
      rw [hb]
      cases hf : acc.2.Find (w.components a.2).settings.m_tSaveDataType <;>
        simp [requestIds]
    · rw [ScriptMap.find_set_ne _ _ t _ ht]
      have hb : bakedIdsOfType w ⟨a :: rest⟩ t = bakedIdsOfType w ⟨rest⟩ t := by
        have : ¬ (w.components a.2).settings.m_tSaveDataType = t := fun h => ht h.symm
        simp [bakedIdsOfType, List.filter_cons, this]
      rw [hb]

/-- The stages of a world load that returns: the initial flush, the loop over the removed
baked roots, the collection of the requests, and the bulk requests issued, which are the
entries of the local map `bulkLoad`. -/
theorem onWorldPostProcess_stages (env : Env) (host : Host) (hhost : host.wellBehaved)
    (w : World) (hcol : w.mgr.m_pRootEntityCollection.isSome = true)
    (hdb : w.mgr.m_pDbContext.isSome = true) (hbaked : w.mgr.m_mBakedRoots.isSome = true) :
    ∃ (w0 w1 : World) (c : EPF_PersistentRootEntityCollection) (r : List String × World)
      (bakedRoots : ScriptMap Ref) (b : World × List (String × List String))
      (calls : List Event),
      FlushRegistrations env w = some w0 ∧ w0.mgr.m_pRootEntityCollection = some c ∧
      (w.mgr.m_eState.toNat < EPF_EPersistenceManagerState.ACTIVE.toNat →
        w.mgr.m_pRootEntityCollection = some c) ∧
      removeBakedLoop env host (SetState w0 .SETUP) [] c.m_aRemovedBackedRootEntities = some r ∧
      r.2.mgr.m_pRootEntityCollection = some { c with
        m_aPossibleBackedRootEntities := c.m_aPossibleBackedRootEntities ++
          foundIds (bakedLookups env host (SetState w0 .SETUP)
            c.m_aRemovedBackedRootEntities) } ∧
      r.2.mgr.m_mBakedRoots = some bakedRoots ∧
      collectBulkLoad r.2 r.1 = some b ∧
      OnWorldPostProcess env host w = some w1 ∧
      w1.mgr.m_pRootEntityCollection = b.1.mgr.m_pRootEntityCollection ∧
      w1.trace = w.trace ++ calls ∧ findAllRequests calls = b.2 := by
  obtain ⟨w1, h1⟩ := onWorldPostProcess_total env host hhost w hcol hdb hbaked
  have h := h1
  simp only [OnWorldPostProcess, Option.bind_eq_some] at h
  obtain ⟨w0, h0, h⟩ := h
  have fr0 := flushRegistrations_frame env w w0 h0
  have hs1 : (SetState w0 .SETUP).mgr.m_eState.toNat <
      EPF_EPersistenceManagerState.ACTIVE.toNat := by
    rw [setState_mgr]
    show EPF_EPersistenceManagerState.SETUP.toNat < _
    decide
  cases hc : (SetState w0 .SETUP).mgr.m_pRootEntityCollection with
  | none => rw [hc] at h; simp at h
  | some c =>
    rw [hc] at h
    simp only [Option.bind_eq_some, Option.map_eq_some'] at h
    obtain ⟨r, hr, b, hb, w4, h4, w5, h5, hw⟩ := h
    have hc0 : w0.mgr.m_pRootEntityCollection = some c := by
      rw [← hc, setState_mgr]
    obtain ⟨_, _, i3, calls1, i4, i5, _⟩ := removeBakedLoop_lookups env host hhost
      c.m_aRemovedBackedRootEntities (SetState w0 .SETUP) [] c r hc hs1 hr
    cases hbb : r.2.mgr.m_mBakedRoots with
    | none => simp [collectBulkLoad, i3, hbb] at hb
    | some bakedRoots =>
      obtain ⟨_, j2, _⟩ := collectBulkLoad_result r.2 r.1 _ bakedRoots b i3 hbb hb
      obtain ⟨k1, calls4, k2, k3⟩ := bulkFind_loadFrame host hhost b.2 b.1 w4 h4
      have h5c : w5.mgr.m_pRootEntityCollection = w4.mgr.m_pRootEntityCollection ∧
          w5.trace = w4.trace ++ [Event.rootEntityCollectionSave] := by
        unfold saveRootEntityCollection at h5
        cases hcc : w4.mgr.m_pRootEntityCollection with
        | none => rw [hcc] at h5; simp at h5
        | some c4 =>
          rw [hcc] at h5
          simp only [Option.some.injEq] at h5
          rw [← h5]
          exact ⟨hcc, rfl⟩
      have hcol1 : w1.mgr.m_pRootEntityCollection = b.1.mgr.m_pRootEntityCollection := by
        rw [← hw, setState_mgr]
        show w5.mgr.m_pRootEntityCollection = _
        rw [h5c.1, k1]
      have htr : w1.trace = w.trace ++
          ((if w0.mgr.m_pOnStateChange = true then [Event.stateChange .SETUP] else []) ++
            calls1 ++ calls4 ++ [Event.rootEntityCollectionSave] ++
            (if w5.mgr.m_pOnStateChange = true then [Event.stateChange .ACTIVE] else [])) := by
        rw [← hw, setState_trace]
        show w5.trace ++ _ = _
        rw [h5c.2, k2, j2, i4, setState_trace, control_trace fr0.1]
        simp only [List.append_assoc]
      have hreq : findAllRequests
          ((if w0.mgr.m_pOnStateChange = true then [Event.stateChange .SETUP] else []) ++
            calls1 ++ calls4 ++ [Event.rootEntityCollectionSave] ++
            (if w5.mgr.m_pOnStateChange = true then [Event.stateChange .ACTIVE] else [])) =
          b.2 := by
        simp only [findAllRequests_append, findAllRequests_setState_calls, i5, k3,
          findAllRequests, List.nil_append, List.append_nil]
      exact ⟨w0, w1, c, r, bakedRoots, b, _, h0, hc0,
        fun hlt => by rw [← fr0.2 hlt]; exact hc0, hr, i3, hbb, hb, h1, hcol1, htr, hreq⟩

/-! ## C21 -/

/-- C21: world load (`OnWorldPostProcess`) on a manager that post-init has given a store
adapter and a Root Entity Collection and whose baked-roots working set is still there, with
host callbacks that leave the manager's lifecycle fields and the Root Entity Collection alone,
returns, and with the Root Entity Collection as it is after the initial flush (the one the
load was called with, when that was before `ACTIVE`) and the baked-roots working set as it is
when the requests are collected: the load issues at most one `FindAll` per save-data type; a
type is requested with an identifier list exactly when that list is the list recorded for the
type among the self-spawning dynamic entities, if any, followed by the identifiers of the
baked-roots working set whose component has that save-data type (the recorded mapping being a
map, with one entry per type); after the load the possibly-baked list is the old list, then
the removed baked roots found alive, then every identifier of the baked-roots working set;
and the recorded mapping of the self-spawning dynamic entities is the same as before. -/
theorem C21_bulk_requests (env : Env) (host : Host) (hhost : host.wellBehaved) (w : World)
    (hcol : w.mgr.m_pRootEntityCollection.isSome = true)
    (hdb : w.mgr.m_pDbContext.isSome = true) (hbaked : w.mgr.m_mBakedRoots.isSome = true) :
    ∃ (w0 w1 : World) (c c1 : EPF_PersistentRootEntityCollection) (r : List String × World)
      (bakedRoots : ScriptMap Ref) (calls : List Event),
      FlushRegistrations env w = some w0 ∧ w0.mgr.m_pRootEntityCollection = some c ∧
      (w.mgr.m_eState.toNat < EPF_EPersistenceManagerState.ACTIVE.toNat →
        w.mgr.m_pRootEntityCollection = some c) ∧
      removeBakedLoop env host (SetState w0 .SETUP) [] c.m_aRemovedBackedRootEntities = some r ∧
      r.2.mgr.m_mBakedRoots = some bakedRoots ∧
      OnWorldPostProcess env host w = some w1 ∧
      w1.mgr.m_pRootEntityCollection = some c1 ∧ w1.trace = w.trace ++ calls ∧
      ((c.m_mSelfSpawnDynamicEntities.map Prod.fst).Nodup →
        ((findAllRequests calls).map Prod.fst).Nodup ∧
        ∀ saveDataType ids, (saveDataType, ids) ∈ findAllRequests calls ↔
          requestIds (c.m_mSelfSpawnDynamicEntities.lookup saveDataType)
            (bakedIdsOfType r.2 bakedRoots saveDataType) = some ids) ∧
      c1.m_aPossibleBackedRootEntities = c.m_aPossibleBackedRootEntities ++
        foundIds (bakedLookups env host (SetState w0 .SETUP) c.m_aRemovedBackedRootEntities) ++
        bakedRoots.keys ∧
      c1.m_mSelfSpawnDynamicEntities = c.m_mSelfSpawnDynamicEntities := by
  obtain ⟨w0, w1, c, r, bakedRoots, b, calls, h0, hc0, hlt, hr, hrc, hbb, hb, h1, hc1, htr,
    hreq⟩ := onWorldPostProcess_stages env host hhost w hcol hdb hbaked
  obtain ⟨j1, _, _⟩ := collectBulkLoad_result r.2 r.1 _ bakedRoots b hrc hbb hb
  have hb2 : b.2 = (bulkLoadBaked r.2
      (c.m_aPossibleBackedRootEntities ++ foundIds (bakedLookups env host (SetState w0 .SETUP)
          c.m_aRemovedBackedRootEntities),
        bulkLoadDynamic c.m_mSelfSpawnDynamicEntities) bakedRoots.entries).2.entries := by
    simp only [collectBulkLoad, hrc, hbb, Option.some.injEq] at hb
    rw [← hb]
  refine ⟨w0, w1, c, _, r, bakedRoots, calls, h0, hc0, hlt, hr, hbb, h1, hc1.trans j1, htr,
    fun hn => ?_, rfl, rfl⟩
  have hdyn := bulkLoadDynamic_of_nodup c.m_mSelfSpawnDynamicEntities hn
  obtain ⟨n1, n2⟩ := bulkLoadBaked_requests r.2 bakedRoots.entries
    (c.m_aPossibleBackedRootEntities ++ foundIds (bakedLookups env host (SetState w0 .SETUP)
        c.m_aRemovedBackedRootEntities),
      bulkLoadDynamic c.m_mSelfSpawnDynamicEntities)
    (by rw [hdyn]; exact hn)
  rw [hreq, hb2]
  refine ⟨n1, fun t ids => ?_⟩
  have hf : (bulkLoadBaked r.2
      (c.m_aPossibleBackedRootEntities ++ foundIds (bakedLookups env host (SetState w0 .SETUP)
          c.m_aRemovedBackedRootEntities),
        bulkLoadDynamic c.m_mSelfSpawnDynamicEntities) bakedRoots.entries).2.Find t =
      requestIds (c.m_mSelfSpawnDynamicEntities.lookup t) (bakedIdsOfType r.2 bakedRoots t) := by
    have h2 := n2 t
    rw [hdyn] at h2 ⊢
    exact h2
  constructor
  · intro hm
    exact hf.symm.trans (find_of_mem_of_nodup _ t ids n1 hm)
  · intro hq
    exact mem_entries_of_find _ t ids (hf.trans hq)

/-- C21 at a concrete input: world load on the new example manager after post-init, with the
example host. The store records the self-spawning vehicles "dyn1" and "lost", and the baked
root of the world is a character: the load issues one request for the vehicles with the two
recorded identifiers and one for the characters with the baked identifier, and the recorded
mapping is unchanged. -/
theorem C21_bulk_requests_witness :
    ∃ (w1 : World) (c1 : EPF_PersistentRootEntityCollection) (calls : List Event),
      OnWorldPostProcess Example.env Example.host
        (OnPostInit Example.host Example.newWorld Example.settings) = some w1 ∧
      w1.mgr.m_pRootEntityCollection = some c1 ∧
      w1.trace = (OnPostInit Example.host Example.newWorld Example.settings).trace ++ calls ∧
      ((findAllRequests calls).map Prod.fst).Nodup ∧
      ("VehicleSaveData", ["dyn1", "lost"]) ∈ findAllRequests calls ∧
      ("CharacterSaveData", [Example.bakedId]) ∈ findAllRequests calls ∧
      c1.m_mSelfSpawnDynamicEntities = [("VehicleSaveData", ["dyn1", "lost"])] := by
  obtain ⟨w0, w1, c, c1, r, bakedRoots, calls, h0, _, hlt, hr, hbb, h1, hc1, htr, hn, _,
    hself⟩ :=
    C21_bulk_requests Example.env Example.host (quiet_wellBehaved _ example_host_quiet)
      (OnPostInit Example.host Example.newWorld Example.settings)
      (by decide) (by decide) (by decide)
  have hc : c = Example.storedCollection := by
    have e := hlt (by decide)
    have e1 : (OnPostInit Example.host Example.newWorld
      Example.settings).mgr.m_pRootEntityCollection = some Example.storedCollection := by decide
    rw [e1] at e
    exact (Option.some.inj e).symm
  subst hc
  have hk : (FlushRegistrations Example.env
      (OnPostInit Example.host Example.newWorld Example.settings)).bind
      (fun w0 => (removeBakedLoop Example.env Example.host (SetState w0 .SETUP) []
        Example.storedCollection.m_aRemovedBackedRootEntities).map
          fun r => r.2.mgr.m_mBakedRoots.map fun m =>
            (bakedIdsOfType r.2 m "VehicleSaveData", bakedIdsOfType r.2 m "CharacterSaveData")) =
      some (some ([], [Example.bakedId])) := by decide
  rw [h0, Option.some_bind, hr, Option.map_some', hbb, Option.map_some', Option.some.injEq,
    Option.some.injEq, Prod.mk.injEq] at hk
  obtain ⟨n1, n2⟩ := hn (by decide)
  refine ⟨w1, c1, calls, h1, hc1, htr, n1, ?_, ?_, hself⟩
  · rw [n2, hk.1]
    decide
  · rw [n2, hk.2]
    decide

end EPF_PersistenceManager

end EPF
